import Mathlib

/-!
# vulkantriangle: GPU-resource lifecycle and per-frame protocol

A shallow embedding of `GfxResources` (create / destroy) and `Renderer::render`.

* Vulkan handles are natural numbers (`0` is `nullptr`), `VkResult` is an integer.
* Every function of the program runs in `Exec`, which records the platform calls
  it issues (in order), the `std::vector` element accesses it makes, and how it
  ended: normally, by a failed `assert`, or by undefined behaviour (an
  out-of-range vector access).
* The platform is an oracle: what its calls return is a record of replies that
  every theorem quantifies over.
* The build is a parameter: `assert` is compiled out under `NDEBUG`, and the
  validation callback exists only under `_DEBUG`.
-/

namespace core

/-! ## Platform vocabulary -/

/-- A Vulkan (or Win32) handle; `0` is the null handle. -/
abbrev Handle := Nat

/-- The status code of a platform call. -/
abbrev VkResult := Int

def VK_SUCCESS : VkResult := 0
def VK_NOT_READY : VkResult := 1
def VK_TIMEOUT : VkResult := 2
def VK_INCOMPLETE : VkResult := 5
def VK_SUBOPTIMAL_KHR : VkResult := 1000001003
def VK_ERROR_OUT_OF_DATE_KHR : VkResult := -1000001004
def VK_ERROR_DEVICE_LOST : VkResult := -4

def VK_TRUE : Nat := 1
def VK_FALSE : Nat := 0
def VK_QUEUE_GRAPHICS_BIT : Nat := 1
def VK_COMMAND_BUFFER_USAGE_ONE_TIME_SUBMIT_BIT : Nat := 1
def VK_SUBPASS_CONTENTS_INLINE : Nat := 0
def VK_PIPELINE_BIND_POINT_GRAPHICS : Nat := 0
def VK_PIPELINE_STAGE_COLOR_ATTACHMENT_OUTPUT_BIT : Nat := 0x400
def VK_FENCE_CREATE_SIGNALED_BIT : Nat := 1
def VK_COMMAND_POOL_CREATE_RESET_COMMAND_BUFFER_BIT : Nat := 2
def VK_COMMAND_BUFFER_LEVEL_PRIMARY : Nat := 0
def VK_FORMAT_UNDEFINED : Nat := 0
def VK_SAMPLE_COUNT_1_BIT : Nat := 1
def VK_ATTACHMENT_LOAD_OP_CLEAR : Nat := 1
def VK_ATTACHMENT_LOAD_OP_DONT_CARE : Nat := 2
def VK_ATTACHMENT_STORE_OP_STORE : Nat := 0
def VK_ATTACHMENT_STORE_OP_DONT_CARE : Nat := 1
def VK_IMAGE_LAYOUT_UNDEFINED : Nat := 0
def VK_IMAGE_LAYOUT_COLOR_ATTACHMENT_OPTIMAL : Nat := 2
def VK_IMAGE_LAYOUT_PRESENT_SRC_KHR : Nat := 1000001002
def VK_IMAGE_USAGE_COLOR_ATTACHMENT_BIT : Nat := 0x10
def VK_SHARING_MODE_EXCLUSIVE : Nat := 0
def VK_SURFACE_TRANSFORM_IDENTITY_BIT_KHR : Nat := 1
def VK_COMPOSITE_ALPHA_OPAQUE_BIT_KHR : Nat := 1
def VK_IMAGE_VIEW_TYPE_2D : Nat := 1
def VK_IMAGE_ASPECT_COLOR_BIT : Nat := 1
def VK_COMPONENT_SWIZZLE_IDENTITY : Nat := 0
def VK_SHADER_STAGE_VERTEX_BIT : Nat := 1
def VK_SHADER_STAGE_FRAGMENT_BIT : Nat := 0x10
def VK_PRIMITIVE_TOPOLOGY_TRIANGLE_LIST : Nat := 3
def VK_POLYGON_MODE_FILL : Nat := 0
def VK_CULL_MODE_NONE : Nat := 0
def VK_FRONT_FACE_COUNTER_CLOCKWISE : Nat := 0
def VK_BLEND_FACTOR_ZERO : Nat := 0
def VK_BLEND_OP_ADD : Nat := 0
def VK_LOGIC_OP_COPY : Nat := 3
def VK_COLOR_COMPONENT_RGBA : Nat := 0xF
def VK_DEBUG_REPORT_FLAGS : Nat := 0xE

/-- The value of `static const uint32_t s_defaultTimeout` (GfxResources.h:17), 1 s in ns. -/
def s_defaultTimeout : Nat := 1000000000

/-- Conversion to `uint32_t`. -/
def toUInt32 (n : Nat) : Nat := n % 2 ^ 32

/-- The build configuration: the two preprocessor symbols the sources test. -/
structure Config where
  /-- `NDEBUG` is not defined, so `assert` is live. -/
  assertsEnabled : Bool
  /-- `_DEBUG` is defined, so `DEF_USE_DEBUG_VALIDATION == 1`. -/
  debugValidation : Bool
deriving DecidableEq, Repr

/-- One `VkAttachmentDescription`. -/
structure AttachmentDescription where
  flags : Nat
  format : Nat
  samples : Nat
  loadOp : Nat
  storeOp : Nat
  stencilLoadOp : Nat
  stencilStoreOp : Nat
  initialLayout : Nat
  finalLayout : Nat
deriving DecidableEq, Repr

/-- One `VkAttachmentReference`. -/
structure AttachmentReference where
  attachment : Nat
  layout : Nat
deriving DecidableEq, Repr

/-- One `VkSubpassDescription`; a null pointer is the empty list or `none`. -/
structure SubpassDescription where
  flags : Nat
  pipelineBindPoint : Nat
  inputAttachments : List AttachmentReference
  colorAttachments : List AttachmentReference
  resolveAttachments : List AttachmentReference
  depthStencilAttachment : Option AttachmentReference
  preserveAttachments : List Nat
deriving DecidableEq, Repr

/-- The fields of `VkSwapchainCreateInfoKHR`. -/
structure SwapchainCreateInfo where
  surface : Handle
  minImageCount : Nat
  imageFormat : Nat
  imageColorSpace : Nat
  imageExtentWidth : Nat
  imageExtentHeight : Nat
  imageArrayLayers : Nat
  imageUsage : Nat
  imageSharingMode : Nat
  queueFamilyIndices : List Nat
  preTransform : Nat
  compositeAlpha : Nat
  presentMode : Nat
  clipped : Nat
  oldSwapchain : Handle
deriving DecidableEq, Repr

/-- The fields of `VkImageViewCreateInfo`. -/
structure ImageViewCreateInfo where
  image : Handle
  viewType : Nat
  format : Nat
  components : List Nat
  aspectMask : Nat
  baseMipLevel : Nat
  levelCount : Nat
  baseArrayLayer : Nat
  layerCount : Nat
deriving DecidableEq, Repr

/-- The fields of `VkFramebufferCreateInfo`. -/
structure FramebufferCreateInfo where
  renderPass : Handle
  attachments : List Handle
  width : Nat
  height : Nat
  layers : Nat
deriving DecidableEq, Repr

/-- The number of low bits a 32-bit unsigned value loses when it is converted to a
32-bit float, whose significand has 24 bits: none below `2 ^ 24`, at most 8 below
`2 ^ 32`. -/
def floatShift : Nat → Nat → Nat
  | 0, _ => 0
  | fuel + 1, n => if n < 2 ^ 24 then 0 else floatShift fuel (n / 2) + 1

/-- The value of `(float)n` for a `uint32_t` `n` (IEEE 754 binary32, round to nearest,
ties to even): `n` itself up to `2 ^ 24`, and above that `n` rounded to 24 significant
bits, which is again a whole number. -/
def floatOfUInt32 (n : Nat) : Nat :=
  let e := floatShift 8 n
  let q := n / 2 ^ e
  let r := n % 2 ^ e
  if 2 ^ e < 2 * r ∨ (2 ^ e = 2 * r ∧ q % 2 = 1) then (q + 1) * 2 ^ e else q * 2 ^ e

/-- The fields of `VkGraphicsPipelineCreateInfo` that the program sets to something
other than a fixed literal block; `viewportWidth` and `viewportHeight` hold the values
of the floats `(float)width` and `(float)height` of the viewport
(GfxResources.cpp:619-620), `scissorWidth` and `scissorHeight` the 32-bit integers of
the scissor extent. -/
structure GraphicsPipelineCreateInfo where
  stages : List (Nat × Handle × String)
  vertexBindingDescriptionCount : Nat
  vertexAttributeDescriptionCount : Nat
  topology : Nat
  viewportWidth : Nat
  viewportHeight : Nat
  scissorWidth : Nat
  scissorHeight : Nat
  polygonMode : Nat
  cullMode : Nat
  rasterizationSamples : Nat
  blendEnable : Nat
  colorWriteMask : Nat
  layout : Handle
  renderPass : Handle
  subpass : Nat
deriving DecidableEq, Repr

/-- A platform call as the program issues it: the arguments it passes and, for a
call that returns an object through an out-parameter, the handle the platform wrote. -/
inductive Call where
  -- instance and device
  | vkCreateInstance (applicationName engineName : String) (layers extensions : List String)
      (out : Handle)
  | vkGetInstanceProcAddr (inst : Handle) (name : String)
  | fvkCreateDebugReportCallbackEXT (inst : Handle) (flags : Nat) (out : Handle)
  | vkEnumeratePhysicalDevices (inst : Handle) (capacity : Nat)
  | vkGetPhysicalDeviceProperties (physicalDevice : Handle)
  | vkGetPhysicalDeviceQueueFamilyProperties (physicalDevice : Handle) (capacity : Nat)
      (fill : Bool)
  | vkCreateDevice (physicalDevice : Handle) (queueFamilyIndex queueCount : Nat)
      (extensions : List String) (out : Handle)
  -- surface and swapchain
  | vkGetPhysicalDeviceWin32PresentationSupportKHR (physicalDevice : Handle)
      (queueFamilyIndex : Nat)
  | vkCreateWin32SurfaceKHR (inst hinstance hwnd : Handle) (out : Handle)
  | vkGetPhysicalDeviceSurfaceCapabilitiesKHR (physicalDevice surface : Handle)
  | vkGetPhysicalDeviceSurfaceFormatsKHR (physicalDevice surface : Handle) (capacity : Nat)
      (fill : Bool)
  | vkGetPhysicalDeviceSurfacePresentModesKHR (physicalDevice surface : Handle)
      (capacity : Nat) (fill : Bool)
  | vkGetPhysicalDeviceSurfaceSupportKHR (physicalDevice : Handle) (queueFamilyIndex : Nat)
      (surface : Handle)
  | vkCreateSwapchainKHR (device : Handle) (info : SwapchainCreateInfo) (out : Handle)
  | vkGetSwapchainImagesKHR (device swapchain : Handle) (capacity : Nat) (fill : Bool)
  | vkCreateImageView (device : Handle) (info : ImageViewCreateInfo) (out : Handle)
  -- render pass, framebuffers, pipeline
  | vkCreateRenderPass (device : Handle) (attachments : List AttachmentDescription)
      (subpasses : List SubpassDescription) (dependencyCount : Nat) (out : Handle)
  | vkCreateFramebuffer (device : Handle) (info : FramebufferCreateInfo) (out : Handle)
  | vkCreateShaderModule (device : Handle) (codeSize : Nat) (out : Handle)
  | vkCreatePipelineLayout (device : Handle) (setLayoutCount pushConstantRangeCount : Nat)
      (out : Handle)
  | vkCreateGraphicsPipelines (device pipelineCache : Handle) (createInfoCount : Nat)
      (info : GraphicsPipelineCreateInfo) (out : Handle)
  -- queue, pool, command buffers, synchronisation objects
  | vkGetDeviceQueue (device : Handle) (queueFamilyIndex queueIndex : Nat) (out : Handle)
  | vkCreateCommandPool (device : Handle) (flags queueFamilyIndex : Nat) (out : Handle)
  | vkAllocateCommandBuffers (device commandPool : Handle) (level commandBufferCount : Nat)
      (out : List Handle)
  | vkCreateFence (device : Handle) (flags : Nat) (out : Handle)
  | vkCreateSemaphore (device : Handle) (flags : Nat) (out : Handle)
  -- per-frame calls
  | vkAcquireNextImageKHR (device swapchain : Handle) (timeout : Nat)
      (semaphore fence : Handle)
  | vkWaitForFences (device : Handle) (fences : List Handle) (waitAll : Nat) (timeout : Nat)
  | vkResetCommandBuffer (commandBuffer : Handle) (flags : Nat)
  | vkBeginCommandBuffer (commandBuffer : Handle) (flags : Nat)
  | vkCmdBeginRenderPass (commandBuffer renderPass framebuffer : Handle)
      (offsetX offsetY : Int) (width height : Nat) (clearValues : List (List Int))
      (contents : Nat)
  | vkCmdBindPipeline (commandBuffer : Handle) (pipelineBindPoint : Nat) (pipeline : Handle)
  | vkCmdDraw (commandBuffer : Handle)
      (vertexCount instanceCount firstVertex firstInstance : Nat)
  | vkCmdEndRenderPass (commandBuffer : Handle)
  | vkEndCommandBuffer (commandBuffer : Handle)
  | vkResetFences (device : Handle) (fences : List Handle)
  | vkQueueSubmit (queue : Handle) (waitSemaphores : List Handle)
      (waitDstStageMask : List Nat) (commandBuffers : List Handle)
      (signalSemaphores : List Handle) (fence : Handle)
  | vkQueuePresentKHR (queue : Handle) (waitSemaphores swapchains : List Handle)
      (imageIndices : List Nat)
  -- teardown
  | vkDeviceWaitIdle (device : Handle)
  | vkDestroyShaderModule (device shaderModule : Handle)
  | vkDestroyPipelineLayout (device pipelineLayout : Handle)
  | vkDestroyPipeline (device pipeline : Handle)
  | vkDestroyImageView (device imageView : Handle)
  | vkDestroyFramebuffer (device framebuffer : Handle)
  | vkDestroyFence (device fence : Handle)
  | vkFreeCommandBuffers (device commandPool : Handle) (commandBufferCount : Nat)
      (commandBuffers : List Handle)
  | vkDestroyCommandPool (device commandPool : Handle)
  | vkDestroySemaphore (device semaphore : Handle)
  | vkDestroyRenderPass (device renderPass : Handle)
  | vkDestroySwapchainKHR (device swapchain : Handle)
  | vkDestroySurfaceKHR (inst surface : Handle)
  | vkDestroyDevice (device : Handle)
  | fvkDestroyDebugReportCallbackEXT (inst callback : Handle)
  | vkDestroyInstance (inst : Handle)
  /-- Part of the platform interface; the program has no call site for it. -/
  | vkDestroyImage (device image : Handle)
deriving Repr

/-! ## Execution records -/

/-- The `std::vector`s the program indexes. -/
inductive Vec where
  | images | imageViews | framebuffers | commandBuffers | commandBufferFences
  | queueFamilyProperties | surfaceFormats | presentModes
deriving DecidableEq, Repr

/-- One `operator[]` on a vector: which vector, the index used, the vector's size. -/
structure Access where
  vec : Vec
  index : Nat
  size : Nat
deriving DecidableEq, Repr

/-- How a run ends: it returns, an `assert` aborts the process, or it runs into
undefined behaviour (indexing a vector out of range). -/
inductive Outcome (α : Type) where
  | ok (value : α)
  | assertFailed
  | undefinedBehaviour
deriving DecidableEq, Repr

/-- A run of program code: the platform calls issued, in order, the vector accesses
made, in order, and the outcome. Nothing is recorded after the run is stopped. -/
structure Exec (α : Type) where
  calls : List Call
  accesses : List Access
  outcome : Outcome α

/-- Returning a value: no call, no access. -/
def Exec.pure {α : Type} (a : α) : Exec α := ⟨[], [], .ok a⟩

/-- Sequencing: the second part runs only when the first returned. -/
def Exec.bind {α β : Type} (m : Exec α) (f : α → Exec β) : Exec β :=
  match m.outcome with
  | .ok a => ⟨m.calls ++ (f a).calls, m.accesses ++ (f a).accesses, (f a).outcome⟩
  | .assertFailed => ⟨m.calls, m.accesses, .assertFailed⟩
  | .undefinedBehaviour => ⟨m.calls, m.accesses, .undefinedBehaviour⟩

instance : Monad Exec where
  pure := Exec.pure
  bind := Exec.bind

/-- Issue one platform call. -/
def issue (c : Call) : Exec Unit := ⟨[c], [], .ok ()⟩

/-- The C `assert`: aborts when the condition is false, unless compiled out. -/
def assert (cfg : Config) (cond : Bool) : Exec Unit :=
  if cfg.assertsEnabled && !cond then ⟨[], [], .assertFailed⟩ else Exec.pure ()

/-- The macro `CHECK_VK_RESULT_SUCCESS` (GfxResources.h:23), applied to the status
the wrapped call returned: `assert(result == VK_SUCCESS)`. -/
def CHECK_VK_RESULT_SUCCESS (cfg : Config) (result : VkResult) : Exec Unit :=
  assert cfg (decide (result = VK_SUCCESS))

/-- Reading `xs[i]`: undefined behaviour when `i` is out of range. -/
def readAt {α : Type} (v : Vec) (xs : List α) (i : Nat) : Exec α :=
  match xs[i]? with
  | some a => ⟨[], [⟨v, i, xs.length⟩], .ok a⟩
  | none => ⟨[], [⟨v, i, xs.length⟩], .undefinedBehaviour⟩

/-- Writing `xs[i]` (through `&xs[i]`): undefined behaviour when `i` is out of range. -/
def writeAt {α : Type} (v : Vec) (xs : List α) (i : Nat) (a : α) : Exec (List α) :=
  if i < xs.length then ⟨[], [⟨v, i, xs.length⟩], .ok (xs.set i a)⟩
  else ⟨[], [⟨v, i, xs.length⟩], .undefinedBehaviour⟩

/-- Running `body i` for `count` consecutive indices starting at `i`. -/
def forFrom {σ : Type} (body : Nat → σ → Exec σ) : Nat → Nat → σ → Exec σ
  | 0, _, s => Exec.pure s
  | count + 1, i, s => Exec.bind (body i s) (forFrom body count (i + 1))

/-- The loop `for (uint32_t idx = 0; idx < bound; ++idx) body`. -/
def forLoop {σ : Type} (bound : Nat) (body : Nat → σ → Exec σ) (s : σ) : Exec σ :=
  forFrom body bound 0 s

/-- `std::vector::resize` on a vector of handles: new elements are null. -/
def resize (xs : List Handle) (n : Nat) : List Handle :=
  xs.take n ++ List.replicate (n - xs.length) 0

/-! ## Program state -/

/-- The data members of the class `Window` (Window.h:36-43). -/
structure Window where
  m_hwnd : Handle
  m_hinstance : Handle
  m_width : Nat := 0
  m_height : Nat := 0
  m_name : String := ""
  m_closeWindow : Bool := false
deriving DecidableEq, Repr

def Window.getWidth (w : Window) : Nat := w.m_width
def Window.getHeight (w : Window) : Nat := w.m_height
def Window.getHwnd (w : Window) : Handle := w.m_hwnd
def Window.getHinstance (w : Window) : Handle := w.m_hinstance
def Window.shouldClose (w : Window) : Bool := w.m_closeWindow

/-- The struct `GfxResources::BufferedFrameResource` (GfxResources.h:37). -/
structure BufferedFrameResource where
  bufferCount : Nat := 0
  bufferIndex : Nat := 0
  images : List Handle := []
  imageViews : List Handle := []
  framebuffers : List Handle := []
  commandBuffers : List Handle := []
  commandBufferFences : List Handle := []
  swapchainImageSemaphore : Handle := 0
  cmdBufferSubmitSemaphore : Handle := 0
deriving DecidableEq, Repr

/-- The struct `GfxResources::Shader`. -/
structure Shader where
  vert : Handle := 0
  frag : Handle := 0
deriving DecidableEq, Repr

/-- The data members of the class `GfxResources` (GfxResources.h:72-122). -/
structure GfxResources where
  c_bufferingCount : Nat := 3
  c_vertexShader : String := "shaders/triangle.vert.spv"
  c_fragmentShader : String := "shaders/triangle.frag.spv"
  m_bufferedFrameResource : BufferedFrameResource := {}
  m_instance : Handle := 0
  m_physicalDevice : Handle := 0
  m_device : Handle := 0
  m_surface : Handle := 0
  m_swapchain : Handle := 0
  m_swapChainImageformat : Nat := VK_FORMAT_UNDEFINED
  m_debugReportCallback : Handle := 0
  m_renderPass : Handle := 0
  m_graphicsPipeline : Handle := 0
  m_pipelineLayout : Handle := 0
  m_queue : Handle := 0
  m_commandPool : Handle := 0
  m_queueFamilyIndex : Nat := 2 ^ 32 - 1
  m_shader : Shader := {}
deriving DecidableEq, Repr

def GfxResources.getDevice (g : GfxResources) : Handle := g.m_device
def GfxResources.getSwapchain (g : GfxResources) : Handle := g.m_swapchain
def GfxResources.getRenderPass (g : GfxResources) : Handle := g.m_renderPass
def GfxResources.getGraphicsPipeline (g : GfxResources) : Handle := g.m_graphicsPipeline
def GfxResources.getQueue (g : GfxResources) : Handle := g.m_queue
def GfxResources.getBufferedFrameResource (g : GfxResources) : BufferedFrameResource :=
  g.m_bufferedFrameResource

/-! ## `Renderer::render` -/

/-- What the platform answers during one call of `Renderer::render`: the status of each
status-returning call and the value found in `*pImageIndex` after the acquire. -/
structure FramePlatform where
  acquireNextImage : VkResult
  imageIndex : Nat
  waitForFences : VkResult
  resetCommandBuffer : VkResult
  beginCommandBuffer : VkResult
  endCommandBuffer : VkResult
  resetFences : VkResult
  queueSubmit : VkResult
  queuePresent : VkResult
deriving DecidableEq, Repr

/-- The function `Renderer::render` (Renderer.cpp:29-187). It returns the graphics
resources with the current-slot index the acquire wrote. -/
def Renderer.render (cfg : Config) (p : FramePlatform) (mp_window : Window)
    (mp_gfxResources : GfxResources) : Exec GfxResources := do
  let device := mp_gfxResources.getDevice
  let swapchain := mp_gfxResources.getSwapchain
  let renderPass := mp_gfxResources.getRenderPass
  let graphicsPipeline := mp_gfxResources.getGraphicsPipeline
  let queue := mp_gfxResources.getQueue
  let frameResource := mp_gfxResources.getBufferedFrameResource
  let swapchainImageSemaphore := frameResource.swapchainImageSemaphore
  -- get index for buffered resources
  issue (.vkAcquireNextImageKHR device swapchain 0 swapchainImageSemaphore 0)
  let frameResource := { frameResource with bufferIndex := p.imageIndex }
  CHECK_VK_RESULT_SUCCESS cfg p.acquireNextImage
  assert cfg (decide (frameResource.bufferIndex < toUInt32 frameResource.images.length))
  let currIndex := frameResource.bufferIndex
  let framebuffer ← readAt .framebuffers frameResource.framebuffers currIndex
  let cmdBuffer ← readAt .commandBuffers frameResource.commandBuffers currIndex
  let cmdBufferFence ← readAt .commandBufferFences frameResource.commandBufferFences currIndex
  let cmdBufferSubmitSemaphore := frameResource.cmdBufferSubmitSemaphore
  -- setup command buffer
  let timeout := toUInt32 s_defaultTimeout
  issue (.vkWaitForFences device [cmdBufferFence] VK_TRUE timeout)
  CHECK_VK_RESULT_SUCCESS cfg p.waitForFences
  issue (.vkResetCommandBuffer cmdBuffer 0)
  CHECK_VK_RESULT_SUCCESS cfg p.resetCommandBuffer
  issue (.vkBeginCommandBuffer cmdBuffer VK_COMMAND_BUFFER_USAGE_ONE_TIME_SUBMIT_BIT)
  CHECK_VK_RESULT_SUCCESS cfg p.beginCommandBuffer
  let width := mp_window.getWidth
  let height := mp_window.getHeight
  issue (.vkCmdBeginRenderPass cmdBuffer renderPass framebuffer 0 0 width height
    [[0, 0, 0, 0]] VK_SUBPASS_CONTENTS_INLINE)
  issue (.vkCmdBindPipeline cmdBuffer VK_PIPELINE_BIND_POINT_GRAPHICS graphicsPipeline)
  issue (.vkCmdDraw cmdBuffer 3 1 0 0)
  issue (.vkCmdEndRenderPass cmdBuffer)
  issue (.vkEndCommandBuffer cmdBuffer)
  CHECK_VK_RESULT_SUCCESS cfg p.endCommandBuffer
  -- submit; the status of vkResetFences is not looked at
  issue (.vkResetFences device [cmdBufferFence])
  issue (.vkQueueSubmit queue [swapchainImageSemaphore]
    [VK_PIPELINE_STAGE_COLOR_ATTACHMENT_OUTPUT_BIT] [cmdBuffer] [cmdBufferSubmitSemaphore]
    cmdBufferFence)
  CHECK_VK_RESULT_SUCCESS cfg p.queueSubmit
  -- present
  issue (.vkQueuePresentKHR queue [cmdBufferSubmitSemaphore] [swapchain] [currIndex])
  CHECK_VK_RESULT_SUCCESS cfg p.queuePresent
  pure { mp_gfxResources with m_bufferedFrameResource := frameResource }

/-! ## `GfxResources::destroy` -/

/-- The body of the loop of `GfxResources::destroy` (GfxResources.cpp:111-116). -/
def destroySlot (g : GfxResources) (idx : Nat) (_ : Unit) : Exec Unit := do
  let imageView ← readAt .imageViews g.m_bufferedFrameResource.imageViews idx
  issue (.vkDestroyImageView g.m_device imageView)
  let framebuffer ← readAt .framebuffers g.m_bufferedFrameResource.framebuffers idx
  issue (.vkDestroyFramebuffer g.m_device framebuffer)
  let fence ← readAt .commandBufferFences g.m_bufferedFrameResource.commandBufferFences idx
  issue (.vkDestroyFence g.m_device fence)

/-- The function `GfxResources::destroy` (GfxResources.cpp:101-137). No status is
looked at and no member is changed. -/
def GfxResources.destroy (cfg : Config) (g : GfxResources) : Exec Unit := do
  issue (.vkDeviceWaitIdle g.m_device)
  issue (.vkDestroyShaderModule g.m_device g.m_shader.vert)
  issue (.vkDestroyShaderModule g.m_device g.m_shader.frag)
  issue (.vkDestroyPipelineLayout g.m_device g.m_pipelineLayout)
  issue (.vkDestroyPipeline g.m_device g.m_graphicsPipeline)
  forLoop g.m_bufferedFrameResource.bufferCount (destroySlot g) ()
  issue (.vkFreeCommandBuffers g.m_device g.m_commandPool
    (toUInt32 g.m_bufferedFrameResource.commandBuffers.length)
    (g.m_bufferedFrameResource.commandBuffers.take
      (toUInt32 g.m_bufferedFrameResource.commandBuffers.length)))
  issue (.vkDestroyCommandPool g.m_device g.m_commandPool)
  issue (.vkDestroySemaphore g.m_device g.m_bufferedFrameResource.swapchainImageSemaphore)
  issue (.vkDestroySemaphore g.m_device g.m_bufferedFrameResource.cmdBufferSubmitSemaphore)
  issue (.vkDestroyRenderPass g.m_device g.m_renderPass)
  issue (.vkDestroySwapchainKHR g.m_device g.m_swapchain)
  issue (.vkDestroySurfaceKHR g.m_instance g.m_surface)
  issue (.vkDestroyDevice g.m_device)
  if cfg.debugValidation then
    issue (.fvkDestroyDebugReportCallbackEXT g.m_instance g.m_debugReportCallback)
  issue (.vkDestroyInstance g.m_instance)

/-! ## `GfxResources::create` -/

/-- The singleton `GlobalVariables` of Utils.h, which is not among the sources: the
fields the graphics code reads, taken as a parameter. -/
structure GlobalVariables where
  applicationName : String
  applicationVersion : Nat
  engineName : String
  engineVersion : Nat
  apiVersion : Nat
  windowWidth : Nat
  windowHeight : Nat
deriving DecidableEq, Repr

/-- The answer to a creating call: its status and the handle found in the
out-parameter afterwards. -/
structure Reply where
  result : VkResult
  handle : Handle
deriving DecidableEq, Repr

/-- What the platform and the file system answer during `GfxResources::create`. -/
structure InitPlatform where
  createInstance : Reply
  /-- Whether `vkGetInstanceProcAddr` finds `vkCreateDebugReportCallbackEXT`. -/
  hasCreateDebugReportCallback : Bool
  /-- Whether `vkGetInstanceProcAddr` finds `vkDestroyDebugReportCallbackEXT`. -/
  hasDestroyDebugReportCallback : Bool
  createDebugReportCallback : Reply
  enumeratePhysicalDevices : VkResult
  /-- The physical devices of the platform, in enumeration order. -/
  physicalDevices : List Handle
  /-- The `queueFlags` of the queue families the two queries report. -/
  queueFamilyProperties : List Nat
  createDevice : Reply
  /-- The `VkBool32` of `vkGetPhysicalDeviceWin32PresentationSupportKHR`. -/
  presentationSupport : Nat
  createSurface : Reply
  getSurfaceCapabilities : VkResult
  getSurfaceFormatsCount : VkResult
  getSurfaceFormats : VkResult
  /-- The reported surface formats, each a format and a colour space. -/
  surfaceFormats : List (Nat × Nat)
  getPresentModesCount : VkResult
  getPresentModes : VkResult
  presentModes : List Nat
  getSurfaceSupport : VkResult
  surfaceSupported : Nat
  createSwapchain : Reply
  getSwapchainImagesCount : VkResult
  /-- The image count written by the first `vkGetSwapchainImagesKHR` (null array). -/
  swapchainImageCount : Nat
  getSwapchainImages : VkResult
  /-- The image count written by the second `vkGetSwapchainImagesKHR`. -/
  swapchainImagesWritten : Nat
  swapchainImages : Nat → Handle
  createImageView : Nat → Reply
  createRenderPass : Reply
  createFramebuffer : Nat → Reply
  /-- The file system: the size of the file at a path, if it can be opened. -/
  files : String → Option Nat
  /-- The answer to `vkCreateShaderModule` for the file read from a path. -/
  createShaderModule : String → Reply
  createPipelineLayout : Reply
  createGraphicsPipelines : Reply
  deviceQueue : Handle
  createCommandPool : Reply
  allocateCommandBuffers : VkResult
  commandBuffers : Nat → Handle
  createFence : Nat → Reply
  createSwapchainImageSemaphore : Reply
  createCmdBufferSubmitSemaphore : Reply

/-- The platform writing `count` entries through a vector's `data()` pointer. -/
def fillData (xs : List Handle) (count : Nat) (src : Nat → Handle) : List Handle :=
  (List.range xs.length).map (fun i => if i < count then src i else xs.getD i 0)

/-- The static function `createShaderModule` (GfxResources.cpp:50-84). -/
def createShaderModule (cfg : Config) (p : InitPlatform) (device : Handle)
    (shaderFile : String) : Exec Handle := do
  assert cfg (decide (device ≠ 0))
  let shaderModule : Handle := 0
  let file := p.files shaderFile
  assert cfg file.isSome
  match file with
  | some fileSize =>
    issue (.vkCreateShaderModule device fileSize (p.createShaderModule shaderFile).handle)
    let shaderModule := (p.createShaderModule shaderFile).handle
    CHECK_VK_RESULT_SUCCESS cfg (p.createShaderModule shaderFile).result
    pure shaderModule
  | none => pure shaderModule

/-- The function `GfxResources::createInstance` (GfxResources.cpp:152-219). -/
def GfxResources.createInstance (cfg : Config) (gv : GlobalVariables) (p : InitPlatform)
    (self : GfxResources) : Exec GfxResources := do
  let extensions := ["VK_KHR_surface", "VK_KHR_win32_surface"]
    ++ (if cfg.debugValidation then ["VK_EXT_debug_report"] else [])
  let layers := if cfg.debugValidation then ["VK_LAYER_LUNARG_standard_validation"] else []
  issue (.vkCreateInstance gv.applicationName gv.engineName layers extensions
    p.createInstance.handle)
  let self := { self with m_instance := p.createInstance.handle }
  CHECK_VK_RESULT_SUCCESS cfg p.createInstance.result
  if cfg.debugValidation then
    issue (.vkGetInstanceProcAddr self.m_instance "vkCreateDebugReportCallbackEXT")
    assert cfg p.hasCreateDebugReportCallback
    issue (.vkGetInstanceProcAddr self.m_instance "vkDestroyDebugReportCallbackEXT")
    assert cfg p.hasDestroyDebugReportCallback
    issue (.fvkCreateDebugReportCallbackEXT self.m_instance VK_DEBUG_REPORT_FLAGS
      p.createDebugReportCallback.handle)
    let self := { self with m_debugReportCallback := p.createDebugReportCallback.handle }
    CHECK_VK_RESULT_SUCCESS cfg p.createDebugReportCallback.result
    pure self
  else
    pure self

/-- The search loop of `createPhysicalDevice` (GfxResources.cpp:269-277): `count`
iterations are left, `idx` is the loop variable, `current` is `m_queueFamilyIndex`. -/
def findGraphicsQueueFamily (queueFamilyProperties : List Nat) :
    Nat → Nat → Nat → Exec Nat
  | 0, _, current => Exec.pure current
  | count + 1, idx, current =>
    Exec.bind (readAt .queueFamilyProperties queueFamilyProperties idx) (fun queueFlags =>
      if queueFlags &&& VK_QUEUE_GRAPHICS_BIT ≠ 0 then Exec.pure idx
      else findGraphicsQueueFamily queueFamilyProperties count (idx + 1) current)

/-- The function `GfxResources::createPhysicalDevice` (GfxResources.cpp:221-316). -/
def GfxResources.createPhysicalDevice (cfg : Config) (p : InitPlatform)
    (self : GfxResources) : Exec GfxResources := do
  let physicalDeviceCount := 1
  issue (.vkEnumeratePhysicalDevices self.m_instance physicalDeviceCount)
  let self := { self with
    m_physicalDevice := (p.physicalDevices.take physicalDeviceCount).headD self.m_physicalDevice }
  CHECK_VK_RESULT_SUCCESS cfg p.enumeratePhysicalDevices
  issue (.vkGetPhysicalDeviceProperties self.m_physicalDevice)
  issue (.vkGetPhysicalDeviceQueueFamilyProperties self.m_physicalDevice 0 false)
  let queueFamilyPropertyCount := p.queueFamilyProperties.length
  issue (.vkGetPhysicalDeviceQueueFamilyProperties self.m_physicalDevice
    queueFamilyPropertyCount true)
  let queueFamilyProperties := p.queueFamilyProperties
  let queueFamilyIndex ← findGraphicsQueueFamily queueFamilyProperties
    queueFamilyProperties.length 0 self.m_queueFamilyIndex
  let self := { self with m_queueFamilyIndex := queueFamilyIndex }
  assert cfg (decide (self.m_queueFamilyIndex ≠ 2 ^ 32 - 1))
  issue (.vkCreateDevice self.m_physicalDevice self.m_queueFamilyIndex 1 ["VK_KHR_swapchain"]
    p.createDevice.handle)
  let self := { self with m_device := p.createDevice.handle }
  CHECK_VK_RESULT_SUCCESS cfg p.createDevice.result
  pure self

/-- The function `GfxResources::createSurface` (GfxResources.cpp:318-340). -/
def GfxResources.createSurface (cfg : Config) (p : InitPlatform) (mp_window : Window)
    (self : GfxResources) : Exec GfxResources := do
  issue (.vkGetPhysicalDeviceWin32PresentationSupportKHR self.m_physicalDevice
    self.m_queueFamilyIndex)
  let hasPresentationSupport := p.presentationSupport
  assert cfg (decide (hasPresentationSupport ≠ 0))
  issue (.vkCreateWin32SurfaceKHR self.m_instance mp_window.getHinstance mp_window.getHwnd
    p.createSurface.handle)
  let self := { self with m_surface := p.createSurface.handle }
  CHECK_VK_RESULT_SUCCESS cfg p.createSurface.result
  pure self

/-- The body of the image-view loop of `createSwapchain` (GfxResources.cpp:455-473); the
loop changes nothing but the elements of `imageViews`. -/
def createImageViewBody (cfg : Config) (p : InitPlatform) (self : GfxResources) (idx : Nat)
    (imageViews : List Handle) : Exec (List Handle) := do
  let image ← readAt .images self.m_bufferedFrameResource.images idx
  let imageViewCreateInfo : ImageViewCreateInfo :=
    { image := image
      viewType := VK_IMAGE_VIEW_TYPE_2D
      format := self.m_swapChainImageformat
      components := [VK_COMPONENT_SWIZZLE_IDENTITY, VK_COMPONENT_SWIZZLE_IDENTITY,
        VK_COMPONENT_SWIZZLE_IDENTITY, VK_COMPONENT_SWIZZLE_IDENTITY]
      aspectMask := VK_IMAGE_ASPECT_COLOR_BIT
      baseMipLevel := 0
      levelCount := 1
      baseArrayLayer := 0
      layerCount := 1 }
  let imageViews ← writeAt .imageViews imageViews idx (p.createImageView idx).handle
  issue (.vkCreateImageView self.m_device imageViewCreateInfo (p.createImageView idx).handle)
  CHECK_VK_RESULT_SUCCESS cfg (p.createImageView idx).result
  pure imageViews

/-- The function `GfxResources::createSwapchain` (GfxResources.cpp:342-477). -/
def GfxResources.createSwapchain (cfg : Config) (p : InitPlatform) (mp_window : Window)
    (self : GfxResources) : Exec GfxResources := do
  issue (.vkGetPhysicalDeviceSurfaceCapabilitiesKHR self.m_physicalDevice self.m_surface)
  CHECK_VK_RESULT_SUCCESS cfg p.getSurfaceCapabilities
  issue (.vkGetPhysicalDeviceSurfaceFormatsKHR self.m_physicalDevice self.m_surface 0 false)
  let surfaceFormatCount := p.surfaceFormats.length
  CHECK_VK_RESULT_SUCCESS cfg p.getSurfaceFormatsCount
  issue (.vkGetPhysicalDeviceSurfaceFormatsKHR self.m_physicalDevice self.m_surface
    surfaceFormatCount true)
  let surfaceFormats := p.surfaceFormats
  CHECK_VK_RESULT_SUCCESS cfg p.getSurfaceFormats
  assert cfg (decide (surfaceFormats.length > 0))
  -- take the first format and color space
  let surfaceFormat0 ← readAt .surfaceFormats surfaceFormats 0
  let self := { self with m_swapChainImageformat := surfaceFormat0.1 }
  let colorSpace := surfaceFormat0.2
  issue (.vkGetPhysicalDeviceSurfacePresentModesKHR self.m_physicalDevice self.m_surface
    0 false)
  let presentModeCount := p.presentModes.length
  CHECK_VK_RESULT_SUCCESS cfg p.getPresentModesCount
  issue (.vkGetPhysicalDeviceSurfacePresentModesKHR self.m_physicalDevice self.m_surface
    presentModeCount true)
  let presentModes := p.presentModes
  CHECK_VK_RESULT_SUCCESS cfg p.getPresentModes
  assert cfg (decide (presentModes.length > 0))
  -- take the first present mode
  let presentMode ← readAt .presentModes presentModes 0
  issue (.vkGetPhysicalDeviceSurfaceSupportKHR self.m_physicalDevice self.m_queueFamilyIndex
    self.m_surface)
  let surfaceSupported := p.surfaceSupported
  CHECK_VK_RESULT_SUCCESS cfg p.getSurfaceSupport
  assert cfg (decide (surfaceSupported = VK_TRUE))
  let swapchainCreateInfo : SwapchainCreateInfo :=
    { surface := self.m_surface
      minImageCount := self.c_bufferingCount
      imageFormat := self.m_swapChainImageformat
      imageColorSpace := colorSpace
      imageExtentWidth := mp_window.getWidth
      imageExtentHeight := mp_window.getHeight
      imageArrayLayers := 1
      imageUsage := VK_IMAGE_USAGE_COLOR_ATTACHMENT_BIT
      imageSharingMode := VK_SHARING_MODE_EXCLUSIVE
      queueFamilyIndices := [self.m_queueFamilyIndex]
      preTransform := VK_SURFACE_TRANSFORM_IDENTITY_BIT_KHR
      compositeAlpha := VK_COMPOSITE_ALPHA_OPAQUE_BIT_KHR
      presentMode := presentMode
      clipped := VK_TRUE
      oldSwapchain := 0 }
  issue (.vkCreateSwapchainKHR self.m_device swapchainCreateInfo p.createSwapchain.handle)
  let self := { self with m_swapchain := p.createSwapchain.handle }
  CHECK_VK_RESULT_SUCCESS cfg p.createSwapchain.result
  issue (.vkGetSwapchainImagesKHR self.m_device self.m_swapchain
    self.m_bufferedFrameResource.bufferCount false)
  let frame := { self.m_bufferedFrameResource with bufferCount := p.swapchainImageCount }
  CHECK_VK_RESULT_SUCCESS cfg p.getSwapchainImagesCount
  let frame := { frame with images := resize frame.images frame.bufferCount }
  issue (.vkGetSwapchainImagesKHR self.m_device self.m_swapchain frame.bufferCount true)
  let frame := { frame with
    bufferCount := p.swapchainImagesWritten
    images := fillData frame.images p.swapchainImagesWritten p.swapchainImages }
  CHECK_VK_RESULT_SUCCESS cfg p.getSwapchainImages
  let frame := { frame with imageViews := resize frame.imageViews frame.bufferCount }
  let self := { self with m_bufferedFrameResource := frame }
  let imageViews ← forLoop frame.imageViews.length (createImageViewBody cfg p self)
    frame.imageViews
  pure { self with m_bufferedFrameResource := { frame with imageViews := imageViews } }

/-- The function `GfxResources::createRenderPass` (GfxResources.cpp:479-536). -/
def GfxResources.createRenderPass (cfg : Config) (p : InitPlatform)
    (self : GfxResources) : Exec GfxResources := do
  let attachments : List AttachmentDescription :=
    [{ flags := 0
       format := self.m_swapChainImageformat
       samples := VK_SAMPLE_COUNT_1_BIT
       loadOp := VK_ATTACHMENT_LOAD_OP_CLEAR
       storeOp := VK_ATTACHMENT_STORE_OP_STORE
       stencilLoadOp := VK_ATTACHMENT_LOAD_OP_DONT_CARE
       stencilStoreOp := VK_ATTACHMENT_STORE_OP_DONT_CARE
       initialLayout := VK_IMAGE_LAYOUT_UNDEFINED
       finalLayout := VK_IMAGE_LAYOUT_PRESENT_SRC_KHR }]
  let attachmentReferences : List AttachmentReference :=
    [{ attachment := 0, layout := VK_IMAGE_LAYOUT_COLOR_ATTACHMENT_OPTIMAL }]
  let subpassDescription : SubpassDescription :=
    { flags := 0
      pipelineBindPoint := VK_PIPELINE_BIND_POINT_GRAPHICS
      inputAttachments := []
      colorAttachments := attachmentReferences.take 1
      resolveAttachments := []
      depthStencilAttachment := none
      preserveAttachments := [] }
  issue (.vkCreateRenderPass self.m_device (attachments.take 1) [subpassDescription] 0
    p.createRenderPass.handle)
  let self := { self with m_renderPass := p.createRenderPass.handle }
  CHECK_VK_RESULT_SUCCESS cfg p.createRenderPass.result
  pure self

/-- The body of the loop of `createFramebuffer` (GfxResources.cpp:542-562); the loop
changes nothing but the elements of `framebuffers`. -/
def createFramebufferBody (cfg : Config) (p : InitPlatform) (mp_window : Window)
    (self : GfxResources) (idx : Nat) (framebuffers : List Handle) : Exec (List Handle) := do
  let imageView ← readAt .imageViews self.m_bufferedFrameResource.imageViews idx
  let framebufferCreateInfo : FramebufferCreateInfo :=
    { renderPass := self.m_renderPass
      attachments := [imageView]
      width := mp_window.getWidth
      height := mp_window.getHeight
      layers := 1 }
  let framebuffers ← writeAt .framebuffers framebuffers idx (p.createFramebuffer idx).handle
  issue (.vkCreateFramebuffer self.m_device framebufferCreateInfo
    (p.createFramebuffer idx).handle)
  CHECK_VK_RESULT_SUCCESS cfg (p.createFramebuffer idx).result
  pure framebuffers

/-- The function `GfxResources::createFramebuffer` (GfxResources.cpp:538-563). -/
def GfxResources.createFramebuffer (cfg : Config) (p : InitPlatform) (mp_window : Window)
    (self : GfxResources) : Exec GfxResources := do
  let frame := self.m_bufferedFrameResource
  let frame := { frame with framebuffers := resize frame.framebuffers frame.bufferCount }
  let self := { self with m_bufferedFrameResource := frame }
  let framebuffers ← forLoop frame.framebuffers.length
    (createFramebufferBody cfg p mp_window self) frame.framebuffers
  pure { self with m_bufferedFrameResource := { frame with framebuffers := framebuffers } }

/-- The function `GfxResources::createGraphicsPipeline` (GfxResources.cpp:565-744). -/
def GfxResources.createGraphicsPipeline (cfg : Config) (p : InitPlatform)
    (mp_window : Window) (self : GfxResources) : Exec GfxResources := do
  let vert ← createShaderModule cfg p self.m_device self.c_vertexShader
  let self := { self with m_shader := { self.m_shader with vert := vert } }
  let frag ← createShaderModule cfg p self.m_device self.c_fragmentShader
  let self := { self with m_shader := { self.m_shader with frag := frag } }
  let width := mp_window.getWidth
  let height := mp_window.getHeight
  issue (.vkCreatePipelineLayout self.m_device 0 0 p.createPipelineLayout.handle)
  let self := { self with m_pipelineLayout := p.createPipelineLayout.handle }
  CHECK_VK_RESULT_SUCCESS cfg p.createPipelineLayout.result
  let pipelineCreateInfo : GraphicsPipelineCreateInfo :=
    { stages := [(VK_SHADER_STAGE_VERTEX_BIT, self.m_shader.vert, "main"),
        (VK_SHADER_STAGE_FRAGMENT_BIT, self.m_shader.frag, "main")]
      vertexBindingDescriptionCount := 0
      vertexAttributeDescriptionCount := 0
      topology := VK_PRIMITIVE_TOPOLOGY_TRIANGLE_LIST
      viewportWidth := floatOfUInt32 width
      viewportHeight := floatOfUInt32 height
      scissorWidth := width
      scissorHeight := height
      polygonMode := VK_POLYGON_MODE_FILL
      cullMode := VK_CULL_MODE_NONE
      rasterizationSamples := VK_SAMPLE_COUNT_1_BIT
      blendEnable := VK_FALSE
      colorWriteMask := VK_COLOR_COMPONENT_RGBA
      layout := self.m_pipelineLayout
      renderPass := self.m_renderPass
      subpass := 0 }
  issue (.vkCreateGraphicsPipelines self.m_device 0 1 pipelineCreateInfo
    p.createGraphicsPipelines.handle)
  let self := { self with m_graphicsPipeline := p.createGraphicsPipelines.handle }
  CHECK_VK_RESULT_SUCCESS cfg p.createGraphicsPipelines.result
  pure self

/-- The body of the fence loop of `createQueueAndPool` (GfxResources.cpp:796-803); the
loop changes nothing but the elements of `commandBufferFences`. -/
def createFenceBody (cfg : Config) (p : InitPlatform) (self : GfxResources) (idx : Nat)
    (commandBufferFences : List Handle) : Exec (List Handle) := do
  let commandBufferFences ← writeAt .commandBufferFences commandBufferFences idx
    (p.createFence idx).handle
  issue (.vkCreateFence self.m_device VK_FENCE_CREATE_SIGNALED_BIT (p.createFence idx).handle)
  CHECK_VK_RESULT_SUCCESS cfg (p.createFence idx).result
  pure commandBufferFences

/-- The function `GfxResources::createQueueAndPool` (GfxResources.cpp:746-804). -/
def GfxResources.createQueueAndPool (cfg : Config) (p : InitPlatform)
    (self : GfxResources) : Exec GfxResources := do
  issue (.vkGetDeviceQueue self.m_device self.m_queueFamilyIndex 0 p.deviceQueue)
  let self := { self with m_queue := p.deviceQueue }
  assert cfg (decide (self.m_queue ≠ 0))
  issue (.vkCreateCommandPool self.m_device VK_COMMAND_POOL_CREATE_RESET_COMMAND_BUFFER_BIT
    self.m_queueFamilyIndex p.createCommandPool.handle)
  let self := { self with m_commandPool := p.createCommandPool.handle }
  CHECK_VK_RESULT_SUCCESS cfg p.createCommandPool.result
  assert cfg (decide (self.m_commandPool ≠ 0))
  -- create command buffers and their fences
  let frame := self.m_bufferedFrameResource
  let frame := { frame with commandBuffers := resize frame.commandBuffers frame.bufferCount }
  let frame := { frame with
    commandBufferFences := resize frame.commandBufferFences frame.bufferCount }
  issue (.vkAllocateCommandBuffers self.m_device self.m_commandPool
    VK_COMMAND_BUFFER_LEVEL_PRIMARY frame.bufferCount
    ((List.range frame.bufferCount).map p.commandBuffers))
  let frame := { frame with
    commandBuffers := fillData frame.commandBuffers frame.bufferCount p.commandBuffers }
  CHECK_VK_RESULT_SUCCESS cfg p.allocateCommandBuffers
  let self := { self with m_bufferedFrameResource := frame }
  let commandBufferFences ← forLoop frame.bufferCount (createFenceBody cfg p self)
    frame.commandBufferFences
  pure { self with
    m_bufferedFrameResource := { frame with commandBufferFences := commandBufferFences } }

/-- The function `GfxResources::createSemaphores` (GfxResources.cpp:806-826). -/
def GfxResources.createSemaphores (cfg : Config) (p : InitPlatform)
    (self : GfxResources) : Exec GfxResources := do
  issue (.vkCreateSemaphore self.m_device 0 p.createSwapchainImageSemaphore.handle)
  let self := { self with
    m_bufferedFrameResource :=
      { self.m_bufferedFrameResource with
        swapchainImageSemaphore := p.createSwapchainImageSemaphore.handle } }
  CHECK_VK_RESULT_SUCCESS cfg p.createSwapchainImageSemaphore.result
  issue (.vkCreateSemaphore self.m_device 0 p.createCmdBufferSubmitSemaphore.handle)
  let self := { self with
    m_bufferedFrameResource :=
      { self.m_bufferedFrameResource with
        cmdBufferSubmitSemaphore := p.createCmdBufferSubmitSemaphore.handle } }
  CHECK_VK_RESULT_SUCCESS cfg p.createCmdBufferSubmitSemaphore.result
  pure self

/-- The function `GfxResources::create` (GfxResources.cpp:139-150). -/
def GfxResources.create (cfg : Config) (gv : GlobalVariables) (p : InitPlatform)
    (mp_window : Window) (self : GfxResources) : Exec GfxResources := do
  let self ← GfxResources.createInstance cfg gv p self
  let self ← GfxResources.createPhysicalDevice cfg p self
  let self ← GfxResources.createSurface cfg p mp_window self
  let self ← GfxResources.createSwapchain cfg p mp_window self
  let self ← GfxResources.createRenderPass cfg p self
  let self ← GfxResources.createFramebuffer cfg p mp_window self
  let self ← GfxResources.createGraphicsPipeline cfg p mp_window self
  let self ← GfxResources.createQueueAndPool cfg p self
  let self ← GfxResources.createSemaphores cfg p self
  pure self

/-- The constructor `GfxResources::GfxResources` (GfxResources.cpp:88-94): the members
take their default initialisers and `create` runs. -/
def GfxResources.new (cfg : Config) (gv : GlobalVariables) (p : InitPlatform)
    (p_window : Window) : Exec GfxResources :=
  GfxResources.create cfg gv p p_window {}

/-! ## Vocabulary of the properties -/

/-- The name of the platform function a call invokes. -/
def Call.name : Call → String
  | .vkCreateInstance .. => "vkCreateInstance"
  | .vkGetInstanceProcAddr .. => "vkGetInstanceProcAddr"
  | .fvkCreateDebugReportCallbackEXT .. => "vkCreateDebugReportCallbackEXT"
  | .vkEnumeratePhysicalDevices .. => "vkEnumeratePhysicalDevices"
  | .vkGetPhysicalDeviceProperties .. => "vkGetPhysicalDeviceProperties"
  | .vkGetPhysicalDeviceQueueFamilyProperties .. => "vkGetPhysicalDeviceQueueFamilyProperties"
  | .vkCreateDevice .. => "vkCreateDevice"
  | .vkGetPhysicalDeviceWin32PresentationSupportKHR .. =>
    "vkGetPhysicalDeviceWin32PresentationSupportKHR"
  | .vkCreateWin32SurfaceKHR .. => "vkCreateWin32SurfaceKHR"
  | .vkGetPhysicalDeviceSurfaceCapabilitiesKHR .. => "vkGetPhysicalDeviceSurfaceCapabilitiesKHR"
  | .vkGetPhysicalDeviceSurfaceFormatsKHR .. => "vkGetPhysicalDeviceSurfaceFormatsKHR"
  | .vkGetPhysicalDeviceSurfacePresentModesKHR .. => "vkGetPhysicalDeviceSurfacePresentModesKHR"
  | .vkGetPhysicalDeviceSurfaceSupportKHR .. => "vkGetPhysicalDeviceSurfaceSupportKHR"
  | .vkCreateSwapchainKHR .. => "vkCreateSwapchainKHR"
  | .vkGetSwapchainImagesKHR .. => "vkGetSwapchainImagesKHR"
  | .vkCreateImageView .. => "vkCreateImageView"
  | .vkCreateRenderPass .. => "vkCreateRenderPass"
  | .vkCreateFramebuffer .. => "vkCreateFramebuffer"
  | .vkCreateShaderModule .. => "vkCreateShaderModule"
  | .vkCreatePipelineLayout .. => "vkCreatePipelineLayout"
  | .vkCreateGraphicsPipelines .. => "vkCreateGraphicsPipelines"
  | .vkGetDeviceQueue .. => "vkGetDeviceQueue"
  | .vkCreateCommandPool .. => "vkCreateCommandPool"
  | .vkAllocateCommandBuffers .. => "vkAllocateCommandBuffers"
  | .vkCreateFence .. => "vkCreateFence"
  | .vkCreateSemaphore .. => "vkCreateSemaphore"
  | .vkAcquireNextImageKHR .. => "vkAcquireNextImageKHR"
  | .vkWaitForFences .. => "vkWaitForFences"
  | .vkResetCommandBuffer .. => "vkResetCommandBuffer"
  | .vkBeginCommandBuffer .. => "vkBeginCommandBuffer"
  | .vkCmdBeginRenderPass .. => "vkCmdBeginRenderPass"
  | .vkCmdBindPipeline .. => "vkCmdBindPipeline"
  | .vkCmdDraw .. => "vkCmdDraw"
  | .vkCmdEndRenderPass .. => "vkCmdEndRenderPass"
  | .vkEndCommandBuffer .. => "vkEndCommandBuffer"
  | .vkResetFences .. => "vkResetFences"
  | .vkQueueSubmit .. => "vkQueueSubmit"
  | .vkQueuePresentKHR .. => "vkQueuePresentKHR"
  | .vkDeviceWaitIdle .. => "vkDeviceWaitIdle"
  | .vkDestroyShaderModule .. => "vkDestroyShaderModule"
  | .vkDestroyPipelineLayout .. => "vkDestroyPipelineLayout"
  | .vkDestroyPipeline .. => "vkDestroyPipeline"
  | .vkDestroyImageView .. => "vkDestroyImageView"
  | .vkDestroyFramebuffer .. => "vkDestroyFramebuffer"
  | .vkDestroyFence .. => "vkDestroyFence"
  | .vkFreeCommandBuffers .. => "vkFreeCommandBuffers"
  | .vkDestroyCommandPool .. => "vkDestroyCommandPool"
  | .vkDestroySemaphore .. => "vkDestroySemaphore"
  | .vkDestroyRenderPass .. => "vkDestroyRenderPass"
  | .vkDestroySwapchainKHR .. => "vkDestroySwapchainKHR"
  | .vkDestroySurfaceKHR .. => "vkDestroySurfaceKHR"
  | .vkDestroyDevice .. => "vkDestroyDevice"
  | .fvkDestroyDebugReportCallbackEXT .. => "vkDestroyDebugReportCallbackEXT"
  | .vkDestroyInstance .. => "vkDestroyInstance"
  | .vkDestroyImage .. => "vkDestroyImage"

/-- The kinds of platform object. -/
inductive ObjKind where
  | inst | debugCallback | device | surface | swapchain | image | imageView | renderPass
  | framebuffer | shaderModule | pipelineLayout | pipeline | commandPool | commandBuffer
  | fence | semaphore
deriving DecidableEq, Repr

/-- A platform object: its kind and its handle. -/
structure Obj where
  kind : ObjKind
  handle : Handle
deriving DecidableEq, Repr

/-- The objects a call hands back through its out-parameter (create and allocate calls),
whatever status the call reports: a trace of calls does not hold the statuses. Whether
the call succeeded is what the check that follows it in the steps of a run looks at, and
`succeededObjects` counts only the objects of calls whose status was `VK_SUCCESS`. -/
def Call.creates : Call → List Obj
  | .vkCreateInstance _ _ _ _ out => [⟨.inst, out⟩]
  | .fvkCreateDebugReportCallbackEXT _ _ out => [⟨.debugCallback, out⟩]
  | .vkCreateDevice _ _ _ _ out => [⟨.device, out⟩]
  | .vkCreateWin32SurfaceKHR _ _ _ out => [⟨.surface, out⟩]
  | .vkCreateSwapchainKHR _ _ out => [⟨.swapchain, out⟩]
  | .vkCreateImageView _ _ out => [⟨.imageView, out⟩]
  | .vkCreateRenderPass _ _ _ _ out => [⟨.renderPass, out⟩]
  | .vkCreateFramebuffer _ _ out => [⟨.framebuffer, out⟩]
  | .vkCreateShaderModule _ _ out => [⟨.shaderModule, out⟩]
  | .vkCreatePipelineLayout _ _ _ out => [⟨.pipelineLayout, out⟩]
  | .vkCreateGraphicsPipelines _ _ _ _ out => [⟨.pipeline, out⟩]
  | .vkCreateCommandPool _ _ _ out => [⟨.commandPool, out⟩]
  | .vkAllocateCommandBuffers _ _ _ _ out => out.map (fun h => ⟨.commandBuffer, h⟩)
  | .vkCreateFence _ _ out => [⟨.fence, out⟩]
  | .vkCreateSemaphore _ _ out => [⟨.semaphore, out⟩]
  | _ => []

/-- The objects a call ends the life of (destroy and free calls). -/
def Call.destroys : Call → List Obj
  | .vkDestroyShaderModule _ h => [⟨.shaderModule, h⟩]
  | .vkDestroyPipelineLayout _ h => [⟨.pipelineLayout, h⟩]
  | .vkDestroyPipeline _ h => [⟨.pipeline, h⟩]
  | .vkDestroyImageView _ h => [⟨.imageView, h⟩]
  | .vkDestroyFramebuffer _ h => [⟨.framebuffer, h⟩]
  | .vkDestroyFence _ h => [⟨.fence, h⟩]
  | .vkFreeCommandBuffers _ _ _ hs => hs.map (fun h => ⟨.commandBuffer, h⟩)
  | .vkDestroyCommandPool _ h => [⟨.commandPool, h⟩]
  | .vkDestroySemaphore _ h => [⟨.semaphore, h⟩]
  | .vkDestroyRenderPass _ h => [⟨.renderPass, h⟩]
  | .vkDestroySwapchainKHR _ h => [⟨.swapchain, h⟩]
  | .vkDestroySurfaceKHR _ h => [⟨.surface, h⟩]
  | .vkDestroyDevice h => [⟨.device, h⟩]
  | .fvkDestroyDebugReportCallbackEXT _ h => [⟨.debugCallback, h⟩]
  | .vkDestroyInstance h => [⟨.inst, h⟩]
  | .vkDestroyImage _ h => [⟨.image, h⟩]
  | _ => []

/-- The objects created over a sequence of calls, in creation order. -/
def createdObjects (calls : List Call) : List Obj := calls.flatMap Call.creates

/-- The objects destroyed over a sequence of calls, in destruction order. -/
def destroyedObjects (calls : List Call) : List Obj := calls.flatMap Call.destroys

/-- The command buffer a call resets or records into, if it does. -/
def Call.recordsInto : Call → Option Handle
  | .vkResetCommandBuffer cb _ => some cb
  | .vkBeginCommandBuffer cb _ => some cb
  | .vkCmdBeginRenderPass cb .. => some cb
  | .vkCmdBindPipeline cb .. => some cb
  | .vkCmdDraw cb .. => some cb
  | .vkCmdEndRenderPass cb => some cb
  | .vkEndCommandBuffer cb => some cb
  | _ => none

/-- The order of the platform calls of one frame. -/
def renderProtocol : List String :=
  ["vkAcquireNextImageKHR", "vkWaitForFences", "vkResetCommandBuffer", "vkBeginCommandBuffer",
   "vkCmdBeginRenderPass", "vkCmdBindPipeline", "vkCmdDraw", "vkCmdEndRenderPass",
   "vkEndCommandBuffer", "vkResetFences", "vkQueueSubmit", "vkQueuePresentKHR"]

/-- Every status the platform reports during the frame is `VK_SUCCESS`. -/
def FramePlatform.allSuccess (p : FramePlatform) : Prop :=
  p.acquireNextImage = VK_SUCCESS ∧ p.waitForFences = VK_SUCCESS
    ∧ p.resetCommandBuffer = VK_SUCCESS ∧ p.beginCommandBuffer = VK_SUCCESS
    ∧ p.endCommandBuffer = VK_SUCCESS ∧ p.resetFences = VK_SUCCESS
    ∧ p.queueSubmit = VK_SUCCESS ∧ p.queuePresent = VK_SUCCESS

/-- Index `i` names an image and an entry of each per-slot vector `render` indexes. -/
def SlotExists (g : GfxResources) (i : Nat) : Prop :=
  i < toUInt32 g.m_bufferedFrameResource.images.length
    ∧ i < g.m_bufferedFrameResource.framebuffers.length
    ∧ i < g.m_bufferedFrameResource.commandBuffers.length
    ∧ i < g.m_bufferedFrameResource.commandBufferFences.length

/-- The twelve calls of a frame on slot `i`, given the slot's framebuffer, command
buffer and fence. -/
def frameCalls (w : Window) (g : GfxResources) (i : Nat) (framebuffer cmdBuffer fence : Handle) :
    List Call :=
  [ .vkAcquireNextImageKHR g.m_device g.m_swapchain 0
      g.m_bufferedFrameResource.swapchainImageSemaphore 0,
    .vkWaitForFences g.m_device [fence] VK_TRUE (toUInt32 s_defaultTimeout),
    .vkResetCommandBuffer cmdBuffer 0,
    .vkBeginCommandBuffer cmdBuffer VK_COMMAND_BUFFER_USAGE_ONE_TIME_SUBMIT_BIT,
    .vkCmdBeginRenderPass cmdBuffer g.m_renderPass framebuffer 0 0 w.m_width w.m_height
      [[0, 0, 0, 0]] VK_SUBPASS_CONTENTS_INLINE,
    .vkCmdBindPipeline cmdBuffer VK_PIPELINE_BIND_POINT_GRAPHICS g.m_graphicsPipeline,
    .vkCmdDraw cmdBuffer 3 1 0 0,
    .vkCmdEndRenderPass cmdBuffer,
    .vkEndCommandBuffer cmdBuffer,
    .vkResetFences g.m_device [fence],
    .vkQueueSubmit g.m_queue [g.m_bufferedFrameResource.swapchainImageSemaphore]
      [VK_PIPELINE_STAGE_COLOR_ATTACHMENT_OUTPUT_BIT] [cmdBuffer]
      [g.m_bufferedFrameResource.cmdBufferSubmitSemaphore] fence,
    .vkQueuePresentKHR g.m_queue [g.m_bufferedFrameResource.cmdBufferSubmitSemaphore]
      [g.m_swapchain] [i] ]

/-- How many of the twelve calls of a frame are issued before a live `assert` stops it
(all twelve when none does). -/
def frameCut (cfg : Config) (p : FramePlatform) (g : GfxResources) : Nat :=
  if cfg.assertsEnabled = false then 12
  else if p.acquireNextImage ≠ VK_SUCCESS then 1
  else if ¬ p.imageIndex < toUInt32 g.m_bufferedFrameResource.images.length then 1
  else if p.waitForFences ≠ VK_SUCCESS then 2
  else if p.resetCommandBuffer ≠ VK_SUCCESS then 3
  else if p.beginCommandBuffer ≠ VK_SUCCESS then 4
  else if p.endCommandBuffer ≠ VK_SUCCESS then 9
  else if p.queueSubmit ≠ VK_SUCCESS then 11
  else 12

/-- Whether a live `assert` stops the frame. -/
def frameStopped (cfg : Config) (p : FramePlatform) (g : GfxResources) : Prop :=
  cfg.assertsEnabled = true ∧
    (p.acquireNextImage ≠ VK_SUCCESS
      ∨ ¬ p.imageIndex < toUInt32 g.m_bufferedFrameResource.images.length
      ∨ p.waitForFences ≠ VK_SUCCESS ∨ p.resetCommandBuffer ≠ VK_SUCCESS
      ∨ p.beginCommandBuffer ≠ VK_SUCCESS ∨ p.endCommandBuffer ≠ VK_SUCCESS
      ∨ p.queueSubmit ≠ VK_SUCCESS ∨ p.queuePresent ≠ VK_SUCCESS)

instance (cfg : Config) (p : FramePlatform) (g : GfxResources) :
    Decidable (frameStopped cfg p g) := by
  unfold frameStopped; infer_instance

/-- The graphics resources after a frame: only the current-slot index is written. -/
def GfxResources.withBufferIndex (g : GfxResources) (i : Nat) : GfxResources :=
  { g with m_bufferedFrameResource := { g.m_bufferedFrameResource with bufferIndex := i } }

/-- A call of a frame refers to the per-slot vectors only through their entries at
index `i`: the fence of a wait, a reset or a submit, the command buffer reset, recorded
into or submitted, the framebuffer of the render pass, and the presented image index. -/
def Call.usesSlot (g : GfxResources) (i : Nat) : Call → Prop
  | .vkWaitForFences _ fences _ _ =>
    fences.map some = [g.m_bufferedFrameResource.commandBufferFences[i]?]
  | .vkResetCommandBuffer cb _ => g.m_bufferedFrameResource.commandBuffers[i]? = some cb
  | .vkBeginCommandBuffer cb _ => g.m_bufferedFrameResource.commandBuffers[i]? = some cb
  | .vkCmdBeginRenderPass cb _ fb _ _ _ _ _ _ =>
    g.m_bufferedFrameResource.commandBuffers[i]? = some cb
      ∧ g.m_bufferedFrameResource.framebuffers[i]? = some fb
  | .vkCmdBindPipeline cb _ _ => g.m_bufferedFrameResource.commandBuffers[i]? = some cb
  | .vkCmdDraw cb _ _ _ _ => g.m_bufferedFrameResource.commandBuffers[i]? = some cb
  | .vkCmdEndRenderPass cb => g.m_bufferedFrameResource.commandBuffers[i]? = some cb
  | .vkEndCommandBuffer cb => g.m_bufferedFrameResource.commandBuffers[i]? = some cb
  | .vkResetFences _ fences =>
    fences.map some = [g.m_bufferedFrameResource.commandBufferFences[i]?]
  | .vkQueueSubmit _ _ _ cbs _ fence =>
    cbs.map some = [g.m_bufferedFrameResource.commandBuffers[i]?]
      ∧ g.m_bufferedFrameResource.commandBufferFences[i]? = some fence
  | .vkQueuePresentKHR _ _ _ imageIndices => imageIndices = [i]
  | _ => True

/-- Whether a call destroys or frees platform objects. -/
def Call.isTeardown : Call → Bool
  | .vkDestroyShaderModule .. | .vkDestroyPipelineLayout .. | .vkDestroyPipeline ..
  | .vkDestroyImageView .. | .vkDestroyFramebuffer .. | .vkDestroyFence ..
  | .vkFreeCommandBuffers .. | .vkDestroyCommandPool .. | .vkDestroySemaphore ..
  | .vkDestroyRenderPass .. | .vkDestroySwapchainKHR .. | .vkDestroySurfaceKHR ..
  | .vkDestroyDevice .. | .fvkDestroyDebugReportCallbackEXT .. | .vkDestroyInstance ..
  | .vkDestroyImage .. => true
  | _ => false

/-- The graphics resources have `n` slots: `bufferCount` is `n` and each per-slot vector
that the program sizes by it has length `n`. -/
def HasSlots (g : GfxResources) (n : Nat) : Prop :=
  g.m_bufferedFrameResource.bufferCount = n
    ∧ g.m_bufferedFrameResource.imageViews.length = n
    ∧ g.m_bufferedFrameResource.framebuffers.length = n
    ∧ g.m_bufferedFrameResource.commandBuffers.length = n
    ∧ g.m_bufferedFrameResource.commandBufferFences.length = n

/-- The destroy calls of slot `idx`: its image view, its framebuffer, its fence. -/
def destroySlotCalls (g : GfxResources) (idx : Nat) : List Call :=
  [ .vkDestroyImageView g.m_device (g.m_bufferedFrameResource.imageViews.getD idx 0),
    .vkDestroyFramebuffer g.m_device (g.m_bufferedFrameResource.framebuffers.getD idx 0),
    .vkDestroyFence g.m_device (g.m_bufferedFrameResource.commandBufferFences.getD idx 0) ]

/-- The vector accesses of slot `idx` in the teardown loop. -/
def destroySlotAccesses (g : GfxResources) (idx : Nat) : List Access :=
  [ ⟨.imageViews, idx, g.m_bufferedFrameResource.imageViews.length⟩,
    ⟨.framebuffers, idx, g.m_bufferedFrameResource.framebuffers.length⟩,
    ⟨.commandBufferFences, idx, g.m_bufferedFrameResource.commandBufferFences.length⟩ ]

/-- The calls of a teardown over `n` slots, in order. -/
def teardownCalls (cfg : Config) (g : GfxResources) (n : Nat) : List Call :=
  [ .vkDeviceWaitIdle g.m_device,
    .vkDestroyShaderModule g.m_device g.m_shader.vert,
    .vkDestroyShaderModule g.m_device g.m_shader.frag,
    .vkDestroyPipelineLayout g.m_device g.m_pipelineLayout,
    .vkDestroyPipeline g.m_device g.m_graphicsPipeline ]
  ++ (List.range n).flatMap (destroySlotCalls g)
  ++ [ .vkFreeCommandBuffers g.m_device g.m_commandPool
         (toUInt32 g.m_bufferedFrameResource.commandBuffers.length)
         (g.m_bufferedFrameResource.commandBuffers.take
           (toUInt32 g.m_bufferedFrameResource.commandBuffers.length)),
       .vkDestroyCommandPool g.m_device g.m_commandPool,
       .vkDestroySemaphore g.m_device g.m_bufferedFrameResource.swapchainImageSemaphore,
       .vkDestroySemaphore g.m_device g.m_bufferedFrameResource.cmdBufferSubmitSemaphore,
       .vkDestroyRenderPass g.m_device g.m_renderPass,
       .vkDestroySwapchainKHR g.m_device g.m_swapchain,
       .vkDestroySurfaceKHR g.m_instance g.m_surface,
       .vkDestroyDevice g.m_device ]
  ++ (if cfg.debugValidation then
        [.fvkDestroyDebugReportCallbackEXT g.m_instance g.m_debugReportCallback]
      else [])
  ++ [ .vkDestroyInstance g.m_instance ]

/-- The vector `xs` after the elements `start .. start + count - 1` were overwritten
with `src`. -/
def setRange (xs : List Handle) (start count : Nat) (src : Nat → Handle) : List Handle :=
  (List.range xs.length).map
    (fun i => if start ≤ i ∧ i < start + count then src i else xs.getD i 0)

/-- The call that creates the image view of slot `idx` in `createSwapchain`. -/
def imageViewCall (p : InitPlatform) (self : GfxResources) (idx : Nat) : Call :=
  .vkCreateImageView self.m_device
    { image := self.m_bufferedFrameResource.images.getD idx 0
      viewType := VK_IMAGE_VIEW_TYPE_2D
      format := self.m_swapChainImageformat
      components := [VK_COMPONENT_SWIZZLE_IDENTITY, VK_COMPONENT_SWIZZLE_IDENTITY,
        VK_COMPONENT_SWIZZLE_IDENTITY, VK_COMPONENT_SWIZZLE_IDENTITY]
      aspectMask := VK_IMAGE_ASPECT_COLOR_BIT
      baseMipLevel := 0
      levelCount := 1
      baseArrayLayer := 0
      layerCount := 1 }
    (p.createImageView idx).handle

/-- The call that creates the framebuffer of slot `idx` in `createFramebuffer`. -/
def framebufferCall (p : InitPlatform) (w : Window) (self : GfxResources) (idx : Nat) : Call :=
  .vkCreateFramebuffer self.m_device
    { renderPass := self.m_renderPass
      attachments := [self.m_bufferedFrameResource.imageViews.getD idx 0]
      width := w.m_width
      height := w.m_height
      layers := 1 }
    (p.createFramebuffer idx).handle

/-- The call that creates the fence of slot `idx` in `createQueueAndPool`. -/
def fenceCall (p : InitPlatform) (self : GfxResources) (idx : Nat) : Call :=
  .vkCreateFence self.m_device VK_FENCE_CREATE_SIGNALED_BIT (p.createFence idx).handle

/-! ### Closed forms of the stages of `create`

For each stage: the state it leaves and the calls it issues when it returns. -/

/-- The search of `createPhysicalDevice` as a function: the first index from `idx` on,
among `count` families, whose flags have the graphics bit, else `current`. -/
def firstGraphicsFrom (queueFamilyProperties : List Nat) : Nat → Nat → Nat → Nat
  | 0, _, current => current
  | count + 1, idx, current =>
    if queueFamilyProperties.getD idx 0 &&& VK_QUEUE_GRAPHICS_BIT ≠ 0 then idx
    else firstGraphicsFrom queueFamilyProperties count (idx + 1) current

/-- The vector accesses of the search of `createPhysicalDevice`. -/
def searchAccesses (queueFamilyProperties : List Nat) : Nat → Nat → List Access
  | 0, _ => []
  | count + 1, idx =>
    ⟨.queueFamilyProperties, idx, queueFamilyProperties.length⟩ ::
      (if queueFamilyProperties.getD idx 0 &&& VK_QUEUE_GRAPHICS_BIT ≠ 0 then []
       else searchAccesses queueFamilyProperties count (idx + 1))

def instanceState (cfg : Config) (p : InitPlatform) (self : GfxResources) : GfxResources :=
  { self with
    m_instance := p.createInstance.handle
    m_debugReportCallback :=
      if cfg.debugValidation then p.createDebugReportCallback.handle
      else self.m_debugReportCallback }

def instanceCalls (cfg : Config) (gv : GlobalVariables) (p : InitPlatform) : List Call :=
  [ .vkCreateInstance gv.applicationName gv.engineName
      (if cfg.debugValidation then ["VK_LAYER_LUNARG_standard_validation"] else [])
      (["VK_KHR_surface", "VK_KHR_win32_surface"]
        ++ (if cfg.debugValidation then ["VK_EXT_debug_report"] else []))
      p.createInstance.handle ]
  ++ (if cfg.debugValidation then
        [ .vkGetInstanceProcAddr p.createInstance.handle "vkCreateDebugReportCallbackEXT",
          .vkGetInstanceProcAddr p.createInstance.handle "vkDestroyDebugReportCallbackEXT",
          .fvkCreateDebugReportCallbackEXT p.createInstance.handle VK_DEBUG_REPORT_FLAGS
            p.createDebugReportCallback.handle ]
      else [])

def physicalDeviceState (p : InitPlatform) (self : GfxResources) : GfxResources :=
  { self with
    m_physicalDevice := (p.physicalDevices.take 1).headD self.m_physicalDevice
    m_queueFamilyIndex :=
      firstGraphicsFrom p.queueFamilyProperties p.queueFamilyProperties.length 0
        self.m_queueFamilyIndex
    m_device := p.createDevice.handle }

def physicalDeviceCalls (p : InitPlatform) (self : GfxResources) : List Call :=
  [ .vkEnumeratePhysicalDevices self.m_instance 1,
    .vkGetPhysicalDeviceProperties (physicalDeviceState p self).m_physicalDevice,
    .vkGetPhysicalDeviceQueueFamilyProperties (physicalDeviceState p self).m_physicalDevice
      0 false,
    .vkGetPhysicalDeviceQueueFamilyProperties (physicalDeviceState p self).m_physicalDevice
      p.queueFamilyProperties.length true,
    .vkCreateDevice (physicalDeviceState p self).m_physicalDevice
      (physicalDeviceState p self).m_queueFamilyIndex 1 ["VK_KHR_swapchain"]
      p.createDevice.handle ]

def surfaceState (p : InitPlatform) (self : GfxResources) : GfxResources :=
  { self with m_surface := p.createSurface.handle }

def surfaceCalls (p : InitPlatform) (w : Window) (self : GfxResources) : List Call :=
  [ .vkGetPhysicalDeviceWin32PresentationSupportKHR self.m_physicalDevice
      self.m_queueFamilyIndex,
    .vkCreateWin32SurfaceKHR self.m_instance w.m_hinstance w.m_hwnd p.createSurface.handle ]

/-- The state in which the image-view loop of `createSwapchain` starts. -/
def swapchainLoopState (p : InitPlatform) (self : GfxResources) : GfxResources :=
  { self with
    m_swapChainImageformat := (p.surfaceFormats.getD 0 (0, 0)).1
    m_swapchain := p.createSwapchain.handle
    m_bufferedFrameResource :=
      { self.m_bufferedFrameResource with
        bufferCount := p.swapchainImagesWritten
        images :=
          fillData (resize self.m_bufferedFrameResource.images p.swapchainImageCount)
            p.swapchainImagesWritten p.swapchainImages
        imageViews :=
          resize self.m_bufferedFrameResource.imageViews p.swapchainImagesWritten } }

def swapchainState (p : InitPlatform) (self : GfxResources) : GfxResources :=
  { swapchainLoopState p self with
    m_bufferedFrameResource :=
      { (swapchainLoopState p self).m_bufferedFrameResource with
        imageViews :=
          (List.range p.swapchainImagesWritten).map (fun i => (p.createImageView i).handle) } }

def swapchainCalls (p : InitPlatform) (w : Window) (self : GfxResources) : List Call :=
  [ .vkGetPhysicalDeviceSurfaceCapabilitiesKHR self.m_physicalDevice self.m_surface,
    .vkGetPhysicalDeviceSurfaceFormatsKHR self.m_physicalDevice self.m_surface 0 false,
    .vkGetPhysicalDeviceSurfaceFormatsKHR self.m_physicalDevice self.m_surface
      p.surfaceFormats.length true,
    .vkGetPhysicalDeviceSurfacePresentModesKHR self.m_physicalDevice self.m_surface 0 false,
    .vkGetPhysicalDeviceSurfacePresentModesKHR self.m_physicalDevice self.m_surface
      p.presentModes.length true,
    .vkGetPhysicalDeviceSurfaceSupportKHR self.m_physicalDevice self.m_queueFamilyIndex
      self.m_surface,
    .vkCreateSwapchainKHR self.m_device
      { surface := self.m_surface
        minImageCount := self.c_bufferingCount
        imageFormat := (p.surfaceFormats.getD 0 (0, 0)).1
        imageColorSpace := (p.surfaceFormats.getD 0 (0, 0)).2
        imageExtentWidth := w.m_width
        imageExtentHeight := w.m_height
        imageArrayLayers := 1
        imageUsage := VK_IMAGE_USAGE_COLOR_ATTACHMENT_BIT
        imageSharingMode := VK_SHARING_MODE_EXCLUSIVE
        queueFamilyIndices := [self.m_queueFamilyIndex]
        preTransform := VK_SURFACE_TRANSFORM_IDENTITY_BIT_KHR
        compositeAlpha := VK_COMPOSITE_ALPHA_OPAQUE_BIT_KHR
        presentMode := p.presentModes.getD 0 0
        clipped := VK_TRUE
        oldSwapchain := 0 }
      p.createSwapchain.handle,
    .vkGetSwapchainImagesKHR self.m_device p.createSwapchain.handle
      self.m_bufferedFrameResource.bufferCount false,
    .vkGetSwapchainImagesKHR self.m_device p.createSwapchain.handle
      p.swapchainImageCount true ]
  ++ (List.range p.swapchainImagesWritten).map (imageViewCall p (swapchainLoopState p self))

def swapchainAccesses (p : InitPlatform) (self : GfxResources) : List Access :=
  [ ⟨.surfaceFormats, 0, p.surfaceFormats.length⟩, ⟨.presentModes, 0, p.presentModes.length⟩ ]
  ++ (List.range p.swapchainImagesWritten).flatMap (fun idx =>
      [ ⟨.images, idx, (swapchainLoopState p self).m_bufferedFrameResource.images.length⟩,
        ⟨.imageViews, idx, p.swapchainImagesWritten⟩ ])

def renderPassState (p : InitPlatform) (self : GfxResources) : GfxResources :=
  { self with m_renderPass := p.createRenderPass.handle }

def renderPassCalls (p : InitPlatform) (self : GfxResources) : List Call :=
  [ .vkCreateRenderPass self.m_device
      [{ flags := 0
         format := self.m_swapChainImageformat
         samples := VK_SAMPLE_COUNT_1_BIT
         loadOp := VK_ATTACHMENT_LOAD_OP_CLEAR
         storeOp := VK_ATTACHMENT_STORE_OP_STORE
         stencilLoadOp := VK_ATTACHMENT_LOAD_OP_DONT_CARE
         stencilStoreOp := VK_ATTACHMENT_STORE_OP_DONT_CARE
         initialLayout := VK_IMAGE_LAYOUT_UNDEFINED
         finalLayout := VK_IMAGE_LAYOUT_PRESENT_SRC_KHR }]
      [{ flags := 0
         pipelineBindPoint := VK_PIPELINE_BIND_POINT_GRAPHICS
         inputAttachments := []
         colorAttachments :=
           [{ attachment := 0, layout := VK_IMAGE_LAYOUT_COLOR_ATTACHMENT_OPTIMAL }]
         resolveAttachments := []
         depthStencilAttachment := none
         preserveAttachments := [] }]
      0 p.createRenderPass.handle ]

/-- The state in which the loop of `createFramebuffer` starts. -/
def framebufferLoopState (self : GfxResources) : GfxResources :=
  { self with
    m_bufferedFrameResource :=
      { self.m_bufferedFrameResource with
        framebuffers :=
          resize self.m_bufferedFrameResource.framebuffers
            self.m_bufferedFrameResource.bufferCount } }

def framebufferState (p : InitPlatform) (self : GfxResources) : GfxResources :=
  { self with
    m_bufferedFrameResource :=
      { self.m_bufferedFrameResource with
        framebuffers :=
          (List.range self.m_bufferedFrameResource.bufferCount).map
            (fun i => (p.createFramebuffer i).handle) } }

def framebufferCalls (p : InitPlatform) (w : Window) (self : GfxResources) : List Call :=
  (List.range self.m_bufferedFrameResource.bufferCount).map
    (framebufferCall p w (framebufferLoopState self))

def framebufferAccesses (self : GfxResources) : List Access :=
  (List.range self.m_bufferedFrameResource.bufferCount).flatMap (fun idx =>
    [ ⟨.imageViews, idx, self.m_bufferedFrameResource.imageViews.length⟩,
      ⟨.framebuffers, idx, self.m_bufferedFrameResource.bufferCount⟩ ])

/-- The shader module `createShaderModule` returns: null when the file did not open. -/
def shaderModuleOf (p : InitPlatform) (shaderFile : String) : Handle :=
  match p.files shaderFile with
  | some _ => (p.createShaderModule shaderFile).handle
  | none => 0

/-- The calls of `createShaderModule`: none when the file did not open. -/
def shaderModuleCalls (p : InitPlatform) (device : Handle) (shaderFile : String) : List Call :=
  match p.files shaderFile with
  | some fileSize =>
    [.vkCreateShaderModule device fileSize (p.createShaderModule shaderFile).handle]
  | none => []

def pipelineState (p : InitPlatform) (self : GfxResources) : GfxResources :=
  { self with
    m_shader :=
      { vert := shaderModuleOf p self.c_vertexShader
        frag := shaderModuleOf p self.c_fragmentShader }
    m_pipelineLayout := p.createPipelineLayout.handle
    m_graphicsPipeline := p.createGraphicsPipelines.handle }

def pipelineCalls (p : InitPlatform) (w : Window) (self : GfxResources) : List Call :=
  shaderModuleCalls p self.m_device self.c_vertexShader
  ++ shaderModuleCalls p self.m_device self.c_fragmentShader
  ++ [ .vkCreatePipelineLayout self.m_device 0 0 p.createPipelineLayout.handle,
       .vkCreateGraphicsPipelines self.m_device 0 1
         { stages :=
             [(VK_SHADER_STAGE_VERTEX_BIT, shaderModuleOf p self.c_vertexShader, "main"),
              (VK_SHADER_STAGE_FRAGMENT_BIT, shaderModuleOf p self.c_fragmentShader, "main")]
           vertexBindingDescriptionCount := 0
           vertexAttributeDescriptionCount := 0
           topology := VK_PRIMITIVE_TOPOLOGY_TRIANGLE_LIST
           viewportWidth := floatOfUInt32 w.m_width
           viewportHeight := floatOfUInt32 w.m_height
           scissorWidth := w.m_width
           scissorHeight := w.m_height
           polygonMode := VK_POLYGON_MODE_FILL
           cullMode := VK_CULL_MODE_NONE
           rasterizationSamples := VK_SAMPLE_COUNT_1_BIT
           blendEnable := VK_FALSE
           colorWriteMask := VK_COLOR_COMPONENT_RGBA
           layout := p.createPipelineLayout.handle
           renderPass := self.m_renderPass
           subpass := 0 }
         p.createGraphicsPipelines.handle ]

def queueAndPoolState (p : InitPlatform) (self : GfxResources) : GfxResources :=
  { self with
    m_queue := p.deviceQueue
    m_commandPool := p.createCommandPool.handle
    m_bufferedFrameResource :=
      { self.m_bufferedFrameResource with
        commandBuffers :=
          (List.range self.m_bufferedFrameResource.bufferCount).map p.commandBuffers
        commandBufferFences :=
          (List.range self.m_bufferedFrameResource.bufferCount).map
            (fun i => (p.createFence i).handle) } }

def queueAndPoolCalls (p : InitPlatform) (self : GfxResources) : List Call :=
  [ .vkGetDeviceQueue self.m_device self.m_queueFamilyIndex 0 p.deviceQueue,
    .vkCreateCommandPool self.m_device VK_COMMAND_POOL_CREATE_RESET_COMMAND_BUFFER_BIT
      self.m_queueFamilyIndex p.createCommandPool.handle,
    .vkAllocateCommandBuffers self.m_device p.createCommandPool.handle
      VK_COMMAND_BUFFER_LEVEL_PRIMARY self.m_bufferedFrameResource.bufferCount
      ((List.range self.m_bufferedFrameResource.bufferCount).map p.commandBuffers) ]
  ++ (List.range self.m_bufferedFrameResource.bufferCount).map (fenceCall p self)

def queueAndPoolAccesses (self : GfxResources) : List Access :=
  (List.range self.m_bufferedFrameResource.bufferCount).map
    (fun idx => ⟨.commandBufferFences, idx, self.m_bufferedFrameResource.bufferCount⟩)

def semaphoresState (p : InitPlatform) (self : GfxResources) : GfxResources :=
  { self with
    m_bufferedFrameResource :=
      { self.m_bufferedFrameResource with
        swapchainImageSemaphore := p.createSwapchainImageSemaphore.handle
        cmdBufferSubmitSemaphore := p.createCmdBufferSubmitSemaphore.handle } }

def semaphoresCalls (p : InitPlatform) (self : GfxResources) : List Call :=
  [ .vkCreateSemaphore self.m_device 0 p.createSwapchainImageSemaphore.handle,
    .vkCreateSemaphore self.m_device 0 p.createCmdBufferSubmitSemaphore.handle ]

/-- The states between the stages of `create`, started on `g`. -/
def afterInstance (cfg : Config) (p : InitPlatform) (g : GfxResources) : GfxResources :=
  instanceState cfg p g

def afterPhysicalDevice (cfg : Config) (p : InitPlatform) (g : GfxResources) : GfxResources :=
  physicalDeviceState p (afterInstance cfg p g)

def afterSurface (cfg : Config) (p : InitPlatform) (g : GfxResources) : GfxResources :=
  surfaceState p (afterPhysicalDevice cfg p g)

def afterSwapchain (cfg : Config) (p : InitPlatform) (g : GfxResources) : GfxResources :=
  swapchainState p (afterSurface cfg p g)

def afterRenderPass (cfg : Config) (p : InitPlatform) (g : GfxResources) : GfxResources :=
  renderPassState p (afterSwapchain cfg p g)

def afterFramebuffer (cfg : Config) (p : InitPlatform) (g : GfxResources) : GfxResources :=
  framebufferState p (afterRenderPass cfg p g)

def afterPipeline (cfg : Config) (p : InitPlatform) (g : GfxResources) : GfxResources :=
  pipelineState p (afterFramebuffer cfg p g)

def afterQueueAndPool (cfg : Config) (p : InitPlatform) (g : GfxResources) : GfxResources :=
  queueAndPoolState p (afterPipeline cfg p g)

/-- The state `create` leaves when it returns. -/
def createState (cfg : Config) (p : InitPlatform) (g : GfxResources) : GfxResources :=
  semaphoresState p (afterQueueAndPool cfg p g)

/-- The calls `create` issues when it returns, stage by stage. -/
def createCalls (cfg : Config) (gv : GlobalVariables) (p : InitPlatform) (w : Window)
    (g : GfxResources) : List Call :=
  instanceCalls cfg gv p
  ++ physicalDeviceCalls p (afterInstance cfg p g)
  ++ surfaceCalls p w (afterPhysicalDevice cfg p g)
  ++ swapchainCalls p w (afterSurface cfg p g)
  ++ renderPassCalls p (afterSwapchain cfg p g)
  ++ framebufferCalls p w (afterRenderPass cfg p g)
  ++ pipelineCalls p w (afterFramebuffer cfg p g)
  ++ queueAndPoolCalls p (afterPipeline cfg p g)
  ++ semaphoresCalls p (afterQueueAndPool cfg p g)

/-- The vector accesses `create` makes when it returns, stage by stage. -/
def createAccesses (cfg : Config) (p : InitPlatform) (g : GfxResources) : List Access :=
  searchAccesses p.queueFamilyProperties p.queueFamilyProperties.length 0
  ++ swapchainAccesses p (afterSurface cfg p g)
  ++ framebufferAccesses (afterRenderPass cfg p g)
  ++ queueAndPoolAccesses (afterPipeline cfg p g)

/-- The objects of one kind among a list of objects. -/
def objectsOfKind (k : ObjKind) (objs : List Obj) : List Obj :=
  objs.filter (fun o => decide (o.kind = k))

/-- A call with the `minImageCount` of a swapchain creation replaced, any other call
unchanged. -/
def Call.setMinImageCount (c : Nat) : Call → Call
  | .vkCreateSwapchainKHR device info out =>
    .vkCreateSwapchainKHR device { info with minImageCount := c } out
  | call => call

/-- The graphics resources with another value of the constant `c_bufferingCount`. -/
def GfxResources.withBufferingCount (g : GfxResources) (c : Nat) : GfxResources :=
  { g with c_bufferingCount := c }

/-- A run with its calls and its returned value transformed. -/
def Exec.mapBoth {α β : Type} (fc : Call → Call) (fv : α → β) (m : Exec α) : Exec β :=
  { calls := m.calls.map fc
    accesses := m.accesses
    outcome :=
      match m.outcome with
      | .ok a => .ok (fv a)
      | .assertFailed => .assertFailed
      | .undefinedBehaviour => .undefinedBehaviour }

/-- Every status the platform reports during `create` is `VK_SUCCESS` and both shader
files of `g` can be opened. -/
def InitPlatform.allSuccess (p : InitPlatform) (g : GfxResources) : Prop :=
  p.createInstance.result = VK_SUCCESS ∧ p.createDebugReportCallback.result = VK_SUCCESS
    ∧ p.enumeratePhysicalDevices = VK_SUCCESS ∧ p.createDevice.result = VK_SUCCESS
    ∧ p.createSurface.result = VK_SUCCESS ∧ p.getSurfaceCapabilities = VK_SUCCESS
    ∧ p.getSurfaceFormatsCount = VK_SUCCESS ∧ p.getSurfaceFormats = VK_SUCCESS
    ∧ p.getPresentModesCount = VK_SUCCESS ∧ p.getPresentModes = VK_SUCCESS
    ∧ p.getSurfaceSupport = VK_SUCCESS ∧ p.createSwapchain.result = VK_SUCCESS
    ∧ p.getSwapchainImagesCount = VK_SUCCESS ∧ p.getSwapchainImages = VK_SUCCESS
    ∧ (∀ i, (p.createImageView i).result = VK_SUCCESS)
    ∧ p.createRenderPass.result = VK_SUCCESS
    ∧ (∀ i, (p.createFramebuffer i).result = VK_SUCCESS)
    ∧ (p.files g.c_vertexShader).isSome = true ∧ (p.files g.c_fragmentShader).isSome = true
    ∧ (p.createShaderModule g.c_vertexShader).result = VK_SUCCESS
    ∧ (p.createShaderModule g.c_fragmentShader).result = VK_SUCCESS
    ∧ p.createPipelineLayout.result = VK_SUCCESS
    ∧ p.createGraphicsPipelines.result = VK_SUCCESS
    ∧ p.createCommandPool.result = VK_SUCCESS ∧ p.allocateCommandBuffers = VK_SUCCESS
    ∧ (∀ i, (p.createFence i).result = VK_SUCCESS)
    ∧ p.createSwapchainImageSemaphore.result = VK_SUCCESS
    ∧ p.createCmdBufferSubmitSemaphore.result = VK_SUCCESS

/-- The objects `create` makes on a platform that grants `n` images, in creation order. -/
def ownedInCreationOrder (cfg : Config) (p : InitPlatform) (g : GfxResources) (n : Nat) :
    List Obj :=
  [⟨.inst, p.createInstance.handle⟩]
  ++ (if cfg.debugValidation then [⟨.debugCallback, p.createDebugReportCallback.handle⟩]
      else [])
  ++ [⟨.device, p.createDevice.handle⟩, ⟨.surface, p.createSurface.handle⟩,
      ⟨.swapchain, p.createSwapchain.handle⟩]
  ++ (List.range n).map (fun i => ⟨.imageView, (p.createImageView i).handle⟩)
  ++ [⟨.renderPass, p.createRenderPass.handle⟩]
  ++ (List.range n).map (fun i => ⟨.framebuffer, (p.createFramebuffer i).handle⟩)
  ++ [⟨.shaderModule, (p.createShaderModule g.c_vertexShader).handle⟩,
      ⟨.shaderModule, (p.createShaderModule g.c_fragmentShader).handle⟩,
      ⟨.pipelineLayout, p.createPipelineLayout.handle⟩,
      ⟨.pipeline, p.createGraphicsPipelines.handle⟩,
      ⟨.commandPool, p.createCommandPool.handle⟩]
  ++ (List.range n).map (fun i => ⟨.commandBuffer, p.commandBuffers i⟩)
  ++ (List.range n).map (fun i => ⟨.fence, (p.createFence i).handle⟩)
  ++ [⟨.semaphore, p.createSwapchainImageSemaphore.handle⟩,
      ⟨.semaphore, p.createCmdBufferSubmitSemaphore.handle⟩]

/-- The same objects in the order in which `destroy` ends their lives. -/
def ownedInTeardownOrder (cfg : Config) (p : InitPlatform) (g : GfxResources) (n : Nat) :
    List Obj :=
  [⟨.shaderModule, (p.createShaderModule g.c_vertexShader).handle⟩,
   ⟨.shaderModule, (p.createShaderModule g.c_fragmentShader).handle⟩,
   ⟨.pipelineLayout, p.createPipelineLayout.handle⟩,
   ⟨.pipeline, p.createGraphicsPipelines.handle⟩]
  ++ (List.range n).flatMap (fun i =>
      [⟨.imageView, (p.createImageView i).handle⟩,
       ⟨.framebuffer, (p.createFramebuffer i).handle⟩,
       ⟨.fence, (p.createFence i).handle⟩])
  ++ (List.range n).map (fun i => ⟨.commandBuffer, p.commandBuffers i⟩)
  ++ [⟨.commandPool, p.createCommandPool.handle⟩,
      ⟨.semaphore, p.createSwapchainImageSemaphore.handle⟩,
      ⟨.semaphore, p.createCmdBufferSubmitSemaphore.handle⟩,
      ⟨.renderPass, p.createRenderPass.handle⟩,
      ⟨.swapchain, p.createSwapchain.handle⟩,
      ⟨.surface, p.createSurface.handle⟩,
      ⟨.device, p.createDevice.handle⟩]
  ++ (if cfg.debugValidation then [⟨.debugCallback, p.createDebugReportCallback.handle⟩]
      else [])
  ++ [⟨.inst, p.createInstance.handle⟩]

/-- Object `a` comes before object `b` in a list of objects. -/
def ComesBefore (objs : List Obj) (a b : Obj) : Prop := List.Sublist [a, b] objs

instance (objs : List Obj) (a b : Obj) : Decidable (ComesBefore objs a b) :=
  inferInstanceAs (Decidable (List.Sublist [a, b] objs))

/-- The kinds of the objects everything else is created from: the instance, the
diagnostic callback, the device, the surface, the swapchain and the render pass. -/
def ObjKind.isRoot : ObjKind → Bool
  | .inst | .debugCallback | .device | .surface | .swapchain | .renderPass => true
  | _ => false

/-- The position of a kind of object in the creation order of `create`. -/
def ObjKind.creationRank : ObjKind → Nat
  | .inst => 0 | .debugCallback => 1 | .device => 2 | .surface => 3 | .swapchain => 4
  | .imageView => 5 | .renderPass => 6 | .framebuffer => 7 | .shaderModule => 8
  | .pipelineLayout => 9 | .pipeline => 10 | .commandPool => 11 | .commandBuffer => 12
  | .fence => 13 | .semaphore => 14 | .image => 15

/-- The position of a kind of object in the teardown order of `destroy`: the six root
kinds come last, in the reverse of their creation order. -/
def ObjKind.teardownRank : ObjKind → Nat
  | .renderPass => 1 | .swapchain => 2 | .surface => 3 | .device => 4
  | .debugCallback => 5 | .inst => 6
  | _ => 0

/-- The order of creation on kinds: an earlier kind, or the same kind when it is not a
root kind (a root kind has one object). -/
def CreatedNoLater (a b : Obj) : Prop :=
  a.kind.creationRank < b.kind.creationRank
    ∨ (a.kind = b.kind ∧ a.kind.isRoot = false)

/-- Every call of a run satisfies `P`, whatever the outcome of the run. -/
def CallsSatisfy {α : Type} (P : Call → Prop) (e : Exec α) : Prop := ∀ c ∈ e.calls, P c

/-- The call creates neither a pipeline layout nor a pipeline. -/
def Call.createsNoPipelineObject (c : Call) : Prop :=
  ∀ o ∈ c.creates, o.kind ≠ .pipelineLayout ∧ o.kind ≠ .pipeline

/-- How a run ends, its result forgotten. -/
def Outcome.void {α : Type} : Outcome α → Outcome Unit
  | .ok _ => .ok ()
  | .assertFailed => .assertFailed
  | .undefinedBehaviour => .undefinedBehaviour

/-- A run with its result forgotten: the calls, the accesses and how it ended. -/
def Exec.void {α : Type} (e : Exec α) : Exec Unit := ⟨e.calls, e.accesses, e.outcome.void⟩

/-- One step of a straight-line run: a platform call, the check of the status a call
returned, an assertion on a condition, or an access to a vector. -/
inductive Step where
  | call (c : Call)
  | check (result : VkResult)
  | require (cond : Bool)
  | access (a : Access)
deriving Repr

/-- Running one step. -/
def Step.run (cfg : Config) : Step → Exec Unit
  | .call c => issue c
  | .check r => CHECK_VK_RESULT_SUCCESS cfg r
  | .require b => assert cfg b
  | .access a =>
    if a.index < a.size then ⟨[], [a], .ok ()⟩ else ⟨[], [a], .undefinedBehaviour⟩

/-- Running a list of steps in order; the run stops at the first step that fails. -/
def runSteps (cfg : Config) : List Step → Exec Unit
  | [] => Exec.pure ()
  | s :: rest => Exec.bind (s.run cfg) (fun _ => runSteps cfg rest)

/-- The steps of `createInstance`. -/
def instanceSteps (cfg : Config) (gv : GlobalVariables) (p : InitPlatform) : List Step :=
  [ .call (.vkCreateInstance gv.applicationName gv.engineName
      (if cfg.debugValidation then ["VK_LAYER_LUNARG_standard_validation"] else [])
      (["VK_KHR_surface", "VK_KHR_win32_surface"]
        ++ (if cfg.debugValidation then ["VK_EXT_debug_report"] else []))
      p.createInstance.handle),
    .check p.createInstance.result ]
  ++ (if cfg.debugValidation then
        [ .call (.vkGetInstanceProcAddr p.createInstance.handle
            "vkCreateDebugReportCallbackEXT"),
          .require p.hasCreateDebugReportCallback,
          .call (.vkGetInstanceProcAddr p.createInstance.handle
            "vkDestroyDebugReportCallbackEXT"),
          .require p.hasDestroyDebugReportCallback,
          .call (.fvkCreateDebugReportCallbackEXT p.createInstance.handle
            VK_DEBUG_REPORT_FLAGS p.createDebugReportCallback.handle),
          .check p.createDebugReportCallback.result ]
      else [])

/-- The steps of one round of the image-view loop of `createSwapchain`. -/
def imageViewSteps (p : InitPlatform) (self : GfxResources) (idx : Nat) : List Step :=
  [ .access ⟨.images, idx, self.m_bufferedFrameResource.images.length⟩,
    .access ⟨.imageViews, idx, self.m_bufferedFrameResource.imageViews.length⟩,
    .call (imageViewCall p self idx),
    .check (p.createImageView idx).result ]

/-- The steps of `createSwapchain` before its image-view loop. -/
def swapchainSetupSteps (p : InitPlatform) (w : Window) (self : GfxResources) : List Step :=
  [ .call (.vkGetPhysicalDeviceSurfaceCapabilitiesKHR self.m_physicalDevice self.m_surface),
    .check p.getSurfaceCapabilities,
    .call (.vkGetPhysicalDeviceSurfaceFormatsKHR self.m_physicalDevice self.m_surface 0 false),
    .check p.getSurfaceFormatsCount,
    .call (.vkGetPhysicalDeviceSurfaceFormatsKHR self.m_physicalDevice self.m_surface
      p.surfaceFormats.length true),
    .check p.getSurfaceFormats,
    .require (decide (p.surfaceFormats.length > 0)),
    .access ⟨.surfaceFormats, 0, p.surfaceFormats.length⟩,
    .call (.vkGetPhysicalDeviceSurfacePresentModesKHR self.m_physicalDevice self.m_surface
      0 false),
    .check p.getPresentModesCount,
    .call (.vkGetPhysicalDeviceSurfacePresentModesKHR self.m_physicalDevice self.m_surface
      p.presentModes.length true),
    .check p.getPresentModes,
    .require (decide (p.presentModes.length > 0)),
    .access ⟨.presentModes, 0, p.presentModes.length⟩,
    .call (.vkGetPhysicalDeviceSurfaceSupportKHR self.m_physicalDevice
      self.m_queueFamilyIndex self.m_surface),
    .check p.getSurfaceSupport,
    .require (decide (p.surfaceSupported = VK_TRUE)),
    .call (.vkCreateSwapchainKHR self.m_device
      { surface := self.m_surface
        minImageCount := self.c_bufferingCount
        imageFormat := (p.surfaceFormats.getD 0 (0, 0)).1
        imageColorSpace := (p.surfaceFormats.getD 0 (0, 0)).2
        imageExtentWidth := w.m_width
        imageExtentHeight := w.m_height
        imageArrayLayers := 1
        imageUsage := VK_IMAGE_USAGE_COLOR_ATTACHMENT_BIT
        imageSharingMode := VK_SHARING_MODE_EXCLUSIVE
        queueFamilyIndices := [self.m_queueFamilyIndex]
        preTransform := VK_SURFACE_TRANSFORM_IDENTITY_BIT_KHR
        compositeAlpha := VK_COMPOSITE_ALPHA_OPAQUE_BIT_KHR
        presentMode := p.presentModes.getD 0 0
        clipped := VK_TRUE
        oldSwapchain := 0 }
      p.createSwapchain.handle),
    .check p.createSwapchain.result,
    .call (.vkGetSwapchainImagesKHR self.m_device p.createSwapchain.handle
      self.m_bufferedFrameResource.bufferCount false),
    .check p.getSwapchainImagesCount,
    .call (.vkGetSwapchainImagesKHR self.m_device p.createSwapchain.handle
      p.swapchainImageCount true),
    .check p.getSwapchainImages ]

/-- The steps of `createSwapchain`. -/
def swapchainSteps (p : InitPlatform) (w : Window) (self : GfxResources) : List Step :=
  swapchainSetupSteps p w self
  ++ (List.range p.swapchainImagesWritten).flatMap (imageViewSteps p (swapchainLoopState p self))

/-- The steps of `createPhysicalDevice`. -/
def physicalDeviceSteps (p : InitPlatform) (self : GfxResources) : List Step :=
  [ .call (.vkEnumeratePhysicalDevices self.m_instance 1),
    .check p.enumeratePhysicalDevices,
    .call (.vkGetPhysicalDeviceProperties (physicalDeviceState p self).m_physicalDevice),
    .call (.vkGetPhysicalDeviceQueueFamilyProperties
      (physicalDeviceState p self).m_physicalDevice 0 false),
    .call (.vkGetPhysicalDeviceQueueFamilyProperties
      (physicalDeviceState p self).m_physicalDevice p.queueFamilyProperties.length true) ]
  ++ (searchAccesses p.queueFamilyProperties p.queueFamilyProperties.length 0).map Step.access
  ++ [ .require (decide ((physicalDeviceState p self).m_queueFamilyIndex ≠ 2 ^ 32 - 1)),
       .call (.vkCreateDevice (physicalDeviceState p self).m_physicalDevice
         (physicalDeviceState p self).m_queueFamilyIndex 1 ["VK_KHR_swapchain"]
         p.createDevice.handle),
       .check p.createDevice.result ]

/-- The steps of `createSurface`. -/
def surfaceSteps (p : InitPlatform) (w : Window) (self : GfxResources) : List Step :=
  [ .call (.vkGetPhysicalDeviceWin32PresentationSupportKHR self.m_physicalDevice
      self.m_queueFamilyIndex),
    .require (decide (p.presentationSupport ≠ 0)),
    .call (.vkCreateWin32SurfaceKHR self.m_instance w.m_hinstance w.m_hwnd
      p.createSurface.handle),
    .check p.createSurface.result ]

/-- The steps of `createRenderPass`. -/
def renderPassSteps (p : InitPlatform) (self : GfxResources) : List Step :=
  (renderPassCalls p self).map Step.call ++ [.check p.createRenderPass.result]

/-- The steps of one round of the loop of `createFramebuffer`. -/
def framebufferSteps (p : InitPlatform) (w : Window) (self : GfxResources) (idx : Nat) :
    List Step :=
  [ .access ⟨.imageViews, idx, self.m_bufferedFrameResource.imageViews.length⟩,
    .access ⟨.framebuffers, idx, self.m_bufferedFrameResource.framebuffers.length⟩,
    .call (framebufferCall p w self idx),
    .check (p.createFramebuffer idx).result ]

/-- The steps of `createFramebuffer`. -/
def framebuffersSteps (p : InitPlatform) (w : Window) (self : GfxResources) : List Step :=
  (List.range self.m_bufferedFrameResource.bufferCount).flatMap
    (framebufferSteps p w (framebufferLoopState self))

/-- The steps of `createShaderModule`. -/
def shaderModuleSteps (p : InitPlatform) (device : Handle) (shaderFile : String) : List Step :=
  [ .require (decide (device ≠ 0)), .require (p.files shaderFile).isSome ]
  ++ (match p.files shaderFile with
      | some fileSize =>
        [ .call (.vkCreateShaderModule device fileSize (p.createShaderModule shaderFile).handle),
          .check (p.createShaderModule shaderFile).result ]
      | none => [])

/-- The steps of `createGraphicsPipeline`. -/
def pipelineSteps (p : InitPlatform) (w : Window) (self : GfxResources) : List Step :=
  shaderModuleSteps p self.m_device self.c_vertexShader
  ++ shaderModuleSteps p self.m_device self.c_fragmentShader
  ++ [ .call (.vkCreatePipelineLayout self.m_device 0 0 p.createPipelineLayout.handle),
       .check p.createPipelineLayout.result,
       .call (.vkCreateGraphicsPipelines self.m_device 0 1
         { stages :=
             [(VK_SHADER_STAGE_VERTEX_BIT, shaderModuleOf p self.c_vertexShader, "main"),
              (VK_SHADER_STAGE_FRAGMENT_BIT, shaderModuleOf p self.c_fragmentShader, "main")]
           vertexBindingDescriptionCount := 0
           vertexAttributeDescriptionCount := 0
           topology := VK_PRIMITIVE_TOPOLOGY_TRIANGLE_LIST
           viewportWidth := floatOfUInt32 w.m_width
           viewportHeight := floatOfUInt32 w.m_height
           scissorWidth := w.m_width
           scissorHeight := w.m_height
           polygonMode := VK_POLYGON_MODE_FILL
           cullMode := VK_CULL_MODE_NONE
           rasterizationSamples := VK_SAMPLE_COUNT_1_BIT
           blendEnable := VK_FALSE
           colorWriteMask := VK_COLOR_COMPONENT_RGBA
           layout := p.createPipelineLayout.handle
           renderPass := self.m_renderPass
           subpass := 0 }
         p.createGraphicsPipelines.handle),
       .check p.createGraphicsPipelines.result ]

/-- The steps of one round of the fence loop of `createQueueAndPool`. -/
def fenceSteps (p : InitPlatform) (self : GfxResources) (n idx : Nat) : List Step :=
  [ .access ⟨.commandBufferFences, idx, n⟩,
    .call (fenceCall p self idx),
    .check (p.createFence idx).result ]

/-- The steps of `createQueueAndPool`. -/
def queueAndPoolSteps (p : InitPlatform) (self : GfxResources) : List Step :=
  [ .call (.vkGetDeviceQueue self.m_device self.m_queueFamilyIndex 0 p.deviceQueue),
    .require (decide (p.deviceQueue ≠ 0)),
    .call (.vkCreateCommandPool self.m_device VK_COMMAND_POOL_CREATE_RESET_COMMAND_BUFFER_BIT
      self.m_queueFamilyIndex p.createCommandPool.handle),
    .check p.createCommandPool.result,
    .require (decide (p.createCommandPool.handle ≠ 0)),
    .call (.vkAllocateCommandBuffers self.m_device p.createCommandPool.handle
      VK_COMMAND_BUFFER_LEVEL_PRIMARY self.m_bufferedFrameResource.bufferCount
      ((List.range self.m_bufferedFrameResource.bufferCount).map p.commandBuffers)),
    .check p.allocateCommandBuffers ]
  ++ (List.range self.m_bufferedFrameResource.bufferCount).flatMap
      (fenceSteps p self self.m_bufferedFrameResource.bufferCount)

/-- The steps of `createSemaphores`. -/
def semaphoresSteps (p : InitPlatform) (self : GfxResources) : List Step :=
  [ .call (.vkCreateSemaphore self.m_device 0 p.createSwapchainImageSemaphore.handle),
    .check p.createSwapchainImageSemaphore.result,
    .call (.vkCreateSemaphore self.m_device 0 p.createCmdBufferSubmitSemaphore.handle),
    .check p.createCmdBufferSubmitSemaphore.result ]

/-- The steps of `create` started on `g`: the steps of its nine stages, each on the
state the stages before it leave. -/
def createSteps (cfg : Config) (gv : GlobalVariables) (p : InitPlatform) (w : Window)
    (g : GfxResources) : List Step :=
  instanceSteps cfg gv p
  ++ (physicalDeviceSteps p (afterInstance cfg p g)
  ++ (surfaceSteps p w (afterPhysicalDevice cfg p g)
  ++ (swapchainSteps p w (afterSurface cfg p g)
  ++ (renderPassSteps p (afterSwapchain cfg p g)
  ++ (framebuffersSteps p w (afterRenderPass cfg p g)
  ++ (pipelineSteps p w (afterFramebuffer cfg p g)
  ++ (queueAndPoolSteps p (afterPipeline cfg p g)
  ++ semaphoresSteps p (afterQueueAndPool cfg p g))))))))

/-- Whether a step stops the run: a failed check or assertion in a build with
assertions, or an access out of range. -/
def Step.stops (cfg : Config) : Step → Bool
  | .call _ => false
  | .check r => cfg.assertsEnabled && decide (r ≠ VK_SUCCESS)
  | .require b => cfg.assertsEnabled && !b
  | .access a => decide (a.size ≤ a.index)

/-- The platform call a step issues, if it is one. -/
def Step.calls : Step → List Call
  | .call c => [c]
  | _ => []

/-- The vector access a step makes, if it is one. -/
def Step.accesses : Step → List Access
  | .access a => [a]
  | _ => []

/-- How the run ends at a step that stops it. -/
def Step.stopOutcome : Step → Outcome Unit
  | .access _ => .undefinedBehaviour
  | _ => .assertFailed

/-- The steps that are run: those up to and including the first that stops the run. -/
def stepsRun (cfg : Config) : List Step → List Step
  | [] => []
  | s :: rest => if s.stops cfg then [s] else s :: stepsRun cfg rest

/-- How a list of steps ends: at its first step that stops the run, else by returning. -/
def stepsOutcome (cfg : Config) : List Step → Outcome Unit
  | [] => .ok ()
  | s :: rest => if s.stops cfg then s.stopOutcome else stepsOutcome cfg rest

/-- The steps of `Renderer::render`. -/
def renderSteps (p : FramePlatform) (w : Window) (g : GfxResources) : List Step :=
  [ .call (.vkAcquireNextImageKHR g.m_device g.m_swapchain 0
      g.m_bufferedFrameResource.swapchainImageSemaphore 0),
    .check p.acquireNextImage,
    .require (decide (p.imageIndex < toUInt32 g.m_bufferedFrameResource.images.length)),
    .access ⟨.framebuffers, p.imageIndex, g.m_bufferedFrameResource.framebuffers.length⟩,
    .access ⟨.commandBuffers, p.imageIndex, g.m_bufferedFrameResource.commandBuffers.length⟩,
    .access ⟨.commandBufferFences, p.imageIndex,
      g.m_bufferedFrameResource.commandBufferFences.length⟩ ]
  ++ ((frameCalls w g p.imageIndex
        (g.m_bufferedFrameResource.framebuffers.getD p.imageIndex 0)
        (g.m_bufferedFrameResource.commandBuffers.getD p.imageIndex 0)
        (g.m_bufferedFrameResource.commandBufferFences.getD p.imageIndex 0)).drop 1).flatMap
      (fun c => Step.call c ::
        (match c with
         | .vkWaitForFences _ _ _ _ => [Step.check p.waitForFences]
         | .vkResetCommandBuffer _ _ => [Step.check p.resetCommandBuffer]
         | .vkBeginCommandBuffer _ _ => [Step.check p.beginCommandBuffer]
         | .vkEndCommandBuffer _ => [Step.check p.endCommandBuffer]
         | .vkQueueSubmit _ _ _ _ _ _ => [Step.check p.queueSubmit]
         | .vkQueuePresentKHR _ _ _ _ => [Step.check p.queuePresent]
         | _ => []))

/-- The vectors with one entry per swapchain image. -/
def Vec.perSlot : Vec → Bool
  | .images | .imageViews | .framebuffers | .commandBuffers | .commandBufferFences => true
  | _ => false

/-- An access that is in range and, on a per-slot vector, at a slot below `n`. -/
def Access.within (n : Nat) (a : Access) : Prop :=
  a.index < a.size ∧ (a.vec.perSlot = true → a.index < n)

/-! ## Sample data -/

def sampleConfig : Config := { assertsEnabled := true, debugValidation := true }

def sampleRelease : Config := { assertsEnabled := false, debugValidation := false }

def sampleWindow : Window :=
  { m_hwnd := 7, m_hinstance := 8, m_width := 800, m_height := 600 }

def sampleFrame : BufferedFrameResource :=
  { bufferCount := 2, images := [10, 11], imageViews := [20, 21], framebuffers := [30, 31],
    commandBuffers := [40, 41], commandBufferFences := [50, 51],
    swapchainImageSemaphore := 60, cmdBufferSubmitSemaphore := 61 }

def sampleResources : GfxResources :=
  { m_instance := 1, m_physicalDevice := 2, m_device := 3, m_surface := 4, m_swapchain := 5,
    m_debugReportCallback := 6, m_renderPass := 7, m_graphicsPipeline := 8,
    m_pipelineLayout := 9, m_queue := 12, m_commandPool := 13, m_queueFamilyIndex := 0,
    m_shader := { vert := 14, frag := 15 }, m_bufferedFrameResource := sampleFrame }

/-- A frame in which every call succeeds and image 1 is acquired. -/
def sampleFramePlatform : FramePlatform :=
  { acquireNextImage := VK_SUCCESS, imageIndex := 1, waitForFences := VK_SUCCESS,
    resetCommandBuffer := VK_SUCCESS, beginCommandBuffer := VK_SUCCESS,
    endCommandBuffer := VK_SUCCESS, resetFences := VK_SUCCESS, queueSubmit := VK_SUCCESS,
    queuePresent := VK_SUCCESS }

def sampleGlobals : GlobalVariables :=
  { applicationName := "Vulkan Triangle", applicationVersion := 1,
    engineName := "Dummy Engine", engineVersion := 1, apiVersion := 1,
    windowWidth := 800, windowHeight := 600 }

/-- A platform on which every call succeeds and that grants two swapchain images. -/
def sampleInit : InitPlatform :=
  { createInstance := ⟨VK_SUCCESS, 100⟩
    hasCreateDebugReportCallback := true
    hasDestroyDebugReportCallback := true
    createDebugReportCallback := ⟨VK_SUCCESS, 101⟩
    enumeratePhysicalDevices := VK_SUCCESS
    physicalDevices := [102]
    queueFamilyProperties := [2, 3]
    createDevice := ⟨VK_SUCCESS, 103⟩
    presentationSupport := 1
    createSurface := ⟨VK_SUCCESS, 104⟩
    getSurfaceCapabilities := VK_SUCCESS
    getSurfaceFormatsCount := VK_SUCCESS
    getSurfaceFormats := VK_SUCCESS
    surfaceFormats := [(44, 0)]
    getPresentModesCount := VK_SUCCESS
    getPresentModes := VK_SUCCESS
    presentModes := [2]
    getSurfaceSupport := VK_SUCCESS
    surfaceSupported := 1
    createSwapchain := ⟨VK_SUCCESS, 105⟩
    getSwapchainImagesCount := VK_SUCCESS
    swapchainImageCount := 2
    getSwapchainImages := VK_SUCCESS
    swapchainImagesWritten := 2
    swapchainImages := fun i => 200 + i
    createImageView := fun i => ⟨VK_SUCCESS, 300 + i⟩
    createRenderPass := ⟨VK_SUCCESS, 106⟩
    createFramebuffer := fun i => ⟨VK_SUCCESS, 400 + i⟩
    files := fun _ => some 64
    createShaderModule := fun path =>
      ⟨VK_SUCCESS, if path = "shaders/triangle.vert.spv" then 501 else 502⟩
    createPipelineLayout := ⟨VK_SUCCESS, 107⟩
    createGraphicsPipelines := ⟨VK_SUCCESS, 108⟩
    deviceQueue := 109
    createCommandPool := ⟨VK_SUCCESS, 110⟩
    allocateCommandBuffers := VK_SUCCESS
    commandBuffers := fun i => 600 + i
    createFence := fun i => ⟨VK_SUCCESS, 700 + i⟩
    createSwapchainImageSemaphore := ⟨VK_SUCCESS, 111⟩
    createCmdBufferSubmitSemaphore := ⟨VK_SUCCESS, 112⟩ }

/-- The sample platform with the fragment shader file missing. -/
def sampleMissingShader : InitPlatform :=
  { sampleInit with
    files := fun path => if path = "shaders/triangle.frag.spv" then none else some 64 }

/-- The platform calls that return a `VkResult` status (the others return nothing, a
boolean, a queue or a function pointer). -/
def Call.returnsStatus : Call → Bool
  | .vkGetInstanceProcAddr .. | .vkGetPhysicalDeviceProperties ..
  | .vkGetPhysicalDeviceQueueFamilyProperties ..
  | .vkGetPhysicalDeviceWin32PresentationSupportKHR .. | .vkGetDeviceQueue ..
  | .vkCmdBeginRenderPass .. | .vkCmdBindPipeline .. | .vkCmdDraw .. | .vkCmdEndRenderPass ..
  | .vkDestroyShaderModule .. | .vkDestroyPipelineLayout .. | .vkDestroyPipeline ..
  | .vkDestroyImageView .. | .vkDestroyFramebuffer .. | .vkDestroyFence ..
  | .vkFreeCommandBuffers .. | .vkDestroyCommandPool .. | .vkDestroySemaphore ..
  | .vkDestroyRenderPass .. | .vkDestroySwapchainKHR .. | .vkDestroySurfaceKHR ..
  | .vkDestroyDevice .. | .fvkDestroyDebugReportCallbackEXT .. | .vkDestroyInstance ..
  | .vkDestroyImage .. => false
  | _ => true

/-- A list of steps in which every status-returning call is followed at once by the check
of a status: the list is made of pairs call-check, of calls that return no status, and of
steps that are no calls. -/
inductive ChecksFollow : List Step → Prop where
  | nil : ChecksFollow []
  | checked (c : Call) (r : VkResult) (rest : List Step) :
      ChecksFollow rest → ChecksFollow (.call c :: .check r :: rest)
  | plain (c : Call) (rest : List Step) :
      c.returnsStatus = false → ChecksFollow rest → ChecksFollow (.call c :: rest)
  | other (s : Step) (rest : List Step) :
      (∀ c, s ≠ .call c) → ChecksFollow rest → ChecksFollow (s :: rest)

/-- Every status `create` looks at is `VK_SUCCESS`, and presentation support is reported. -/
def InitPlatform.checkedSuccess (cfg : Config) (p : InitPlatform) (g : GfxResources) : Prop :=
  p.createInstance.result = VK_SUCCESS
    ∧ (cfg.debugValidation = true → p.createDebugReportCallback.result = VK_SUCCESS)
    ∧ p.enumeratePhysicalDevices = VK_SUCCESS ∧ p.createDevice.result = VK_SUCCESS
    ∧ p.presentationSupport ≠ 0 ∧ p.createSurface.result = VK_SUCCESS
    ∧ p.getSurfaceCapabilities = VK_SUCCESS ∧ p.getSurfaceFormatsCount = VK_SUCCESS
    ∧ p.getSurfaceFormats = VK_SUCCESS ∧ p.getPresentModesCount = VK_SUCCESS
    ∧ p.getPresentModes = VK_SUCCESS ∧ p.getSurfaceSupport = VK_SUCCESS
    ∧ p.createSwapchain.result = VK_SUCCESS ∧ p.getSwapchainImagesCount = VK_SUCCESS
    ∧ p.getSwapchainImages = VK_SUCCESS
    ∧ (∀ i, i < p.swapchainImagesWritten → (p.createImageView i).result = VK_SUCCESS)
    ∧ p.createRenderPass.result = VK_SUCCESS
    ∧ (∀ i, i < p.swapchainImagesWritten → (p.createFramebuffer i).result = VK_SUCCESS)
    ∧ (p.createShaderModule g.c_vertexShader).result = VK_SUCCESS
    ∧ (p.createShaderModule g.c_fragmentShader).result = VK_SUCCESS
    ∧ p.createPipelineLayout.result = VK_SUCCESS
    ∧ p.createGraphicsPipelines.result = VK_SUCCESS
    ∧ p.createCommandPool.result = VK_SUCCESS ∧ p.allocateCommandBuffers = VK_SUCCESS
    ∧ (∀ i, i < p.swapchainImagesWritten → (p.createFence i).result = VK_SUCCESS)
    ∧ p.createSwapchainImageSemaphore.result = VK_SUCCESS
    ∧ p.createCmdBufferSubmitSemaphore.result = VK_SUCCESS

/-- The sample platform with `vkCreateDevice` reporting a failure. -/
def sampleDeviceFails : InitPlatform :=
  { sampleInit with createDevice := ⟨VK_ERROR_DEVICE_LOST, 103⟩ }

/-- The status `vkEnumeratePhysicalDevices` reports when it is asked for at most `capacity`
of the platform's devices (Vulkan API): `VK_INCOMPLETE` when there are more devices than
that, `VK_SUCCESS` otherwise. -/
def enumerateStatus (devices : List Handle) (capacity : Nat) : VkResult :=
  if capacity < devices.length then VK_INCOMPLETE else VK_SUCCESS

/-- The sample platform with two physical devices: asked for one, the enumeration
reports `VK_INCOMPLETE`. -/
def sampleTwoDevices : InitPlatform :=
  { sampleInit with
    physicalDevices := [102, 113]
    enumeratePhysicalDevices := enumerateStatus [102, 113] 1 }

/-- The sample platform with no physical device: the enumeration reports `VK_SUCCESS`
and writes nothing, and no queue family is reported for the null handle the queries are
then made with. -/
def sampleNoDevice : InitPlatform :=
  { sampleInit with
    physicalDevices := []
    enumeratePhysicalDevices := enumerateStatus [] 1
    queueFamilyProperties := [] }

/-- The twelve calls of a frame on slot `i` of `g`, with the entries of the per-slot
vectors at `i`. -/
def slotCalls (w : Window) (g : GfxResources) (i : Nat) : List Call :=
  frameCalls w g i (g.m_bufferedFrameResource.framebuffers.getD i 0)
    (g.m_bufferedFrameResource.commandBuffers.getD i 0)
    (g.m_bufferedFrameResource.commandBufferFences.getD i 0)

/-- Consecutive calls of `render`, one per frame, each on the state the frame before it
returned, as the loop of `Engine::run` makes them; a frame is the platform's answers and
the window of that frame. -/
def renderFrames (cfg : Config) : List (FramePlatform × Window) → GfxResources →
    Exec GfxResources
  | [], g => Exec.pure g
  | fr :: rest, g => Exec.bind (Renderer.render cfg fr.1 fr.2 g) (renderFrames cfg rest)

/-- The semaphores a call names: the one an acquire signals, the ones a submit waits on
and signals, the ones a present waits on, the one a creation returns or a destruction is
given. -/
def Call.semaphores : Call → List Handle
  | .vkAcquireNextImageKHR _ _ _ sem _ => [sem]
  | .vkQueueSubmit _ ws _ _ ss _ => ws ++ ss
  | .vkQueuePresentKHR _ ws _ _ => ws
  | .vkCreateSemaphore _ _ out => [out]
  | .vkDestroySemaphore _ h => [h]
  | _ => []

/-- Two frames on the sample resources: image 1, then image 0. -/
def sampleFrames : List (FramePlatform × Window) :=
  [(sampleFramePlatform, sampleWindow),
   ({ sampleFramePlatform with imageIndex := 0 }, sampleWindow)]

/-- In a sequence of calls every fence reset names one fence and is followed at once by
a queue submit that is handed that fence. -/
def ResetThenSubmit (l : List Call) : Prop :=
  ∀ (j : Nat) (d : Handle) (fs : List Handle), l[j]? = some (.vkResetFences d fs) →
    ∃ f q ws st cbs ss, fs = [f] ∧ l[j + 1]? = some (.vkQueueSubmit q ws st cbs ss f)

/-- A frame in which the fence reset fails and every other call succeeds. -/
def sampleResetFails : FramePlatform :=
  { sampleFramePlatform with resetFences := VK_ERROR_DEVICE_LOST }

/-- The sample platform reporting no surface format. -/
def sampleNoFormat : InitPlatform := { sampleInit with surfaceFormats := [] }

/-! ## `Engine` and `Window` -/

/-- The window messages `Window::update` compares with (winuser.h). -/
def WM_CLOSE : Nat := 0x0010

def WM_QUIT : Nat := 0x0012

/-- What the Win32 calls of the constructor of `Window` return. -/
structure WindowPlatform where
  /-- The module handle from `GetModuleHandle`. -/
  moduleHandle : Handle
  /-- The class atom from `RegisterClassEx`. -/
  registerClass : Nat
  /-- The `BOOL` from `AdjustWindowRectEx`. -/
  adjustWindowRect : Bool
  /-- The window handle from `CreateWindowEx`. -/
  createWindow : Handle
deriving DecidableEq, Repr

/-- The constructor `Window::Window` (Window.cpp:29-74). -/
def Window.new (cfg : Config) (wp : WindowPlatform) (width height : Nat) (name : String) :
    Exec Window := do
  let m_hinstance := wp.moduleHandle
  let res := wp.registerClass
  assert cfg (decide (res > 0))
  let success := wp.adjustWindowRect
  assert cfg success
  let m_hwnd := wp.createWindow
  assert cfg (decide (m_hwnd ≠ 0))
  pure { m_hwnd := m_hwnd, m_hinstance := m_hinstance, m_width := width, m_height := height,
         m_name := name }

/-- The function `Window::update` (Window.cpp:82-95); `msg` is the identifier of the
message `PeekMessage` retrieved, if there was one. -/
def Window.update (msg : Option Nat) (w : Window) : Window :=
  match msg with
  | some message =>
    if message = WM_QUIT ∨ message = WM_CLOSE then { w with m_closeWindow := true } else w
  | none => w

/-- The Win32 calls of the destructor of `Window`. -/
inductive Win32Call where
  | DestroyWindow (hwnd : Handle)
  | UnregisterClass (className : String) (hinstance : Handle)
deriving DecidableEq, Repr

/-- The destructor `Window::~Window` (Window.cpp:76-80). -/
def Window.destruct (w : Window) : List Win32Call :=
  [.DestroyWindow w.m_hwnd, .UnregisterClass w.m_name w.m_hinstance]

/-- The destructor `GfxResources::~GfxResources` (GfxResources.cpp:96-99). -/
def GfxResources.destruct (cfg : Config) (self : GfxResources) : Exec Unit :=
  GfxResources.destroy cfg self

/-- The class `Engine` (Engine.h:18-35) once `init` has run: the objects its members
`m_gfxResources` and `m_window` own. The third member, `m_renderer`, owns a `Renderer`,
which holds nothing but pointers to the other two objects. -/
structure Engine where
  m_gfxResources : GfxResources
  m_window : Window
deriving DecidableEq, Repr

/-- The function `Engine::init` (Engine.cpp:28-40). -/
def Engine.init (cfg : Config) (gv : GlobalVariables) (wp : WindowPlatform)
    (p : InitPlatform) : Exec Engine := do
  let gv := { gv with applicationName := "Vulkan Triangle", engineName := "Dummy Engine" }
  let m_window ← Window.new cfg wp gv.windowWidth gv.windowHeight gv.applicationName
  let m_gfxResources ← GfxResources.new cfg gv p m_window
  pure { m_gfxResources := m_gfxResources, m_window := m_window }

/-- What the loop of `Engine::run` does, as seen from outside: a read of the close flag
with the value read, a window update with the message it retrieved, a call of `render`
with the platform calls it issued. -/
inductive LoopEvent where
  | shouldClose (flag : Bool)
  | update (msg : Option Nat)
  | render (calls : List Call)
deriving Repr

/-- A run of `Engine::run`: what the loop did, in order, and how it ended; the outcome
is `none` when the inputs ran out with the loop still running. -/
structure EngineRun where
  events : List LoopEvent
  outcome : Option (Outcome Engine)

/-- The function `Engine::run` (Engine.cpp:42-49). Each round that starts takes one input:
the message its `update` retrieves and what the platform answers to its `render`. -/
def Engine.run (cfg : Config) : List (Option Nat × FramePlatform) → Engine → EngineRun
  | [], e =>
    if e.m_window.shouldClose then ⟨[.shouldClose true], some (.ok e)⟩ else ⟨[], none⟩
  | (msg, fp) :: rest, e =>
    if e.m_window.shouldClose then ⟨[.shouldClose true], some (.ok e)⟩
    else
      let m_window := e.m_window.update msg
      let frame := Renderer.render cfg fp m_window e.m_gfxResources
      match frame.outcome with
      | .ok m_gfxResources =>
        let r := Engine.run cfg rest { m_gfxResources := m_gfxResources, m_window := m_window }
        ⟨.shouldClose false :: .update msg :: .render frame.calls :: r.events, r.outcome⟩
      | .assertFailed =>
        ⟨[.shouldClose false, .update msg, .render frame.calls], some .assertFailed⟩
      | .undefinedBehaviour =>
        ⟨[.shouldClose false, .update msg, .render frame.calls], some .undefinedBehaviour⟩

/-- The data members of `Engine`. -/
inductive EngineMember where
  | m_gfxResources | m_renderer | m_window
deriving DecidableEq, Repr

/-- The data members of `Engine` in the order of their declaration (Engine.h:31-34). -/
def Engine.members : List EngineMember := [.m_gfxResources, .m_renderer, .m_window]

/-- A call to the operating system or to the graphics platform. -/
inductive SysCall where
  | win32 (c : Win32Call)
  | vulkan (c : Call)
deriving Repr

/-- Destroying one member of an `Engine`: the `std::unique_ptr` deletes the object it
owns, which runs the destructor of that object; the destructor of `Renderer` is defaulted
(Renderer.h:24) and its members are raw pointers. -/
def Engine.destroyMember (cfg : Config) (e : Engine) : EngineMember → List SysCall
  | .m_gfxResources => (GfxResources.destruct cfg e.m_gfxResources).calls.map SysCall.vulkan
  | .m_renderer => []
  | .m_window => e.m_window.destruct.map SysCall.win32

/-- The destructor `Engine::~Engine` (Engine.cpp:23-26): the body is empty, then the
members are destroyed in the reverse of the order of their declaration. -/
def Engine.destruct (cfg : Config) (e : Engine) : List SysCall :=
  Engine.members.reverse.flatMap (e.destroyMember cfg)

/-- Whether an event of the loop is a call of `render`. -/
def LoopEvent.isRender : LoopEvent → Bool
  | .render _ => true
  | _ => false

/-- Whether an event of the loop is a window update. -/
def LoopEvent.isUpdate : LoopEvent → Bool
  | .update _ => true
  | _ => false

/-- The shape of what the loop does: rounds of a flag read as clear, an update and a
`render`, where a round followed by anything has a `render` of all twelve calls; the
rounds are followed by a flag read as set or by nothing. -/
inductive LoopShape : List LoopEvent → Prop where
  | cut : LoopShape []
  | stop : LoopShape [.shouldClose true]
  | aborted (msg : Option Nat) (calls : List Call) :
      LoopShape [.shouldClose false, .update msg, .render calls]
  | round (msg : Option Nat) (calls : List Call) (rest : List LoopEvent) :
      calls.map Call.name = renderProtocol → LoopShape rest →
      LoopShape (.shouldClose false :: .update msg :: .render calls :: rest)

/-- A window on which a closing message arrives in the second round. -/
def sampleLoopInputs : List (Option Nat × FramePlatform) :=
  [(none, sampleFramePlatform), (some WM_QUIT, { sampleFramePlatform with imageIndex := 0 }),
   (none, sampleFramePlatform)]

/-- What the Win32 calls answer when the sample window is made. -/
def sampleWindowPlatform : WindowPlatform :=
  { moduleHandle := 8, registerClass := 1, adjustWindowRect := true, createWindow := 7 }

/-- The sample engine: the sample resources and the sample window. -/
def sampleEngine : Engine := { m_gfxResources := sampleResources, m_window := sampleWindow }

/-- The message a window update retrieved, for an event that is an update. -/
def LoopEvent.updates : LoopEvent → List (Option Nat)
  | .update msg => [msg]
  | _ => []

/-- The create info and the handle written, for a call that creates a framebuffer. -/
def Call.framebufferCreated : Call → List (FramebufferCreateInfo × Handle)
  | .vkCreateFramebuffer _ info out => [(info, out)]
  | _ => []

/-- The image viewed and the handle written, for a call that creates an image view. -/
def Call.imageViewCreated : Call → List (Handle × Handle)
  | .vkCreateImageView _ info out => [(info.image, out)]
  | _ => []

/-- The objects a call is handed: its object-valued arguments, each with its kind. A
physical device and a swapchain image are not made by a call of the program, and a null
pointer (the pipeline cache, the old swapchain, the fence of the acquire) names no object,
so these arguments are not listed. -/
def Call.refers : Call → List Obj
  | .vkCreateInstance _ _ _ _ _ => []
  | .vkGetInstanceProcAddr inst _ => [⟨.inst, inst⟩]
  | .fvkCreateDebugReportCallbackEXT inst _ _ => [⟨.inst, inst⟩]
  | .vkEnumeratePhysicalDevices inst _ => [⟨.inst, inst⟩]
  | .vkGetPhysicalDeviceProperties _ => []
  | .vkGetPhysicalDeviceQueueFamilyProperties _ _ _ => []
  | .vkCreateDevice _ _ _ _ _ => []
  | .vkGetPhysicalDeviceWin32PresentationSupportKHR _ _ => []
  | .vkCreateWin32SurfaceKHR inst _ _ _ => [⟨.inst, inst⟩]
  | .vkGetPhysicalDeviceSurfaceCapabilitiesKHR _ surface => [⟨.surface, surface⟩]
  | .vkGetPhysicalDeviceSurfaceFormatsKHR _ surface _ _ => [⟨.surface, surface⟩]
  | .vkGetPhysicalDeviceSurfacePresentModesKHR _ surface _ _ => [⟨.surface, surface⟩]
  | .vkGetPhysicalDeviceSurfaceSupportKHR _ _ surface => [⟨.surface, surface⟩]
  | .vkCreateSwapchainKHR device info _ => [⟨.device, device⟩, ⟨.surface, info.surface⟩]
  | .vkGetSwapchainImagesKHR device swapchain _ _ =>
    [⟨.device, device⟩, ⟨.swapchain, swapchain⟩]
  | .vkCreateImageView device _ _ => [⟨.device, device⟩]
  | .vkCreateRenderPass device _ _ _ _ => [⟨.device, device⟩]
  | .vkCreateFramebuffer device info _ =>
    ⟨.device, device⟩ :: ⟨.renderPass, info.renderPass⟩
      :: info.attachments.map (fun v => ⟨.imageView, v⟩)
  | .vkCreateShaderModule device _ _ => [⟨.device, device⟩]
  | .vkCreatePipelineLayout device _ _ _ => [⟨.device, device⟩]
  | .vkCreateGraphicsPipelines device _ _ info _ =>
    ⟨.device, device⟩ :: ⟨.pipelineLayout, info.layout⟩ :: ⟨.renderPass, info.renderPass⟩
      :: info.stages.map (fun st => ⟨.shaderModule, st.2.1⟩)
  | .vkGetDeviceQueue device _ _ _ => [⟨.device, device⟩]
  | .vkCreateCommandPool device _ _ _ => [⟨.device, device⟩]
  | .vkAllocateCommandBuffers device commandPool _ _ _ =>
    [⟨.device, device⟩, ⟨.commandPool, commandPool⟩]
  | .vkCreateFence device _ _ => [⟨.device, device⟩]
  | .vkCreateSemaphore device _ _ => [⟨.device, device⟩]
  | .vkAcquireNextImageKHR device swapchain _ semaphore _ =>
    [⟨.device, device⟩, ⟨.swapchain, swapchain⟩, ⟨.semaphore, semaphore⟩]
  | .vkWaitForFences device fences _ _ =>
    ⟨.device, device⟩ :: fences.map (fun f => ⟨.fence, f⟩)
  | .vkResetCommandBuffer commandBuffer _ => [⟨.commandBuffer, commandBuffer⟩]
  | .vkBeginCommandBuffer commandBuffer _ => [⟨.commandBuffer, commandBuffer⟩]
  | .vkCmdBeginRenderPass commandBuffer renderPass framebuffer _ _ _ _ _ _ =>
    [⟨.commandBuffer, commandBuffer⟩, ⟨.renderPass, renderPass⟩, ⟨.framebuffer, framebuffer⟩]
  | .vkCmdBindPipeline commandBuffer _ pipeline =>
    [⟨.commandBuffer, commandBuffer⟩, ⟨.pipeline, pipeline⟩]
  | .vkCmdDraw commandBuffer _ _ _ _ => [⟨.commandBuffer, commandBuffer⟩]
  | .vkCmdEndRenderPass commandBuffer => [⟨.commandBuffer, commandBuffer⟩]
  | .vkEndCommandBuffer commandBuffer => [⟨.commandBuffer, commandBuffer⟩]
  | .vkResetFences device fences => ⟨.device, device⟩ :: fences.map (fun f => ⟨.fence, f⟩)
  | .vkQueueSubmit _ waitSemaphores _ commandBuffers signalSemaphores fence =>
    waitSemaphores.map (fun s => ⟨.semaphore, s⟩)
      ++ commandBuffers.map (fun c => ⟨.commandBuffer, c⟩)
      ++ signalSemaphores.map (fun s => ⟨.semaphore, s⟩) ++ [⟨.fence, fence⟩]
  | .vkQueuePresentKHR _ waitSemaphores swapchains _ =>
    waitSemaphores.map (fun s => ⟨.semaphore, s⟩)
      ++ swapchains.map (fun s => ⟨.swapchain, s⟩)
  | .vkDeviceWaitIdle device => [⟨.device, device⟩]
  | .vkDestroyShaderModule device h => [⟨.device, device⟩, ⟨.shaderModule, h⟩]
  | .vkDestroyPipelineLayout device h => [⟨.device, device⟩, ⟨.pipelineLayout, h⟩]
  | .vkDestroyPipeline device h => [⟨.device, device⟩, ⟨.pipeline, h⟩]
  | .vkDestroyImageView device h => [⟨.device, device⟩, ⟨.imageView, h⟩]
  | .vkDestroyFramebuffer device h => [⟨.device, device⟩, ⟨.framebuffer, h⟩]
  | .vkDestroyFence device h => [⟨.device, device⟩, ⟨.fence, h⟩]
  | .vkFreeCommandBuffers device commandPool _ hs =>
    ⟨.device, device⟩ :: ⟨.commandPool, commandPool⟩ :: hs.map (fun h => ⟨.commandBuffer, h⟩)
  | .vkDestroyCommandPool device h => [⟨.device, device⟩, ⟨.commandPool, h⟩]
  | .vkDestroySemaphore device h => [⟨.device, device⟩, ⟨.semaphore, h⟩]
  | .vkDestroyRenderPass device h => [⟨.device, device⟩, ⟨.renderPass, h⟩]
  | .vkDestroySwapchainKHR device h => [⟨.device, device⟩, ⟨.swapchain, h⟩]
  | .vkDestroySurfaceKHR inst h => [⟨.inst, inst⟩, ⟨.surface, h⟩]
  | .vkDestroyDevice h => [⟨.device, h⟩]
  | .fvkDestroyDebugReportCallbackEXT inst h => [⟨.inst, inst⟩, ⟨.debugCallback, h⟩]
  | .vkDestroyInstance h => [⟨.inst, h⟩]
  | .vkDestroyImage device _ => [⟨.device, device⟩]

/-- Every object a call of the sequence is handed is among `known` or was created by an
earlier call of the sequence. -/
def RefersCreated : List Obj → List Call → Prop
  | _, [] => True
  | known, c :: rest => (∀ o ∈ c.refers, o ∈ known) ∧ RefersCreated (known ++ c.creates) rest

/-- The calls of `create` up to the second shader module: those before the creation of the
pipeline layout. -/
def callsBeforePipelineLayout (cfg : Config) (gv : GlobalVariables) (p : InitPlatform)
    (w : Window) (g : GfxResources) : List Call :=
  instanceCalls cfg gv p
  ++ physicalDeviceCalls p (afterInstance cfg p g)
  ++ surfaceCalls p w (afterPhysicalDevice cfg p g)
  ++ swapchainCalls p w (afterSurface cfg p g)
  ++ renderPassCalls p (afterSwapchain cfg p g)
  ++ framebufferCalls p w (afterRenderPass cfg p g)
  ++ (shaderModuleCalls p (afterFramebuffer cfg p g).m_device
        (afterFramebuffer cfg p g).c_vertexShader
      ++ shaderModuleCalls p (afterFramebuffer cfg p g).m_device
        (afterFramebuffer cfg p g).c_fragmentShader)

/-- A frame in which the wait on the slot's fence times out and every other call
succeeds. -/
def sampleWaitTimesOut : FramePlatform :=
  { sampleFramePlatform with waitForFences := VK_TIMEOUT }

/-- What the assertions of `create` ask of the platform besides the statuses: the two
debug-report entry points are found (debug build), a queue family with graphics capability
exists, presentation is supported, at least one surface format and one present mode are
reported, the surface is supported by the queue family, the device, the queue and the
command pool are not null; and the second query of the swapchain images writes as many
images as the first one counted. -/
def InitPlatform.requirementsMet (cfg : Config) (p : InitPlatform) (g : GfxResources) : Prop :=
  (cfg.debugValidation = true →
      p.hasCreateDebugReportCallback = true ∧ p.hasDestroyDebugReportCallback = true)
    ∧ firstGraphicsFrom p.queueFamilyProperties p.queueFamilyProperties.length 0
        g.m_queueFamilyIndex ≠ 2 ^ 32 - 1
    ∧ p.presentationSupport ≠ 0 ∧ p.surfaceFormats ≠ [] ∧ p.presentModes ≠ []
    ∧ p.surfaceSupported = VK_TRUE ∧ p.createDevice.handle ≠ 0 ∧ p.deviceQueue ≠ 0
    ∧ p.createCommandPool.handle ≠ 0
    ∧ p.swapchainImageCount = p.swapchainImagesWritten

/-- A window `2 ^ 24 + 1` pixels wide. -/
def sampleWideWindow : Window := { sampleWindow with m_width := 16777217 }

/-- The objects made by the calls of a list of steps that succeeded: the object a
creating call hands back counts only when the status checked right after the call is
`VK_SUCCESS`; a call whose status is not checked right after it counts only when it
returns no status. -/
def succeededObjects : List Step → List Obj
  | [] => []
  | .call c :: rest =>
    (match rest.head? with
     | some (.check r) => if r = VK_SUCCESS then c.creates else []
     | _ => if c.returnsStatus then [] else c.creates) ++ succeededObjects rest
  | .check _ :: rest => succeededObjects rest
  | .require _ :: rest => succeededObjects rest
  | .access _ :: rest => succeededObjects rest

/-! ## Basic facts about runs -/

theorem bind_eq {α β : Type} (m : Exec α) (f : α → Exec β) : (m >>= f) = Exec.bind m f := rfl

theorem pure_eq {α : Type} (a : α) : (pure a : Exec α) = Exec.pure a := rfl

section
variable {α β : Type}

@[simp] theorem calls_pure (a : α) : (Exec.pure a).calls = [] := rfl
@[simp] theorem accesses_pure (a : α) : (Exec.pure a).accesses = [] := rfl
@[simp] theorem outcome_pure (a : α) : (Exec.pure a).outcome = .ok a := rfl

@[simp] theorem calls_issue_bind (c : Call) (f : Unit → Exec β) :
    (Exec.bind (issue c) f).calls = c :: (f ()).calls := rfl
@[simp] theorem accesses_issue_bind (c : Call) (f : Unit → Exec β) :
    (Exec.bind (issue c) f).accesses = (f ()).accesses := rfl
@[simp] theorem outcome_issue_bind (c : Call) (f : Unit → Exec β) :
    (Exec.bind (issue c) f).outcome = (f ()).outcome := rfl

@[simp] theorem pure_bind_eq (a : α) (f : α → Exec β) : Exec.bind (Exec.pure a) f = f a := rfl

theorem assert_bind (cfg : Config) (b : Bool) (f : Unit → Exec β) :
    Exec.bind (assert cfg b) f
      = if cfg.assertsEnabled = true ∧ b = false then ⟨[], [], .assertFailed⟩ else f () := by
  unfold assert
  cases cfg.assertsEnabled <;> cases b <;> rfl

theorem readAt_bind (v : Vec) (xs : List α) (i : Nat) (f : α → Exec β) :
    Exec.bind (readAt v xs i) f
      = match xs[i]? with
        | some a => ⟨(f a).calls, ⟨v, i, xs.length⟩ :: (f a).accesses, (f a).outcome⟩
        | none => ⟨[], [⟨v, i, xs.length⟩], .undefinedBehaviour⟩ := by
  unfold readAt
  cases xs[i]? <;> rfl
end

theorem render_eq_of_slot (cfg : Config) (p : FramePlatform) (w : Window) (g : GfxResources)
    (fb cb f : Handle)
    (hfb : g.m_bufferedFrameResource.framebuffers[p.imageIndex]? = some fb)
    (hcb : g.m_bufferedFrameResource.commandBuffers[p.imageIndex]? = some cb)
    (hf : g.m_bufferedFrameResource.commandBufferFences[p.imageIndex]? = some f) :
    (Renderer.render cfg p w g).calls
        = (frameCalls w g p.imageIndex fb cb f).take (frameCut cfg p g)
      ∧ (Renderer.render cfg p w g).outcome
        = if frameStopped cfg p g then .assertFailed
          else .ok (g.withBufferIndex p.imageIndex) := by
  simp only [Renderer.render, bind_eq, pure_eq, CHECK_VK_RESULT_SUCCESS, assert_bind, readAt_bind,
    GfxResources.getDevice, GfxResources.getSwapchain,
    GfxResources.getRenderPass, GfxResources.getGraphicsPipeline, GfxResources.getQueue,
    GfxResources.getBufferedFrameResource, Window.getWidth, Window.getHeight, calls_issue_bind,
    outcome_issue_bind,
    hfb, hcb, hf, frameCalls, frameCut, frameStopped, GfxResources.withBufferIndex]
  cases hc : cfg.assertsEnabled
  · simp
  · simp
    split_ifs <;> simp_all <;> omega

theorem render_eq_of_no_slot (cfg : Config) (p : FramePlatform) (w : Window) (g : GfxResources)
    (h : g.m_bufferedFrameResource.framebuffers[p.imageIndex]? = none
      ∨ g.m_bufferedFrameResource.commandBuffers[p.imageIndex]? = none
      ∨ g.m_bufferedFrameResource.commandBufferFences[p.imageIndex]? = none) :
    (Renderer.render cfg p w g).calls
        = [.vkAcquireNextImageKHR g.m_device g.m_swapchain 0
            g.m_bufferedFrameResource.swapchainImageSemaphore 0]
      ∧ (Renderer.render cfg p w g).outcome
        = if cfg.assertsEnabled = true ∧ (p.acquireNextImage ≠ VK_SUCCESS
              ∨ ¬ p.imageIndex < toUInt32 g.m_bufferedFrameResource.images.length)
          then .assertFailed else .undefinedBehaviour := by
  simp only [Renderer.render, bind_eq, pure_eq, CHECK_VK_RESULT_SUCCESS, assert_bind, readAt_bind,
    GfxResources.getDevice, GfxResources.getSwapchain,
    GfxResources.getRenderPass, GfxResources.getGraphicsPipeline, GfxResources.getQueue,
    GfxResources.getBufferedFrameResource, Window.getWidth, Window.getHeight, calls_issue_bind,
    outcome_issue_bind]
  cases hc : cfg.assertsEnabled <;>
  cases hfb : g.m_bufferedFrameResource.framebuffers[p.imageIndex]? <;>
  cases hcb : g.m_bufferedFrameResource.commandBuffers[p.imageIndex]? <;>
  cases hf : g.m_bufferedFrameResource.commandBufferFences[p.imageIndex]? <;>
  simp_all <;> split_ifs <;> simp_all <;> omega

theorem map_name_frameCalls (w : Window) (g : GfxResources) (i : Nat) (fb cb f : Handle) :
    (frameCalls w g i fb cb f).map Call.name = renderProtocol := rfl

theorem frameCut_le (cfg : Config) (p : FramePlatform) (g : GfxResources) :
    frameCut cfg p g ≤ 12 := by
  unfold frameCut; split_ifs <;> omega

theorem frameCut_eq_of_not_stopped (cfg : Config) (p : FramePlatform) (g : GfxResources)
    (h : ¬ frameStopped cfg p g) : frameCut cfg p g = 12 := by
  unfold frameStopped at h
  unfold frameCut
  cases hc : cfg.assertsEnabled <;> simp_all

theorem slot_of_getElem? {xs : List Handle} {i : Nat} (h : i < xs.length) :
    ∃ a, xs[i]? = some a := ⟨xs[i], List.getElem?_eq_getElem h⟩

/-- C1: in a frame in which every platform call reports success the calls are issued
in the order acquire, wait for the slot fence, reset, begin, begin render pass, bind,
draw, end render pass, end, reset fence, submit, present: the calls issued are an initial
segment of that sequence, and all twelve of them, each once, when the acquired index names
a slot. -/
theorem render_calls_in_protocol_order (cfg : Config) (p : FramePlatform) (w : Window)
    (g : GfxResources) (hs : p.allSuccess) :
    (Renderer.render cfg p w g).calls.map Call.name <+: renderProtocol
      ∧ (SlotExists g p.imageIndex →
          (Renderer.render cfg p w g).calls.map Call.name = renderProtocol
            ∧ (Renderer.render cfg p w g).outcome = .ok (g.withBufferIndex p.imageIndex)) := by
  obtain ⟨h1, h2, h3, h4, h5, h6, h7, h8⟩ := hs
  cases hfb : g.m_bufferedFrameResource.framebuffers[p.imageIndex]? with
  | none =>
    have h := render_eq_of_no_slot cfg p w g (Or.inl hfb)
    refine ⟨by rw [h.1]; exact ⟨_, rfl⟩, fun hslot => ?_⟩
    rw [List.getElem?_eq_none_iff] at hfb
    have := hslot.2.1
    omega
  | some fb =>
    cases hcb : g.m_bufferedFrameResource.commandBuffers[p.imageIndex]? with
    | none =>
      have h := render_eq_of_no_slot cfg p w g (Or.inr (Or.inl hcb))
      refine ⟨by rw [h.1]; exact ⟨_, rfl⟩, fun hslot => ?_⟩
      rw [List.getElem?_eq_none_iff] at hcb
      have := hslot.2.2.1
      omega
    | some cb =>
      cases hf : g.m_bufferedFrameResource.commandBufferFences[p.imageIndex]? with
      | none =>
        have h := render_eq_of_no_slot cfg p w g (Or.inr (Or.inr hf))
        refine ⟨by rw [h.1]; exact ⟨_, rfl⟩, fun hslot => ?_⟩
        rw [List.getElem?_eq_none_iff] at hf
        have := hslot.2.2.2
        omega
      | some f =>
        have h := render_eq_of_slot cfg p w g fb cb f hfb hcb hf
        refine ⟨?_, fun hslot => ?_⟩
        · rw [h.1, List.map_take, map_name_frameCalls]
          exact List.take_prefix _ _
        · have hns : ¬ frameStopped cfg p g := by
            unfold frameStopped
            have := hslot.1
            simp_all
          rw [h.1, h.2, frameCut_eq_of_not_stopped cfg p g hns, if_neg hns]
          exact ⟨rfl, rfl⟩

theorem sampleFramePlatform_allSuccess : sampleFramePlatform.allSuccess := by
  simp [FramePlatform.allSuccess, sampleFramePlatform]

theorem sample_slotExists : SlotExists sampleResources sampleFramePlatform.imageIndex := by
  simp [SlotExists, sampleResources, sampleFrame, sampleFramePlatform, toUInt32]

theorem render_calls_in_protocol_order_witness :
    sampleFramePlatform.allSuccess ∧ SlotExists sampleResources sampleFramePlatform.imageIndex
      ∧ (Renderer.render sampleConfig sampleFramePlatform sampleWindow sampleResources).calls.map
          Call.name = renderProtocol :=
  ⟨sampleFramePlatform_allSuccess, sample_slotExists,
    ((render_calls_in_protocol_order sampleConfig sampleFramePlatform sampleWindow
      sampleResources sampleFramePlatform_allSuccess).2 sample_slotExists).1⟩

theorem frameCalls_usesSlot (w : Window) (g : GfxResources) (i : Nat) (fb cb f : Handle)
    (hfb : g.m_bufferedFrameResource.framebuffers[i]? = some fb)
    (hcb : g.m_bufferedFrameResource.commandBuffers[i]? = some cb)
    (hf : g.m_bufferedFrameResource.commandBufferFences[i]? = some f) :
    ∀ c ∈ frameCalls w g i fb cb f, c.usesSlot g i := by
  intro c hc
  simp only [frameCalls, List.mem_cons, List.mem_singleton, List.not_mem_nil, or_false] at hc
  rcases hc with h | h | h | h | h | h | h | h | h | h | h | h <;> subst h <;>
    simp [Call.usesSlot, hfb, hcb, hf]

theorem frameCalls_recording (w : Window) (g : GfxResources) (i : Nat) (fb cb f : Handle)
    (k : Nat) (c : Call) (h : Handle) (hk : (frameCalls w g i fb cb f)[k]? = some c)
    (hrec : c.recordsInto = some h) : 2 ≤ k := by
  rcases k with _ | _ | k
  · simp only [frameCalls, List.getElem?_cons_zero, Option.some.injEq] at hk
    subst hk
    simp [Call.recordsInto] at hrec
  · simp only [frameCalls, List.getElem?_cons_succ, List.getElem?_cons_zero,
      Option.some.injEq] at hk
    subst hk
    simp [Call.recordsInto] at hrec
  · omega

theorem frameCut_gt_two (cfg : Config) (p : FramePlatform) (g : GfxResources)
    (h : 2 < frameCut cfg p g) (hc : cfg.assertsEnabled = true) :
    p.acquireNextImage = VK_SUCCESS
      ∧ p.imageIndex < toUInt32 g.m_bufferedFrameResource.images.length
      ∧ p.waitForFences = VK_SUCCESS := by
  have h1 : p.acquireNextImage = VK_SUCCESS := by
    by_contra hx
    simp [frameCut, hc, hx] at h
  have h2 : p.imageIndex < toUInt32 g.m_bufferedFrameResource.images.length := by
    by_contra hx
    simp [frameCut, hc, h1, hx] at h
  have h3 : p.waitForFences = VK_SUCCESS := by
    by_contra hx
    simp [frameCut, hc, h1, h2, hx] at h
  exact ⟨h1, h2, h3⟩

/-- C2, amended: the calls of a frame refer to the per-slot vectors only at the acquired
index: the fence waited on, the command buffer reset, recorded and submitted, the
framebuffer of the render pass, the fence reset and handed to the submit and the presented
image index are the entries at that index; a call that resets or records the command
buffer comes after the wait on the slot's fence has been issued, and in a build with
assertions only after that wait (and the acquire) returned success and the index was
accepted; a frame that completes issues exactly the twelve calls on that slot. -/
theorem render_uses_acquired_slot (cfg : Config) (p : FramePlatform) (w : Window)
    (g : GfxResources) :
    (∀ c ∈ (Renderer.render cfg p w g).calls, c.usesSlot g p.imageIndex)
      ∧ (∀ (k : Nat) (c : Call) (cb : Handle), (Renderer.render cfg p w g).calls[k]? = some c → c.recordsInto = some cb →
          ∃ j f, j < k ∧ g.m_bufferedFrameResource.commandBufferFences[p.imageIndex]? = some f
            ∧ (Renderer.render cfg p w g).calls[j]?
                = some (.vkWaitForFences g.m_device [f] VK_TRUE (toUInt32 s_defaultTimeout))
            ∧ (cfg.assertsEnabled = true →
                p.waitForFences = VK_SUCCESS ∧ p.acquireNextImage = VK_SUCCESS
                  ∧ p.imageIndex < toUInt32 g.m_bufferedFrameResource.images.length))
      ∧ (∀ s, (Renderer.render cfg p w g).outcome = .ok s →
          ∃ fb cb f, g.m_bufferedFrameResource.framebuffers[p.imageIndex]? = some fb
            ∧ g.m_bufferedFrameResource.commandBuffers[p.imageIndex]? = some cb
            ∧ g.m_bufferedFrameResource.commandBufferFences[p.imageIndex]? = some f
            ∧ (Renderer.render cfg p w g).calls = frameCalls w g p.imageIndex fb cb f) := by
  by_cases hslot : ∃ fb cb f, g.m_bufferedFrameResource.framebuffers[p.imageIndex]? = some fb
      ∧ g.m_bufferedFrameResource.commandBuffers[p.imageIndex]? = some cb
      ∧ g.m_bufferedFrameResource.commandBufferFences[p.imageIndex]? = some f
  · obtain ⟨fb, cb, f, hfb, hcb, hf⟩ := hslot
    obtain ⟨hcalls, hout⟩ := render_eq_of_slot cfg p w g fb cb f hfb hcb hf
    rw [hcalls, hout]
    refine ⟨fun c hc => frameCalls_usesSlot w g _ fb cb f hfb hcb hf c (List.mem_of_mem_take hc),
      ?_, ?_⟩
    · intro k c h hk hrec
      rw [List.getElem?_take] at hk
      split at hk
      next hlt =>
        have h2 := frameCalls_recording w g _ fb cb f k c h hk hrec
        refine ⟨1, f, by omega, hf, ?_, fun hc => ?_⟩
        · rw [List.getElem?_take, if_pos (by omega)]
          rfl
        · have := frameCut_gt_two cfg p g (by omega) hc
          exact ⟨this.2.2, this.1, this.2.1⟩
      next => exact absurd hk (by simp)
    · intro s hs
      have hns : ¬ frameStopped cfg p g := by
        intro hst
        rw [if_pos hst] at hs
        exact absurd hs (by simp)
      refine ⟨fb, cb, f, hfb, hcb, hf, ?_⟩
      rw [frameCut_eq_of_not_stopped cfg p g hns]
      rfl
  · have hnone : g.m_bufferedFrameResource.framebuffers[p.imageIndex]? = none
        ∨ g.m_bufferedFrameResource.commandBuffers[p.imageIndex]? = none
        ∨ g.m_bufferedFrameResource.commandBufferFences[p.imageIndex]? = none := by
      by_contra hcon
      simp only [not_or, ← ne_eq, Option.ne_none_iff_exists'] at hcon
      obtain ⟨⟨fb, hfb⟩, ⟨cb, hcb⟩, ⟨f, hf⟩⟩ := hcon
      exact hslot ⟨fb, cb, f, hfb, hcb, hf⟩
    obtain ⟨hcalls, hout⟩ := render_eq_of_no_slot cfg p w g hnone
    rw [hcalls, hout]
    refine ⟨?_, ?_, ?_⟩
    · intro c hc
      simp only [List.mem_singleton] at hc
      subst hc
      simp [Call.usesSlot]
    · intro k c h hk hrec
      rcases k with _ | k
      · simp at hk; subst hk; simp [Call.recordsInto] at hrec
      · simp at hk
    · intro s hs
      split_ifs at hs

theorem render_uses_acquired_slot_witness :
    ∃ j f, j < 2 ∧ sampleResources.m_bufferedFrameResource.commandBufferFences[1]? = some f
      ∧ (Renderer.render sampleConfig sampleFramePlatform sampleWindow sampleResources).calls[j]?
          = some (.vkWaitForFences 3 [f] VK_TRUE (toUInt32 s_defaultTimeout))
      ∧ (sampleConfig.assertsEnabled = true →
          sampleFramePlatform.waitForFences = VK_SUCCESS
            ∧ sampleFramePlatform.acquireNextImage = VK_SUCCESS
            ∧ 1 < toUInt32 sampleResources.m_bufferedFrameResource.images.length) :=
  (render_uses_acquired_slot sampleConfig sampleFramePlatform sampleWindow sampleResources).2.1
    2 (.vkResetCommandBuffer 41 0) 41 rfl rfl

theorem render_names_cases (cfg : Config) (p : FramePlatform) (w : Window) (g : GfxResources) :
    ((Renderer.render cfg p w g).calls.map Call.name
          = renderProtocol.take (frameCut cfg p g)
        ∧ (Renderer.render cfg p w g).outcome
          = if frameStopped cfg p g then .assertFailed
            else .ok (g.withBufferIndex p.imageIndex))
      ∨ ((Renderer.render cfg p w g).calls.map Call.name = ["vkAcquireNextImageKHR"]
        ∧ (Renderer.render cfg p w g).outcome
          = if cfg.assertsEnabled = true ∧ (p.acquireNextImage ≠ VK_SUCCESS
                ∨ ¬ p.imageIndex < toUInt32 g.m_bufferedFrameResource.images.length)
            then .assertFailed else .undefinedBehaviour) := by
  by_cases hslot : ∃ fb cb f, g.m_bufferedFrameResource.framebuffers[p.imageIndex]? = some fb
      ∧ g.m_bufferedFrameResource.commandBuffers[p.imageIndex]? = some cb
      ∧ g.m_bufferedFrameResource.commandBufferFences[p.imageIndex]? = some f
  · obtain ⟨fb, cb, f, hfb, hcb, hf⟩ := hslot
    obtain ⟨hcalls, hout⟩ := render_eq_of_slot cfg p w g fb cb f hfb hcb hf
    left
    rw [hcalls, hout, List.map_take, map_name_frameCalls]
    exact ⟨rfl, rfl⟩
  · have hnone : g.m_bufferedFrameResource.framebuffers[p.imageIndex]? = none
        ∨ g.m_bufferedFrameResource.commandBuffers[p.imageIndex]? = none
        ∨ g.m_bufferedFrameResource.commandBufferFences[p.imageIndex]? = none := by
      by_contra hcon
      simp only [not_or, ← ne_eq, Option.ne_none_iff_exists'] at hcon
      obtain ⟨⟨fb, hfb⟩, ⟨cb, hcb⟩, ⟨f, hf⟩⟩ := hcon
      exact hslot ⟨fb, cb, f, hfb, hcb, hf⟩
    obtain ⟨hcalls, hout⟩ := render_eq_of_no_slot cfg p w g hnone
    right
    rw [hcalls, hout]
    exact ⟨rfl, rfl⟩

theorem frameCut_twelve (cfg : Config) (p : FramePlatform) (g : GfxResources)
    (h : frameCut cfg p g = 12) (hc : cfg.assertsEnabled = true) :
    p.queueSubmit = VK_SUCCESS := by
  have h1 : p.acquireNextImage = VK_SUCCESS := by
    by_contra hx
    simp [frameCut, hc, hx] at h
  have h2 : p.imageIndex < toUInt32 g.m_bufferedFrameResource.images.length := by
    by_contra hx
    simp [frameCut, hc, h1, hx] at h
  have h3 : p.waitForFences = VK_SUCCESS := by
    by_contra hx
    simp [frameCut, hc, h1, h2, hx] at h
  have h4 : p.resetCommandBuffer = VK_SUCCESS := by
    by_contra hx
    simp [frameCut, hc, h1, h2, h3, hx] at h
  have h5 : p.beginCommandBuffer = VK_SUCCESS := by
    by_contra hx
    simp [frameCut, hc, h1, h2, h3, h4, hx] at h
  have h6 : p.endCommandBuffer = VK_SUCCESS := by
    by_contra hx
    simp [frameCut, hc, h1, h2, h3, h4, h5, hx] at h
  by_contra hx
  simp [frameCut, hc, h1, h2, h3, h4, h5, h6, hx] at h

theorem frameCut_ge_eleven (cfg : Config) (p : FramePlatform) (g : GfxResources)
    (h : 11 ≤ frameCut cfg p g) : frameCut cfg p g = 11 ∨ frameCut cfg p g = 12 := by
  have := frameCut_le cfg p g
  omega

theorem wait_mem_take (n : Nat) (h : "vkWaitForFences" ∈ renderProtocol.take n) : 2 ≤ n := by
  by_contra hn
  have h01 : n = 0 ∨ n = 1 := by omega
  rcases h01 with h0 | h0 <;> subst h0 <;> revert h <;> decide

theorem submit_mem_take (n : Nat) (h : "vkQueueSubmit" ∈ renderProtocol.take n) : 11 ≤ n := by
  by_contra hn
  have hlt : n < 11 := by omega
  interval_cases n <;> revert h <;> decide

theorem present_mem_take (n : Nat) (h : "vkQueuePresentKHR" ∈ renderProtocol.take n) :
    12 ≤ n := by
  by_contra hn
  have hlt : n < 12 := by omega
  interval_cases n <;> revert h <;> decide

/-- C10: with assertions enabled `render` aborts whenever the image acquire, the fence
wait, the queue submit or the queue present returns a status other than `VK_SUCCESS`
(not-ready, timeout, suboptimal and out-of-date among them), and the failing call is the
last platform call of the frame. -/
theorem render_aborts_on_failed_call (cfg : Config) (p : FramePlatform) (w : Window)
    (g : GfxResources) (hc : cfg.assertsEnabled = true) :
    (p.acquireNextImage ≠ VK_SUCCESS →
        (Renderer.render cfg p w g).outcome = .assertFailed
          ∧ (Renderer.render cfg p w g).calls.map Call.name = ["vkAcquireNextImageKHR"])
      ∧ ("vkWaitForFences" ∈ (Renderer.render cfg p w g).calls.map Call.name →
          p.waitForFences ≠ VK_SUCCESS →
          (Renderer.render cfg p w g).outcome = .assertFailed
            ∧ ((Renderer.render cfg p w g).calls.map Call.name).getLast?
              = some "vkWaitForFences")
      ∧ ("vkQueueSubmit" ∈ (Renderer.render cfg p w g).calls.map Call.name →
          p.queueSubmit ≠ VK_SUCCESS →
          (Renderer.render cfg p w g).outcome = .assertFailed
            ∧ ((Renderer.render cfg p w g).calls.map Call.name).getLast?
              = some "vkQueueSubmit")
      ∧ ("vkQueuePresentKHR" ∈ (Renderer.render cfg p w g).calls.map Call.name →
          p.queuePresent ≠ VK_SUCCESS →
          (Renderer.render cfg p w g).outcome = .assertFailed
            ∧ ((Renderer.render cfg p w g).calls.map Call.name).getLast?
              = some "vkQueuePresentKHR") := by
  rcases render_names_cases cfg p w g with ⟨hn, ho⟩ | ⟨hn, ho⟩
  · rw [hn, ho]
    refine ⟨?_, ?_, ?_, ?_⟩
    · intro h
      have hst : frameStopped cfg p g := ⟨hc, Or.inl h⟩
      have hcut : frameCut cfg p g = 1 := by simp [frameCut, hc, h]
      rw [if_pos hst, hcut]
      exact ⟨rfl, rfl⟩
    · intro hmem h
      have hst : frameStopped cfg p g := ⟨hc, Or.inr (Or.inr (Or.inl h))⟩
      have h2 := wait_mem_take _ hmem
      have hcut : frameCut cfg p g = 2 := by
        by_contra hne
        exact h (frameCut_gt_two cfg p g (by omega) hc).2.2
      rw [if_pos hst, hcut]
      exact ⟨rfl, rfl⟩
    · intro hmem h
      have hst : frameStopped cfg p g :=
        ⟨hc, Or.inr (Or.inr (Or.inr (Or.inr (Or.inr (Or.inr (Or.inl h))))))⟩
      have h2 := submit_mem_take _ hmem
      have hcut : frameCut cfg p g = 11 := by
        rcases frameCut_ge_eleven cfg p g h2 with h11 | h12
        · exact h11
        · exact absurd (frameCut_twelve cfg p g h12 hc) h
      rw [if_pos hst, hcut]
      exact ⟨rfl, rfl⟩
    · intro hmem h
      have hst : frameStopped cfg p g :=
        ⟨hc, Or.inr (Or.inr (Or.inr (Or.inr (Or.inr (Or.inr (Or.inr h))))))⟩
      have h2 := present_mem_take _ hmem
      have hcut : frameCut cfg p g = 12 := by
        have := frameCut_le cfg p g
        omega
      rw [if_pos hst, hcut]
      exact ⟨rfl, rfl⟩
  · rw [hn, ho]
    refine ⟨?_, ?_, ?_, ?_⟩
    · intro h
      rw [if_pos ⟨hc, Or.inl h⟩]
      exact ⟨rfl, rfl⟩
    · intro hmem; exact absurd hmem (by decide)
    · intro hmem; exact absurd hmem (by decide)
    · intro hmem; exact absurd hmem (by decide)

/-- A frame whose fence wait times out. -/
theorem render_aborts_on_failed_call_witness :
    sampleConfig.assertsEnabled = true
      ∧ (Renderer.render sampleConfig { sampleFramePlatform with waitForFences := VK_TIMEOUT }
            sampleWindow sampleResources).outcome = .assertFailed
      ∧ ((Renderer.render sampleConfig { sampleFramePlatform with waitForFences := VK_TIMEOUT }
            sampleWindow sampleResources).calls.map Call.name).getLast?
          = some "vkWaitForFences" :=
  ⟨rfl, (render_aborts_on_failed_call sampleConfig
      { sampleFramePlatform with waitForFences := VK_TIMEOUT } sampleWindow sampleResources
      rfl).2.1 (by decide) (by decide)⟩

theorem calls_bind_of_ok {α β : Type} (m : Exec α) (f : α → Exec β) (a : α)
    (h : m.outcome = .ok a) :
    (Exec.bind m f).calls = m.calls ++ (f a).calls
      ∧ (Exec.bind m f).accesses = m.accesses ++ (f a).accesses
      ∧ (Exec.bind m f).outcome = (f a).outcome := by
  unfold Exec.bind
  rw [h]
  exact ⟨rfl, rfl, rfl⟩

theorem destroySlot_eq (g : GfxResources) (idx : Nat)
    (h1 : idx < g.m_bufferedFrameResource.imageViews.length)
    (h2 : idx < g.m_bufferedFrameResource.framebuffers.length)
    (h3 : idx < g.m_bufferedFrameResource.commandBufferFences.length) :
    destroySlot g idx () = ⟨destroySlotCalls g idx, destroySlotAccesses g idx, .ok ()⟩ := by
  simp only [destroySlot, bind_eq, readAt_bind, List.getElem?_eq_getElem h1,
    List.getElem?_eq_getElem h2, List.getElem?_eq_getElem h3, calls_issue_bind,
    accesses_issue_bind, outcome_issue_bind, destroySlotCalls, destroySlotAccesses,
    List.getD_eq_getElem _ _ h1, List.getD_eq_getElem _ _ h2, List.getD_eq_getElem _ _ h3]
  rfl

theorem destroy_loop (g : GfxResources) : ∀ (count start : Nat),
    start + count ≤ g.m_bufferedFrameResource.imageViews.length →
    start + count ≤ g.m_bufferedFrameResource.framebuffers.length →
    start + count ≤ g.m_bufferedFrameResource.commandBufferFences.length →
    forFrom (destroySlot g) count start ()
      = ⟨(List.range' start count).flatMap (destroySlotCalls g),
         (List.range' start count).flatMap (destroySlotAccesses g), .ok ()⟩ := by
  intro count
  induction count with
  | zero => intro start _ _ _; rfl
  | succ k ih =>
    intro start h1 h2 h3
    have hb := destroySlot_eq g start (by omega) (by omega) (by omega)
    have hrest := ih (start + 1) (by omega) (by omega) (by omega)
    simp only [forFrom, hb, hrest, Exec.bind, List.range'_succ, List.flatMap_cons]


theorem destroy_eq (cfg : Config) (g : GfxResources) (n : Nat) (h : HasSlots g n) :
    (GfxResources.destroy cfg g).calls = teardownCalls cfg g n
      ∧ (GfxResources.destroy cfg g).accesses = (List.range n).flatMap (destroySlotAccesses g)
      ∧ (GfxResources.destroy cfg g).outcome = .ok () := by
  obtain ⟨hn, h1, h2, _, h4⟩ := h
  have hloop := destroy_loop g n 0 (by omega) (by omega) (by omega)
  rw [← List.range_eq_range'] at hloop
  cases hd : cfg.debugValidation <;>
    simp [GfxResources.destroy, bind_eq, pure_eq, forLoop, hn, hloop, Exec.bind, issue,
      teardownCalls, hd, Exec.pure]

/-- C5: the device-idle wait is the first platform call of `destroy`; every destroy or
free call comes at a later position. -/
theorem destroy_waits_idle_first (cfg : Config) (g : GfxResources) :
    (GfxResources.destroy cfg g).calls.head? = some (.vkDeviceWaitIdle g.m_device)
      ∧ ∀ (k : Nat) (c : Call), (GfxResources.destroy cfg g).calls[k]? = some c →
          c.isTeardown = true → 0 < k := by
  have hhead : ∃ rest, (GfxResources.destroy cfg g).calls = .vkDeviceWaitIdle g.m_device :: rest :=
    ⟨_, calls_issue_bind _ _⟩
  obtain ⟨rest, hrest⟩ := hhead
  rw [hrest]
  refine ⟨rfl, fun k c hk hc => ?_⟩
  rcases k with _ | k
  · simp only [List.getElem?_cons_zero, Option.some.injEq] at hk
    subst hk
    simp [Call.isTeardown] at hc
  · omega

/-- C6: on resources with `n` slots `destroy` issues, after the idle wait, the destroy
calls of both shader modules, the pipeline layout, the pipeline, then for each slot
`0..n-1` its image view, framebuffer and fence, then the freeing of the command buffers,
the command pool, the two semaphores, the render pass, the swapchain, the surface, the
device, the diagnostic callback (in a build with diagnostics only) and the instance. -/
theorem destroy_call_order (cfg : Config) (g : GfxResources) (n : Nat) (h : HasSlots g n) :
    (GfxResources.destroy cfg g).calls = teardownCalls cfg g n
      ∧ (GfxResources.destroy cfg g).outcome = .ok () :=
  ⟨(destroy_eq cfg g n h).1, (destroy_eq cfg g n h).2.2⟩

theorem sample_hasSlots : HasSlots sampleResources 2 := by
  simp [HasSlots, sampleResources, sampleFrame]

theorem destroy_call_order_witness :
    HasSlots sampleResources 2
      ∧ (GfxResources.destroy sampleConfig sampleResources).calls
          = teardownCalls sampleConfig sampleResources 2 :=
  ⟨sample_hasSlots, (destroy_call_order sampleConfig sampleResources 2 sample_hasSlots).1⟩

theorem bind_ok_inv {α β : Type} (m : Exec α) (f : α → Exec β) (b : β)
    (h : (Exec.bind m f).outcome = .ok b) :
    ∃ a, m.outcome = .ok a ∧ (f a).outcome = .ok b
      ∧ (Exec.bind m f).calls = m.calls ++ (f a).calls
      ∧ (Exec.bind m f).accesses = m.accesses ++ (f a).accesses := by
  unfold Exec.bind at h ⊢
  cases hm : m.outcome with
  | ok a => rw [hm] at h; exact ⟨a, rfl, h, rfl, rfl⟩
  | assertFailed => rw [hm] at h; exact absurd h (by simp)
  | undefinedBehaviour => rw [hm] at h; exact absurd h (by simp)

theorem writeAt_bind {β : Type} (v : Vec) (xs : List Handle) (i : Nat) (a : Handle)
    (f : List Handle → Exec β) :
    Exec.bind (writeAt v xs i a) f
      = if i < xs.length then
          ⟨(f (xs.set i a)).calls, ⟨v, i, xs.length⟩ :: (f (xs.set i a)).accesses,
            (f (xs.set i a)).outcome⟩
        else ⟨[], [⟨v, i, xs.length⟩], .undefinedBehaviour⟩ := by
  unfold writeAt
  split <;> rfl

theorem setRange_length (xs : List Handle) (start count : Nat) (src : Nat → Handle) :
    (setRange xs start count src).length = xs.length := by
  simp [setRange]

theorem setRange_zero (xs : List Handle) (start : Nat) (src : Nat → Handle) :
    setRange xs start 0 src = xs := by
  apply List.ext_getElem
  · simp [setRange]
  · intro i h1 h2
    simp [setRange] at h1 ⊢
    have : ¬ (start ≤ i ∧ i < start) := by omega
    simp [this, List.getElem?_eq_getElem h2]

theorem setRange_succ (xs : List Handle) (start count : Nat) (src : Nat → Handle) :
    setRange (xs.set start (src start)) (start + 1) count src
      = setRange xs start (count + 1) src := by
  apply List.ext_getElem
  · simp [setRange]
  · intro i h1 h2
    have hlen : i < xs.length := by simpa [setRange_length] using h2
    simp only [setRange, List.length_set, List.getElem_map, List.getElem_range]
    by_cases hi : i = start
    · subst hi
      have h3 : ¬ (i + 1 ≤ i ∧ i < i + 1 + count) := by omega
      have h4 : i ≤ i ∧ i < i + (count + 1) := by omega
      rw [if_neg h3, if_pos h4, List.getD_eq_getElem?_getD, List.getElem?_set_self hlen]
      rfl
    · by_cases hr : start + 1 ≤ i ∧ i < start + 1 + count
      · have h4 : start ≤ i ∧ i < start + (count + 1) := by omega
        rw [if_pos hr, if_pos h4]
      · have h4 : ¬ (start ≤ i ∧ i < start + (count + 1)) := by omega
        rw [if_neg hr, if_neg h4, List.getD_eq_getElem?_getD, List.getD_eq_getElem?_getD,
          List.getElem?_set_ne (Ne.symm hi)]

theorem setRange_full (xs : List Handle) (src : Nat → Handle) :
    setRange xs 0 xs.length src = (List.range xs.length).map src := by
  unfold setRange
  apply List.map_congr_left
  intro i hi
  rw [List.mem_range] at hi
  simp [hi]

theorem createImageViewBody_ok (cfg : Config) (p : InitPlatform) (self : GfxResources)
    (idx : Nat) (xs xs' : List Handle)
    (h : (createImageViewBody cfg p self idx xs).outcome = .ok xs') :
    idx < self.m_bufferedFrameResource.images.length ∧ idx < xs.length
      ∧ (createImageViewBody cfg p self idx xs).calls = [imageViewCall p self idx]
      ∧ (createImageViewBody cfg p self idx xs).accesses
          = [⟨.images, idx, self.m_bufferedFrameResource.images.length⟩,
             ⟨.imageViews, idx, xs.length⟩]
      ∧ xs' = xs.set idx (p.createImageView idx).handle := by
  simp only [createImageViewBody, bind_eq, pure_eq, readAt_bind, writeAt_bind,
    CHECK_VK_RESULT_SUCCESS, assert_bind, calls_issue_bind, accesses_issue_bind,
    outcome_issue_bind] at h ⊢
  cases himg : self.m_bufferedFrameResource.images[idx]? with
  | none => simp [himg] at h
  | some image =>
    have hlt : idx < self.m_bufferedFrameResource.images.length := by
      by_contra hge
      rw [List.getElem?_eq_none (by omega)] at himg
      exact absurd himg (by simp)
    simp only [himg] at h ⊢
    by_cases hx : idx < xs.length
    · simp only [hx, if_true] at h ⊢
      split_ifs at h ⊢
      simp only [outcome_pure, Outcome.ok.injEq] at h
      refine ⟨hlt, trivial, ?_, ?_, h.symm⟩
      · simp [imageViewCall, List.getD_eq_getElem?_getD, himg]
      · simp
    · simp [hx] at h


theorem createImageView_loop (cfg : Config) (p : InitPlatform) (self : GfxResources) :
    ∀ (count start : Nat) (xs xs' : List Handle),
    (forFrom (createImageViewBody cfg p self) count start xs).outcome = .ok xs' →
    (forFrom (createImageViewBody cfg p self) count start xs).calls
        = (List.range' start count).map (imageViewCall p self)
      ∧ (forFrom (createImageViewBody cfg p self) count start xs).accesses
        = (List.range' start count).flatMap (fun idx =>
            [⟨.images, idx, self.m_bufferedFrameResource.images.length⟩,
             ⟨.imageViews, idx, xs.length⟩])
      ∧ xs' = setRange xs start count (fun i => (p.createImageView i).handle)
      ∧ (0 < count → start + count ≤ xs.length
          ∧ start + count ≤ self.m_bufferedFrameResource.images.length) := by
  intro count
  induction count with
  | zero =>
    intro start xs xs' h
    simp only [forFrom, outcome_pure, Outcome.ok.injEq] at h
    subst h
    exact ⟨rfl, rfl, (setRange_zero _ _ _).symm, fun h0 => absurd h0 (by omega)⟩
  | succ k ih =>
    intro start xs xs' h
    simp only [forFrom] at h ⊢
    obtain ⟨ys, hb, hrest, hcalls, hacc⟩ := bind_ok_inv _ _ _ h
    obtain ⟨h1, h2, hbc, hba, hys⟩ := createImageViewBody_ok cfg p self start xs ys hb
    obtain ⟨hrc, hra, hxs', hbound⟩ := ih (start + 1) ys xs' hrest
    have hlen : ys.length = xs.length := by rw [hys, List.length_set]
    refine ⟨?_, ?_, ?_, fun _ => ?_⟩
    · rw [hcalls, hbc, hrc, List.range'_succ]; rfl
    · rw [hacc, hba, hra, List.range'_succ, hlen]; rfl
    · rw [hxs', hys]
      exact setRange_succ xs start k (fun i => (p.createImageView i).handle)
    · rcases Nat.eq_zero_or_pos k with hk | hk
      · subst hk; omega
      · have := hbound hk
        omega


theorem createFramebufferBody_ok (cfg : Config) (p : InitPlatform) (w : Window)
    (self : GfxResources) (idx : Nat) (xs xs' : List Handle)
    (h : (createFramebufferBody cfg p w self idx xs).outcome = .ok xs') :
    idx < self.m_bufferedFrameResource.imageViews.length ∧ idx < xs.length
      ∧ (createFramebufferBody cfg p w self idx xs).calls = [framebufferCall p w self idx]
      ∧ (createFramebufferBody cfg p w self idx xs).accesses
          = [⟨.imageViews, idx, self.m_bufferedFrameResource.imageViews.length⟩,
             ⟨.framebuffers, idx, xs.length⟩]
      ∧ xs' = xs.set idx (p.createFramebuffer idx).handle := by
  simp only [createFramebufferBody, bind_eq, pure_eq, readAt_bind, writeAt_bind,
    CHECK_VK_RESULT_SUCCESS, assert_bind, calls_issue_bind, accesses_issue_bind,
    outcome_issue_bind, Window.getWidth, Window.getHeight] at h ⊢
  cases himg : self.m_bufferedFrameResource.imageViews[idx]? with
  | none => simp [himg] at h
  | some image =>
    have hlt : idx < self.m_bufferedFrameResource.imageViews.length := by
      by_contra hge
      rw [List.getElem?_eq_none (by omega)] at himg
      exact absurd himg (by simp)
    simp only [himg] at h ⊢
    by_cases hx : idx < xs.length
    · simp only [hx, if_true] at h ⊢
      split_ifs at h ⊢
      simp only [outcome_pure, Outcome.ok.injEq] at h
      refine ⟨hlt, trivial, ?_, ?_, h.symm⟩
      · simp [framebufferCall, List.getD_eq_getElem?_getD, himg]
      · simp
    · simp [hx] at h

theorem createFramebuffer_loop (cfg : Config) (p : InitPlatform) (w : Window)
    (self : GfxResources) :
    ∀ (count start : Nat) (xs xs' : List Handle),
    (forFrom (createFramebufferBody cfg p w self) count start xs).outcome = .ok xs' →
    (forFrom (createFramebufferBody cfg p w self) count start xs).calls
        = (List.range' start count).map (framebufferCall p w self)
      ∧ (forFrom (createFramebufferBody cfg p w self) count start xs).accesses
        = (List.range' start count).flatMap (fun idx =>
            [⟨.imageViews, idx, self.m_bufferedFrameResource.imageViews.length⟩,
             ⟨.framebuffers, idx, xs.length⟩])
      ∧ xs' = setRange xs start count (fun i => (p.createFramebuffer i).handle)
      ∧ (0 < count → start + count ≤ xs.length
          ∧ start + count ≤ self.m_bufferedFrameResource.imageViews.length) := by
  intro count
  induction count with
  | zero =>
    intro start xs xs' h
    simp only [forFrom, outcome_pure, Outcome.ok.injEq] at h
    subst h
    exact ⟨rfl, rfl, (setRange_zero _ _ _).symm, fun h0 => absurd h0 (by omega)⟩
  | succ k ih =>
    intro start xs xs' h
    simp only [forFrom] at h ⊢
    obtain ⟨ys, hb, hrest, hcalls, hacc⟩ := bind_ok_inv _ _ _ h
    obtain ⟨h1, h2, hbc, hba, hys⟩ := createFramebufferBody_ok cfg p w self start xs ys hb
    obtain ⟨hrc, hra, hxs', hbound⟩ := ih (start + 1) ys xs' hrest
    have hlen : ys.length = xs.length := by rw [hys, List.length_set]
    refine ⟨?_, ?_, ?_, fun _ => ?_⟩
    · rw [hcalls, hbc, hrc, List.range'_succ]; rfl
    · rw [hacc, hba, hra, List.range'_succ, hlen]; rfl
    · rw [hxs', hys]
      exact setRange_succ xs start k (fun i => (p.createFramebuffer i).handle)
    · rcases Nat.eq_zero_or_pos k with hk | hk
      · subst hk; omega
      · have := hbound hk
        omega

theorem createFenceBody_ok (cfg : Config) (p : InitPlatform) (self : GfxResources)
    (idx : Nat) (xs xs' : List Handle)
    (h : (createFenceBody cfg p self idx xs).outcome = .ok xs') :
    idx < xs.length
      ∧ (createFenceBody cfg p self idx xs).calls = [fenceCall p self idx]
      ∧ (createFenceBody cfg p self idx xs).accesses = [⟨.commandBufferFences, idx, xs.length⟩]
      ∧ xs' = xs.set idx (p.createFence idx).handle := by
  simp only [createFenceBody, bind_eq, pure_eq, writeAt_bind,
    CHECK_VK_RESULT_SUCCESS, assert_bind, calls_issue_bind, accesses_issue_bind,
    outcome_issue_bind] at h ⊢
  by_cases hx : idx < xs.length
  · simp only [hx, if_true] at h ⊢
    split_ifs at h ⊢
    simp only [outcome_pure, Outcome.ok.injEq] at h
    refine ⟨trivial, ?_, ?_, h.symm⟩
    · simp [fenceCall]
    · simp
  · simp [hx] at h

theorem createFence_loop (cfg : Config) (p : InitPlatform) (self : GfxResources) :
    ∀ (count start : Nat) (xs xs' : List Handle),
    (forFrom (createFenceBody cfg p self) count start xs).outcome = .ok xs' →
    (forFrom (createFenceBody cfg p self) count start xs).calls
        = (List.range' start count).map (fenceCall p self)
      ∧ (forFrom (createFenceBody cfg p self) count start xs).accesses
        = (List.range' start count).map (fun idx => ⟨.commandBufferFences, idx, xs.length⟩)
      ∧ xs' = setRange xs start count (fun i => (p.createFence i).handle)
      ∧ (0 < count → start + count ≤ xs.length) := by
  intro count
  induction count with
  | zero =>
    intro start xs xs' h
    simp only [forFrom, outcome_pure, Outcome.ok.injEq] at h
    subst h
    exact ⟨rfl, rfl, (setRange_zero _ _ _).symm, fun h0 => absurd h0 (by omega)⟩
  | succ k ih =>
    intro start xs xs' h
    simp only [forFrom] at h ⊢
    obtain ⟨ys, hb, hrest, hcalls, hacc⟩ := bind_ok_inv _ _ _ h
    obtain ⟨h2, hbc, hba, hys⟩ := createFenceBody_ok cfg p self start xs ys hb
    obtain ⟨hrc, hra, hxs', hbound⟩ := ih (start + 1) ys xs' hrest
    have hlen : ys.length = xs.length := by rw [hys, List.length_set]
    refine ⟨?_, ?_, ?_, fun _ => ?_⟩
    · rw [hcalls, hbc, hrc, List.range'_succ]; rfl
    · rw [hacc, hba, hra, List.range'_succ, hlen]; rfl
    · rw [hxs', hys]
      exact setRange_succ xs start k (fun i => (p.createFence i).handle)
    · rcases Nat.eq_zero_or_pos k with hk | hk
      · subst hk; omega
      · have := hbound hk
        omega

theorem createInstance_ok (cfg : Config) (gv : GlobalVariables) (p : InitPlatform)
    (self s' : GfxResources)
    (h : (GfxResources.createInstance cfg gv p self).outcome = .ok s') :
    s' = instanceState cfg p self
      ∧ (GfxResources.createInstance cfg gv p self).calls = instanceCalls cfg gv p
      ∧ (GfxResources.createInstance cfg gv p self).accesses = [] := by
  simp only [GfxResources.createInstance, bind_eq, pure_eq, CHECK_VK_RESULT_SUCCESS,
    assert_bind, calls_issue_bind, accesses_issue_bind, outcome_issue_bind] at h ⊢
  cases hd : cfg.debugValidation <;> simp only [hd] at h ⊢ <;>
    split_ifs at h ⊢ <;>
    simp_all [instanceState, instanceCalls]

theorem createSurface_ok (cfg : Config) (p : InitPlatform) (w : Window)
    (self s' : GfxResources)
    (h : (GfxResources.createSurface cfg p w self).outcome = .ok s') :
    s' = surfaceState p self
      ∧ (GfxResources.createSurface cfg p w self).calls = surfaceCalls p w self
      ∧ (GfxResources.createSurface cfg p w self).accesses = [] := by
  simp only [GfxResources.createSurface, bind_eq, pure_eq, CHECK_VK_RESULT_SUCCESS,
    assert_bind, calls_issue_bind, accesses_issue_bind, outcome_issue_bind,
    Window.getHinstance, Window.getHwnd] at h ⊢
  split_ifs at h ⊢ <;> simp_all [surfaceState, surfaceCalls]

theorem createRenderPass_ok (cfg : Config) (p : InitPlatform)
    (self s' : GfxResources)
    (h : (GfxResources.createRenderPass cfg p self).outcome = .ok s') :
    s' = renderPassState p self
      ∧ (GfxResources.createRenderPass cfg p self).calls = renderPassCalls p self
      ∧ (GfxResources.createRenderPass cfg p self).accesses = [] := by
  simp only [GfxResources.createRenderPass, bind_eq, pure_eq, CHECK_VK_RESULT_SUCCESS,
    assert_bind, calls_issue_bind, accesses_issue_bind, outcome_issue_bind] at h ⊢
  split_ifs at h ⊢ <;> simp_all [renderPassState, renderPassCalls]

theorem createSemaphores_ok (cfg : Config) (p : InitPlatform)
    (self s' : GfxResources)
    (h : (GfxResources.createSemaphores cfg p self).outcome = .ok s') :
    s' = semaphoresState p self
      ∧ (GfxResources.createSemaphores cfg p self).calls = semaphoresCalls p self
      ∧ (GfxResources.createSemaphores cfg p self).accesses = [] := by
  simp only [GfxResources.createSemaphores, bind_eq, pure_eq, CHECK_VK_RESULT_SUCCESS,
    assert_bind, calls_issue_bind, accesses_issue_bind, outcome_issue_bind] at h ⊢
  split_ifs at h ⊢ <;> simp_all [semaphoresState, semaphoresCalls]

theorem bind_mk_ok {α β : Type} (c : List Call) (a : List Access) (v : α) (f : α → Exec β) :
    Exec.bind ⟨c, a, .ok v⟩ f = ⟨c ++ (f v).calls, a ++ (f v).accesses, (f v).outcome⟩ := rfl

theorem resize_length (xs : List Handle) (n : Nat) : (resize xs n).length = n := by
  simp [resize]
  omega

theorem fillData_length (xs : List Handle) (count : Nat) (src : Nat → Handle) :
    (fillData xs count src).length = xs.length := by
  simp [fillData]

theorem findGraphicsQueueFamily_eq (props : List Nat) (current : Nat) :
    ∀ (count idx : Nat), idx + count ≤ props.length →
    findGraphicsQueueFamily props count idx current
      = ⟨[], searchAccesses props count idx, .ok (firstGraphicsFrom props count idx current)⟩ := by
  intro count
  induction count with
  | zero => intro idx _; rfl
  | succ k ih =>
    intro idx hle
    have hlt : idx < props.length := by omega
    simp only [findGraphicsQueueFamily, readAt_bind, List.getElem?_eq_getElem hlt,
      searchAccesses, firstGraphicsFrom, List.getD_eq_getElem?_getD, Option.getD_some]
    split_ifs
    · rfl
    · rw [ih (idx + 1) (by omega)]

theorem createPhysicalDevice_ok (cfg : Config) (p : InitPlatform)
    (self s' : GfxResources)
    (h : (GfxResources.createPhysicalDevice cfg p self).outcome = .ok s') :
    s' = physicalDeviceState p self
      ∧ (GfxResources.createPhysicalDevice cfg p self).calls = physicalDeviceCalls p self
      ∧ (GfxResources.createPhysicalDevice cfg p self).accesses
          = searchAccesses p.queueFamilyProperties p.queueFamilyProperties.length 0 := by
  have hfind := findGraphicsQueueFamily_eq p.queueFamilyProperties self.m_queueFamilyIndex
    p.queueFamilyProperties.length 0 (by omega)
  simp only [GfxResources.createPhysicalDevice, bind_eq, pure_eq, CHECK_VK_RESULT_SUCCESS,
    assert_bind, calls_issue_bind, accesses_issue_bind, outcome_issue_bind, hfind,
    bind_mk_ok] at h ⊢
  split_ifs at h ⊢ <;>
    (try simp only [calls_issue_bind, accesses_issue_bind, outcome_issue_bind,
      calls_pure, accesses_pure, outcome_pure, Outcome.ok.injEq] at h ⊢) <;>
    first
      | (subst h; simp [physicalDeviceState, physicalDeviceCalls]; done)
      | (simp at h; done)

section
variable {α β : Type}

theorem outcome_assert_bind_ok (cfg : Config) (b : Bool) (f : Unit → Exec β) (s : β) :
    (Exec.bind (assert cfg b) f).outcome = .ok s
      ↔ (cfg.assertsEnabled = true → b = true) ∧ (f ()).outcome = .ok s := by
  rw [assert_bind]
  cases cfg.assertsEnabled <;> cases b <;> simp

theorem calls_assert_bind (cfg : Config) (b : Bool) (f : Unit → Exec β)
    (h : cfg.assertsEnabled = true → b = true) :
    (Exec.bind (assert cfg b) f).calls = (f ()).calls := by
  rw [assert_bind]
  cases hc : cfg.assertsEnabled <;> cases hb : b <;> simp_all

theorem accesses_assert_bind (cfg : Config) (b : Bool) (f : Unit → Exec β)
    (h : cfg.assertsEnabled = true → b = true) :
    (Exec.bind (assert cfg b) f).accesses = (f ()).accesses := by
  rw [assert_bind]
  cases hc : cfg.assertsEnabled <;> cases hb : b <;> simp_all

theorem outcome_readAt_bind_ok (v : Vec) (xs : List α) (i : Nat) (f : α → Exec β) (s : β) :
    (Exec.bind (readAt v xs i) f).outcome = .ok s
      ↔ ∃ a, xs[i]? = some a ∧ (f a).outcome = .ok s := by
  rw [readAt_bind]
  cases xs[i]? <;> simp

theorem calls_readAt_bind (v : Vec) (xs : List α) (i : Nat) (f : α → Exec β) (a : α)
    (h : xs[i]? = some a) : (Exec.bind (readAt v xs i) f).calls = (f a).calls := by
  rw [readAt_bind, h]

theorem accesses_readAt_bind (v : Vec) (xs : List α) (i : Nat) (f : α → Exec β) (a : α)
    (h : xs[i]? = some a) :
    (Exec.bind (readAt v xs i) f).accesses = ⟨v, i, xs.length⟩ :: (f a).accesses := by
  rw [readAt_bind, h]

end

theorem forLoop_imageViews_ok (cfg : Config) (p : InitPlatform) (self : GfxResources)
    (n : Nat) (xs xs' : List Handle) (hn : xs.length = n)
    (h : (forLoop n (createImageViewBody cfg p self) xs).outcome = .ok xs') :
    (forLoop n (createImageViewBody cfg p self) xs).calls
        = (List.range n).map (imageViewCall p self)
      ∧ (forLoop n (createImageViewBody cfg p self) xs).accesses
        = (List.range n).flatMap (fun idx =>
            [⟨.images, idx, self.m_bufferedFrameResource.images.length⟩,
             ⟨.imageViews, idx, n⟩])
      ∧ xs' = (List.range n).map (fun i => (p.createImageView i).handle)
      ∧ (0 < n → n ≤ self.m_bufferedFrameResource.images.length) := by
  unfold forLoop at h ⊢
  obtain ⟨h1, h2, h3, h4⟩ := createImageView_loop cfg p self n 0 xs xs' h
  refine ⟨?_, ?_, ?_, fun h0 => ?_⟩
  · rw [h1, List.range_eq_range']
  · rw [h2, List.range_eq_range', hn]
  · rw [h3, ← hn, setRange_full]
  · have := (h4 h0).2
    omega

theorem createSwapchain_ok (cfg : Config) (p : InitPlatform) (w : Window)
    (self s' : GfxResources)
    (h : (GfxResources.createSwapchain cfg p w self).outcome = .ok s') :
    s' = swapchainState p self
      ∧ (GfxResources.createSwapchain cfg p w self).calls = swapchainCalls p w self
      ∧ (GfxResources.createSwapchain cfg p w self).accesses = swapchainAccesses p self
      ∧ (0 < p.swapchainImagesWritten → p.swapchainImagesWritten ≤ p.swapchainImageCount) := by
  have h' := h
  simp only [GfxResources.createSwapchain, bind_eq, pure_eq, CHECK_VK_RESULT_SUCCESS,
    outcome_assert_bind_ok, outcome_readAt_bind_ok, outcome_issue_bind,
    Window.getWidth, Window.getHeight] at h'
  obtain ⟨a1, a2, a3, a4, sf, hsf, a5, a6, a7, pm, hpm, a8, a9, a10, a11, a12, hloop⟩ := h'
  obtain ⟨ivs, hl, hfin, hlc, hla⟩ := bind_ok_inv _ _ _ hloop
  obtain ⟨l1, l2, l3, l4⟩ := forLoop_imageViews_ok cfg p _ _ _ _ rfl hl
  simp only [resize_length] at l1 l2 l3 l4 hlc hla
  simp only [outcome_pure, Outcome.ok.injEq] at hfin
  have hsf0 : p.surfaceFormats.getD 0 (0, 0) = sf := by
    rw [List.getD_eq_getElem?_getD, hsf]; rfl
  have hpm0 : p.presentModes.getD 0 0 = pm := by
    rw [List.getD_eq_getElem?_getD, hpm]; rfl
  refine ⟨?_, ?_, ?_, ?_⟩
  · rw [← hfin, l3]
    simp only [swapchainState, swapchainLoopState, hsf0]
  · simp only [GfxResources.createSwapchain, bind_eq, pure_eq, CHECK_VK_RESULT_SUCCESS,
      Window.getWidth, Window.getHeight, calls_issue_bind,
      calls_assert_bind _ _ _ a1, calls_assert_bind _ _ _ a2, calls_assert_bind _ _ _ a3,
      calls_assert_bind _ _ _ a4, calls_assert_bind _ _ _ a5, calls_assert_bind _ _ _ a6,
      calls_assert_bind _ _ _ a7, calls_assert_bind _ _ _ a8, calls_assert_bind _ _ _ a9,
      calls_assert_bind _ _ _ a10, calls_assert_bind _ _ _ a11, calls_assert_bind _ _ _ a12,
      calls_readAt_bind _ _ _ _ _ hsf, calls_readAt_bind _ _ _ _ _ hpm, hlc, resize_length, l1, calls_pure,
      swapchainCalls, swapchainLoopState, hsf0, hpm0, List.append_nil, List.cons_append,
      List.nil_append]
  · simp only [GfxResources.createSwapchain, bind_eq, pure_eq, CHECK_VK_RESULT_SUCCESS,
      Window.getWidth, Window.getHeight, accesses_issue_bind,
      accesses_assert_bind _ _ _ a1, accesses_assert_bind _ _ _ a2,
      accesses_assert_bind _ _ _ a3, accesses_assert_bind _ _ _ a4,
      accesses_assert_bind _ _ _ a5, accesses_assert_bind _ _ _ a6,
      accesses_assert_bind _ _ _ a7, accesses_assert_bind _ _ _ a8,
      accesses_assert_bind _ _ _ a9, accesses_assert_bind _ _ _ a10,
      accesses_assert_bind _ _ _ a11, accesses_assert_bind _ _ _ a12,
      accesses_readAt_bind _ _ _ _ _ hsf, accesses_readAt_bind _ _ _ _ _ hpm, hla, resize_length, l2,
      accesses_pure, swapchainAccesses, swapchainLoopState, hsf0, List.append_nil,
      List.cons_append, List.nil_append]
  · intro h0
    have := l4 h0
    simpa [fillData_length, resize_length] using this

theorem createFramebuffer_ok (cfg : Config) (p : InitPlatform) (w : Window)
    (self s' : GfxResources)
    (h : (GfxResources.createFramebuffer cfg p w self).outcome = .ok s') :
    s' = framebufferState p self
      ∧ (GfxResources.createFramebuffer cfg p w self).calls = framebufferCalls p w self
      ∧ (GfxResources.createFramebuffer cfg p w self).accesses = framebufferAccesses self
      ∧ (0 < self.m_bufferedFrameResource.bufferCount →
          self.m_bufferedFrameResource.bufferCount
            ≤ self.m_bufferedFrameResource.imageViews.length) := by
  simp only [GfxResources.createFramebuffer, bind_eq, pure_eq] at h ⊢
  obtain ⟨fbs, hl, hfin, hlc, hla⟩ := bind_ok_inv _ _ _ h
  unfold forLoop at hl hlc hla
  obtain ⟨l1, l2, l3, l4⟩ := createFramebuffer_loop cfg p w _ _ 0 _ _ hl
  simp only [resize_length, ← List.range_eq_range'] at l1 l2 l3 l4 hlc hla
  simp only [outcome_pure, Outcome.ok.injEq] at hfin
  have hfull := setRange_full
    (resize self.m_bufferedFrameResource.framebuffers self.m_bufferedFrameResource.bufferCount)
    (fun i => (p.createFramebuffer i).handle)
  rw [resize_length] at hfull
  refine ⟨?_, ?_, ?_, fun h0 => ?_⟩
  · rw [← hfin, l3, hfull]
    rfl
  · simp only [forLoop, resize_length, hlc, l1, calls_pure, List.append_nil, framebufferCalls,
      framebufferLoopState]
  · simp only [forLoop, resize_length, hla, l2, accesses_pure, List.append_nil,
      framebufferAccesses]
  · have := (l4 h0).2
    simpa using this

theorem createShaderModule_ok (cfg : Config) (p : InitPlatform) (device : Handle)
    (shaderFile : String) (m : Handle)
    (h : (createShaderModule cfg p device shaderFile).outcome = .ok m) :
    m = shaderModuleOf p shaderFile
      ∧ (createShaderModule cfg p device shaderFile).calls
          = shaderModuleCalls p device shaderFile
      ∧ (createShaderModule cfg p device shaderFile).accesses = []
      ∧ (cfg.assertsEnabled = true → (p.files shaderFile).isSome = true) := by
  have h' := h
  simp only [createShaderModule, bind_eq, pure_eq, CHECK_VK_RESULT_SUCCESS,
    outcome_assert_bind_ok] at h'
  obtain ⟨a1, a2, hrest⟩ := h'
  cases hf : p.files shaderFile with
  | none =>
    have a2' := a2
    simp only [hf] at a2'
    simp only [hf, outcome_pure, Outcome.ok.injEq] at hrest
    refine ⟨?_, ?_, ?_, ?_⟩
    · rw [← hrest]; simp [shaderModuleOf, hf]
    · simp only [createShaderModule, bind_eq, pure_eq, calls_assert_bind _ _ _ a1,
        calls_assert_bind _ _ _ a2', hf, calls_pure, shaderModuleCalls]
    · simp only [createShaderModule, bind_eq, pure_eq, accesses_assert_bind _ _ _ a1,
        accesses_assert_bind _ _ _ a2', hf, accesses_pure]
    · simpa [hf] using a2
  | some size =>
    have a2' := a2
    simp only [hf] at a2'
    simp only [hf, outcome_issue_bind, outcome_assert_bind_ok, outcome_pure,
      Outcome.ok.injEq] at hrest
    obtain ⟨a3, hm⟩ := hrest
    refine ⟨?_, ?_, ?_, ?_⟩
    · rw [← hm]; simp [shaderModuleOf, hf]
    · simp only [createShaderModule, bind_eq, pure_eq, CHECK_VK_RESULT_SUCCESS,
        calls_assert_bind _ _ _ a1, calls_assert_bind _ _ _ a2', hf, calls_issue_bind,
        calls_assert_bind _ _ _ a3, calls_pure, shaderModuleCalls]
    · simp only [createShaderModule, bind_eq, pure_eq, CHECK_VK_RESULT_SUCCESS,
        accesses_assert_bind _ _ _ a1, accesses_assert_bind _ _ _ a2', hf, accesses_issue_bind,
        accesses_assert_bind _ _ _ a3, accesses_pure]
    · intro _; rfl

theorem createGraphicsPipeline_ok (cfg : Config) (p : InitPlatform) (w : Window)
    (self s' : GfxResources)
    (h : (GfxResources.createGraphicsPipeline cfg p w self).outcome = .ok s') :
    s' = pipelineState p self
      ∧ (GfxResources.createGraphicsPipeline cfg p w self).calls = pipelineCalls p w self
      ∧ (GfxResources.createGraphicsPipeline cfg p w self).accesses = []
      ∧ (cfg.assertsEnabled = true →
          (p.files self.c_vertexShader).isSome = true
            ∧ (p.files self.c_fragmentShader).isSome = true) := by
  simp only [GfxResources.createGraphicsPipeline, bind_eq, pure_eq, CHECK_VK_RESULT_SUCCESS,
    Window.getWidth, Window.getHeight] at h ⊢
  obtain ⟨vert, hv, hrest, hc1, ha1⟩ := bind_ok_inv _ _ _ h
  obtain ⟨v1, v2, v3, v4⟩ := createShaderModule_ok cfg p _ _ _ hv
  obtain ⟨frag, hf, hrest2, hc2, ha2⟩ := bind_ok_inv _ _ _ hrest
  obtain ⟨f1, f2, f3, f4⟩ := createShaderModule_ok cfg p _ _ _ hf
  simp only [outcome_issue_bind, outcome_assert_bind_ok, outcome_pure, Outcome.ok.injEq]
    at hrest2
  obtain ⟨a1, a2, hs'⟩ := hrest2
  refine ⟨?_, ?_, ?_, fun hc => ⟨v4 hc, f4 hc⟩⟩
  · rw [← hs', v1, f1]
    rfl
  · rw [hc1, hc2, v2, f2]
    simp only [calls_issue_bind, calls_assert_bind _ _ _ a1, calls_assert_bind _ _ _ a2,
      calls_pure, pipelineCalls, v1, f1, List.append_assoc]
  · rw [ha1, ha2, v3, f3]
    simp only [accesses_issue_bind, accesses_assert_bind _ _ _ a1,
      accesses_assert_bind _ _ _ a2, accesses_pure, List.append_nil]

theorem createQueueAndPool_ok (cfg : Config) (p : InitPlatform)
    (self s' : GfxResources)
    (h : (GfxResources.createQueueAndPool cfg p self).outcome = .ok s') :
    s' = queueAndPoolState p self
      ∧ (GfxResources.createQueueAndPool cfg p self).calls = queueAndPoolCalls p self
      ∧ (GfxResources.createQueueAndPool cfg p self).accesses = queueAndPoolAccesses self := by
  have h' := h
  simp only [GfxResources.createQueueAndPool, bind_eq, pure_eq, CHECK_VK_RESULT_SUCCESS,
    outcome_issue_bind, outcome_assert_bind_ok] at h'
  obtain ⟨a1, a2, a3, a4, hloop⟩ := h'
  obtain ⟨fences, hl, hfin, hlc, hla⟩ := bind_ok_inv _ _ _ hloop
  unfold forLoop at hl hlc hla
  obtain ⟨l1, l2, l3, l4⟩ := createFence_loop cfg p _ _ 0 _ _ hl
  simp only [resize_length, ← List.range_eq_range'] at l1 l2 l3 l4 hlc hla
  simp only [outcome_pure, Outcome.ok.injEq] at hfin
  have hfull := setRange_full
    (resize self.m_bufferedFrameResource.commandBufferFences
      self.m_bufferedFrameResource.bufferCount)
    (fun i => (p.createFence i).handle)
  rw [resize_length] at hfull
  have hfill : fillData
      (resize self.m_bufferedFrameResource.commandBuffers
        self.m_bufferedFrameResource.bufferCount)
      self.m_bufferedFrameResource.bufferCount p.commandBuffers
      = (List.range self.m_bufferedFrameResource.bufferCount).map p.commandBuffers := by
    unfold fillData
    rw [resize_length]
    apply List.map_congr_left
    intro i hi
    rw [List.mem_range] at hi
    simp [hi]
  refine ⟨?_, ?_, ?_⟩
  · rw [← hfin, l3, hfull, hfill]
    rfl
  · simp only [GfxResources.createQueueAndPool, bind_eq, pure_eq, CHECK_VK_RESULT_SUCCESS,
      calls_issue_bind, calls_assert_bind _ _ _ a1, calls_assert_bind _ _ _ a2,
      calls_assert_bind _ _ _ a3, calls_assert_bind _ _ _ a4, forLoop, resize_length, hlc, l1,
      calls_pure, List.append_nil, queueAndPoolCalls, List.cons_append,
      List.nil_append]
    rfl
  · simp only [GfxResources.createQueueAndPool, bind_eq, pure_eq, CHECK_VK_RESULT_SUCCESS,
      accesses_issue_bind, accesses_assert_bind _ _ _ a1, accesses_assert_bind _ _ _ a2,
      accesses_assert_bind _ _ _ a3, accesses_assert_bind _ _ _ a4, forLoop, resize_length,
      hla, l2, accesses_pure, List.append_nil, queueAndPoolAccesses]

theorem create_ok (cfg : Config) (gv : GlobalVariables) (p : InitPlatform) (w : Window)
    (g s : GfxResources) (h : (GfxResources.create cfg gv p w g).outcome = .ok s) :
    s = createState cfg p g
      ∧ (GfxResources.create cfg gv p w g).calls = createCalls cfg gv p w g
      ∧ (GfxResources.create cfg gv p w g).accesses = createAccesses cfg p g
      ∧ (0 < p.swapchainImagesWritten → p.swapchainImagesWritten ≤ p.swapchainImageCount)
      ∧ (cfg.assertsEnabled = true →
          (p.files g.c_vertexShader).isSome = true
            ∧ (p.files g.c_fragmentShader).isSome = true) := by
  simp only [GfxResources.create, bind_eq, pure_eq] at h ⊢
  obtain ⟨s1, h1, r1, c1, x1⟩ := bind_ok_inv _ _ _ h
  obtain ⟨e1, k1, y1⟩ := createInstance_ok cfg gv p g s1 h1
  obtain ⟨s2, h2, r2, c2, x2⟩ := bind_ok_inv _ _ _ r1
  obtain ⟨e2, k2, y2⟩ := createPhysicalDevice_ok cfg p s1 s2 h2
  obtain ⟨s3, h3, r3, c3, x3⟩ := bind_ok_inv _ _ _ r2
  obtain ⟨e3, k3, y3⟩ := createSurface_ok cfg p w s2 s3 h3
  obtain ⟨s4, h4, r4, c4, x4⟩ := bind_ok_inv _ _ _ r3
  obtain ⟨e4, k4, y4, b4⟩ := createSwapchain_ok cfg p w s3 s4 h4
  obtain ⟨s5, h5, r5, c5, x5⟩ := bind_ok_inv _ _ _ r4
  obtain ⟨e5, k5, y5⟩ := createRenderPass_ok cfg p s4 s5 h5
  obtain ⟨s6, h6, r6, c6, x6⟩ := bind_ok_inv _ _ _ r5
  obtain ⟨e6, k6, y6, b6⟩ := createFramebuffer_ok cfg p w s5 s6 h6
  obtain ⟨s7, h7, r7, c7, x7⟩ := bind_ok_inv _ _ _ r6
  obtain ⟨e7, k7, y7, b7⟩ := createGraphicsPipeline_ok cfg p w s6 s7 h7
  obtain ⟨s8, h8, r8, c8, x8⟩ := bind_ok_inv _ _ _ r7
  obtain ⟨e8, k8, y8⟩ := createQueueAndPool_ok cfg p s7 s8 h8
  obtain ⟨s9, h9, r9, c9, x9⟩ := bind_ok_inv _ _ _ r8
  obtain ⟨e9, k9, y9⟩ := createSemaphores_ok cfg p s8 s9 h9
  simp only [outcome_pure, Outcome.ok.injEq] at r9
  subst r9
  subst e1
  subst e2
  subst e3
  subst e4
  subst e5
  subst e6
  subst e7
  subst e8
  refine ⟨e9, ?_, ?_, b4, ?_⟩
  · rw [c1, c2, c3, c4, c5, c6, c7, c8, c9, k1, k2, k3, k4, k5, k6, k7, k8, k9]
    simp only [calls_pure, List.append_nil, createCalls, afterInstance, afterPhysicalDevice,
      afterSurface, afterSwapchain, afterRenderPass, afterFramebuffer, afterPipeline,
      afterQueueAndPool, List.append_assoc]
  · rw [x1, x2, x3, x4, x5, x6, x7, x8, x9, y1, y2, y3, y4, y5, y6, y7, y8, y9]
    simp only [accesses_pure, List.append_nil, List.nil_append, createAccesses, afterInstance,
      afterPhysicalDevice, afterSurface, afterSwapchain, afterRenderPass, afterFramebuffer,
      afterPipeline, afterQueueAndPool, List.append_assoc]
  · exact b7

theorem createState_hasSlots (cfg : Config) (p : InitPlatform) (g : GfxResources) :
    HasSlots (createState cfg p g) p.swapchainImagesWritten := by
  simp [HasSlots, createState, semaphoresState, afterQueueAndPool, queueAndPoolState,
    afterPipeline, pipelineState, afterFramebuffer, framebufferState, afterRenderPass,
    renderPassState, afterSwapchain, swapchainState, swapchainLoopState]

theorem afterSwapchain_bufferCount (cfg : Config) (p : InitPlatform) (g : GfxResources) :
    (afterSwapchain cfg p g).m_bufferedFrameResource.bufferCount = p.swapchainImagesWritten :=
  rfl

theorem afterRenderPass_bufferCount (cfg : Config) (p : InitPlatform) (g : GfxResources) :
    (afterRenderPass cfg p g).m_bufferedFrameResource.bufferCount = p.swapchainImagesWritten :=
  rfl

theorem afterPipeline_bufferCount (cfg : Config) (p : InitPlatform) (g : GfxResources) :
    (afterPipeline cfg p g).m_bufferedFrameResource.bufferCount = p.swapchainImagesWritten :=
  rfl

theorem createdObjects_append (xs ys : List Call) :
    createdObjects (xs ++ ys) = createdObjects xs ++ createdObjects ys := by
  simp [createdObjects]

theorem createdObjects_cons (c : Call) (xs : List Call) :
    createdObjects (c :: xs) = c.creates ++ createdObjects xs := by
  simp [createdObjects]

theorem createdObjects_nil : createdObjects [] = [] := rfl

theorem createdObjects_map_single (f : Nat → Call) (o : Nat → Obj) (l : List Nat)
    (h : ∀ i, (f i).creates = [o i]) : createdObjects (l.map f) = l.map o := by
  induction l with
  | nil => rfl
  | cons a t ih => simp [createdObjects_cons, h, ih]

theorem createdObjects_instanceCalls (cfg : Config) (gv : GlobalVariables) (p : InitPlatform) :
    createdObjects (instanceCalls cfg gv p)
      = [⟨.inst, p.createInstance.handle⟩]
        ++ (if cfg.debugValidation then [⟨.debugCallback, p.createDebugReportCallback.handle⟩]
            else []) := by
  cases hd : cfg.debugValidation <;>
    simp [instanceCalls, hd, createdObjects_cons, createdObjects_nil, Call.creates]

theorem createdObjects_physicalDeviceCalls (p : InitPlatform) (self : GfxResources) :
    createdObjects (physicalDeviceCalls p self) = [⟨.device, p.createDevice.handle⟩] := by
  simp [physicalDeviceCalls, createdObjects_cons, createdObjects_nil, Call.creates]

theorem createdObjects_surfaceCalls (p : InitPlatform) (w : Window) (self : GfxResources) :
    createdObjects (surfaceCalls p w self) = [⟨.surface, p.createSurface.handle⟩] := by
  simp [surfaceCalls, createdObjects_cons, createdObjects_nil, Call.creates]

theorem createdObjects_swapchainCalls (p : InitPlatform) (w : Window) (self : GfxResources) :
    createdObjects (swapchainCalls p w self)
      = ⟨.swapchain, p.createSwapchain.handle⟩ ::
        (List.range p.swapchainImagesWritten).map
          (fun i => ⟨.imageView, (p.createImageView i).handle⟩) := by
  simp only [swapchainCalls, createdObjects_append, List.cons_append, List.nil_append,
    createdObjects_cons, Call.creates,
    createdObjects_map_single (imageViewCall p (swapchainLoopState p self))
      (fun i => ⟨.imageView, (p.createImageView i).handle⟩) _ (fun _ => rfl)]

theorem createdObjects_renderPassCalls (p : InitPlatform) (self : GfxResources) :
    createdObjects (renderPassCalls p self) = [⟨.renderPass, p.createRenderPass.handle⟩] := by
  simp [renderPassCalls, createdObjects_cons, createdObjects_nil, Call.creates]

theorem createdObjects_framebufferCalls (p : InitPlatform) (w : Window) (self : GfxResources) :
    createdObjects (framebufferCalls p w self)
      = (List.range self.m_bufferedFrameResource.bufferCount).map
          (fun i => ⟨.framebuffer, (p.createFramebuffer i).handle⟩) :=
  createdObjects_map_single _ _ _ (fun _ => rfl)

theorem createdObjects_pipelineCalls (p : InitPlatform) (w : Window) (self : GfxResources) :
    createdObjects (pipelineCalls p w self)
      = createdObjects (shaderModuleCalls p self.m_device self.c_vertexShader)
        ++ createdObjects (shaderModuleCalls p self.m_device self.c_fragmentShader)
        ++ [⟨.pipelineLayout, p.createPipelineLayout.handle⟩,
            ⟨.pipeline, p.createGraphicsPipelines.handle⟩] := by
  simp [pipelineCalls, createdObjects_append, createdObjects_cons, createdObjects_nil,
    Call.creates]

theorem createdObjects_queueAndPoolCalls (p : InitPlatform) (self : GfxResources) :
    createdObjects (queueAndPoolCalls p self)
      = ⟨.commandPool, p.createCommandPool.handle⟩ ::
        ((List.range self.m_bufferedFrameResource.bufferCount).map
            (fun i => ⟨.commandBuffer, p.commandBuffers i⟩)
          ++ (List.range self.m_bufferedFrameResource.bufferCount).map
            (fun i => ⟨.fence, (p.createFence i).handle⟩)) := by
  simp only [queueAndPoolCalls, createdObjects_append, List.cons_append, List.nil_append,
    createdObjects_cons, Call.creates, List.map_map,
    createdObjects_map_single (fenceCall p self)
      (fun i => ⟨.fence, (p.createFence i).handle⟩) _ (fun _ => rfl)]
  rfl

theorem createdObjects_semaphoresCalls (p : InitPlatform) (self : GfxResources) :
    createdObjects (semaphoresCalls p self)
      = [⟨.semaphore, p.createSwapchainImageSemaphore.handle⟩,
         ⟨.semaphore, p.createCmdBufferSubmitSemaphore.handle⟩] := by
  simp [semaphoresCalls, createdObjects_cons, createdObjects_nil, Call.creates]

theorem createdObjects_createCalls (cfg : Config) (gv : GlobalVariables) (p : InitPlatform)
    (w : Window) (g : GfxResources) :
    createdObjects (createCalls cfg gv p w g)
      = [⟨.inst, p.createInstance.handle⟩]
        ++ (if cfg.debugValidation then [⟨.debugCallback, p.createDebugReportCallback.handle⟩]
            else [])
        ++ [⟨.device, p.createDevice.handle⟩, ⟨.surface, p.createSurface.handle⟩,
            ⟨.swapchain, p.createSwapchain.handle⟩]
        ++ (List.range p.swapchainImagesWritten).map
            (fun i => ⟨.imageView, (p.createImageView i).handle⟩)
        ++ [⟨.renderPass, p.createRenderPass.handle⟩]
        ++ (List.range p.swapchainImagesWritten).map
            (fun i => ⟨.framebuffer, (p.createFramebuffer i).handle⟩)
        ++ createdObjects (shaderModuleCalls p p.createDevice.handle g.c_vertexShader)
        ++ createdObjects (shaderModuleCalls p p.createDevice.handle g.c_fragmentShader)
        ++ [⟨.pipelineLayout, p.createPipelineLayout.handle⟩,
            ⟨.pipeline, p.createGraphicsPipelines.handle⟩,
            ⟨.commandPool, p.createCommandPool.handle⟩]
        ++ (List.range p.swapchainImagesWritten).map (fun i => ⟨.commandBuffer, p.commandBuffers i⟩)
        ++ (List.range p.swapchainImagesWritten).map
            (fun i => ⟨.fence, (p.createFence i).handle⟩)
        ++ [⟨.semaphore, p.createSwapchainImageSemaphore.handle⟩,
            ⟨.semaphore, p.createCmdBufferSubmitSemaphore.handle⟩] := by
  simp only [createCalls, createdObjects_append, createdObjects_instanceCalls,
    createdObjects_physicalDeviceCalls, createdObjects_surfaceCalls,
    createdObjects_swapchainCalls, createdObjects_renderPassCalls,
    createdObjects_framebufferCalls, createdObjects_pipelineCalls,
    createdObjects_queueAndPoolCalls, createdObjects_semaphoresCalls,
    afterRenderPass_bufferCount, afterPipeline_bufferCount, List.append_assoc,
    List.cons_append, List.nil_append]
  rfl

theorem objectsOfKind_append (k : ObjKind) (xs ys : List Obj) :
    objectsOfKind k (xs ++ ys) = objectsOfKind k xs ++ objectsOfKind k ys := by
  simp [objectsOfKind]

theorem objectsOfKind_map (k k' : ObjKind) (h : Nat → Handle) (l : List Nat) :
    objectsOfKind k (l.map (fun i => (⟨k', h i⟩ : Obj)))
      = if k' = k then l.map (fun i => (⟨k', h i⟩ : Obj)) else [] := by
  unfold objectsOfKind
  split_ifs with hk
  · rw [List.filter_eq_self]
    intro o ho
    rw [List.mem_map] at ho
    obtain ⟨i, _, rfl⟩ := ho
    simp [hk]
  · rw [List.filter_eq_nil_iff]
    intro o ho
    rw [List.mem_map] at ho
    obtain ⟨i, _, rfl⟩ := ho
    simp [hk]

theorem objectsOfKind_shaderModuleCalls (k : ObjKind) (hk : k ≠ .shaderModule)
    (p : InitPlatform) (device : Handle) (shaderFile : String) :
    objectsOfKind k (createdObjects (shaderModuleCalls p device shaderFile)) = [] := by
  unfold shaderModuleCalls
  cases p.files shaderFile with
  | none => rfl
  | some size =>
    simp only [createdObjects_cons, createdObjects_nil, Call.creates, List.append_nil,
      objectsOfKind, List.filter_eq_nil_iff, List.mem_singleton]
    intro o ho
    subst ho
    simpa using fun h => hk h.symm

theorem count_created_of_kind (cfg : Config) (gv : GlobalVariables) (p : InitPlatform)
    (w : Window) (g : GfxResources) (k : ObjKind)
    (hk : k = .imageView ∨ k = .framebuffer ∨ k = .commandBuffer ∨ k = .fence) :
    (objectsOfKind k (createdObjects (createCalls cfg gv p w g))).length
      = p.swapchainImagesWritten := by
  rw [createdObjects_createCalls]
  have hks : k ≠ .shaderModule := by rcases hk with h | h | h | h <;> rw [h] <;> decide
  simp only [objectsOfKind_append, objectsOfKind_shaderModuleCalls k hks, objectsOfKind_map,
    List.append_nil, List.length_append]
  rcases hk with h | h | h | h <;> subst h <;> cases cfg.debugValidation <;>
    simp [objectsOfKind]

section
variable {α β γ : Type}

theorem mapBoth_bind (fc : Call → Call) (fv : β → γ) (m : Exec α) (F : α → Exec β) :
    Exec.mapBoth fc fv (Exec.bind m F)
      = Exec.bind (Exec.mapBoth fc id m) (fun a => Exec.mapBoth fc fv (F a)) := by
  unfold Exec.mapBoth Exec.bind
  cases m.outcome <;> simp

theorem bind_mapBoth_congr (fc : Call → Call) (fv : α → α) (fw : β → γ) (m : Exec α)
    (F : α → Exec γ) (G : α → Exec β) (h : ∀ a, F (fv a) = Exec.mapBoth fc fw (G a)) :
    Exec.bind (Exec.mapBoth fc fv m) F = Exec.mapBoth fc fw (Exec.bind m G) := by
  unfold Exec.mapBoth Exec.bind
  cases hm : m.outcome with
  | ok a =>
    have := h a
    unfold Exec.mapBoth at this
    simp [this]
  | assertFailed => simp
  | undefinedBehaviour => simp

theorem mapBoth_pure (fc : Call → Call) (fv : α → β) (a : α) :
    Exec.mapBoth fc fv (Exec.pure a) = Exec.pure (fv a) := rfl

theorem mapBoth_issue (fc : Call → Call) (c : Call) :
    Exec.mapBoth fc id (issue c) = issue (fc c) := rfl

theorem mapBoth_assert (fc : Call → Call) (cfg : Config) (b : Bool) :
    Exec.mapBoth fc id (assert cfg b) = assert cfg b := by
  unfold assert
  split <;> rfl

theorem mapBoth_readAt (fc : Call → Call) (v : Vec) (xs : List α) (i : Nat) :
    Exec.mapBoth fc id (readAt v xs i) = readAt v xs i := by
  unfold readAt
  cases xs[i]? <;> rfl

theorem mapBoth_writeAt (fc : Call → Call) (v : Vec) (xs : List α) (i : Nat) (a : α) :
    Exec.mapBoth fc id (writeAt v xs i a) = writeAt v xs i a := by
  unfold writeAt
  split <;> rfl

theorem mapBoth_forFrom (fc : Call → Call) (body : Nat → α → Exec α)
    (h : ∀ i xs, Exec.mapBoth fc id (body i xs) = body i xs) :
    ∀ (count i : Nat) (xs : α),
      Exec.mapBoth fc id (forFrom body count i xs) = forFrom body count i xs := by
  intro count
  induction count with
  | zero => intro i xs; rfl
  | succ k ih =>
    intro i xs
    simp only [forFrom, mapBoth_bind, h, ih]

end

theorem mapBoth_createShaderModule (c : Nat) (cfg : Config) (p : InitPlatform)
    (device : Handle) (shaderFile : String) :
    Exec.mapBoth (Call.setMinImageCount c) id (createShaderModule cfg p device shaderFile)
      = createShaderModule cfg p device shaderFile := by
  simp only [createShaderModule, bind_eq, pure_eq, CHECK_VK_RESULT_SUCCESS, mapBoth_bind,
    mapBoth_assert]
  cases p.files shaderFile <;>
    simp only [mapBoth_bind, mapBoth_assert, mapBoth_issue, mapBoth_pure,
      Call.setMinImageCount, id]

theorem createInstance_withBufferingCount (c : Nat) (cfg : Config) (gv : GlobalVariables)
    (p : InitPlatform) (g : GfxResources) :
    GfxResources.createInstance cfg gv p (g.withBufferingCount c)
      = Exec.mapBoth (Call.setMinImageCount c) (fun s => s.withBufferingCount c)
          (GfxResources.createInstance cfg gv p g) := by
  simp only [GfxResources.createInstance, bind_eq, pure_eq, CHECK_VK_RESULT_SUCCESS,
    mapBoth_bind, mapBoth_assert, mapBoth_issue, mapBoth_pure, Call.setMinImageCount]
  cases cfg.debugValidation <;>
    simp only [mapBoth_bind, mapBoth_assert, mapBoth_issue, mapBoth_pure,
      Call.setMinImageCount, if_true, if_false, Bool.false_eq_true] <;> rfl


theorem mapBoth_findGraphicsQueueFamily (fc : Call → Call) (props : List Nat) (current : Nat) :
    Exec.mapBoth fc id (findGraphicsQueueFamily props props.length 0 current)
      = findGraphicsQueueFamily props props.length 0 current := by
  rw [findGraphicsQueueFamily_eq props current props.length 0 (by omega)]
  rfl

theorem createPhysicalDevice_withBufferingCount (c : Nat) (cfg : Config)
    (p : InitPlatform) (g : GfxResources) :
    GfxResources.createPhysicalDevice cfg p (g.withBufferingCount c)
      = Exec.mapBoth (Call.setMinImageCount c) (fun s => s.withBufferingCount c)
          (GfxResources.createPhysicalDevice cfg p g) := by
  simp only [GfxResources.createPhysicalDevice, bind_eq, pure_eq, CHECK_VK_RESULT_SUCCESS,
    mapBoth_bind, mapBoth_assert, mapBoth_issue, mapBoth_pure, Call.setMinImageCount,
    mapBoth_findGraphicsQueueFamily]
  rfl

theorem createSurface_withBufferingCount (c : Nat) (cfg : Config)
    (p : InitPlatform) (w : Window) (g : GfxResources) :
    GfxResources.createSurface cfg p w (g.withBufferingCount c)
      = Exec.mapBoth (Call.setMinImageCount c) (fun s => s.withBufferingCount c)
          (GfxResources.createSurface cfg p w g) := by
  simp only [GfxResources.createSurface, bind_eq, pure_eq, CHECK_VK_RESULT_SUCCESS,
    mapBoth_bind, mapBoth_assert, mapBoth_issue, mapBoth_pure, Call.setMinImageCount]
  rfl

theorem mapBoth_createImageViewBody (c : Nat) (cfg : Config) (p : InitPlatform)
    (self : GfxResources) (idx : Nat) (xs : List Handle) :
    Exec.mapBoth (Call.setMinImageCount c) id (createImageViewBody cfg p self idx xs)
      = createImageViewBody cfg p self idx xs := by
  simp only [createImageViewBody, bind_eq, pure_eq, CHECK_VK_RESULT_SUCCESS, mapBoth_bind,
    mapBoth_assert, mapBoth_issue, mapBoth_pure, mapBoth_readAt, mapBoth_writeAt,
    Call.setMinImageCount, id]

theorem mapBoth_createFramebufferBody (c : Nat) (cfg : Config) (p : InitPlatform)
    (w : Window) (self : GfxResources) (idx : Nat) (xs : List Handle) :
    Exec.mapBoth (Call.setMinImageCount c) id (createFramebufferBody cfg p w self idx xs)
      = createFramebufferBody cfg p w self idx xs := by
  simp only [createFramebufferBody, bind_eq, pure_eq, CHECK_VK_RESULT_SUCCESS, mapBoth_bind,
    mapBoth_assert, mapBoth_issue, mapBoth_pure, mapBoth_readAt, mapBoth_writeAt,
    Call.setMinImageCount, id]

theorem mapBoth_createFenceBody (c : Nat) (cfg : Config) (p : InitPlatform)
    (self : GfxResources) (idx : Nat) (xs : List Handle) :
    Exec.mapBoth (Call.setMinImageCount c) id (createFenceBody cfg p self idx xs)
      = createFenceBody cfg p self idx xs := by
  simp only [createFenceBody, bind_eq, pure_eq, CHECK_VK_RESULT_SUCCESS, mapBoth_bind,
    mapBoth_assert, mapBoth_issue, mapBoth_pure, mapBoth_writeAt,
    Call.setMinImageCount, id]

theorem createSwapchain_withBufferingCount (c : Nat) (cfg : Config)
    (p : InitPlatform) (w : Window) (g : GfxResources) :
    GfxResources.createSwapchain cfg p w (g.withBufferingCount c)
      = Exec.mapBoth (Call.setMinImageCount c) (fun s => s.withBufferingCount c)
          (GfxResources.createSwapchain cfg p w g) := by
  simp only [GfxResources.createSwapchain, bind_eq, pure_eq, CHECK_VK_RESULT_SUCCESS,
    mapBoth_bind, mapBoth_assert, mapBoth_issue, mapBoth_pure, mapBoth_readAt,
    Call.setMinImageCount, forLoop,
    mapBoth_forFrom _ _ (mapBoth_createImageViewBody c cfg p _)]
  rfl

theorem createRenderPass_withBufferingCount (c : Nat) (cfg : Config)
    (p : InitPlatform) (g : GfxResources) :
    GfxResources.createRenderPass cfg p (g.withBufferingCount c)
      = Exec.mapBoth (Call.setMinImageCount c) (fun s => s.withBufferingCount c)
          (GfxResources.createRenderPass cfg p g) := by
  simp only [GfxResources.createRenderPass, bind_eq, pure_eq, CHECK_VK_RESULT_SUCCESS,
    mapBoth_bind, mapBoth_assert, mapBoth_issue, mapBoth_pure, Call.setMinImageCount]
  rfl

theorem createFramebuffer_withBufferingCount (c : Nat) (cfg : Config)
    (p : InitPlatform) (w : Window) (g : GfxResources) :
    GfxResources.createFramebuffer cfg p w (g.withBufferingCount c)
      = Exec.mapBoth (Call.setMinImageCount c) (fun s => s.withBufferingCount c)
          (GfxResources.createFramebuffer cfg p w g) := by
  simp only [GfxResources.createFramebuffer, bind_eq, pure_eq, mapBoth_bind, mapBoth_pure,
    forLoop, mapBoth_forFrom _ _ (mapBoth_createFramebufferBody c cfg p w _)]
  rfl

theorem createGraphicsPipeline_withBufferingCount (c : Nat) (cfg : Config)
    (p : InitPlatform) (w : Window) (g : GfxResources) :
    GfxResources.createGraphicsPipeline cfg p w (g.withBufferingCount c)
      = Exec.mapBoth (Call.setMinImageCount c) (fun s => s.withBufferingCount c)
          (GfxResources.createGraphicsPipeline cfg p w g) := by
  simp only [GfxResources.createGraphicsPipeline, bind_eq, pure_eq, CHECK_VK_RESULT_SUCCESS,
    mapBoth_bind, mapBoth_assert, mapBoth_issue, mapBoth_pure, Call.setMinImageCount,
    mapBoth_createShaderModule]
  rfl

theorem createQueueAndPool_withBufferingCount (c : Nat) (cfg : Config)
    (p : InitPlatform) (g : GfxResources) :
    GfxResources.createQueueAndPool cfg p (g.withBufferingCount c)
      = Exec.mapBoth (Call.setMinImageCount c) (fun s => s.withBufferingCount c)
          (GfxResources.createQueueAndPool cfg p g) := by
  simp only [GfxResources.createQueueAndPool, bind_eq, pure_eq, CHECK_VK_RESULT_SUCCESS,
    mapBoth_bind, mapBoth_assert, mapBoth_issue, mapBoth_pure, Call.setMinImageCount,
    forLoop, mapBoth_forFrom _ _ (mapBoth_createFenceBody c cfg p _)]
  rfl

theorem createSemaphores_withBufferingCount (c : Nat) (cfg : Config)
    (p : InitPlatform) (g : GfxResources) :
    GfxResources.createSemaphores cfg p (g.withBufferingCount c)
      = Exec.mapBoth (Call.setMinImageCount c) (fun s => s.withBufferingCount c)
          (GfxResources.createSemaphores cfg p g) := by
  simp only [GfxResources.createSemaphores, bind_eq, pure_eq, CHECK_VK_RESULT_SUCCESS,
    mapBoth_bind, mapBoth_assert, mapBoth_issue, mapBoth_pure, Call.setMinImageCount]
  rfl

theorem create_withBufferingCount (c : Nat) (cfg : Config) (gv : GlobalVariables)
    (p : InitPlatform) (w : Window) (g : GfxResources) :
    GfxResources.create cfg gv p w (g.withBufferingCount c)
      = Exec.mapBoth (Call.setMinImageCount c) (fun s => s.withBufferingCount c)
          (GfxResources.create cfg gv p w g) := by
  simp only [GfxResources.create, bind_eq, pure_eq]
  rw [createInstance_withBufferingCount]
  refine bind_mapBoth_congr _ _ _ _ _ _ (fun s1 => ?_)
  rw [createPhysicalDevice_withBufferingCount]
  refine bind_mapBoth_congr _ _ _ _ _ _ (fun s2 => ?_)
  rw [createSurface_withBufferingCount]
  refine bind_mapBoth_congr _ _ _ _ _ _ (fun s3 => ?_)
  rw [createSwapchain_withBufferingCount]
  refine bind_mapBoth_congr _ _ _ _ _ _ (fun s4 => ?_)
  rw [createRenderPass_withBufferingCount]
  refine bind_mapBoth_congr _ _ _ _ _ _ (fun s5 => ?_)
  rw [createFramebuffer_withBufferingCount]
  refine bind_mapBoth_congr _ _ _ _ _ _ (fun s6 => ?_)
  rw [createGraphicsPipeline_withBufferingCount]
  refine bind_mapBoth_congr _ _ _ _ _ _ (fun s7 => ?_)
  rw [createQueueAndPool_withBufferingCount]
  refine bind_mapBoth_congr _ _ _ _ _ _ (fun s8 => ?_)
  rw [createSemaphores_withBufferingCount]
  refine bind_mapBoth_congr _ _ _ _ _ _ (fun s9 => ?_)
  rfl

theorem sample_create_returns :
    (GfxResources.create sampleConfig sampleGlobals sampleInit sampleWindow {}).outcome
      = .ok (createState sampleConfig sampleInit {}) := by
  rfl

theorem setMinImageCount_swapchain (c : Nat) (y : Call) (device : Handle)
    (info : SwapchainCreateInfo) (out : Handle)
    (h : Call.setMinImageCount c y = .vkCreateSwapchainKHR device info out) :
    info.minImageCount = c := by
  cases y <;> simp only [Call.setMinImageCount] at h <;> first
    | (injection h with h1 h2 h3; subst h2; rfl)
    | exact absurd h (by simp)

/-- C3: when `create` returns, with `n` the swapchain image count the platform reported,
the image-view, framebuffer, command-buffer and fence vectors have length `n` and
`bufferCount` is `n`; exactly `n` image views, `n` framebuffers, `n` command buffers (in
one allocation of count `n`) and `n` fences were created; and the constant
`c_bufferingCount` reaches nothing but the `minImageCount` of the swapchain creation:
with any other value of it `create` makes the same accesses and ends the same way, with
the same calls but for that one field, and the same state but for the constant. -/
theorem create_sizes_by_reported_count (cfg : Config) (gv : GlobalVariables)
    (p : InitPlatform) (w : Window) (g s : GfxResources)
    (h : (GfxResources.create cfg gv p w g).outcome = .ok s) :
    HasSlots s p.swapchainImagesWritten
      ∧ (∀ k : ObjKind, k = .imageView ∨ k = .framebuffer ∨ k = .commandBuffer ∨ k = .fence →
          (objectsOfKind k (createdObjects (GfxResources.create cfg gv p w g).calls)).length
            = p.swapchainImagesWritten)
      ∧ .vkAllocateCommandBuffers s.m_device s.m_commandPool
            VK_COMMAND_BUFFER_LEVEL_PRIMARY p.swapchainImagesWritten
            ((List.range p.swapchainImagesWritten).map p.commandBuffers)
          ∈ (GfxResources.create cfg gv p w g).calls
      ∧ (∀ (device : Handle) (info : SwapchainCreateInfo) (out : Handle),
          .vkCreateSwapchainKHR device info out ∈ (GfxResources.create cfg gv p w g).calls →
            info.minImageCount = g.c_bufferingCount)
      ∧ (∀ c : Nat, GfxResources.create cfg gv p w (g.withBufferingCount c)
          = Exec.mapBoth (Call.setMinImageCount c) (fun s => s.withBufferingCount c)
              (GfxResources.create cfg gv p w g)) := by
  obtain ⟨hs, hcalls, _, _, _⟩ := create_ok cfg gv p w g s h
  refine ⟨?_, ?_, ?_, ?_, fun c => create_withBufferingCount c cfg gv p w g⟩
  · rw [hs]; exact createState_hasSlots cfg p g
  · intro k hk
    rw [hcalls]
    exact count_created_of_kind cfg gv p w g k hk
  · rw [hcalls, hs]
    unfold createCalls
    refine List.mem_append_left _ (List.mem_append_right _ ?_)
    unfold queueAndPoolCalls
    refine List.mem_append_left _ ?_
    simp only [List.mem_cons, List.mem_singleton]
    right; right; left
    rfl
  · intro device info out hmem
    have hself := create_withBufferingCount g.c_bufferingCount cfg gv p w g
    have hg : g.withBufferingCount g.c_bufferingCount = g := rfl
    rw [hg] at hself
    have hc : (GfxResources.create cfg gv p w g).calls
        = (GfxResources.create cfg gv p w g).calls.map
            (Call.setMinImageCount g.c_bufferingCount) := by
      conv_lhs => rw [hself]
      rfl
    rw [hc, List.mem_map] at hmem
    obtain ⟨y, _, hy⟩ := hmem
    exact setMinImageCount_swapchain _ y device info out hy


theorem create_sizes_by_reported_count_witness :
    (GfxResources.create sampleConfig sampleGlobals sampleInit sampleWindow {}).outcome
        = .ok (createState sampleConfig sampleInit {})
      ∧ HasSlots (createState sampleConfig sampleInit {}) 2 :=
  ⟨sample_create_returns,
    (create_sizes_by_reported_count sampleConfig sampleGlobals sampleInit sampleWindow {}
      (createState sampleConfig sampleInit {}) sample_create_returns).1⟩

theorem destroyedObjects_append (xs ys : List Call) :
    destroyedObjects (xs ++ ys) = destroyedObjects xs ++ destroyedObjects ys := by
  simp [destroyedObjects]

theorem destroyedObjects_cons (c : Call) (xs : List Call) :
    destroyedObjects (c :: xs) = c.destroys ++ destroyedObjects xs := by
  simp [destroyedObjects]

theorem destroyedObjects_nil : destroyedObjects [] = [] := rfl

theorem createState_imageViews_getD (cfg : Config) (p : InitPlatform) (g : GfxResources)
    (i : Nat) (hi : i < p.swapchainImagesWritten) :
    (createState cfg p g).m_bufferedFrameResource.imageViews.getD i 0
      = (p.createImageView i).handle := by
  show ((List.range p.swapchainImagesWritten).map
    (fun i => (p.createImageView i).handle)).getD i 0 = _
  simp [List.getD_eq_getElem?_getD, hi]

theorem createState_framebuffers_getD (cfg : Config) (p : InitPlatform) (g : GfxResources)
    (i : Nat) (hi : i < p.swapchainImagesWritten) :
    (createState cfg p g).m_bufferedFrameResource.framebuffers.getD i 0
      = (p.createFramebuffer i).handle := by
  show ((List.range p.swapchainImagesWritten).map
    (fun i => (p.createFramebuffer i).handle)).getD i 0 = _
  simp [List.getD_eq_getElem?_getD, hi]

theorem createState_fences_getD (cfg : Config) (p : InitPlatform) (g : GfxResources)
    (i : Nat) (hi : i < p.swapchainImagesWritten) :
    (createState cfg p g).m_bufferedFrameResource.commandBufferFences.getD i 0
      = (p.createFence i).handle := by
  show ((List.range p.swapchainImagesWritten).map
    (fun i => (p.createFence i).handle)).getD i 0 = _
  simp [List.getD_eq_getElem?_getD, hi]

theorem createState_commandBuffers (cfg : Config) (p : InitPlatform) (g : GfxResources) :
    (createState cfg p g).m_bufferedFrameResource.commandBuffers
      = (List.range p.swapchainImagesWritten).map p.commandBuffers := rfl

theorem createState_fields (cfg : Config) (p : InitPlatform) (g : GfxResources) :
    (createState cfg p g).m_pipelineLayout = p.createPipelineLayout.handle
      ∧ (createState cfg p g).m_graphicsPipeline = p.createGraphicsPipelines.handle
      ∧ (createState cfg p g).m_commandPool = p.createCommandPool.handle
      ∧ (createState cfg p g).m_bufferedFrameResource.swapchainImageSemaphore
          = p.createSwapchainImageSemaphore.handle
      ∧ (createState cfg p g).m_bufferedFrameResource.cmdBufferSubmitSemaphore
          = p.createCmdBufferSubmitSemaphore.handle
      ∧ (createState cfg p g).m_renderPass = p.createRenderPass.handle
      ∧ (createState cfg p g).m_swapchain = p.createSwapchain.handle
      ∧ (createState cfg p g).m_surface = p.createSurface.handle
      ∧ (createState cfg p g).m_device = p.createDevice.handle
      ∧ (createState cfg p g).m_instance = p.createInstance.handle
      ∧ (createState cfg p g).m_debugReportCallback
          = (if cfg.debugValidation then p.createDebugReportCallback.handle
             else g.m_debugReportCallback) :=
  ⟨rfl, rfl, rfl, rfl, rfl, rfl, rfl, rfl, rfl, rfl, rfl⟩

theorem destroyedObjects_slots (cfg : Config) (p : InitPlatform) (g : GfxResources) :
    ∀ l : List Nat, (∀ i ∈ l, i < p.swapchainImagesWritten) →
    destroyedObjects (l.flatMap (destroySlotCalls (createState cfg p g)))
      = l.flatMap (fun i =>
          [⟨.imageView, (p.createImageView i).handle⟩,
           ⟨.framebuffer, (p.createFramebuffer i).handle⟩,
           ⟨.fence, (p.createFence i).handle⟩]) := by
  intro l
  induction l with
  | nil => intro _; rfl
  | cons a t ih =>
    intro h
    have ha : a < p.swapchainImagesWritten := h a (List.mem_cons_self _ _)
    have ht := ih (fun i hi => h i (List.mem_cons_of_mem _ hi))
    simp only [List.flatMap_cons, destroyedObjects_append, ht, destroySlotCalls,
      destroyedObjects_cons, destroyedObjects_nil, Call.destroys,
      createState_imageViews_getD cfg p g a ha, createState_framebuffers_getD cfg p g a ha,
      createState_fences_getD cfg p g a ha, List.append_nil, List.cons_append,
      List.nil_append]

theorem toUInt32_of_lt (n : Nat) (h : n < 2 ^ 32) : toUInt32 n = n :=
  Nat.mod_eq_of_lt h

theorem destroyedObjects_teardown (cfg : Config) (p : InitPlatform) (g : GfxResources)
    (hn : p.swapchainImagesWritten < 2 ^ 32)
    (hv : (p.files g.c_vertexShader).isSome = true)
    (hf : (p.files g.c_fragmentShader).isSome = true) :
    destroyedObjects (teardownCalls cfg (createState cfg p g) p.swapchainImagesWritten)
      = ownedInTeardownOrder cfg p g p.swapchainImagesWritten := by
  have hslots := destroyedObjects_slots cfg p g (List.range p.swapchainImagesWritten)
    (fun i hi => List.mem_range.mp hi)
  have hvert : (createState cfg p g).m_shader.vert
      = (p.createShaderModule g.c_vertexShader).handle := by
    show shaderModuleOf p g.c_vertexShader = _
    unfold shaderModuleOf
    cases hx : p.files g.c_vertexShader with
    | none => rw [hx] at hv; exact absurd hv (by simp)
    | some _ => rfl
  have hfrag : (createState cfg p g).m_shader.frag
      = (p.createShaderModule g.c_fragmentShader).handle := by
    show shaderModuleOf p g.c_fragmentShader = _
    unfold shaderModuleOf
    cases hx : p.files g.c_fragmentShader with
    | none => rw [hx] at hf; exact absurd hf (by simp)
    | some _ => rfl
  have hlen : ((List.range p.swapchainImagesWritten).map p.commandBuffers).length
      = p.swapchainImagesWritten := by simp
  obtain ⟨e1, e2, e3, e4, e5, e6, e7, e8, e9, e10, e11⟩ := createState_fields cfg p g
  cases hd : cfg.debugValidation <;>
    simp only [teardownCalls, destroyedObjects_append, destroyedObjects_cons,
      destroyedObjects_nil, Call.destroys, hslots, hvert, hfrag, createState_commandBuffers,
      hlen, toUInt32_of_lt _ hn, List.take_of_length_le (Nat.le_of_eq hlen), hd,
      ownedInTeardownOrder, List.append_nil, List.cons_append, List.nil_append,
      List.append_assoc, List.map_map, if_true, if_false, Bool.false_eq_true,
      e1, e2, e3, e4, e5, e6, e7, e8, e9, e10, e11] <;> rfl

theorem createdObjects_shaderModuleCalls (p : InitPlatform) (device : Handle)
    (shaderFile : String) (h : (p.files shaderFile).isSome = true) :
    createdObjects (shaderModuleCalls p device shaderFile)
      = [⟨.shaderModule, (p.createShaderModule shaderFile).handle⟩] := by
  unfold shaderModuleCalls
  cases hx : p.files shaderFile with
  | none => rw [hx] at h; exact absurd h (by simp)
  | some _ => rfl

theorem createdObjects_create (cfg : Config) (gv : GlobalVariables) (p : InitPlatform)
    (w : Window) (g : GfxResources)
    (hv : (p.files g.c_vertexShader).isSome = true)
    (hf : (p.files g.c_fragmentShader).isSome = true) :
    createdObjects (createCalls cfg gv p w g)
      = ownedInCreationOrder cfg p g p.swapchainImagesWritten := by
  rw [createdObjects_createCalls, createdObjects_shaderModuleCalls p _ _ hv,
    createdObjects_shaderModuleCalls p _ _ hf]
  simp only [ownedInCreationOrder, List.append_assoc, List.cons_append, List.nil_append]

theorem count_flatMap_triple (o : Obj) (a b c : Nat → Obj) (l : List Nat) :
    List.count o (l.flatMap (fun i => [a i, b i, c i]))
      = List.count o (l.map a) + List.count o (l.map b) + List.count o (l.map c) := by
  induction l with
  | nil => rfl
  | cons x t ih =>
    simp only [List.flatMap_cons, List.map_cons, List.count_append, List.count_cons, ih,
      List.count_nil]
    omega

theorem owned_perm (cfg : Config) (p : InitPlatform) (g : GfxResources) (n : Nat) :
    (ownedInTeardownOrder cfg p g n).Perm (ownedInCreationOrder cfg p g n) := by
  rw [List.perm_iff_count]
  intro o
  simp only [ownedInTeardownOrder, ownedInCreationOrder, List.count_append,
    count_flatMap_triple, List.count_cons, List.count_nil]
  omega


theorem teardown_no_image (cfg : Config) (p : InitPlatform) (g : GfxResources) (n : Nat) :
    ∀ o ∈ ownedInTeardownOrder cfg p g n, o.kind ≠ .image := by
  unfold ownedInTeardownOrder
  cases cfg.debugValidation <;>
    simp [List.forall_mem_append (p := fun o : Obj => o.kind ≠ .image), or_imp, forall_and] <;>
    refine ⟨?_, ?_, ?_⟩ <;> intro x i _ hx <;> subst hx <;> simp

/-- C7: a successful `create` followed by `destroy` ends the life of exactly the objects
that were created: the instance, the diagnostic callback (when compiled in), the device,
the surface, the swapchain, `n` image views, the render pass, `n` framebuffers, two shader
modules, the pipeline layout, the pipeline, the command pool, `n` command buffers, `n`
fences and two semaphores. The destroyed objects are a rearrangement of the created ones,
so each is destroyed as often as it was created (once, when the platform handed out
distinct handles), and no swapchain image is destroyed. -/
theorem create_destroy_paired (cfg : Config) (gv : GlobalVariables) (p : InitPlatform)
    (w : Window) (g s : GfxResources) (hs : p.allSuccess g)
    (hn : p.swapchainImagesWritten < 2 ^ 32)
    (h : (GfxResources.create cfg gv p w g).outcome = .ok s) :
    createdObjects (GfxResources.create cfg gv p w g).calls
        = ownedInCreationOrder cfg p g p.swapchainImagesWritten
      ∧ (GfxResources.destroy cfg s).outcome = .ok ()
      ∧ (destroyedObjects (GfxResources.destroy cfg s).calls).Perm
          (createdObjects (GfxResources.create cfg gv p w g).calls)
      ∧ ((createdObjects (GfxResources.create cfg gv p w g).calls).Nodup →
          (destroyedObjects (GfxResources.destroy cfg s).calls).Nodup)
      ∧ (∀ o ∈ destroyedObjects (GfxResources.destroy cfg s).calls, o.kind ≠ .image) := by
  have hv := hs.2.2.2.2.2.2.2.2.2.2.2.2.2.2.2.2.2.1
  have hf := hs.2.2.2.2.2.2.2.2.2.2.2.2.2.2.2.2.2.2.1
  obtain ⟨hst, hcalls, _, _, _⟩ := create_ok cfg gv p w g s h
  have hslots : HasSlots s p.swapchainImagesWritten := by
    rw [hst]; exact createState_hasSlots cfg p g
  obtain ⟨hdc, _, hdo⟩ := destroy_eq cfg s _ hslots
  have hcr := createdObjects_create cfg gv p w g hv hf
  have hde := destroyedObjects_teardown cfg p g hn hv hf
  rw [hcalls, hcr, hdc, hst, hde]
  have hperm := owned_perm cfg p g p.swapchainImagesWritten
  exact ⟨rfl, hst ▸ hdo, hperm, fun hnd => hperm.nodup_iff.mpr hnd,
    teardown_no_image cfg p g _⟩

theorem sampleInit_allSuccess : sampleInit.allSuccess {} := by
  simp [InitPlatform.allSuccess, sampleInit]

theorem create_destroy_paired_witness :
    sampleInit.allSuccess {} ∧ sampleInit.swapchainImagesWritten < 2 ^ 32
      ∧ (GfxResources.create sampleConfig sampleGlobals sampleInit sampleWindow {}).outcome
          = .ok (createState sampleConfig sampleInit {})
      ∧ (destroyedObjects
            (GfxResources.destroy sampleConfig (createState sampleConfig sampleInit {})).calls).Perm
          (createdObjects
            (GfxResources.create sampleConfig sampleGlobals sampleInit sampleWindow {}).calls) :=
  ⟨sampleInit_allSuccess, by decide, rfl,
    (create_destroy_paired sampleConfig sampleGlobals sampleInit sampleWindow {}
      (createState sampleConfig sampleInit {}) sampleInit_allSuccess (by decide) rfl).2.2.1⟩

theorem sample_created :
    createdObjects
        (GfxResources.create sampleConfig sampleGlobals sampleInit sampleWindow {}).calls
      = [⟨.inst, 100⟩, ⟨.debugCallback, 101⟩, ⟨.device, 103⟩, ⟨.surface, 104⟩,
         ⟨.swapchain, 105⟩, ⟨.imageView, 300⟩, ⟨.imageView, 301⟩, ⟨.renderPass, 106⟩,
         ⟨.framebuffer, 400⟩, ⟨.framebuffer, 401⟩, ⟨.shaderModule, 501⟩,
         ⟨.shaderModule, 502⟩, ⟨.pipelineLayout, 107⟩, ⟨.pipeline, 108⟩,
         ⟨.commandPool, 110⟩, ⟨.commandBuffer, 600⟩, ⟨.commandBuffer, 601⟩,
         ⟨.fence, 700⟩, ⟨.fence, 701⟩, ⟨.semaphore, 111⟩, ⟨.semaphore, 112⟩] := by
  rfl

theorem sample_destroyed :
    destroyedObjects
        (GfxResources.destroy sampleConfig (createState sampleConfig sampleInit {})).calls
      = [⟨.shaderModule, 501⟩, ⟨.shaderModule, 502⟩, ⟨.pipelineLayout, 107⟩,
         ⟨.pipeline, 108⟩, ⟨.imageView, 300⟩, ⟨.framebuffer, 400⟩, ⟨.fence, 700⟩,
         ⟨.imageView, 301⟩, ⟨.framebuffer, 401⟩, ⟨.fence, 701⟩, ⟨.commandBuffer, 600⟩,
         ⟨.commandBuffer, 601⟩, ⟨.commandPool, 110⟩, ⟨.semaphore, 111⟩, ⟨.semaphore, 112⟩,
         ⟨.renderPass, 106⟩, ⟨.swapchain, 105⟩, ⟨.surface, 104⟩, ⟨.device, 103⟩,
         ⟨.debugCallback, 101⟩, ⟨.inst, 100⟩] := by
  rfl

/-- Against C8: in a successful run with distinct handles the vertex shader module is
created before the fragment shader module and is also destroyed before it, so the
destroy order is not the reverse of the creation order. -/
theorem destroy_not_reverse_of_create :
    ¬ (∀ a b : Obj,
        ComesBefore (createdObjects
          (GfxResources.create sampleConfig sampleGlobals sampleInit sampleWindow {}).calls) a b →
        ComesBefore (destroyedObjects
          (GfxResources.destroy sampleConfig (createState sampleConfig sampleInit {})).calls)
          b a) := by
  intro h
  have h1 := h ⟨.shaderModule, 501⟩ ⟨.shaderModule, 502⟩
  rw [sample_created, sample_destroyed] at h1
  exact absurd (h1 (by decide)) (by decide)

theorem kind_of_mem_map (k : ObjKind) (h : Nat → Handle) (l : List Nat) (o : Obj)
    (ho : o ∈ l.map (fun i => (⟨k, h i⟩ : Obj))) : o.kind = k := by
  rw [List.mem_map] at ho
  obtain ⟨i, _, rfl⟩ := ho
  rfl

theorem creationRank_injective (k k' : ObjKind)
    (h : k.creationRank = k'.creationRank) : k = k' := by
  cases k <;> cases k' <;> first | rfl | (exact absurd h (by decide))

theorem created_append_block (l block : List Obj) (r : Nat) (k : ObjKind)
    (hl : l.Pairwise CreatedNoLater ∧ ∀ a ∈ l, a.kind.creationRank ≤ r)
    (hb : ∀ o ∈ block, o.kind = k)
    (hr : r < k.creationRank ∨ (r = k.creationRank ∧ k.isRoot = false))
    (hone : k.isRoot = true → block.length ≤ 1) :
    (l ++ block).Pairwise CreatedNoLater
      ∧ ∀ a ∈ l ++ block, a.kind.creationRank ≤ k.creationRank := by
  obtain ⟨hpw, hle⟩ := hl
  have hrk : r ≤ k.creationRank := by rcases hr with h | h <;> omega
  refine ⟨?_, ?_⟩
  · rw [List.pairwise_append]
    refine ⟨hpw, ?_, ?_⟩
    · cases hroot : k.isRoot with
      | false =>
        apply List.pairwise_of_forall_mem_list
        intro x hx y hy
        exact Or.inr ⟨(hb x hx).trans (hb y hy).symm, by rw [hb x hx]; exact hroot⟩
      | true =>
        have hlen := hone hroot
        match block, hlen with
        | [], _ => exact List.Pairwise.nil
        | [x], _ => exact List.pairwise_singleton _ _
    · intro x hx y hy
      have h1 := hle x hx
      have hyk := hb y hy
      rcases hr with h | ⟨h, hroot⟩
      · left; rw [hyk]; omega
      · by_cases hlt : x.kind.creationRank < k.creationRank
        · left; rw [hyk]; exact hlt
        · right
          have heq : x.kind.creationRank = k.creationRank := by omega
          have hxk := creationRank_injective _ _ heq
          exact ⟨hxk.trans hyk.symm, by rw [hxk]; exact hroot⟩
  · intro x hx
    rw [List.mem_append] at hx
    rcases hx with hx | hx
    · exact (hle x hx).trans hrk
    · rw [hb x hx]

theorem mem_if_singleton (c : Bool) (x o : Obj) (h : o ∈ (if c then [x] else [])) : o = x := by
  cases c <;> simp at h
  exact h

theorem creation_pairwise (cfg : Config) (p : InitPlatform) (g : GfxResources) (n : Nat) :
    (ownedInCreationOrder cfg p g n).Pairwise CreatedNoLater := by
  have h0 : ([(⟨.inst, p.createInstance.handle⟩ : Obj)]).Pairwise CreatedNoLater
      ∧ ∀ a ∈ [(⟨.inst, p.createInstance.handle⟩ : Obj)], a.kind.creationRank ≤ 0 := by
    refine ⟨List.pairwise_singleton _ _, ?_⟩
    intro a ha
    rw [List.mem_singleton] at ha
    subst ha
    exact Nat.le_refl _
  have single : ∀ (x o : Obj), o ∈ [x] → o.kind = x.kind := by
    intro x o ho
    rw [List.mem_singleton] at ho
    rw [ho]
  have h1 := created_append_block _
    (if cfg.debugValidation then
      [(⟨.debugCallback, p.createDebugReportCallback.handle⟩ : Obj)] else [])
    0 .debugCallback h0
    (fun o ho => by rw [mem_if_singleton _ _ _ ho]) (Or.inl (by decide))
    (fun _ => by cases cfg.debugValidation <;> simp)
  have h2 := created_append_block _ [(⟨.device, p.createDevice.handle⟩ : Obj)] _ .device h1
    (single _) (Or.inl (by decide)) (fun _ => Nat.le_refl _)
  have h3 := created_append_block _ [(⟨.surface, p.createSurface.handle⟩ : Obj)] _ .surface h2
    (single _) (Or.inl (by decide)) (fun _ => Nat.le_refl _)
  have h4 := created_append_block _ [(⟨.swapchain, p.createSwapchain.handle⟩ : Obj)] _
    .swapchain h3 (single _) (Or.inl (by decide)) (fun _ => Nat.le_refl _)
  have h5 := created_append_block _
    ((List.range n).map (fun i => (⟨.imageView, (p.createImageView i).handle⟩ : Obj))) _
    .imageView h4 (kind_of_mem_map _ _ _) (Or.inl (by decide))
    (fun hroot => absurd hroot (by decide))
  have h6 := created_append_block _ [(⟨.renderPass, p.createRenderPass.handle⟩ : Obj)] _
    .renderPass h5 (single _) (Or.inl (by decide)) (fun _ => Nat.le_refl _)
  have h7 := created_append_block _
    ((List.range n).map (fun i => (⟨.framebuffer, (p.createFramebuffer i).handle⟩ : Obj))) _
    .framebuffer h6 (kind_of_mem_map _ _ _) (Or.inl (by decide))
    (fun hroot => absurd hroot (by decide))
  have h8 := created_append_block _
    [(⟨.shaderModule, (p.createShaderModule g.c_vertexShader).handle⟩ : Obj),
     ⟨.shaderModule, (p.createShaderModule g.c_fragmentShader).handle⟩] _
    .shaderModule h7
    (fun o ho => by
      simp only [List.mem_cons, List.mem_singleton, List.not_mem_nil, or_false] at ho
      rcases ho with h | h <;> rw [h])
    (Or.inl (by decide)) (fun hroot => absurd hroot (by decide))
  have h9 := created_append_block _
    [(⟨.pipelineLayout, p.createPipelineLayout.handle⟩ : Obj)] _ .pipelineLayout h8
    (single _) (Or.inl (by decide)) (fun _ => Nat.le_refl _)
  have h10 := created_append_block _
    [(⟨.pipeline, p.createGraphicsPipelines.handle⟩ : Obj)] _ .pipeline h9
    (single _) (Or.inl (by decide)) (fun _ => Nat.le_refl _)
  have h11 := created_append_block _
    [(⟨.commandPool, p.createCommandPool.handle⟩ : Obj)] _ .commandPool h10
    (single _) (Or.inl (by decide)) (fun _ => Nat.le_refl _)
  have h12 := created_append_block _
    ((List.range n).map (fun i => (⟨.commandBuffer, p.commandBuffers i⟩ : Obj))) _
    .commandBuffer h11 (kind_of_mem_map _ _ _) (Or.inl (by decide))
    (fun hroot => absurd hroot (by decide))
  have h13 := created_append_block _
    ((List.range n).map (fun i => (⟨.fence, (p.createFence i).handle⟩ : Obj))) _
    .fence h12 (kind_of_mem_map _ _ _) (Or.inl (by decide))
    (fun hroot => absurd hroot (by decide))
  have h14 := created_append_block _
    [(⟨.semaphore, p.createSwapchainImageSemaphore.handle⟩ : Obj),
     ⟨.semaphore, p.createCmdBufferSubmitSemaphore.handle⟩] _
    .semaphore h13
    (fun o ho => by
      simp only [List.mem_cons, List.mem_singleton, List.not_mem_nil, or_false] at ho
      rcases ho with h | h <;> rw [h])
    (Or.inl (by decide)) (fun hroot => absurd hroot (by decide))
  have hfin := h14.1
  simp only [List.append_assoc, List.cons_append, List.nil_append] at hfin
  simp only [ownedInCreationOrder, List.append_assoc, List.cons_append, List.nil_append]
  exact hfin

theorem teardown_append_block (l block : List Obj) (r r' : Nat)
    (hl : l.Pairwise (fun a b => a.kind.teardownRank ≤ b.kind.teardownRank)
      ∧ ∀ a ∈ l, a.kind.teardownRank ≤ r)
    (hb : ∀ o ∈ block, o.kind.teardownRank = r') (hr : r ≤ r') :
    (l ++ block).Pairwise (fun a b => a.kind.teardownRank ≤ b.kind.teardownRank)
      ∧ ∀ a ∈ l ++ block, a.kind.teardownRank ≤ r' := by
  obtain ⟨hpw, hle⟩ := hl
  refine ⟨?_, ?_⟩
  · rw [List.pairwise_append]
    refine ⟨hpw, ?_, ?_⟩
    · apply List.pairwise_of_forall_mem_list
      intro x hx y hy
      rw [hb x hx, hb y hy]
    · intro x hx y hy
      rw [hb y hy]
      exact (hle x hx).trans hr
  · intro x hx
    rw [List.mem_append] at hx
    rcases hx with hx | hx
    · exact (hle x hx).trans hr
    · rw [hb x hx]

theorem teardown_pairwise (cfg : Config) (p : InitPlatform) (g : GfxResources) (n : Nat) :
    (ownedInTeardownOrder cfg p g n).Pairwise
      (fun a b => a.kind.teardownRank ≤ b.kind.teardownRank) := by
  have single : ∀ (x o : Obj), o ∈ [x] → o.kind.teardownRank = x.kind.teardownRank := by
    intro x o ho
    rw [List.mem_singleton] at ho
    rw [ho]
  have h0 : ([] : List Obj).Pairwise (fun a b => a.kind.teardownRank ≤ b.kind.teardownRank)
      ∧ ∀ a ∈ ([] : List Obj), a.kind.teardownRank ≤ 0 :=
    ⟨List.Pairwise.nil, fun a ha => absurd ha (List.not_mem_nil a)⟩
  have h1 := teardown_append_block _
    [(⟨.shaderModule, (p.createShaderModule g.c_vertexShader).handle⟩ : Obj),
     ⟨.shaderModule, (p.createShaderModule g.c_fragmentShader).handle⟩,
     ⟨.pipelineLayout, p.createPipelineLayout.handle⟩,
     ⟨.pipeline, p.createGraphicsPipelines.handle⟩] 0 0 h0
    (fun o ho => by
      simp only [List.mem_cons, List.mem_singleton, List.not_mem_nil, or_false] at ho
      rcases ho with h | h | h | h <;> rw [h] <;> rfl)
    (Nat.le_refl _)
  have h2 := teardown_append_block _
    ((List.range n).flatMap (fun i =>
      [(⟨.imageView, (p.createImageView i).handle⟩ : Obj),
       ⟨.framebuffer, (p.createFramebuffer i).handle⟩,
       ⟨.fence, (p.createFence i).handle⟩])) 0 0 h1
    (fun o ho => by
      rw [List.mem_flatMap] at ho
      obtain ⟨i, _, hi⟩ := ho
      simp only [List.mem_cons, List.mem_singleton, List.not_mem_nil, or_false] at hi
      rcases hi with h | h | h <;> rw [h] <;> rfl)
    (Nat.le_refl _)
  have h3 := teardown_append_block _
    ((List.range n).map (fun i => (⟨.commandBuffer, p.commandBuffers i⟩ : Obj))) 0 0 h2
    (fun o ho => by rw [kind_of_mem_map _ _ _ o ho]; rfl)
    (Nat.le_refl _)
  have h4 := teardown_append_block _
    [(⟨.commandPool, p.createCommandPool.handle⟩ : Obj),
     ⟨.semaphore, p.createSwapchainImageSemaphore.handle⟩,
     ⟨.semaphore, p.createCmdBufferSubmitSemaphore.handle⟩] 0 0 h3
    (fun o ho => by
      simp only [List.mem_cons, List.mem_singleton, List.not_mem_nil, or_false] at ho
      rcases ho with h | h | h <;> rw [h] <;> rfl)
    (Nat.le_refl _)
  have h5 := teardown_append_block _ [(⟨.renderPass, p.createRenderPass.handle⟩ : Obj)] 0 _ h4
    (single _) (by simp [ObjKind.teardownRank])
  have h6 := teardown_append_block _ [(⟨.swapchain, p.createSwapchain.handle⟩ : Obj)] _ _ h5
    (single _) (by simp [ObjKind.teardownRank])
  have h7 := teardown_append_block _ [(⟨.surface, p.createSurface.handle⟩ : Obj)] _ _ h6
    (single _) (by simp [ObjKind.teardownRank])
  have h8 := teardown_append_block _ [(⟨.device, p.createDevice.handle⟩ : Obj)] _ _ h7
    (single _) (by simp [ObjKind.teardownRank])
  have h9 := teardown_append_block _
    (if cfg.debugValidation then
      [(⟨.debugCallback, p.createDebugReportCallback.handle⟩ : Obj)] else []) _ 5 h8
    (fun o ho => by rw [mem_if_singleton _ _ _ ho]; rfl) (by simp [ObjKind.teardownRank])
  have h10 := teardown_append_block _ [(⟨.inst, p.createInstance.handle⟩ : Obj)] _ _ h9
    (single _) (by simp [ObjKind.teardownRank])
  have hfin := h10.1
  simp only [List.append_assoc, List.cons_append, List.nil_append] at hfin
  simp only [ownedInTeardownOrder, List.append_assoc, List.cons_append, List.nil_append]
  exact hfin

theorem sublist_pair_of_sorted (f : Obj → Nat) (l : List Obj) (a b : Obj)
    (hs : l.Pairwise (fun x y => f x ≤ f y)) (ha : a ∈ l) (hb : b ∈ l) (hlt : f b < f a) :
    List.Sublist [b, a] l := by
  induction l with
  | nil => exact absurd ha (List.not_mem_nil a)
  | cons x xs ih =>
    rw [List.pairwise_cons] at hs
    rw [List.mem_cons] at ha hb
    rcases hb with hb | hb
    · subst hb
      rcases ha with ha | ha
      · subst ha
        exact absurd hlt (Nat.lt_irrefl _)
      · exact List.Sublist.cons₂ _ (List.singleton_sublist.mpr ha)
    · rcases ha with ha | ha
      · subst ha
        have := hs.1 b hb
        omega
      · exact List.Sublist.cons _ (ih hs.2 ha hb)

theorem teardownRank_reverses (k k' : ObjKind) (hroot : k.isRoot = true)
    (h : k.creationRank < k'.creationRank) : k'.teardownRank < k.teardownRank := by
  cases k <;> cases k' <;>
    first | (exact absurd hroot (by decide)) | (exact absurd h (by decide)) | decide

theorem owned_reversed_at_root (cfg : Config) (p : InitPlatform) (g : GfxResources) (n : Nat)
    (a b : Obj) (hroot : a.kind.isRoot = true)
    (hab : ComesBefore (ownedInCreationOrder cfg p g n) a b) :
    ComesBefore (ownedInTeardownOrder cfg p g n) b a := by
  unfold ComesBefore at hab ⊢
  have hpair := (creation_pairwise cfg p g n).sublist hab
  rw [List.pairwise_pair] at hpair
  have hlt : a.kind.creationRank < b.kind.creationRank := by
    rcases hpair with h | ⟨_, h⟩
    · exact h
    · rw [hroot] at h; exact absurd h (by decide)
  have ha : a ∈ ownedInTeardownOrder cfg p g n :=
    (owned_perm cfg p g n).mem_iff.mpr (hab.subset (by simp))
  have hb : b ∈ ownedInTeardownOrder cfg p g n :=
    (owned_perm cfg p g n).mem_iff.mpr (hab.subset (by simp))
  exact sublist_pair_of_sorted (fun o => o.kind.teardownRank) _ a b
    (teardown_pairwise cfg p g n) ha hb (teardownRank_reverses _ _ hroot hlt)

/-- C8, amended: the teardown reverses the creation order at the six root objects (the
instance, the diagnostic callback, the device, the surface, the swapchain and the render
pass): after a successful `create`, when a root object `a` was created before an owned
object `b`, `destroy` ends the life of `b` before that of `a`. -/
theorem destroy_reverses_root_objects (cfg : Config) (gv : GlobalVariables)
    (p : InitPlatform) (w : Window) (g s : GfxResources) (hs : p.allSuccess g)
    (hn : p.swapchainImagesWritten < 2 ^ 32)
    (h : (GfxResources.create cfg gv p w g).outcome = .ok s)
    (a b : Obj) (hroot : a.kind.isRoot = true)
    (hab : ComesBefore (createdObjects (GfxResources.create cfg gv p w g).calls) a b) :
    ComesBefore (destroyedObjects (GfxResources.destroy cfg s).calls) b a := by
  have hv := hs.2.2.2.2.2.2.2.2.2.2.2.2.2.2.2.2.2.1
  have hf := hs.2.2.2.2.2.2.2.2.2.2.2.2.2.2.2.2.2.2.1
  obtain ⟨hst, hcalls, _, _, _⟩ := create_ok cfg gv p w g s h
  have hslots : HasSlots s p.swapchainImagesWritten := by
    rw [hst]; exact createState_hasSlots cfg p g
  obtain ⟨hdc, _, _⟩ := destroy_eq cfg s _ hslots
  rw [hcalls, createdObjects_create cfg gv p w g hv hf] at hab
  rw [hdc, hst, destroyedObjects_teardown cfg p g hn hv hf]
  exact owned_reversed_at_root cfg p g _ a b hroot hab

theorem destroy_reverses_root_objects_witness :
    sampleInit.allSuccess {} ∧ sampleInit.swapchainImagesWritten < 2 ^ 32
      ∧ (GfxResources.create sampleConfig sampleGlobals sampleInit sampleWindow {}).outcome
          = .ok (createState sampleConfig sampleInit {})
      ∧ (ObjKind.isRoot (Obj.kind ⟨.device, 103⟩) = true)
      ∧ ComesBefore (createdObjects
          (GfxResources.create sampleConfig sampleGlobals sampleInit sampleWindow {}).calls)
          ⟨.device, 103⟩ ⟨.fence, 700⟩
      ∧ ComesBefore (destroyedObjects
          (GfxResources.destroy sampleConfig (createState sampleConfig sampleInit {})).calls)
          ⟨.fence, 700⟩ ⟨.device, 103⟩ :=
  ⟨sampleInit_allSuccess, by decide, rfl, rfl, by rw [sample_created]; decide,
    destroy_reverses_root_objects sampleConfig sampleGlobals sampleInit sampleWindow {}
      (createState sampleConfig sampleInit {}) sampleInit_allSuccess (by decide) rfl
      ⟨.device, 103⟩ ⟨.fence, 700⟩ rfl (by rw [sample_created]; decide)⟩

theorem callsSatisfy_pure {α : Type} (P : Call → Prop) (a : α) :
    CallsSatisfy P (pure a : Exec α) := by
  intro c hc
  exact absurd hc (List.not_mem_nil c)

theorem callsSatisfy_bind {α β : Type} (P : Call → Prop) (e : Exec α) (f : α → Exec β)
    (he : CallsSatisfy P e) (hf : ∀ a, CallsSatisfy P (f a)) :
    CallsSatisfy P (e >>= f) := by
  intro c hc
  rw [bind_eq] at hc
  unfold Exec.bind at hc
  cases ho : e.outcome with
  | ok a =>
    rw [ho] at hc
    rcases List.mem_append.mp hc with h | h
    · exact he c h
    · exact hf a c h
  | assertFailed => rw [ho] at hc; exact he c hc
  | undefinedBehaviour => rw [ho] at hc; exact he c hc

theorem callsSatisfy_bind_ok {α β : Type} (P : Call → Prop) (e : Exec α) (f : α → Exec β)
    (he : CallsSatisfy P e) (hf : ∀ a, e.outcome = .ok a → CallsSatisfy P (f a)) :
    CallsSatisfy P (e >>= f) := by
  intro c hc
  rw [bind_eq] at hc
  unfold Exec.bind at hc
  cases ho : e.outcome with
  | ok a =>
    rw [ho] at hc
    rcases List.mem_append.mp hc with h | h
    · exact he c h
    · exact hf a ho c h
  | assertFailed => rw [ho] at hc; exact he c hc
  | undefinedBehaviour => rw [ho] at hc; exact he c hc

theorem callsSatisfy_issue (P : Call → Prop) (c : Call) (h : P c) :
    CallsSatisfy P (issue c) := by
  intro x hx
  rw [show (issue c).calls = [c] from rfl, List.mem_singleton] at hx
  rw [hx]; exact h

theorem callsSatisfy_assert (P : Call → Prop) (cfg : Config) (b : Bool) :
    CallsSatisfy P (assert cfg b) := by
  intro x hx
  unfold assert at hx
  split at hx <;> exact absurd hx (List.not_mem_nil x)

theorem callsSatisfy_check (P : Call → Prop) (cfg : Config) (r : VkResult) :
    CallsSatisfy P (CHECK_VK_RESULT_SUCCESS cfg r) :=
  callsSatisfy_assert P cfg _

theorem callsSatisfy_readAt {α : Type} (P : Call → Prop) (v : Vec) (xs : List α) (i : Nat) :
    CallsSatisfy P (readAt v xs i) := by
  intro x hx
  unfold readAt at hx
  split at hx <;> exact absurd hx (List.not_mem_nil x)

theorem callsSatisfy_writeAt {α : Type} (P : Call → Prop) (v : Vec) (xs : List α) (i : Nat)
    (a : α) : CallsSatisfy P (writeAt v xs i a) := by
  intro x hx
  unfold writeAt at hx
  split at hx <;> exact absurd hx (List.not_mem_nil x)

theorem callsSatisfy_forFrom {σ : Type} (P : Call → Prop) (body : Nat → σ → Exec σ)
    (hb : ∀ i s, CallsSatisfy P (body i s)) (count i : Nat) (s : σ) :
    CallsSatisfy P (forFrom body count i s) := by
  induction count generalizing i s with
  | zero => exact callsSatisfy_pure P s
  | succ n ih =>
    exact callsSatisfy_bind P _ _ (hb i s) (fun a => ih (i + 1) a)

theorem callsSatisfy_forLoop {σ : Type} (P : Call → Prop) (bound : Nat)
    (body : Nat → σ → Exec σ) (hb : ∀ i s, CallsSatisfy P (body i s)) (s : σ) :
    CallsSatisfy P (forLoop bound body s) :=
  callsSatisfy_forFrom P body hb bound 0 s

theorem createInstance_noPipelineObject (cfg : Config) (gv : GlobalVariables) (p : InitPlatform)
    (self : GfxResources) :
    CallsSatisfy Call.createsNoPipelineObject (GfxResources.createInstance cfg gv p self) := by
  unfold GfxResources.createInstance
  repeat' (first
    | with_reducible refine callsSatisfy_bind _ _ _ ?_ (fun _ => ?_)
    | with_reducible exact callsSatisfy_pure _ _
    | with_reducible exact callsSatisfy_assert _ _ _
    | with_reducible exact callsSatisfy_check _ _ _
    | with_reducible exact callsSatisfy_readAt _ _ _ _
    | with_reducible exact callsSatisfy_writeAt _ _ _ _ _
    | ((with_reducible apply callsSatisfy_issue)
       simp [Call.createsNoPipelineObject, Call.creates]
       done)
    | (fail_if_no_progress lift_lets
       intro _)
    | split)

theorem findGraphicsQueueFamily_noPipelineObject (props : List Nat) (count idx current : Nat) :
    CallsSatisfy Call.createsNoPipelineObject
      (findGraphicsQueueFamily props count idx current) := by
  induction count generalizing idx with
  | zero => exact callsSatisfy_pure _ _
  | succ n ih =>
    unfold findGraphicsQueueFamily
    refine callsSatisfy_bind _ _ _ (callsSatisfy_readAt _ _ _ _) (fun q => ?_)
    split
    · exact callsSatisfy_pure _ _
    · exact ih (idx + 1)

theorem createPhysicalDevice_noPipelineObject (cfg : Config) (p : InitPlatform) (self : GfxResources) :
    CallsSatisfy Call.createsNoPipelineObject (GfxResources.createPhysicalDevice cfg p self) := by
  unfold GfxResources.createPhysicalDevice
  repeat' (first
    | with_reducible refine callsSatisfy_bind _ _ _ ?_ (fun _ => ?_)
    | with_reducible exact findGraphicsQueueFamily_noPipelineObject _ _ _ _
    | with_reducible exact callsSatisfy_pure _ _
    | with_reducible exact callsSatisfy_assert _ _ _
    | with_reducible exact callsSatisfy_check _ _ _
    | with_reducible exact callsSatisfy_readAt _ _ _ _
    | with_reducible exact callsSatisfy_writeAt _ _ _ _ _
    | ((with_reducible apply callsSatisfy_issue)
       simp [Call.createsNoPipelineObject, Call.creates]
       done)
    | (fail_if_no_progress lift_lets
       intro _)
    | split)

theorem createSurface_noPipelineObject (cfg : Config) (p : InitPlatform) (w : Window)
    (self : GfxResources) :
    CallsSatisfy Call.createsNoPipelineObject (GfxResources.createSurface cfg p w self) := by
  unfold GfxResources.createSurface
  repeat' (first
    | with_reducible refine callsSatisfy_bind _ _ _ ?_ (fun _ => ?_)
    | with_reducible exact callsSatisfy_pure _ _
    | with_reducible exact callsSatisfy_assert _ _ _
    | with_reducible exact callsSatisfy_check _ _ _
    | with_reducible exact callsSatisfy_readAt _ _ _ _
    | with_reducible exact callsSatisfy_writeAt _ _ _ _ _
    | ((with_reducible apply callsSatisfy_issue)
       simp [Call.createsNoPipelineObject, Call.creates]
       done)
    | (fail_if_no_progress lift_lets
       intro _)
    | split)

theorem createImageViewBody_noPipelineObject (cfg : Config) (p : InitPlatform) (self : GfxResources)
    (idx : Nat) (imageViews : List Handle) :
    CallsSatisfy Call.createsNoPipelineObject (createImageViewBody cfg p self idx imageViews) := by
  unfold createImageViewBody
  repeat' (first
    | with_reducible refine callsSatisfy_bind _ _ _ ?_ (fun _ => ?_)
    | with_reducible exact callsSatisfy_pure _ _
    | with_reducible exact callsSatisfy_assert _ _ _
    | with_reducible exact callsSatisfy_check _ _ _
    | with_reducible exact callsSatisfy_readAt _ _ _ _
    | with_reducible exact callsSatisfy_writeAt _ _ _ _ _
    | ((with_reducible apply callsSatisfy_issue)
       simp [Call.createsNoPipelineObject, Call.creates]
       done)
    | (fail_if_no_progress lift_lets
       intro _)
    | split)

theorem createSwapchain_noPipelineObject (cfg : Config) (p : InitPlatform) (w : Window)
    (self : GfxResources) :
    CallsSatisfy Call.createsNoPipelineObject (GfxResources.createSwapchain cfg p w self) := by
  unfold GfxResources.createSwapchain
  repeat' (first
    | with_reducible refine callsSatisfy_bind _ _ _ ?_ (fun _ => ?_)
    | with_reducible refine callsSatisfy_forLoop _ _ _ (fun _ _ => ?_) _
    | with_reducible exact createImageViewBody_noPipelineObject _ _ _ _ _
    | with_reducible exact callsSatisfy_pure _ _
    | with_reducible exact callsSatisfy_assert _ _ _
    | with_reducible exact callsSatisfy_check _ _ _
    | with_reducible exact callsSatisfy_readAt _ _ _ _
    | with_reducible exact callsSatisfy_writeAt _ _ _ _ _
    | ((with_reducible apply callsSatisfy_issue)
       simp [Call.createsNoPipelineObject, Call.creates]
       done)
    | (fail_if_no_progress lift_lets
       intro _)
    | split)

theorem createRenderPass_noPipelineObject (cfg : Config) (p : InitPlatform) (self : GfxResources) :
    CallsSatisfy Call.createsNoPipelineObject (GfxResources.createRenderPass cfg p self) := by
  unfold GfxResources.createRenderPass
  repeat' (first
    | with_reducible refine callsSatisfy_bind _ _ _ ?_ (fun _ => ?_)
    | with_reducible exact callsSatisfy_pure _ _
    | with_reducible exact callsSatisfy_assert _ _ _
    | with_reducible exact callsSatisfy_check _ _ _
    | with_reducible exact callsSatisfy_readAt _ _ _ _
    | with_reducible exact callsSatisfy_writeAt _ _ _ _ _
    | ((with_reducible apply callsSatisfy_issue)
       simp [Call.createsNoPipelineObject, Call.creates]
       done)
    | (fail_if_no_progress lift_lets
       intro _)
    | split)

theorem createFramebufferBody_noPipelineObject (cfg : Config) (p : InitPlatform) (w : Window)
    (self : GfxResources) (idx : Nat) (framebuffers : List Handle) :
    CallsSatisfy Call.createsNoPipelineObject (createFramebufferBody cfg p w self idx framebuffers) := by
  unfold createFramebufferBody
  repeat' (first
    | with_reducible refine callsSatisfy_bind _ _ _ ?_ (fun _ => ?_)
    | with_reducible exact callsSatisfy_pure _ _
    | with_reducible exact callsSatisfy_assert _ _ _
    | with_reducible exact callsSatisfy_check _ _ _
    | with_reducible exact callsSatisfy_readAt _ _ _ _
    | with_reducible exact callsSatisfy_writeAt _ _ _ _ _
    | ((with_reducible apply callsSatisfy_issue)
       simp [Call.createsNoPipelineObject, Call.creates]
       done)
    | (fail_if_no_progress lift_lets
       intro _)
    | split)

theorem createFramebuffer_noPipelineObject (cfg : Config) (p : InitPlatform) (w : Window)
    (self : GfxResources) :
    CallsSatisfy Call.createsNoPipelineObject (GfxResources.createFramebuffer cfg p w self) := by
  unfold GfxResources.createFramebuffer
  repeat' (first
    | with_reducible refine callsSatisfy_bind _ _ _ ?_ (fun _ => ?_)
    | with_reducible refine callsSatisfy_forLoop _ _ _ (fun _ _ => ?_) _
    | with_reducible exact createFramebufferBody_noPipelineObject _ _ _ _ _ _
    | with_reducible exact callsSatisfy_pure _ _
    | with_reducible exact callsSatisfy_assert _ _ _
    | with_reducible exact callsSatisfy_check _ _ _
    | with_reducible exact callsSatisfy_readAt _ _ _ _
    | with_reducible exact callsSatisfy_writeAt _ _ _ _ _
    | ((with_reducible apply callsSatisfy_issue)
       simp [Call.createsNoPipelineObject, Call.creates]
       done)
    | (fail_if_no_progress lift_lets
       intro _)
    | split)

theorem createShaderModule_noPipelineObject (cfg : Config) (p : InitPlatform) (device : Handle)
    (shaderFile : String) :
    CallsSatisfy Call.createsNoPipelineObject (createShaderModule cfg p device shaderFile) := by
  unfold createShaderModule
  repeat' (first
    | with_reducible refine callsSatisfy_bind _ _ _ ?_ (fun _ => ?_)
    | with_reducible exact callsSatisfy_pure _ _
    | with_reducible exact callsSatisfy_assert _ _ _
    | with_reducible exact callsSatisfy_check _ _ _
    | with_reducible exact callsSatisfy_readAt _ _ _ _
    | with_reducible exact callsSatisfy_writeAt _ _ _ _ _
    | ((with_reducible apply callsSatisfy_issue)
       simp [Call.createsNoPipelineObject, Call.creates]
       done)
    | (fail_if_no_progress lift_lets
       intro _)
    | split)

theorem createShaderModule_missing (cfg : Config) (p : InitPlatform) (device : Handle)
    (shaderFile : String) (ha : cfg.assertsEnabled = true) (hf : p.files shaderFile = none)
    (m : Handle) : (createShaderModule cfg p device shaderFile).outcome ≠ .ok m := by
  intro h
  have h4 := (createShaderModule_ok cfg p device shaderFile m h).2.2.2 ha
  rw [hf] at h4
  exact absurd h4 (by simp)

theorem createGraphicsPipeline_missing (cfg : Config) (p : InitPlatform) (w : Window)
    (self : GfxResources) (ha : cfg.assertsEnabled = true)
    (hmiss : p.files self.c_vertexShader = none ∨ p.files self.c_fragmentShader = none) :
    CallsSatisfy Call.createsNoPipelineObject (GfxResources.createGraphicsPipeline cfg p w self)
      ∧ ∀ s, (GfxResources.createGraphicsPipeline cfg p w self).outcome ≠ .ok s := by
  refine ⟨?_, ?_⟩
  · unfold GfxResources.createGraphicsPipeline
    refine callsSatisfy_bind_ok _ _ _ (createShaderModule_noPipelineObject _ _ _ _)
      (fun vert hvert => ?_)
    rcases hmiss with hv | hf
    · exact absurd hvert (createShaderModule_missing cfg p _ _ ha hv vert)
    · lift_lets
      intro self1
      refine callsSatisfy_bind_ok _ _ _ (createShaderModule_noPipelineObject _ _ _ _)
        (fun frag hfrag => ?_)
      exact absurd hfrag (createShaderModule_missing cfg p _ _ ha hf frag)
  · intro s h
    have h7 := (createGraphicsPipeline_ok cfg p w self s h).2.2.2 ha
    rcases hmiss with hv | hf
    · rw [hv] at h7; exact absurd h7.1 (by simp)
    · rw [hf] at h7; exact absurd h7.2 (by simp)

theorem afterFramebuffer_shaderPaths (cfg : Config) (p : InitPlatform) (g : GfxResources) :
    (afterFramebuffer cfg p g).c_vertexShader = g.c_vertexShader
      ∧ (afterFramebuffer cfg p g).c_fragmentShader = g.c_fragmentShader :=
  ⟨rfl, rfl⟩

theorem callsSatisfy_createdObjects {α : Type} (e : Exec α)
    (h : CallsSatisfy Call.createsNoPipelineObject e) :
    ∀ o ∈ createdObjects e.calls, o.kind ≠ .pipelineLayout ∧ o.kind ≠ .pipeline := by
  intro o ho
  unfold createdObjects at ho
  rw [List.mem_flatMap] at ho
  obtain ⟨c, hc, hoc⟩ := ho
  exact h c hc o hoc

theorem create_noPipelineObject_of_missing (cfg : Config) (gv : GlobalVariables)
    (p : InitPlatform) (w : Window) (g : GfxResources) (ha : cfg.assertsEnabled = true)
    (hmiss : p.files g.c_vertexShader = none ∨ p.files g.c_fragmentShader = none) :
    CallsSatisfy Call.createsNoPipelineObject (GfxResources.create cfg gv p w g) := by
  unfold GfxResources.create
  refine callsSatisfy_bind_ok _ _ _ (createInstance_noPipelineObject _ _ _ _)
    (fun s1 h1 => ?_)
  refine callsSatisfy_bind_ok _ _ _ (createPhysicalDevice_noPipelineObject _ _ _)
    (fun s2 h2 => ?_)
  refine callsSatisfy_bind_ok _ _ _ (createSurface_noPipelineObject _ _ _ _)
    (fun s3 h3 => ?_)
  refine callsSatisfy_bind_ok _ _ _ (createSwapchain_noPipelineObject _ _ _ _)
    (fun s4 h4 => ?_)
  refine callsSatisfy_bind_ok _ _ _ (createRenderPass_noPipelineObject _ _ _)
    (fun s5 h5 => ?_)
  refine callsSatisfy_bind_ok _ _ _ (createFramebuffer_noPipelineObject _ _ _ _)
    (fun s6 h6 => ?_)
  have e1 := (createInstance_ok cfg gv p g s1 h1).1
  have e2 := (createPhysicalDevice_ok cfg p s1 s2 h2).1
  have e3 := (createSurface_ok cfg p w s2 s3 h3).1
  have e4 := (createSwapchain_ok cfg p w s3 s4 h4).1
  have e5 := (createRenderPass_ok cfg p s4 s5 h5).1
  have e6 := (createFramebuffer_ok cfg p w s5 s6 h6).1
  have e : s6 = afterFramebuffer cfg p g := by
    rw [e6, e5, e4, e3, e2, e1]; rfl
  have hpaths := afterFramebuffer_shaderPaths cfg p g
  have hmiss6 : p.files s6.c_vertexShader = none ∨ p.files s6.c_fragmentShader = none := by
    rw [e, hpaths.1, hpaths.2]; exact hmiss
  obtain ⟨hc7, ho7⟩ := createGraphicsPipeline_missing cfg p w s6 ha hmiss6
  exact callsSatisfy_bind_ok _ _ _ hc7 (fun s7 h7 => absurd h7 (ho7 s7))

/-- C9, amended: in a build with assertions, when either shader file cannot be opened at
its configured path, `create` does not return, and no pipeline layout and no pipeline has
been created when it stops. (The swapchain, its image views, the render pass and the
framebuffers are created earlier and may exist by then.) -/
theorem create_stops_before_pipeline_on_missing_shader (cfg : Config) (gv : GlobalVariables)
    (p : InitPlatform) (w : Window) (g : GfxResources) (ha : cfg.assertsEnabled = true)
    (hmiss : p.files g.c_vertexShader = none ∨ p.files g.c_fragmentShader = none) :
    (∀ s, (GfxResources.create cfg gv p w g).outcome ≠ .ok s)
      ∧ (∀ o ∈ createdObjects (GfxResources.create cfg gv p w g).calls,
          o.kind ≠ .pipelineLayout ∧ o.kind ≠ .pipeline) := by
  refine ⟨?_, ?_⟩
  · intro s h
    have h5 := (create_ok cfg gv p w g s h).2.2.2.2 ha
    rcases hmiss with hv | hf
    · rw [hv] at h5; exact absurd h5.1 (by simp)
    · rw [hf] at h5; exact absurd h5.2 (by simp)
  · exact callsSatisfy_createdObjects _
      (create_noPipelineObject_of_missing cfg gv p w g ha hmiss)

theorem create_stops_before_pipeline_on_missing_shader_witness :
    sampleConfig.assertsEnabled = true
      ∧ (sampleMissingShader.files (GfxResources.c_fragmentShader {}) = none)
      ∧ (GfxResources.create sampleConfig sampleGlobals sampleMissingShader sampleWindow
            {}).outcome = .assertFailed
      ∧ (∀ o ∈ createdObjects (GfxResources.create sampleConfig sampleGlobals
            sampleMissingShader sampleWindow {}).calls,
          o.kind ≠ .pipelineLayout ∧ o.kind ≠ .pipeline) :=
  ⟨rfl, rfl, rfl,
    (create_stops_before_pipeline_on_missing_shader sampleConfig sampleGlobals
      sampleMissingShader sampleWindow {} rfl (Or.inr rfl)).2⟩

theorem sampleMissing_created :
    createdObjects
        (GfxResources.create sampleConfig sampleGlobals sampleMissingShader sampleWindow
          {}).calls
      = [⟨.inst, 100⟩, ⟨.debugCallback, 101⟩, ⟨.device, 103⟩, ⟨.surface, 104⟩,
         ⟨.swapchain, 105⟩, ⟨.imageView, 300⟩, ⟨.imageView, 301⟩, ⟨.renderPass, 106⟩,
         ⟨.framebuffer, 400⟩, ⟨.framebuffer, 401⟩, ⟨.shaderModule, 501⟩] := by
  rfl

/-- Against C9: with the fragment shader file missing and everything else succeeding,
`create` aborts by assertion only after the swapchain, its two image views, the render
pass and the two framebuffers have been created; so it is not true that a missing shader
file stops initialization before any swapchain object exists. -/
theorem create_reaches_swapchain_before_missing_shader :
    ¬ (∀ (cfg : Config) (gv : GlobalVariables) (p : InitPlatform) (w : Window)
        (g : GfxResources), cfg.assertsEnabled = true →
        (p.files g.c_vertexShader = none ∨ p.files g.c_fragmentShader = none) →
        ∀ o ∈ createdObjects (GfxResources.create cfg gv p w g).calls,
          o.kind ≠ .swapchain ∧ o.kind ≠ .pipelineLayout ∧ o.kind ≠ .pipeline) := by
  intro h
  have h1 := h sampleConfig sampleGlobals sampleMissingShader sampleWindow {} rfl
    (Or.inr rfl) ⟨.swapchain, 105⟩
  rw [sampleMissing_created] at h1
  exact absurd (h1 (by decide)).1 (by decide)

theorem Exec.ext_iff3 {α : Type} (a b : Exec α) (h1 : a.calls = b.calls)
    (h2 : a.accesses = b.accesses) (h3 : a.outcome = b.outcome) : a = b := by
  cases a; cases b; simp_all

theorem Exec.bind_assoc {α β γ : Type} (m : Exec α) (f : α → Exec β) (g : β → Exec γ) :
    Exec.bind (Exec.bind m f) g = Exec.bind m (fun a => Exec.bind (f a) g) := by
  unfold Exec.bind
  cases hm : m.outcome with
  | ok a =>
    simp only
    cases hf : (f a).outcome <;> simp [List.append_assoc]
  | assertFailed => simp
  | undefinedBehaviour => simp

theorem Exec.pure_bind {α β : Type} (a : α) (f : α → Exec β) :
    Exec.bind (Exec.pure a) f = f a := by
  simp [Exec.bind, Exec.pure]

theorem Exec.void_bind {α β : Type} (m : Exec α) (f : α → Exec β) :
    (Exec.bind m f).void = Exec.bind m (fun a => (f a).void) := by
  unfold Exec.bind Exec.void
  cases hm : m.outcome <;> simp [Outcome.void]

theorem Exec.void_pure {α : Type} (a : α) : (Exec.pure a).void = Exec.pure () := rfl

theorem Exec.void_void (e : Exec Unit) : e.void = e := by
  cases e with
  | mk c a o => cases o <;> rfl

theorem Exec.bind_void {α β : Type} (m : Exec α) (k : Exec β) :
    Exec.bind m (fun _ => k) = Exec.bind m.void (fun _ => k) := by
  unfold Exec.bind Exec.void
  cases hm : m.outcome <;> simp [Outcome.void]

theorem Exec.bind_congr_ok {α β : Type} (m : Exec α) (f g : α → Exec β)
    (h : ∀ a, m.outcome = .ok a → f a = g a) : Exec.bind m f = Exec.bind m g := by
  unfold Exec.bind
  cases hm : m.outcome with
  | ok a => simp only; rw [h a hm]
  | assertFailed => rfl
  | undefinedBehaviour => rfl

theorem runSteps_append (cfg : Config) (xs ys : List Step) :
    runSteps cfg (xs ++ ys) = Exec.bind (runSteps cfg xs) (fun _ => runSteps cfg ys) := by
  induction xs with
  | nil => simp [runSteps, Exec.pure_bind]
  | cons s t ih =>
    show Exec.bind (s.run cfg) (fun _ => runSteps cfg (t ++ ys)) = _
    rw [ih]
    show _ = Exec.bind (Exec.bind (s.run cfg) (fun _ => runSteps cfg t)) _
    rw [Exec.bind_assoc]

theorem createInstance_steps (cfg : Config) (gv : GlobalVariables) (p : InitPlatform)
    (self : GfxResources) :
    (GfxResources.createInstance cfg gv p self).void = runSteps cfg (instanceSteps cfg gv p) := by
  unfold GfxResources.createInstance instanceSteps
  cases cfg.debugValidation <;>
    simp only [bind_eq, pure_eq, Exec.void_bind, Exec.void_pure, runSteps, Step.run,
      List.cons_append, List.nil_append, List.append_nil, if_true, if_false,
      Bool.false_eq_true] <;> rfl

theorem Exec.bind_pure_unit {α : Type} (m : Exec α) :
    Exec.bind m (fun _ => Exec.pure ()) = m.void := by
  unfold Exec.bind Exec.void Exec.pure
  cases hm : m.outcome <;> simp [Outcome.void]

theorem void_bind_steps {α β : Type} (cfg : Config) (m : Exec α) (f : α → Exec β)
    (xs ys : List Step) (hm : m.void = runSteps cfg xs)
    (hf : ∀ a, m.outcome = .ok a → (f a).void = runSteps cfg ys) :
    (Exec.bind m f).void = runSteps cfg (xs ++ ys) := by
  rw [Exec.void_bind, Exec.bind_congr_ok m _ (fun _ => runSteps cfg ys) hf, Exec.bind_void,
    hm, runSteps_append]

theorem readAt_bind_access {α β : Type} (d : α) (v : Vec) (xs : List α) (i : Nat)
    (f : α → Exec β) :
    Exec.bind (readAt v xs i) f
      = Exec.bind (if i < xs.length then (⟨[], [⟨v, i, xs.length⟩], .ok ()⟩ : Exec Unit)
          else ⟨[], [⟨v, i, xs.length⟩], .undefinedBehaviour⟩) (fun _ => f (xs.getD i d)) := by
  unfold readAt Exec.bind
  by_cases h : i < xs.length
  · simp [h, List.getD_eq_getElem?_getD]
  · have h' : xs.length ≤ i := Nat.le_of_not_lt h
    simp [h, List.getElem?_eq_none h']

theorem writeAt_bind_access {α β : Type} (v : Vec) (xs : List α) (i : Nat) (a : α)
    (f : List α → Exec β) :
    Exec.bind (writeAt v xs i a) f
      = Exec.bind (if i < xs.length then (⟨[], [⟨v, i, xs.length⟩], .ok ()⟩ : Exec Unit)
          else ⟨[], [⟨v, i, xs.length⟩], .undefinedBehaviour⟩) (fun _ => f (xs.set i a)) := by
  unfold writeAt Exec.bind
  by_cases h : i < xs.length <;> simp [h]

theorem forFrom_steps {σ : Type} (cfg : Config) (body : Nat → σ → Exec σ)
    (steps : Nat → List Step) (inv : σ → Prop)
    (hbody : ∀ i s, inv s → (body i s).void = runSteps cfg (steps i))
    (hinv : ∀ i s s', inv s → (body i s).outcome = .ok s' → inv s') :
    ∀ (count start : Nat) (s : σ), inv s →
      (forFrom body count start s).void
        = runSteps cfg ((List.range' start count).flatMap steps) := by
  intro count
  induction count with
  | zero => intro start s _; rfl
  | succ n ih =>
    intro start s hs
    show (Exec.bind (body start s) (forFrom body n (start + 1))).void = _
    rw [List.range'_succ, List.flatMap_cons]
    exact void_bind_steps cfg _ _ _ _ (hbody start s hs)
      (fun a ha => ih (start + 1) a (hinv start s a hs ha))

theorem createImageViewBody_steps (cfg : Config) (p : InitPlatform) (self : GfxResources)
    (idx : Nat) (xs : List Handle)
    (hxs : xs.length = self.m_bufferedFrameResource.imageViews.length) :
    (createImageViewBody cfg p self idx xs).void = runSteps cfg (imageViewSteps p self idx) := by
  unfold createImageViewBody imageViewSteps imageViewCall
  simp only [bind_eq, pure_eq, Exec.void_bind, Exec.void_pure, runSteps, Step.run,
    readAt_bind_access (0 : Handle), writeAt_bind_access, Exec.bind_assoc, Exec.pure_bind, hxs]

theorem createImageViewBody_length (cfg : Config) (p : InitPlatform) (self : GfxResources)
    (idx : Nat) (xs xs' : List Handle)
    (h : (createImageViewBody cfg p self idx xs).outcome = .ok xs') :
    xs'.length = xs.length := by
  rw [(createImageViewBody_ok cfg p self idx xs xs' h).2.2.2.2, List.length_set]

theorem forLoop_imageViews_steps (cfg : Config) (p : InitPlatform) (self : GfxResources) :
    Exec.bind
        (forLoop (swapchainLoopState p self).m_bufferedFrameResource.imageViews.length
          (createImageViewBody cfg p (swapchainLoopState p self))
          (swapchainLoopState p self).m_bufferedFrameResource.imageViews)
        (fun _ => Exec.pure ())
      = runSteps cfg ((List.range p.swapchainImagesWritten).flatMap
          (imageViewSteps p (swapchainLoopState p self))) := by
  rw [Exec.bind_pure_unit]
  have h := forFrom_steps cfg (createImageViewBody cfg p (swapchainLoopState p self))
    (imageViewSteps p (swapchainLoopState p self))
    (fun xs => xs.length = (swapchainLoopState p self).m_bufferedFrameResource.imageViews.length)
    (fun i s hs => createImageViewBody_steps cfg p _ i s hs)
    (fun i s s' hs hok => (createImageViewBody_length cfg p _ i s s' hok).trans hs)
    (swapchainLoopState p self).m_bufferedFrameResource.imageViews.length 0
    (swapchainLoopState p self).m_bufferedFrameResource.imageViews rfl
  have hlen : (swapchainLoopState p self).m_bufferedFrameResource.imageViews.length
      = p.swapchainImagesWritten := resize_length _ _
  unfold forLoop
  rw [h, ← List.range_eq_range', hlen]

theorem createSwapchain_steps (cfg : Config) (p : InitPlatform) (w : Window)
    (self : GfxResources) :
    (GfxResources.createSwapchain cfg p w self).void = runSteps cfg (swapchainSteps p w self) := by
  unfold swapchainSteps
  rw [runSteps_append, ← forLoop_imageViews_steps]
  unfold GfxResources.createSwapchain swapchainSetupSteps
  simp only [bind_eq, pure_eq, Exec.void_bind, Exec.void_pure, runSteps, Step.run,
    readAt_bind_access ((0, 0) : Nat × Nat), readAt_bind_access (0 : Nat),
    Exec.bind_assoc, Exec.pure_bind]
  rfl

theorem searchAccesses_steps (cfg : Config) (props : List Nat) :
    ∀ (count idx : Nat), idx + count ≤ props.length →
      runSteps cfg ((searchAccesses props count idx).map Step.access)
        = ⟨[], searchAccesses props count idx, .ok ()⟩ := by
  intro count
  induction count with
  | zero => intro idx _; rfl
  | succ n ih =>
    intro idx hle
    have hlt : idx < props.length := by omega
    rw [searchAccesses]
    simp only [List.map_cons, runSteps]
    split_ifs with hg
    · simp [runSteps, Step.run, hlt, Exec.bind, Exec.pure]
    · rw [ih (idx + 1) (by omega)]
      simp [Step.run, hlt, Exec.bind]

theorem findGraphicsQueueFamily_steps {β : Type} (cfg : Config) (props : List Nat)
    (current : Nat) (f : Nat → Exec β) :
    Exec.bind (findGraphicsQueueFamily props props.length 0 current) f
      = Exec.bind (runSteps cfg ((searchAccesses props props.length 0).map Step.access))
          (fun _ => f (firstGraphicsFrom props props.length 0 current)) := by
  rw [findGraphicsQueueFamily_eq props current props.length 0 (by omega),
    searchAccesses_steps cfg props props.length 0 (by omega)]
  rfl

theorem createPhysicalDevice_steps (cfg : Config) (p : InitPlatform) (self : GfxResources) :
    (GfxResources.createPhysicalDevice cfg p self).void
      = runSteps cfg (physicalDeviceSteps p self) := by
  unfold physicalDeviceSteps
  rw [runSteps_append, runSteps_append]
  unfold GfxResources.createPhysicalDevice
  simp only [bind_eq, pure_eq, Exec.void_bind, Exec.void_pure, runSteps, Step.run,
    findGraphicsQueueFamily_steps cfg, Exec.bind_assoc, Exec.pure_bind]
  rfl

theorem createSurface_steps (cfg : Config) (p : InitPlatform) (w : Window)
    (self : GfxResources) :
    (GfxResources.createSurface cfg p w self).void = runSteps cfg (surfaceSteps p w self) := by
  unfold GfxResources.createSurface surfaceSteps
  simp only [bind_eq, pure_eq, Exec.void_bind, Exec.void_pure, runSteps, Step.run]
  rfl

theorem createRenderPass_steps (cfg : Config) (p : InitPlatform) (self : GfxResources) :
    (GfxResources.createRenderPass cfg p self).void = runSteps cfg (renderPassSteps p self) := by
  unfold GfxResources.createRenderPass renderPassSteps renderPassCalls
  simp only [bind_eq, pure_eq, Exec.void_bind, Exec.void_pure, runSteps, Step.run,
    List.map_cons, List.map_nil, List.cons_append, List.nil_append]
  rfl

theorem createFramebufferBody_steps (cfg : Config) (p : InitPlatform) (w : Window)
    (self : GfxResources) (idx : Nat) (xs : List Handle)
    (hxs : xs.length = self.m_bufferedFrameResource.framebuffers.length) :
    (createFramebufferBody cfg p w self idx xs).void
      = runSteps cfg (framebufferSteps p w self idx) := by
  unfold createFramebufferBody framebufferSteps framebufferCall
  simp only [bind_eq, pure_eq, Exec.void_bind, Exec.void_pure, runSteps, Step.run,
    readAt_bind_access (0 : Handle), writeAt_bind_access, Exec.bind_assoc, Exec.pure_bind, hxs]
  rfl

theorem createFramebufferBody_length (cfg : Config) (p : InitPlatform) (w : Window)
    (self : GfxResources) (idx : Nat) (xs xs' : List Handle)
    (h : (createFramebufferBody cfg p w self idx xs).outcome = .ok xs') :
    xs'.length = xs.length := by
  rw [(createFramebufferBody_ok cfg p w self idx xs xs' h).2.2.2.2, List.length_set]

theorem createFramebuffer_steps (cfg : Config) (p : InitPlatform) (w : Window)
    (self : GfxResources) :
    (GfxResources.createFramebuffer cfg p w self).void
      = runSteps cfg (framebuffersSteps p w self) := by
  have h := forFrom_steps cfg (createFramebufferBody cfg p w (framebufferLoopState self))
    (framebufferSteps p w (framebufferLoopState self))
    (fun xs => xs.length = (framebufferLoopState self).m_bufferedFrameResource.framebuffers.length)
    (fun i s hs => createFramebufferBody_steps cfg p w _ i s hs)
    (fun i s s' hs hok => (createFramebufferBody_length cfg p w _ i s s' hok).trans hs)
    (framebufferLoopState self).m_bufferedFrameResource.framebuffers.length 0
    (framebufferLoopState self).m_bufferedFrameResource.framebuffers rfl
  have hlen : (framebufferLoopState self).m_bufferedFrameResource.framebuffers.length
      = self.m_bufferedFrameResource.bufferCount := resize_length _ _
  have hloop : Exec.bind
      (forFrom (createFramebufferBody cfg p w (framebufferLoopState self))
        (framebufferLoopState self).m_bufferedFrameResource.framebuffers.length 0
        (framebufferLoopState self).m_bufferedFrameResource.framebuffers)
      (fun _ => Exec.pure ()) = runSteps cfg (framebuffersSteps p w self) := by
    unfold framebuffersSteps
    rw [Exec.bind_pure_unit, h, ← List.range_eq_range', hlen]
  rw [← hloop]
  unfold GfxResources.createFramebuffer
  simp only [bind_eq, pure_eq, Exec.void_bind, Exec.void_pure, forLoop]
  rfl

theorem createShaderModule_steps {β : Type} (cfg : Config) (p : InitPlatform)
    (device : Handle) (shaderFile : String) (f : Handle → Exec β) :
    Exec.bind (createShaderModule cfg p device shaderFile) f
      = Exec.bind (runSteps cfg (shaderModuleSteps p device shaderFile))
          (fun _ => f (shaderModuleOf p shaderFile)) := by
  unfold createShaderModule shaderModuleSteps shaderModuleOf
  cases p.files shaderFile <;>
    simp only [bind_eq, pure_eq, runSteps, Step.run, Exec.bind_assoc, Exec.pure_bind,
      List.cons_append, List.nil_append, List.append_nil] <;> rfl

theorem createGraphicsPipeline_steps (cfg : Config) (p : InitPlatform) (w : Window)
    (self : GfxResources) :
    (GfxResources.createGraphicsPipeline cfg p w self).void
      = runSteps cfg (pipelineSteps p w self) := by
  unfold pipelineSteps
  rw [runSteps_append, runSteps_append]
  unfold GfxResources.createGraphicsPipeline
  simp only [bind_eq, pure_eq, Exec.void_bind, Exec.void_pure, runSteps, Step.run,
    createShaderModule_steps cfg, Exec.bind_assoc, Exec.pure_bind]
  rfl

theorem createFenceBody_steps (cfg : Config) (p : InitPlatform) (self : GfxResources)
    (n idx : Nat) (xs : List Handle) (hxs : xs.length = n) :
    (createFenceBody cfg p self idx xs).void = runSteps cfg (fenceSteps p self n idx) := by
  unfold createFenceBody fenceSteps fenceCall
  simp only [bind_eq, pure_eq, Exec.void_bind, Exec.void_pure, runSteps, Step.run,
    writeAt_bind_access, Exec.bind_assoc, Exec.pure_bind, hxs]

theorem createFenceBody_length (cfg : Config) (p : InitPlatform) (self : GfxResources)
    (idx : Nat) (xs xs' : List Handle)
    (h : (createFenceBody cfg p self idx xs).outcome = .ok xs') :
    xs'.length = xs.length := by
  rw [(createFenceBody_ok cfg p self idx xs xs' h).2.2.2, List.length_set]

theorem createSemaphores_steps (cfg : Config) (p : InitPlatform) (self : GfxResources) :
    (GfxResources.createSemaphores cfg p self).void = runSteps cfg (semaphoresSteps p self) := by
  unfold GfxResources.createSemaphores semaphoresSteps
  simp only [bind_eq, pure_eq, Exec.void_bind, Exec.void_pure, runSteps, Step.run]

theorem createQueueAndPool_steps (cfg : Config) (p : InitPlatform) (self : GfxResources) :
    (GfxResources.createQueueAndPool cfg p self).void
      = runSteps cfg (queueAndPoolSteps p self) := by
  have hlen : (resize self.m_bufferedFrameResource.commandBufferFences
      self.m_bufferedFrameResource.bufferCount).length
      = self.m_bufferedFrameResource.bufferCount := resize_length _ _
  have hloop : ∀ S : GfxResources, S.m_device = self.m_device →
      Exec.bind
        (forFrom (createFenceBody cfg p S) self.m_bufferedFrameResource.bufferCount 0
          (resize self.m_bufferedFrameResource.commandBufferFences
            self.m_bufferedFrameResource.bufferCount))
        (fun _ => Exec.pure ())
      = runSteps cfg ((List.range self.m_bufferedFrameResource.bufferCount).flatMap
          (fenceSteps p self self.m_bufferedFrameResource.bufferCount)) := by
    intro S hS
    have h := forFrom_steps cfg (createFenceBody cfg p S)
      (fenceSteps p self self.m_bufferedFrameResource.bufferCount)
      (fun xs => xs.length = self.m_bufferedFrameResource.bufferCount)
      (fun i s hs => by
        rw [createFenceBody_steps cfg p S _ i s hs]
        unfold fenceSteps fenceCall
        rw [hS])
      (fun i s s' hs hok => (createFenceBody_length cfg p S i s s' hok).trans hs)
      self.m_bufferedFrameResource.bufferCount 0 _ hlen
    rw [Exec.bind_pure_unit, h, ← List.range_eq_range']
  unfold queueAndPoolSteps
  rw [runSteps_append, ← hloop _ rfl]
  unfold GfxResources.createQueueAndPool
  simp only [bind_eq, pure_eq, Exec.void_bind, Exec.void_pure, runSteps, Step.run, forLoop,
    Exec.bind_assoc, Exec.pure_bind]
  rfl

theorem create_steps (cfg : Config) (gv : GlobalVariables) (p : InitPlatform) (w : Window)
    (g : GfxResources) :
    (GfxResources.create cfg gv p w g).void = runSteps cfg (createSteps cfg gv p w g) := by
  unfold GfxResources.create createSteps
  simp only [bind_eq, pure_eq]
  refine void_bind_steps cfg _ _ _ _ (createInstance_steps cfg gv p g) (fun s1 h1 => ?_)
  obtain ⟨e1, -⟩ := createInstance_ok cfg gv p g s1 h1
  subst e1
  refine void_bind_steps cfg _ _ _ _ (createPhysicalDevice_steps cfg p _) (fun s2 h2 => ?_)
  obtain ⟨e2, -⟩ := createPhysicalDevice_ok cfg p _ s2 h2
  subst e2
  refine void_bind_steps cfg _ _ _ _ (createSurface_steps cfg p w _) (fun s3 h3 => ?_)
  obtain ⟨e3, -⟩ := createSurface_ok cfg p w _ s3 h3
  subst e3
  refine void_bind_steps cfg _ _ _ _ (createSwapchain_steps cfg p w _) (fun s4 h4 => ?_)
  obtain ⟨e4, -⟩ := createSwapchain_ok cfg p w _ s4 h4
  subst e4
  refine void_bind_steps cfg _ _ _ _ (createRenderPass_steps cfg p _) (fun s5 h5 => ?_)
  obtain ⟨e5, -⟩ := createRenderPass_ok cfg p _ s5 h5
  subst e5
  refine void_bind_steps cfg _ _ _ _ (createFramebuffer_steps cfg p w _) (fun s6 h6 => ?_)
  obtain ⟨e6, -⟩ := createFramebuffer_ok cfg p w _ s6 h6
  subst e6
  refine void_bind_steps cfg _ _ _ _ (createGraphicsPipeline_steps cfg p w _) (fun s7 h7 => ?_)
  obtain ⟨e7, -⟩ := createGraphicsPipeline_ok cfg p w _ s7 h7
  subst e7
  refine void_bind_steps cfg _ _ _ _ (createQueueAndPool_steps cfg p _) (fun s8 h8 => ?_)
  obtain ⟨e8, -⟩ := createQueueAndPool_ok cfg p _ s8 h8
  subst e8
  have h9 := createSemaphores_steps cfg p
    (queueAndPoolState p (pipelineState p (framebufferState p (renderPassState p
      (swapchainState p (surfaceState p (physicalDeviceState p (instanceState cfg p g))))))))
  have hp : (fun a : GfxResources => (Exec.pure a).void) = fun _ => Exec.pure () := rfl
  rw [Exec.void_bind, hp, Exec.bind_pure_unit]
  exact h9

theorem Step.run_eq (cfg : Config) (s : Step) :
    s.run cfg = ⟨s.calls, s.accesses, if s.stops cfg then s.stopOutcome else .ok ()⟩ := by
  cases s with
  | call c => rfl
  | check r =>
    simp only [Step.run, CHECK_VK_RESULT_SUCCESS, assert, Step.calls, Step.accesses, Step.stops,
      Step.stopOutcome, Exec.pure]
    cases cfg.assertsEnabled <;> by_cases h : r = VK_SUCCESS <;> simp [h]
  | require b =>
    simp only [Step.run, assert, Step.calls, Step.accesses, Step.stops, Step.stopOutcome,
      Exec.pure]
    cases cfg.assertsEnabled <;> cases b <;> simp
  | access a =>
    simp only [Step.run, Step.calls, Step.accesses, Step.stops, Step.stopOutcome]
    by_cases h : a.index < a.size
    · have h' : ¬ a.size ≤ a.index := by omega
      simp [h, h']
    · have h' : a.size ≤ a.index := by omega
      simp [h, h']

theorem runSteps_eq (cfg : Config) (l : List Step) :
    runSteps cfg l
      = ⟨(stepsRun cfg l).flatMap Step.calls, (stepsRun cfg l).flatMap Step.accesses,
          stepsOutcome cfg l⟩ := by
  induction l with
  | nil => rfl
  | cons s rest ih =>
    have e1 : stepsRun cfg (s :: rest)
        = if s.stops cfg then [s] else s :: stepsRun cfg rest := rfl
    have e2 : stepsOutcome cfg (s :: rest)
        = if s.stops cfg then s.stopOutcome else stepsOutcome cfg rest := rfl
    rw [runSteps, ih, Step.run_eq, e1, e2]
    unfold Exec.bind
    cases hs : s.stops cfg
    · simp
    · cases s <;> simp [Step.stopOutcome, Step.calls, Step.accesses]

theorem create_calls_steps (cfg : Config) (gv : GlobalVariables) (p : InitPlatform)
    (w : Window) (g : GfxResources) :
    (GfxResources.create cfg gv p w g).calls
        = (stepsRun cfg (createSteps cfg gv p w g)).flatMap Step.calls
      ∧ (GfxResources.create cfg gv p w g).accesses
        = (stepsRun cfg (createSteps cfg gv p w g)).flatMap Step.accesses
      ∧ (GfxResources.create cfg gv p w g).outcome.void
        = stepsOutcome cfg (createSteps cfg gv p w g) := by
  have h := create_steps cfg gv p w g
  rw [runSteps_eq] at h
  have h1 := congrArg Exec.calls h
  have h2 := congrArg Exec.accesses h
  have h3 := congrArg Exec.outcome h
  exact ⟨h1, h2, h3⟩

theorem stepsRun_initial (cfg : Config) (l : List Step) : stepsRun cfg l <+: l := by
  induction l with
  | nil => exact List.prefix_refl _
  | cons s rest ih =>
    unfold stepsRun
    split
    · exact ⟨rest, rfl⟩
    · exact (List.prefix_cons_inj s).mpr ih

theorem stepsRun_of_stop (cfg : Config) (pre post : List Step) (s : Step)
    (hs : s.stops cfg = true) : stepsRun cfg (pre ++ s :: post) <+: pre ++ [s] := by
  induction pre with
  | nil =>
    show stepsRun cfg (s :: post) <+: [s]
    unfold stepsRun
    rw [if_pos hs]
  | cons x rest ih =>
    show stepsRun cfg (x :: (rest ++ s :: post)) <+: x :: (rest ++ [s])
    unfold stepsRun
    split
    · exact ⟨rest ++ [s], rfl⟩
    · exact (List.prefix_cons_inj x).mpr ih

theorem stepsRun_of_first_stop (cfg : Config) (pre post : List Step) (s : Step)
    (hpre : ∀ x ∈ pre, x.stops cfg = false) (hs : s.stops cfg = true) :
    stepsRun cfg (pre ++ s :: post) = pre ++ [s]
      ∧ stepsOutcome cfg (pre ++ s :: post) = s.stopOutcome := by
  induction pre with
  | nil =>
    refine ⟨?_, ?_⟩
    · show stepsRun cfg (s :: post) = [s]
      unfold stepsRun
      rw [if_pos hs]
    · show stepsOutcome cfg (s :: post) = _
      unfold stepsOutcome
      rw [if_pos hs]
  | cons x rest ih =>
    have hx : x.stops cfg = false := hpre x (List.mem_cons_self _ _)
    have ih' := ih (fun y hy => hpre y (List.mem_cons_of_mem _ hy))
    refine ⟨?_, ?_⟩
    · show stepsRun cfg (x :: (rest ++ s :: post)) = x :: (rest ++ [s])
      unfold stepsRun
      rw [hx, ih'.1]
      rfl
    · show stepsOutcome cfg (x :: (rest ++ s :: post)) = _
      unfold stepsOutcome
      rw [hx, ih'.2]
      rfl

theorem stepsOutcome_of_stop (cfg : Config) (l : List Step) (s : Step) (hmem : s ∈ l)
    (hs : s.stops cfg = true) : stepsOutcome cfg l ≠ .ok () := by
  induction l with
  | nil => exact absurd hmem (List.not_mem_nil s)
  | cons x rest ih =>
    unfold stepsOutcome
    cases hx : x.stops cfg
    · rw [List.mem_cons] at hmem
      rcases hmem with h | h
      · rw [h, hx] at hs; exact absurd hs (by decide)
      · simpa using ih h
    · cases x <;> simp [Step.stopOutcome]

theorem stepsOutcome_ok_iff (cfg : Config) (l : List Step) :
    stepsOutcome cfg l = .ok () ↔ ∀ s ∈ l, s.stops cfg = false := by
  induction l with
  | nil => simp [stepsOutcome]
  | cons x rest ih =>
    unfold stepsOutcome
    cases hx : x.stops cfg
    · simp [ih, hx]
    · cases x <;> simp [Step.stopOutcome, hx]

theorem stepsRun_of_ok (cfg : Config) (l : List Step) (h : ∀ s ∈ l, s.stops cfg = false) :
    stepsRun cfg l = l := by
  induction l with
  | nil => rfl
  | cons x rest ih =>
    unfold stepsRun
    rw [h x (List.mem_cons_self _ _), ih (fun y hy => h y (List.mem_cons_of_mem _ hy))]
    rfl

theorem stepsOutcome_not_undefined (cfg : Config) (l : List Step)
    (h : ∀ s ∈ l, ∀ a, s = .access a → a.index < a.size) :
    stepsOutcome cfg l ≠ .undefinedBehaviour := by
  induction l with
  | nil => simp [stepsOutcome]
  | cons x rest ih =>
    have ih' := ih (fun s hs => h s (List.mem_cons_of_mem _ hs))
    unfold stepsOutcome
    cases hx : x.stops cfg
    · simpa using ih'
    · cases x with
      | call c => simp [Step.stopOutcome]
      | check r => simp [Step.stopOutcome]
      | require b => simp [Step.stopOutcome]
      | access a =>
        have := h (.access a) (List.mem_cons_self _ _) a rfl
        simp [Step.stops] at hx
        omega

theorem mem_accesses_stepsRun (cfg : Config) (l : List Step) (a : Access)
    (h : a ∈ (stepsRun cfg l).flatMap Step.accesses) : Step.access a ∈ l := by
  rw [List.mem_flatMap] at h
  obtain ⟨s, hs, ha⟩ := h
  have hsl : s ∈ l := (stepsRun_initial cfg l).subset hs
  cases s with
  | access b =>
    simp only [Step.accesses, List.mem_singleton] at ha
    rw [ha]; exact hsl
  | call c => simp [Step.accesses] at ha
  | check r => simp [Step.accesses] at ha
  | require b => simp [Step.accesses] at ha

theorem mem_calls_stepsRun (cfg : Config) (l : List Step) (c : Call)
    (h : c ∈ (stepsRun cfg l).flatMap Step.calls) : Step.call c ∈ l := by
  rw [List.mem_flatMap] at h
  obtain ⟨s, hs, ha⟩ := h
  have hsl : s ∈ l := (stepsRun_initial cfg l).subset hs
  cases s with
  | call b =>
    simp only [Step.calls, List.mem_singleton] at ha
    rw [ha]; exact hsl
  | access c => simp [Step.calls] at ha
  | check r => simp [Step.calls] at ha
  | require b => simp [Step.calls] at ha

theorem Outcome.void_eq_ok {α : Type} (o : Outcome α) : o.void = .ok () ↔ ∃ a, o = .ok a := by
  cases o <;> simp [Outcome.void]

theorem Outcome.void_eq_undefined {α : Type} (o : Outcome α) :
    o.void = .undefinedBehaviour ↔ o = .undefinedBehaviour := by
  cases o <;> simp [Outcome.void]

theorem Outcome.void_eq_assertFailed {α : Type} (o : Outcome α) :
    o.void = .assertFailed ↔ o = .assertFailed := by
  cases o <;> simp [Outcome.void]

theorem render_steps (cfg : Config) (p : FramePlatform) (w : Window) (g : GfxResources) :
    (Renderer.render cfg p w g).void = runSteps cfg (renderSteps p w g) := by
  unfold Renderer.render renderSteps frameCalls
  simp only [bind_eq, pure_eq, Exec.void_bind, Exec.void_pure, runSteps, Step.run,
    readAt_bind_access (0 : Handle), Exec.bind_assoc, Exec.pure_bind, List.drop_succ_cons,
    List.drop_zero, List.flatMap_cons, List.flatMap_nil, List.cons_append, List.nil_append,
    List.append_nil]
  rfl

theorem searchAccesses_within (props : List Nat) (n : Nat) :
    ∀ (count idx : Nat), idx + count ≤ props.length →
      ∀ a ∈ searchAccesses props count idx, a.within n := by
  intro count
  induction count with
  | zero => intro idx _ a ha; simp [searchAccesses] at ha
  | succ k ih =>
    intro idx hle a ha
    rw [searchAccesses, List.mem_cons] at ha
    rcases ha with h | h
    · subst h
      exact ⟨by show idx < props.length; omega, fun hv => absurd hv (by simp [Vec.perSlot])⟩
    · split at h
      · simp at h
      · exact ih (idx + 1) (by omega) a h

theorem createSteps_access_within (cfg : Config) (gv : GlobalVariables) (p : InitPlatform)
    (w : Window) (g : GfxResources) (n : Nat) (hc : p.swapchainImageCount = n)
    (hw : p.swapchainImagesWritten = n) (hf : p.surfaceFormats ≠ [])
    (hm : p.presentModes ≠ []) :
    ∀ a, Step.access a ∈ createSteps cfg gv p w g → a.within n := by
  intro a ha
  have hfl : 0 < p.surfaceFormats.length := List.length_pos.mpr hf
  have hml : 0 < p.presentModes.length := List.length_pos.mpr hm
  simp only [createSteps, List.mem_append] at ha
  rcases ha with h | h | h | h | h | h | h | h | h
  · unfold instanceSteps at h
    cases cfg.debugValidation <;> simp at h
  · simp only [physicalDeviceSteps, List.mem_append, List.mem_map] at h
    rcases h with (h | ⟨b, hb, hab⟩) | h
    · simp at h
    · injection hab with hab
      subst hab
      exact searchAccesses_within _ n _ 0 (by omega) b hb
    · simp at h
  · simp [surfaceSteps] at h
  · simp only [swapchainSteps, List.mem_append, List.mem_flatMap, List.mem_range] at h
    rcases h with h | ⟨i, hi, h⟩
    · simp [swapchainSetupSteps] at h
      rcases h with h | h <;> subst h
      · exact ⟨hfl, fun hv => absurd hv (by simp [Vec.perSlot])⟩
      · exact ⟨hml, fun hv => absurd hv (by simp [Vec.perSlot])⟩
    · simp [imageViewSteps] at h
      rcases h with h | h <;> subst h
      · refine ⟨?_, fun _ => by show i < n; omega⟩
        show i < (fillData (resize _ p.swapchainImageCount) _ _).length
        rw [fillData_length, resize_length]; omega
      · refine ⟨?_, fun _ => by show i < n; omega⟩
        show i < (resize _ p.swapchainImagesWritten).length
        rw [resize_length]; omega
  · simp [renderPassSteps, renderPassCalls] at h
  · simp only [framebuffersSteps, List.mem_flatMap, List.mem_range,
      afterRenderPass_bufferCount] at h
    obtain ⟨i, hi, h⟩ := h
    simp [framebufferSteps] at h
    rcases h with h | h <;> subst h
    · refine ⟨?_, fun _ => by show i < n; omega⟩
      show i < ((List.range p.swapchainImagesWritten).map _).length
      rw [List.length_map, List.length_range]; omega
    · refine ⟨?_, fun _ => by show i < n; omega⟩
      show i < (resize _ p.swapchainImagesWritten).length
      rw [resize_length]; omega
  · simp only [pipelineSteps, shaderModuleSteps, List.mem_append] at h
    rcases h with (h | h) | h
    · rcases h with h | h
      · simp at h
      · split at h <;> simp at h
    · rcases h with h | h
      · simp at h
      · split at h <;> simp at h
    · simp at h
  · simp only [queueAndPoolSteps, List.mem_append, List.mem_flatMap, List.mem_range,
      afterPipeline_bufferCount] at h
    rcases h with h | ⟨i, hi, h⟩
    · simp at h
    · simp [fenceSteps] at h
      subst h
      exact ⟨by show i < p.swapchainImagesWritten; omega, fun _ => by show i < n; omega⟩
  · simp [semaphoresSteps] at h

theorem destroySlotAccesses_within (g : GfxResources) (n : Nat) (h : HasSlots g n) :
    ∀ a ∈ (List.range n).flatMap (destroySlotAccesses g), a.index < a.size ∧ a.index < n := by
  intro a ha
  obtain ⟨_, h1, h2, _, h4⟩ := h
  rw [List.mem_flatMap] at ha
  obtain ⟨i, hi, ha⟩ := ha
  rw [List.mem_range] at hi
  simp only [destroySlotAccesses, List.mem_cons, List.mem_singleton, List.not_mem_nil,
    or_false] at ha
  rcases ha with h | h | h <;> subst h
  · exact ⟨by show i < g.m_bufferedFrameResource.imageViews.length; omega, hi⟩
  · exact ⟨by show i < g.m_bufferedFrameResource.framebuffers.length; omega, hi⟩
  · exact ⟨by show i < g.m_bufferedFrameResource.commandBufferFences.length; omega, hi⟩

theorem renderSteps_access (p : FramePlatform) (w : Window) (g : GfxResources) (a : Access)
    (h : Step.access a ∈ renderSteps p w g) :
    a = ⟨.framebuffers, p.imageIndex, g.m_bufferedFrameResource.framebuffers.length⟩
      ∨ a = ⟨.commandBuffers, p.imageIndex, g.m_bufferedFrameResource.commandBuffers.length⟩
      ∨ a = ⟨.commandBufferFences, p.imageIndex,
          g.m_bufferedFrameResource.commandBufferFences.length⟩ := by
  simp only [renderSteps, List.mem_append, List.mem_flatMap] at h
  rcases h with h | ⟨c, _, h⟩
  · simpa using h
  · rw [List.mem_cons] at h
    rcases h with h | h
    · exact absurd h (by simp)
    · split at h <;> simp at h

theorem render_run (cfg : Config) (p : FramePlatform) (w : Window) (g : GfxResources) :
    (Renderer.render cfg p w g).calls = (stepsRun cfg (renderSteps p w g)).flatMap Step.calls
      ∧ (Renderer.render cfg p w g).accesses
        = (stepsRun cfg (renderSteps p w g)).flatMap Step.accesses
      ∧ (Renderer.render cfg p w g).outcome.void = stepsOutcome cfg (renderSteps p w g) := by
  have h := render_steps cfg p w g
  rw [runSteps_eq] at h
  exact ⟨congrArg Exec.calls h, congrArg Exec.accesses h, congrArg Exec.outcome h⟩

theorem createState_images_length (cfg : Config) (p : InitPlatform) (g : GfxResources) :
    (createState cfg p g).m_bufferedFrameResource.images.length = p.swapchainImageCount := by
  show (fillData (resize _ p.swapchainImageCount) _ _).length = _
  rw [fillData_length, resize_length]

theorem toUInt32_le (n : Nat) : toUInt32 n ≤ n := Nat.mod_le n _

theorem accesses_of_initial (l l' : List Step) (h : l' <+: l) (a : Access)
    (ha : a ∈ l'.flatMap Step.accesses) : Step.access a ∈ l := by
  rw [List.mem_flatMap] at ha
  obtain ⟨s, hs, hsa⟩ := ha
  have hsl : s ∈ l := h.subset hs
  cases s with
  | access b =>
    simp only [Step.accesses, List.mem_singleton] at hsa
    rw [hsa]; exact hsl
  | call c => simp [Step.accesses] at hsa
  | check r => simp [Step.accesses] at hsa
  | require b => simp [Step.accesses] at hsa

theorem render_stopped_by_bound (cfg : Config) (p : FramePlatform) (w : Window)
    (g : GfxResources) (ha : cfg.assertsEnabled = true)
    (hi : g.m_bufferedFrameResource.images.length ≤ p.imageIndex) :
    (Renderer.render cfg p w g).accesses = []
      ∧ ∀ s, (Renderer.render cfg p w g).outcome ≠ .ok s := by
  obtain ⟨_, hacc, hout⟩ := render_run cfg p w g
  have hle := toUInt32_le g.m_bufferedFrameResource.images.length
  have hstop : (Step.require (decide (p.imageIndex
      < toUInt32 g.m_bufferedFrameResource.images.length))).stops cfg = true := by
    have : ¬ p.imageIndex < toUInt32 g.m_bufferedFrameResource.images.length := by omega
    simp [Step.stops, ha, this]
  refine ⟨?_, ?_⟩
  · rw [hacc, List.eq_nil_iff_forall_not_mem]
    intro a hmem
    have hpre : stepsRun cfg (renderSteps p w g)
        <+: [ .call (.vkAcquireNextImageKHR g.m_device g.m_swapchain 0
                g.m_bufferedFrameResource.swapchainImageSemaphore 0),
              .check p.acquireNextImage ]
            ++ [.require (decide (p.imageIndex
                < toUInt32 g.m_bufferedFrameResource.images.length))] :=
      stepsRun_of_stop cfg
        [ .call (.vkAcquireNextImageKHR g.m_device g.m_swapchain 0
            g.m_bufferedFrameResource.swapchainImageSemaphore 0),
          .check p.acquireNextImage ] ((renderSteps p w g).drop 3) _ hstop
    have := accesses_of_initial _ _ hpre a hmem
    simp at this
  · intro s hs
    have hne := stepsOutcome_of_stop cfg (renderSteps p w g) _
      (by unfold renderSteps; simp) hstop
    rw [← hout, hs] at hne
    exact hne rfl

/-- C4: on a platform that grants `n` swapchain images (both count queries report `n`;
`n = 2` with the three of `c_bufferingCount` requested is one case) and reports at least
one surface format and one present mode, every vector access of `create` is in range and
the per-slot ones are at indices below `n`; `create` never runs into undefined behaviour;
and on the state it returns, `destroy` returns with every access in range at an index
below `n`, `render` with an acquired index below `n` reads only entries at that index,
all in range, and with assertions an acquired index of `n` or more is stopped by the
assertion with no vector indexed and no call after the acquire. -/
theorem granted_slots_accessed_in_bounds (cfg : Config) (gv : GlobalVariables)
    (p : InitPlatform) (w : Window) (g : GfxResources) (n : Nat)
    (hc : p.swapchainImageCount = n) (hw : p.swapchainImagesWritten = n)
    (hf : p.surfaceFormats ≠ []) (hm : p.presentModes ≠ []) :
    (∀ a ∈ (GfxResources.create cfg gv p w g).accesses, a.within n)
      ∧ (GfxResources.create cfg gv p w g).outcome ≠ .undefinedBehaviour
      ∧ ∀ s, (GfxResources.create cfg gv p w g).outcome = .ok s →
          (GfxResources.destroy cfg s).outcome = .ok ()
          ∧ (∀ a ∈ (GfxResources.destroy cfg s).accesses, a.index < a.size ∧ a.index < n)
          ∧ (∀ (fp : FramePlatform) (w' : Window), fp.imageIndex < n →
              (Renderer.render cfg fp w' s).outcome ≠ .undefinedBehaviour
              ∧ ∀ a ∈ (Renderer.render cfg fp w' s).accesses,
                  a.index = fp.imageIndex ∧ a.index < a.size)
          ∧ (∀ (fp : FramePlatform) (w' : Window), cfg.assertsEnabled = true →
              n ≤ fp.imageIndex →
              (Renderer.render cfg fp w' s).outcome = .assertFailed
              ∧ (Renderer.render cfg fp w' s).accesses = []
              ∧ (Renderer.render cfg fp w' s).calls
                  = [.vkAcquireNextImageKHR s.m_device s.m_swapchain 0
                      s.m_bufferedFrameResource.swapchainImageSemaphore 0]) := by
  obtain ⟨_, hacc, hout⟩ := create_calls_steps cfg gv p w g
  have hwithin := createSteps_access_within cfg gv p w g n hc hw hf hm
  refine ⟨?_, ?_, ?_⟩
  · intro a ha
    rw [hacc] at ha
    exact hwithin a (mem_accesses_stepsRun cfg _ a ha)
  · intro hub
    have h1 := stepsOutcome_not_undefined cfg (createSteps cfg gv p w g)
      (fun s hs a hsa => (hwithin a (hsa ▸ hs)).1)
    rw [← hout, hub] at h1
    exact h1 rfl
  · intro s hs
    obtain ⟨hst, -⟩ := create_ok cfg gv p w g s hs
    have hslots : HasSlots s n := by
      rw [hst, ← hw]; exact createState_hasSlots cfg p g
    have himg : s.m_bufferedFrameResource.images.length = n := by
      rw [hst, createState_images_length, hc]
    obtain ⟨_, hdacc, hdout⟩ := destroy_eq cfg s n hslots
    refine ⟨hdout, ?_, ?_, ?_⟩
    · intro a ha
      rw [hdacc] at ha
      exact destroySlotAccesses_within s n hslots a ha
    · intro fp w' hi
      obtain ⟨_, hracc, hrout⟩ := render_run cfg fp w' s
      obtain ⟨_, _, h2, h3, h4⟩ := hslots
      have hall : ∀ a, Step.access a ∈ renderSteps fp w' s →
          a.index = fp.imageIndex ∧ a.index < a.size := by
        intro a ha
        rcases renderSteps_access fp w' s a ha with h | h | h <;> subst h
        · exact ⟨rfl, by show fp.imageIndex < s.m_bufferedFrameResource.framebuffers.length; omega⟩
        · exact ⟨rfl, by
            show fp.imageIndex < s.m_bufferedFrameResource.commandBuffers.length; omega⟩
        · exact ⟨rfl, by
            show fp.imageIndex < s.m_bufferedFrameResource.commandBufferFences.length; omega⟩
      refine ⟨?_, ?_⟩
      · intro hub
        have h1 := stepsOutcome_not_undefined cfg (renderSteps fp w' s)
          (fun st hst' a hsa => (hall a (hsa ▸ hst')).2)
        rw [← hrout, hub] at h1
        exact h1 rfl
      · intro a ha
        rw [hracc] at ha
        exact hall a (mem_accesses_stepsRun cfg _ a ha)
    · intro fp w' ha hi
      obtain ⟨hnoacc, hnook⟩ := render_stopped_by_bound cfg fp w' s ha (by omega)
      have hnone : s.m_bufferedFrameResource.framebuffers[fp.imageIndex]? = none := by
        apply List.getElem?_eq_none
        have := hslots.2.2.1
        omega
      obtain ⟨hcalls, hro⟩ := render_eq_of_no_slot cfg fp w' s (Or.inl hnone)
      refine ⟨?_, hnoacc, hcalls⟩
      rw [hro, if_pos]
      refine ⟨ha, Or.inr ?_⟩
      have := toUInt32_le s.m_bufferedFrameResource.images.length
      omega

theorem granted_slots_accessed_in_bounds_witness :
    sampleInit.swapchainImageCount = 2 ∧ sampleInit.swapchainImagesWritten = 2
      ∧ sampleInit.surfaceFormats ≠ [] ∧ sampleInit.presentModes ≠ []
      ∧ GfxResources.c_bufferingCount {} = 3
      ∧ (∀ a ∈ (GfxResources.create sampleConfig sampleGlobals sampleInit sampleWindow
            {}).accesses, a.within 2)
      ∧ (GfxResources.create sampleConfig sampleGlobals sampleInit sampleWindow {}).outcome
          ≠ .undefinedBehaviour :=
  ⟨rfl, rfl, by decide, by decide, rfl,
    (granted_slots_accessed_in_bounds sampleConfig sampleGlobals sampleInit sampleWindow {} 2
      rfl rfl (by decide) (by decide)).1,
    (granted_slots_accessed_in_bounds sampleConfig sampleGlobals sampleInit sampleWindow {} 2
      rfl rfl (by decide) (by decide)).2.1⟩

theorem ChecksFollow.append {a b : List Step} (ha : ChecksFollow a) (hb : ChecksFollow b) :
    ChecksFollow (a ++ b) := by
  induction ha with
  | nil => exact hb
  | checked c r rest _ ih => exact ChecksFollow.checked c r _ ih
  | plain c rest hc _ ih => exact ChecksFollow.plain c _ hc ih
  | other s rest hs _ ih => exact ChecksFollow.other s _ hs ih

theorem ChecksFollow.flatMap (l : List Nat) (f : Nat → List Step)
    (h : ∀ i, ChecksFollow (f i)) : ChecksFollow (l.flatMap f) := by
  induction l with
  | nil => exact ChecksFollow.nil
  | cons x t ih =>
    rw [List.flatMap_cons]
    exact (h x).append ih

theorem ChecksFollow.map_access (l : List Access) : ChecksFollow (l.map Step.access) := by
  induction l with
  | nil => exact ChecksFollow.nil
  | cons x t ih => exact ChecksFollow.other _ _ (fun c h => by cases h) ih

theorem ChecksFollow.next {l : List Step} (h : ChecksFollow l) :
    ∀ (i : Nat) (c : Call), l[i]? = some (.call c) → c.returnsStatus = true →
      ∃ r, l[i + 1]? = some (.check r) := by
  induction h with
  | nil => intro i c hi; simp at hi
  | checked c r rest _ ih =>
    intro i c' hi hc
    match i with
    | 0 => exact ⟨r, by simp⟩
    | 1 => simp at hi
    | k + 2 =>
      simp only [List.getElem?_cons_succ] at hi ⊢
      exact ih k c' hi hc
  | plain c rest hc' _ ih =>
    intro i c' hi hc
    match i with
    | 0 =>
      simp only [List.getElem?_cons_zero, Option.some.injEq, Step.call.injEq] at hi
      rw [hi] at hc'
      rw [hc'] at hc
      exact absurd hc (by decide)
    | k + 1 =>
      simp only [List.getElem?_cons_succ] at hi ⊢
      exact ih k c' hi hc
  | other s rest hs _ ih =>
    intro i c' hi hc
    match i with
    | 0 =>
      simp only [List.getElem?_cons_zero, Option.some.injEq] at hi
      exact absurd hi (hs c')
    | k + 1 =>
      simp only [List.getElem?_cons_succ] at hi ⊢
      exact ih k c' hi hc

theorem createSteps_checksFollow (cfg : Config) (gv : GlobalVariables) (p : InitPlatform)
    (w : Window) (g : GfxResources) : ChecksFollow (createSteps cfg gv p w g) := by
  have hshader : ∀ (device : Handle) (f : String),
      ChecksFollow (shaderModuleSteps p device f) := by
    intro device f
    unfold shaderModuleSteps
    cases p.files f <;>
      repeat' (first
        | exact ChecksFollow.nil
        | apply ChecksFollow.checked
        | (refine ChecksFollow.other _ _ (fun c h => Step.noConfusion h) ?_))
  unfold createSteps
  refine ChecksFollow.append ?_ (ChecksFollow.append ?_ (ChecksFollow.append ?_
    (ChecksFollow.append ?_ (ChecksFollow.append ?_ (ChecksFollow.append ?_
    (ChecksFollow.append ?_ (ChecksFollow.append ?_ ?_)))))))
  · unfold instanceSteps
    cases cfg.debugValidation <;>
      repeat' (first
        | exact ChecksFollow.nil
        | apply ChecksFollow.checked
        | (refine ChecksFollow.plain _ _ (by rfl) ?_)
        | (refine ChecksFollow.other _ _ (fun c h => Step.noConfusion h) ?_))
  · unfold physicalDeviceSteps
    refine ChecksFollow.append (ChecksFollow.append ?_ (ChecksFollow.map_access _)) ?_ <;>
      repeat' (first
        | exact ChecksFollow.nil
        | apply ChecksFollow.checked
        | (refine ChecksFollow.plain _ _ (by rfl) ?_)
        | (refine ChecksFollow.other _ _ (fun c h => Step.noConfusion h) ?_))
  · unfold surfaceSteps
    repeat' (first
      | exact ChecksFollow.nil
      | apply ChecksFollow.checked
      | (refine ChecksFollow.plain _ _ (by rfl) ?_)
      | (refine ChecksFollow.other _ _ (fun c h => Step.noConfusion h) ?_))
  · unfold swapchainSteps
    refine ChecksFollow.append ?_ (ChecksFollow.flatMap _ _ (fun i => ?_))
    · unfold swapchainSetupSteps
      repeat' (first
        | exact ChecksFollow.nil
        | apply ChecksFollow.checked
        | (refine ChecksFollow.plain _ _ (by rfl) ?_)
        | (refine ChecksFollow.other _ _ (fun c h => Step.noConfusion h) ?_))
    · unfold imageViewSteps
      repeat' (first
        | exact ChecksFollow.nil
        | apply ChecksFollow.checked
        | (refine ChecksFollow.plain _ _ (by rfl) ?_)
        | (refine ChecksFollow.other _ _ (fun c h => Step.noConfusion h) ?_))
  · unfold renderPassSteps renderPassCalls
    exact ChecksFollow.checked _ _ _ ChecksFollow.nil
  · unfold framebuffersSteps
    refine ChecksFollow.flatMap _ _ (fun i => ?_)
    unfold framebufferSteps
    repeat' (first
      | exact ChecksFollow.nil
      | apply ChecksFollow.checked
      | (refine ChecksFollow.plain _ _ (by rfl) ?_)
      | (refine ChecksFollow.other _ _ (fun c h => Step.noConfusion h) ?_))
  · unfold pipelineSteps
    refine ChecksFollow.append (ChecksFollow.append (hshader _ _) (hshader _ _)) ?_
    repeat' (first
      | exact ChecksFollow.nil
      | apply ChecksFollow.checked
      | (refine ChecksFollow.plain _ _ (by rfl) ?_)
      | (refine ChecksFollow.other _ _ (fun c h => Step.noConfusion h) ?_))
  · unfold queueAndPoolSteps
    refine ChecksFollow.append ?_ (ChecksFollow.flatMap _ _ (fun i => ?_))
    · repeat' (first
        | exact ChecksFollow.nil
        | apply ChecksFollow.checked
        | (refine ChecksFollow.plain _ _ (by rfl) ?_)
        | (refine ChecksFollow.other _ _ (fun c h => Step.noConfusion h) ?_))
    · unfold fenceSteps
      repeat' (first
        | exact ChecksFollow.nil
        | apply ChecksFollow.checked
        | (refine ChecksFollow.plain _ _ (by rfl) ?_)
        | (refine ChecksFollow.other _ _ (fun c h => Step.noConfusion h) ?_))
  · unfold semaphoresSteps
    repeat' (first
      | exact ChecksFollow.nil
      | apply ChecksFollow.checked
      | (refine ChecksFollow.plain _ _ (by rfl) ?_)
      | (refine ChecksFollow.other _ _ (fun c h => Step.noConfusion h) ?_))

theorem flatMap_calls_initial (l l' : List Step) (h : l' <+: l) :
    l'.flatMap Step.calls <+: l.flatMap Step.calls := by
  obtain ⟨t, ht⟩ := h
  rw [← ht, List.flatMap_append]
  exact List.prefix_append _ _

theorem mem_createSteps (cfg : Config) (gv : GlobalVariables) (p : InitPlatform) (w : Window)
    (g : GfxResources) (s : Step) :
    s ∈ createSteps cfg gv p w g ↔
      s ∈ instanceSteps cfg gv p ∨ s ∈ physicalDeviceSteps p (afterInstance cfg p g)
      ∨ s ∈ surfaceSteps p w (afterPhysicalDevice cfg p g)
      ∨ s ∈ swapchainSteps p w (afterSurface cfg p g)
      ∨ s ∈ renderPassSteps p (afterSwapchain cfg p g)
      ∨ s ∈ framebuffersSteps p w (afterRenderPass cfg p g)
      ∨ s ∈ pipelineSteps p w (afterFramebuffer cfg p g)
      ∨ s ∈ queueAndPoolSteps p (afterPipeline cfg p g)
      ∨ s ∈ semaphoresSteps p (afterQueueAndPool cfg p g) := by
  simp only [createSteps, List.mem_append]

theorem create_stopped_at (cfg : Config) (gv : GlobalVariables) (p : InitPlatform)
    (w : Window) (g : GfxResources) (pre post : List Step) (s : Step)
    (hsplit : createSteps cfg gv p w g = pre ++ s :: post) (hs : s.stops cfg = true) :
    (∀ st, (GfxResources.create cfg gv p w g).outcome ≠ .ok st)
      ∧ (GfxResources.create cfg gv p w g).calls <+: (pre ++ [s]).flatMap Step.calls
      ∧ ((∀ x ∈ pre, x.stops cfg = false) →
          (GfxResources.create cfg gv p w g).outcome.void = s.stopOutcome
          ∧ (GfxResources.create cfg gv p w g).calls = (pre ++ [s]).flatMap Step.calls) := by
  obtain ⟨hcalls, _, hout⟩ := create_calls_steps cfg gv p w g
  refine ⟨?_, ?_, ?_⟩
  · intro st hst
    have hne := stepsOutcome_of_stop cfg (createSteps cfg gv p w g) s
      (by rw [hsplit]; simp) hs
    rw [← hout, hst] at hne
    exact hne rfl
  · rw [hcalls, hsplit]
    exact flatMap_calls_initial _ _ (stepsRun_of_stop cfg pre post s hs)
  · intro hpre
    obtain ⟨h1, h2⟩ := stepsRun_of_first_stop cfg pre post s hpre hs
    rw [hsplit] at hout hcalls
    rw [hout, hcalls, h1, h2]
    exact ⟨rfl, rfl⟩

theorem create_ok_checkedSuccess (cfg : Config) (gv : GlobalVariables) (p : InitPlatform)
    (w : Window) (g s : GfxResources) (ha : cfg.assertsEnabled = true)
    (h : (GfxResources.create cfg gv p w g).outcome = .ok s) : p.checkedSuccess cfg g := by
  obtain ⟨_, _, hout⟩ := create_calls_steps cfg gv p w g
  rw [h] at hout
  have hok := (stepsOutcome_ok_iff cfg _).mp hout.symm
  have chk : ∀ r, Step.check r ∈ createSteps cfg gv p w g → r = VK_SUCCESS := by
    intro r hr
    have := hok _ hr
    simpa [Step.stops, ha] using this
  have req : ∀ b, Step.require b ∈ createSteps cfg gv p w g → b = true := by
    intro b hb
    have := hok _ hb
    simpa [Step.stops, ha] using this
  have hfiles := (create_ok cfg gv p w g s h).2.2.2.2 ha
  refine ⟨?_, ?_, ?_, ?_, ?_, ?_, ?_, ?_, ?_, ?_, ?_, ?_, ?_, ?_, ?_, ?_, ?_, ?_, ?_, ?_, ?_,
    ?_, ?_, ?_, ?_, ?_, ?_⟩
  · exact chk _ ((mem_createSteps ..).mpr (Or.inl (by simp [instanceSteps])))
  · intro hd
    exact chk _ ((mem_createSteps ..).mpr (Or.inl (by simp [instanceSteps, hd])))
  · exact chk _ ((mem_createSteps ..).mpr (Or.inr (Or.inl (by simp [physicalDeviceSteps]))))
  · exact chk _ ((mem_createSteps ..).mpr (Or.inr (Or.inl (by simp [physicalDeviceSteps]))))
  · have := req _ ((mem_createSteps ..).mpr (Or.inr (Or.inr (Or.inl
      (by simp [surfaceSteps] : Step.require (decide (p.presentationSupport ≠ 0)) ∈ _)))))
    simpa using this
  · exact chk _ ((mem_createSteps ..).mpr (Or.inr (Or.inr (Or.inl (by simp [surfaceSteps])))))
  · exact chk _ ((mem_createSteps ..).mpr (Or.inr (Or.inr (Or.inr (Or.inl
      (by simp [swapchainSteps, swapchainSetupSteps]))))))
  · exact chk _ ((mem_createSteps ..).mpr (Or.inr (Or.inr (Or.inr (Or.inl
      (by simp [swapchainSteps, swapchainSetupSteps]))))))
  · exact chk _ ((mem_createSteps ..).mpr (Or.inr (Or.inr (Or.inr (Or.inl
      (by simp [swapchainSteps, swapchainSetupSteps]))))))
  · exact chk _ ((mem_createSteps ..).mpr (Or.inr (Or.inr (Or.inr (Or.inl
      (by simp [swapchainSteps, swapchainSetupSteps]))))))
  · exact chk _ ((mem_createSteps ..).mpr (Or.inr (Or.inr (Or.inr (Or.inl
      (by simp [swapchainSteps, swapchainSetupSteps]))))))
  · exact chk _ ((mem_createSteps ..).mpr (Or.inr (Or.inr (Or.inr (Or.inl
      (by simp [swapchainSteps, swapchainSetupSteps]))))))
  · exact chk _ ((mem_createSteps ..).mpr (Or.inr (Or.inr (Or.inr (Or.inl
      (by simp [swapchainSteps, swapchainSetupSteps]))))))
  · exact chk _ ((mem_createSteps ..).mpr (Or.inr (Or.inr (Or.inr (Or.inl
      (by simp [swapchainSteps, swapchainSetupSteps]))))))
  · exact chk _ ((mem_createSteps ..).mpr (Or.inr (Or.inr (Or.inr (Or.inl
      (by simp [swapchainSteps, swapchainSetupSteps]))))))
  · intro i hi
    exact chk _ ((mem_createSteps ..).mpr (Or.inr (Or.inr (Or.inr (Or.inl (by
      simp only [swapchainSteps, List.mem_append, List.mem_flatMap, List.mem_range]
      exact Or.inr ⟨i, hi, by simp [imageViewSteps]⟩))))))
  · exact chk _ ((mem_createSteps ..).mpr (Or.inr (Or.inr (Or.inr (Or.inr (Or.inl
      (by simp [renderPassSteps])))))))
  · intro i hi
    exact chk _ ((mem_createSteps ..).mpr (Or.inr (Or.inr (Or.inr (Or.inr (Or.inr (Or.inl (by
      simp only [framebuffersSteps, List.mem_flatMap, List.mem_range,
        afterRenderPass_bufferCount]
      exact ⟨i, hi, by simp [framebufferSteps]⟩))))))))
  · cases hfile : p.files g.c_vertexShader with
    | none => rw [hfile] at hfiles; exact absurd hfiles.1 (by simp)
    | some sz =>
      exact chk _ ((mem_createSteps ..).mpr (Or.inr (Or.inr (Or.inr (Or.inr (Or.inr (Or.inr
        (Or.inl (by
          have e : (afterFramebuffer cfg p g).c_vertexShader = g.c_vertexShader := rfl
          simp [pipelineSteps, shaderModuleSteps, e, hfile])))))))))
  · cases hfile : p.files g.c_fragmentShader with
    | none => rw [hfile] at hfiles; exact absurd hfiles.2 (by simp)
    | some sz =>
      exact chk _ ((mem_createSteps ..).mpr (Or.inr (Or.inr (Or.inr (Or.inr (Or.inr (Or.inr
        (Or.inl (by
          have e : (afterFramebuffer cfg p g).c_fragmentShader = g.c_fragmentShader := rfl
          simp [pipelineSteps, shaderModuleSteps, e, hfile])))))))))
  · exact chk _ ((mem_createSteps ..).mpr (Or.inr (Or.inr (Or.inr (Or.inr (Or.inr (Or.inr
      (Or.inl (by simp [pipelineSteps])))))))))
  · exact chk _ ((mem_createSteps ..).mpr (Or.inr (Or.inr (Or.inr (Or.inr (Or.inr (Or.inr
      (Or.inl (by simp [pipelineSteps])))))))))
  · exact chk _ ((mem_createSteps ..).mpr (Or.inr (Or.inr (Or.inr (Or.inr (Or.inr (Or.inr
      (Or.inr (Or.inl (by simp [queueAndPoolSteps]))))))))))
  · exact chk _ ((mem_createSteps ..).mpr (Or.inr (Or.inr (Or.inr (Or.inr (Or.inr (Or.inr
      (Or.inr (Or.inl (by simp [queueAndPoolSteps]))))))))))
  · intro i hi
    exact chk _ ((mem_createSteps ..).mpr (Or.inr (Or.inr (Or.inr (Or.inr (Or.inr (Or.inr
      (Or.inr (Or.inl (by
        simp only [queueAndPoolSteps, List.mem_append, List.mem_flatMap, List.mem_range,
          afterPipeline_bufferCount]
        exact Or.inr ⟨i, hi, by simp [fenceSteps]⟩))))))))))
  · exact chk _ ((mem_createSteps ..).mpr (Or.inr (Or.inr (Or.inr (Or.inr (Or.inr (Or.inr
      (Or.inr (Or.inr (by simp [semaphoresSteps]))))))))))
  · exact chk _ ((mem_createSteps ..).mpr (Or.inr (Or.inr (Or.inr (Or.inr (Or.inr (Or.inr
      (Or.inr (Or.inr (by simp [semaphoresSteps]))))))))))

/-- C11: with assertions enabled, every status-returning call on the path of `create` is
followed at once by the check of its status; when a status other than `VK_SUCCESS` is
checked, or presentation support is reported absent, `create` does not return and issues
no call after the failing one (its calls are an initial part of the calls before the
check, and exactly those, ending by assertion, when nothing stopped the run earlier); so
when `create` returns, every status it looked at was `VK_SUCCESS` and presentation
support was reported. -/
theorem create_aborts_on_failed_check (cfg : Config) (gv : GlobalVariables)
    (p : InitPlatform) (w : Window) (g : GfxResources) (ha : cfg.assertsEnabled = true) :
    (∀ (i : Nat) (c : Call), (createSteps cfg gv p w g)[i]? = some (.call c) →
        c.returnsStatus = true → ∃ r, (createSteps cfg gv p w g)[i + 1]? = some (.check r))
      ∧ (GfxResources.create cfg gv p w g).void = runSteps cfg (createSteps cfg gv p w g)
      ∧ (∀ (pre post : List Step) (r : VkResult),
          createSteps cfg gv p w g = pre ++ .check r :: post → r ≠ VK_SUCCESS →
            (∀ s, (GfxResources.create cfg gv p w g).outcome ≠ .ok s)
            ∧ (GfxResources.create cfg gv p w g).calls <+: pre.flatMap Step.calls
            ∧ ((∀ x ∈ pre, x.stops cfg = false) →
                (GfxResources.create cfg gv p w g).outcome = .assertFailed
                ∧ (GfxResources.create cfg gv p w g).calls = pre.flatMap Step.calls))
      ∧ (p.presentationSupport = 0 →
          (∀ s, (GfxResources.create cfg gv p w g).outcome ≠ .ok s)
          ∧ (GfxResources.create cfg gv p w g).calls
              <+: (instanceSteps cfg gv p
                    ++ physicalDeviceSteps p (afterInstance cfg p g)).flatMap Step.calls
                  ++ [.vkGetPhysicalDeviceWin32PresentationSupportKHR
                        (afterPhysicalDevice cfg p g).m_physicalDevice
                        (afterPhysicalDevice cfg p g).m_queueFamilyIndex])
      ∧ (∀ s, (GfxResources.create cfg gv p w g).outcome = .ok s → p.checkedSuccess cfg g) := by
  refine ⟨(createSteps_checksFollow cfg gv p w g).next, create_steps cfg gv p w g, ?_, ?_,
    fun s hs => create_ok_checkedSuccess cfg gv p w g s ha hs⟩
  · intro pre post r hsplit hr
    have hstop : (Step.check r).stops cfg = true := by simp [Step.stops, ha, hr]
    obtain ⟨h1, h2, h3⟩ := create_stopped_at cfg gv p w g pre post _ hsplit hstop
    have hflat : (pre ++ [Step.check r]).flatMap Step.calls = pre.flatMap Step.calls := by
      simp [List.flatMap_append, Step.calls]
    rw [hflat] at h2 h3
    refine ⟨h1, h2, fun hpre => ?_⟩
    obtain ⟨h4, h5⟩ := h3 hpre
    exact ⟨(Outcome.void_eq_assertFailed _).mp h4, h5⟩
  · intro hp
    have hstop : (Step.require (decide (p.presentationSupport ≠ 0))).stops cfg = true := by
      simp [Step.stops, ha, hp]
    have hsplit : createSteps cfg gv p w g
        = (instanceSteps cfg gv p ++ physicalDeviceSteps p (afterInstance cfg p g)
            ++ [.call (.vkGetPhysicalDeviceWin32PresentationSupportKHR
                  (afterPhysicalDevice cfg p g).m_physicalDevice
                  (afterPhysicalDevice cfg p g).m_queueFamilyIndex)])
          ++ Step.require (decide (p.presentationSupport ≠ 0))
            :: ((surfaceSteps p w (afterPhysicalDevice cfg p g)).drop 2
                ++ (swapchainSteps p w (afterSurface cfg p g)
                ++ (renderPassSteps p (afterSwapchain cfg p g)
                ++ (framebuffersSteps p w (afterRenderPass cfg p g)
                ++ (pipelineSteps p w (afterFramebuffer cfg p g)
                ++ (queueAndPoolSteps p (afterPipeline cfg p g)
                ++ semaphoresSteps p (afterQueueAndPool cfg p g))))))) := by
      simp [createSteps, surfaceSteps, List.append_assoc]
    obtain ⟨h1, h2, -⟩ := create_stopped_at cfg gv p w g _ _ _ hsplit hstop
    refine ⟨h1, ?_⟩
    simpa [List.flatMap_append, Step.calls] using h2

theorem create_aborts_on_failed_check_witness :
    sampleConfig.assertsEnabled = true
      ∧ (GfxResources.create sampleConfig sampleGlobals sampleDeviceFails sampleWindow {}).outcome
          = .assertFailed
      ∧ (GfxResources.create sampleConfig sampleGlobals sampleDeviceFails sampleWindow
            {}).calls.getLast? = some (.vkCreateDevice 102 1 1 ["VK_KHR_swapchain"] 103)
      ∧ (∀ s, (GfxResources.create sampleConfig sampleGlobals sampleDeviceFails sampleWindow
            {}).outcome = .ok s → sampleDeviceFails.checkedSuccess sampleConfig {}) :=
  ⟨rfl, rfl, rfl,
    (create_aborts_on_failed_check sampleConfig sampleGlobals sampleDeviceFails sampleWindow {}
      rfl).2.2.2.2⟩

theorem run_of_steps {α : Type} (cfg : Config) (e : Exec α) (l : List Step)
    (h : e.void = runSteps cfg l) :
    e.calls = (stepsRun cfg l).flatMap Step.calls
      ∧ e.accesses = (stepsRun cfg l).flatMap Step.accesses
      ∧ e.outcome.void = stepsOutcome cfg l := by
  rw [runSteps_eq] at h
  exact ⟨congrArg Exec.calls h, congrArg Exec.accesses h, congrArg Exec.outcome h⟩

theorem firstGraphicsFrom_none (props : List Nat) (current : Nat) :
    ∀ (count idx : Nat),
      (∀ j, idx ≤ j → j < idx + count → props.getD j 0 &&& VK_QUEUE_GRAPHICS_BIT = 0) →
      firstGraphicsFrom props count idx current = current := by
  intro count
  induction count with
  | zero => intro idx _; rfl
  | succ k ih =>
    intro idx h
    have h0 := h idx (Nat.le_refl _) (by omega)
    rw [firstGraphicsFrom, if_neg (by simpa using h0)]
    exact ih (idx + 1) (fun j h1 h2 => h j (by omega) (by omega))

theorem calls_of_initial (l l' : List Step) (h : l' <+: l) (c : Call)
    (hc : c ∈ l'.flatMap Step.calls) : Step.call c ∈ l := by
  rw [List.mem_flatMap] at hc
  obtain ⟨s, hs, hsc⟩ := hc
  have hsl : s ∈ l := h.subset hs
  cases s with
  | call b =>
    simp only [Step.calls, List.mem_singleton] at hsc
    rw [hsc]; exact hsl
  | access a => simp [Step.calls] at hsc
  | check r => simp [Step.calls] at hsc
  | require b => simp [Step.calls] at hsc

theorem stepsRun_cons (cfg : Config) (s : Step) (rest : List Step)
    (h : s.stops cfg = false) : stepsRun cfg (s :: rest) = s :: stepsRun cfg rest := by
  show (if s.stops cfg then [s] else s :: stepsRun cfg rest) = _
  rw [h]
  rfl

theorem stepsRun_call (cfg : Config) (c : Call) (rest : List Step) :
    stepsRun cfg (.call c :: rest) = .call c :: stepsRun cfg rest :=
  stepsRun_cons cfg _ _ rfl

theorem physicalDevice_continues (cfg : Config) (p : InitPlatform) (self : GfxResources)
    (hcont : cfg.assertsEnabled = false ∨ p.enumeratePhysicalDevices = VK_SUCCESS) :
    [ .vkEnumeratePhysicalDevices self.m_instance 1,
      .vkGetPhysicalDeviceProperties (physicalDeviceState p self).m_physicalDevice,
      .vkGetPhysicalDeviceQueueFamilyProperties (physicalDeviceState p self).m_physicalDevice
        0 false,
      .vkGetPhysicalDeviceQueueFamilyProperties (physicalDeviceState p self).m_physicalDevice
        p.queueFamilyProperties.length true ]
      <+: (GfxResources.createPhysicalDevice cfg p self).calls := by
  obtain ⟨hcalls, _, _⟩ := run_of_steps cfg _ _ (createPhysicalDevice_steps cfg p self)
  have hchk : (Step.check p.enumeratePhysicalDevices).stops cfg = false := by
    rcases hcont with h | h <;> simp [Step.stops, h]
  have e : physicalDeviceSteps p self
      = .call (.vkEnumeratePhysicalDevices self.m_instance 1)
        :: .check p.enumeratePhysicalDevices
        :: .call (.vkGetPhysicalDeviceProperties (physicalDeviceState p self).m_physicalDevice)
        :: .call (.vkGetPhysicalDeviceQueueFamilyProperties
            (physicalDeviceState p self).m_physicalDevice 0 false)
        :: .call (.vkGetPhysicalDeviceQueueFamilyProperties
            (physicalDeviceState p self).m_physicalDevice p.queueFamilyProperties.length true)
        :: (physicalDeviceSteps p self).drop 5 := rfl
  rw [hcalls, e, stepsRun_call, stepsRun_cons _ _ _ hchk, stepsRun_call, stepsRun_call,
    stepsRun_call]
  exact ⟨_, rfl⟩

theorem physicalDevice_stopped (cfg : Config) (p : InitPlatform) (self : GfxResources)
    (ha : cfg.assertsEnabled = true) (hst : p.enumeratePhysicalDevices ≠ VK_SUCCESS) :
    (GfxResources.createPhysicalDevice cfg p self).outcome = .assertFailed
      ∧ (GfxResources.createPhysicalDevice cfg p self).calls
          = [.vkEnumeratePhysicalDevices self.m_instance 1] := by
  obtain ⟨hcalls, _, hout⟩ := run_of_steps cfg _ _ (createPhysicalDevice_steps cfg p self)
  have hchk : (Step.check p.enumeratePhysicalDevices).stops cfg = true := by
    simp [Step.stops, ha, hst]
  have hsplit : physicalDeviceSteps p self
      = [.call (.vkEnumeratePhysicalDevices self.m_instance 1)]
        ++ Step.check p.enumeratePhysicalDevices :: (physicalDeviceSteps p self).drop 2 := rfl
  obtain ⟨h1, h2⟩ := stepsRun_of_first_stop cfg
    [.call (.vkEnumeratePhysicalDevices self.m_instance 1)]
    ((physicalDeviceSteps p self).drop 2) _
    (fun x hx => by rw [List.mem_singleton] at hx; subst hx; rfl) hchk
  rw [hsplit] at hcalls hout
  rw [h1] at hcalls
  rw [h2] at hout
  exact ⟨(Outcome.void_eq_assertFailed _).mp hout, hcalls⟩

/-- C13, amended: when the platform enumerates at least one physical device and the
enumeration, asked for one device, reports `VK_SUCCESS` (as it does for exactly one
device) or assertions are compiled out, `createPhysicalDevice` selects the first device
of the list and continues on it: the property and queue-family queries are issued on that
device, and when the stage returns the device is stored and `vkCreateDevice` was called
on it. With assertions and any other status (`VK_INCOMPLETE` for more than one device)
the stage ends by assertion right after `vkEnumeratePhysicalDevices`. -/
theorem first_device_selected (cfg : Config) (p : InitPlatform) (self : GfxResources)
    (d : Handle) (rest : List Handle) (hlist : p.physicalDevices = d :: rest) :
    ((cfg.assertsEnabled = false ∨ p.enumeratePhysicalDevices = VK_SUCCESS) →
        [ .vkEnumeratePhysicalDevices self.m_instance 1,
          .vkGetPhysicalDeviceProperties d,
          .vkGetPhysicalDeviceQueueFamilyProperties d 0 false,
          .vkGetPhysicalDeviceQueueFamilyProperties d p.queueFamilyProperties.length true ]
          <+: (GfxResources.createPhysicalDevice cfg p self).calls)
      ∧ (∀ s', (GfxResources.createPhysicalDevice cfg p self).outcome = .ok s' →
          s'.m_physicalDevice = d
          ∧ .vkCreateDevice d s'.m_queueFamilyIndex 1 ["VK_KHR_swapchain"]
                p.createDevice.handle
              ∈ (GfxResources.createPhysicalDevice cfg p self).calls)
      ∧ (rest = [] → enumerateStatus p.physicalDevices 1 = VK_SUCCESS)
      ∧ (rest ≠ [] → enumerateStatus p.physicalDevices 1 = VK_INCOMPLETE)
      ∧ (cfg.assertsEnabled = true → p.enumeratePhysicalDevices ≠ VK_SUCCESS →
          (GfxResources.createPhysicalDevice cfg p self).outcome = .assertFailed
          ∧ (GfxResources.createPhysicalDevice cfg p self).calls
              = [.vkEnumeratePhysicalDevices self.m_instance 1]) := by
  have hd : (physicalDeviceState p self).m_physicalDevice = d := by
    show (p.physicalDevices.take 1).headD self.m_physicalDevice = d
    rw [hlist]; rfl
  refine ⟨?_, ?_, ?_, ?_, fun ha hst => physicalDevice_stopped cfg p self ha hst⟩
  · intro hcont
    have h := physicalDevice_continues cfg p self hcont
    rw [hd] at h
    exact h
  · intro s' hs'
    obtain ⟨e, hc, _⟩ := createPhysicalDevice_ok cfg p self s' hs'
    refine ⟨by rw [e, hd], ?_⟩
    rw [hc, e]
    unfold physicalDeviceCalls
    rw [hd]
    simp
  · intro hr
    rw [hlist, hr]
    rfl
  · intro hr
    rw [hlist]
    cases rest with
    | nil => exact absurd rfl hr
    | cons x t => simp [enumerateStatus]

theorem first_device_selected_witness :
    sampleInit.physicalDevices = 102 :: []
      ∧ (sampleInit.enumeratePhysicalDevices = enumerateStatus sampleInit.physicalDevices 1)
      ∧ (∀ s', (GfxResources.createPhysicalDevice sampleConfig sampleInit {}).outcome = .ok s' →
          s'.m_physicalDevice = 102
          ∧ .vkCreateDevice 102 s'.m_queueFamilyIndex 1 ["VK_KHR_swapchain"]
                sampleInit.createDevice.handle
              ∈ (GfxResources.createPhysicalDevice sampleConfig sampleInit {}).calls) :=
  ⟨rfl, rfl, (first_device_selected sampleConfig sampleInit {} 102 [] rfl).2.1⟩

theorem sampleTwoDevices_calls :
    (GfxResources.createPhysicalDevice sampleConfig sampleTwoDevices {}).calls
      = [.vkEnumeratePhysicalDevices 0 1] := by
  rfl

/-- Against C13: on a platform with two physical devices the enumeration, asked for one,
reports `VK_INCOMPLETE`; with assertions the status check fails and
`createPhysicalDevice` stops right after `vkEnumeratePhysicalDevices`, so initialization
does not continue on the first device. -/
theorem second_device_stops_initialization :
    ¬ (∀ (cfg : Config) (p : InitPlatform) (self : GfxResources) (d : Handle)
        (rest : List Handle), p.physicalDevices = d :: rest →
        p.enumeratePhysicalDevices = enumerateStatus p.physicalDevices 1 →
        .vkGetPhysicalDeviceProperties d
          ∈ (GfxResources.createPhysicalDevice cfg p self).calls) := by
  intro h
  have h1 := h sampleConfig sampleTwoDevices {} 102 [113] rfl rfl
  rw [sampleTwoDevices_calls] at h1
  simp at h1

theorem stepsOutcome_assertFailed (cfg : Config) (pre post : List Step) (s : Step)
    (hpre : ∀ x ∈ pre, ∀ a, x = .access a → a.index < a.size)
    (hs : s.stops cfg = true) (hsa : ∀ a, s ≠ .access a) :
    stepsOutcome cfg (pre ++ s :: post) = .assertFailed := by
  induction pre with
  | nil =>
    show stepsOutcome cfg (s :: post) = _
    unfold stepsOutcome
    rw [if_pos hs]
    cases s with
    | access a => exact absurd rfl (hsa a)
    | call c => rfl
    | check r => rfl
    | require b => rfl
  | cons x rest ih =>
    show stepsOutcome cfg (x :: (rest ++ s :: post)) = _
    unfold stepsOutcome
    cases hx : x.stops cfg
    · simpa using ih (fun y hy => hpre y (List.mem_cons_of_mem _ hy))
    · cases x with
      | access a =>
        have := hpre (.access a) (List.mem_cons_self _ _) a rfl
        simp [Step.stops] at hx
        omega
      | call c => simp [Step.stopOutcome]
      | check r => simp [Step.stopOutcome]
      | require b => simp [Step.stopOutcome]

theorem flatMap_calls_map_call (l : List Call) : (l.map Step.call).flatMap Step.calls = l := by
  induction l with
  | nil => rfl
  | cons x t ih => simp [List.flatMap_cons, Step.calls, ih]

theorem flatMap_calls_map_access (l : List Access) :
    (l.map Step.access).flatMap Step.calls = [] := by
  induction l with
  | nil => rfl
  | cons x t ih => simp [List.flatMap_cons, Step.calls, ih]

theorem flatMap_calls_blocks (l : List Nat) (f : Nat → List Step) (g : Nat → Call)
    (h : ∀ i, (f i).flatMap Step.calls = [g i]) :
    (l.flatMap f).flatMap Step.calls = l.map g := by
  induction l with
  | nil => rfl
  | cons x t ih => simp [List.flatMap_cons, List.flatMap_append, h, ih]

theorem instanceSteps_calls (cfg : Config) (gv : GlobalVariables) (p : InitPlatform) :
    (instanceSteps cfg gv p).flatMap Step.calls = instanceCalls cfg gv p := by
  unfold instanceSteps instanceCalls
  cases cfg.debugValidation <;> simp [List.flatMap_cons, Step.calls]

theorem physicalDeviceSteps_calls (p : InitPlatform) (self : GfxResources) :
    (physicalDeviceSteps p self).flatMap Step.calls = physicalDeviceCalls p self := by
  unfold physicalDeviceSteps physicalDeviceCalls
  simp [List.flatMap_append, List.flatMap_cons, Step.calls, flatMap_calls_map_access]

theorem surfaceSteps_calls (p : InitPlatform) (w : Window) (self : GfxResources) :
    (surfaceSteps p w self).flatMap Step.calls = surfaceCalls p w self := by
  simp [surfaceSteps, surfaceCalls, List.flatMap_cons, Step.calls]

theorem swapchainSteps_calls (p : InitPlatform) (w : Window) (self : GfxResources) :
    (swapchainSteps p w self).flatMap Step.calls = swapchainCalls p w self := by
  unfold swapchainSteps swapchainCalls
  rw [List.flatMap_append, flatMap_calls_blocks _ _ (imageViewCall p (swapchainLoopState p self))
    (fun i => by simp [imageViewSteps, List.flatMap_cons, Step.calls])]
  simp [swapchainSetupSteps, List.flatMap_cons, Step.calls]

theorem renderPassSteps_calls (p : InitPlatform) (self : GfxResources) :
    (renderPassSteps p self).flatMap Step.calls = renderPassCalls p self := by
  unfold renderPassSteps
  rw [List.flatMap_append, flatMap_calls_map_call]
  simp [List.flatMap_cons, Step.calls]

theorem framebuffersSteps_calls (p : InitPlatform) (w : Window) (self : GfxResources) :
    (framebuffersSteps p w self).flatMap Step.calls = framebufferCalls p w self := by
  unfold framebuffersSteps framebufferCalls
  exact flatMap_calls_blocks _ _ _
    (fun i => by simp [framebufferSteps, List.flatMap_cons, Step.calls])

theorem shaderModuleSteps_calls (p : InitPlatform) (device : Handle) (f : String) :
    (shaderModuleSteps p device f).flatMap Step.calls = shaderModuleCalls p device f := by
  unfold shaderModuleSteps shaderModuleCalls
  cases p.files f <;> simp [List.flatMap_cons, List.flatMap_append, Step.calls]

theorem pipelineSteps_calls (p : InitPlatform) (w : Window) (self : GfxResources) :
    (pipelineSteps p w self).flatMap Step.calls = pipelineCalls p w self := by
  unfold pipelineSteps pipelineCalls
  rw [List.flatMap_append, List.flatMap_append, shaderModuleSteps_calls,
    shaderModuleSteps_calls]
  simp [List.flatMap_cons, Step.calls]

theorem queueAndPoolSteps_calls (p : InitPlatform) (self : GfxResources) :
    (queueAndPoolSteps p self).flatMap Step.calls = queueAndPoolCalls p self := by
  unfold queueAndPoolSteps queueAndPoolCalls
  rw [List.flatMap_append, flatMap_calls_blocks _ _ (fenceCall p self)
    (fun i => by simp [fenceSteps, List.flatMap_cons, Step.calls])]
  simp [List.flatMap_cons, Step.calls]

theorem semaphoresSteps_calls (p : InitPlatform) (self : GfxResources) :
    (semaphoresSteps p self).flatMap Step.calls = semaphoresCalls p self := by
  simp [semaphoresSteps, semaphoresCalls, List.flatMap_cons, Step.calls]

theorem createSteps_calls (cfg : Config) (gv : GlobalVariables) (p : InitPlatform)
    (w : Window) (g : GfxResources) :
    (createSteps cfg gv p w g).flatMap Step.calls = createCalls cfg gv p w g := by
  unfold createSteps createCalls
  simp only [List.flatMap_append, instanceSteps_calls, physicalDeviceSteps_calls,
    surfaceSteps_calls, swapchainSteps_calls, renderPassSteps_calls, framebuffersSteps_calls,
    pipelineSteps_calls, queueAndPoolSteps_calls, semaphoresSteps_calls, List.append_assoc]

theorem create_calls_initial (cfg : Config) (gv : GlobalVariables) (p : InitPlatform)
    (w : Window) (g : GfxResources) :
    (GfxResources.create cfg gv p w g).calls <+: createCalls cfg gv p w g := by
  rw [(create_calls_steps cfg gv p w g).1, ← createSteps_calls]
  exact flatMap_calls_initial _ _ (stepsRun_initial cfg _)

theorem frameCut_ne_ten (cfg : Config) (p : FramePlatform) (g : GfxResources) :
    frameCut cfg p g ≠ 10 ∧ 0 < frameCut cfg p g := by
  unfold frameCut
  split_ifs <;> omega

theorem getD_of_getElem? (xs : List Handle) (i : Nat) (a : Handle) (h : xs[i]? = some a) :
    xs.getD i 0 = a := by
  rw [List.getD_eq_getElem?_getD, h]
  rfl

theorem render_calls_take (cfg : Config) (p : FramePlatform) (w : Window) (g : GfxResources) :
    ∃ m, m ≠ 10 ∧ 0 < m ∧ (Renderer.render cfg p w g).calls = (slotCalls w g p.imageIndex).take m := by
  by_cases hslot : ∃ fb cb f, g.m_bufferedFrameResource.framebuffers[p.imageIndex]? = some fb
      ∧ g.m_bufferedFrameResource.commandBuffers[p.imageIndex]? = some cb
      ∧ g.m_bufferedFrameResource.commandBufferFences[p.imageIndex]? = some f
  · obtain ⟨fb, cb, f, hfb, hcb, hf⟩ := hslot
    obtain ⟨hcalls, _⟩ := render_eq_of_slot cfg p w g fb cb f hfb hcb hf
    refine ⟨frameCut cfg p g, (frameCut_ne_ten cfg p g).1, (frameCut_ne_ten cfg p g).2, ?_⟩
    rw [hcalls]
    unfold slotCalls
    rw [getD_of_getElem? _ _ _ hfb, getD_of_getElem? _ _ _ hcb, getD_of_getElem? _ _ _ hf]
  · have hnone : g.m_bufferedFrameResource.framebuffers[p.imageIndex]? = none
        ∨ g.m_bufferedFrameResource.commandBuffers[p.imageIndex]? = none
        ∨ g.m_bufferedFrameResource.commandBufferFences[p.imageIndex]? = none := by
      by_contra hcon
      simp only [not_or] at hcon
      obtain ⟨h1, h2, h3⟩ := hcon
      obtain ⟨fb, hfb⟩ := Option.ne_none_iff_exists'.mp h1
      obtain ⟨cb, hcb⟩ := Option.ne_none_iff_exists'.mp h2
      obtain ⟨f, hf⟩ := Option.ne_none_iff_exists'.mp h3
      exact hslot ⟨fb, cb, f, hfb, hcb, hf⟩
    obtain ⟨hcalls, _⟩ := render_eq_of_no_slot cfg p w g hnone
    exact ⟨1, by omega, by omega, by rw [hcalls]; rfl⟩

theorem render_returns_on_slot (cfg : Config) (p : FramePlatform) (w : Window)
    (g s : GfxResources) (h : (Renderer.render cfg p w g).outcome = .ok s) :
    ∃ fb cb f, g.m_bufferedFrameResource.framebuffers[p.imageIndex]? = some fb
      ∧ g.m_bufferedFrameResource.commandBuffers[p.imageIndex]? = some cb
      ∧ g.m_bufferedFrameResource.commandBufferFences[p.imageIndex]? = some f
      ∧ (Renderer.render cfg p w g).calls = frameCalls w g p.imageIndex fb cb f := by
  by_cases hslot : ∃ fb cb f, g.m_bufferedFrameResource.framebuffers[p.imageIndex]? = some fb
      ∧ g.m_bufferedFrameResource.commandBuffers[p.imageIndex]? = some cb
      ∧ g.m_bufferedFrameResource.commandBufferFences[p.imageIndex]? = some f
  · obtain ⟨fb, cb, f, hfb, hcb, hf⟩ := hslot
    obtain ⟨hcalls, hout⟩ := render_eq_of_slot cfg p w g fb cb f hfb hcb hf
    rw [hout] at h
    have hns : ¬ frameStopped cfg p g := by
      intro hst
      rw [if_pos hst] at h
      exact absurd h (by simp)
    refine ⟨fb, cb, f, hfb, hcb, hf, ?_⟩
    rw [hcalls, frameCut_eq_of_not_stopped cfg p g hns]
    rfl
  · have hnone : g.m_bufferedFrameResource.framebuffers[p.imageIndex]? = none
        ∨ g.m_bufferedFrameResource.commandBuffers[p.imageIndex]? = none
        ∨ g.m_bufferedFrameResource.commandBufferFences[p.imageIndex]? = none := by
      by_contra hcon
      simp only [not_or, ← ne_eq, Option.ne_none_iff_exists'] at hcon
      obtain ⟨⟨fb, hfb⟩, ⟨cb, hcb⟩, ⟨f, hf⟩⟩ := hcon
      exact hslot ⟨fb, cb, f, hfb, hcb, hf⟩
    obtain ⟨_, hout⟩ := render_eq_of_no_slot cfg p w g hnone
    rw [hout] at h
    split_ifs at h

theorem render_ok (cfg : Config) (p : FramePlatform) (w : Window) (g s : GfxResources)
    (h : (Renderer.render cfg p w g).outcome = .ok s) :
    s = g.withBufferIndex p.imageIndex
      ∧ (Renderer.render cfg p w g).calls = slotCalls w g p.imageIndex := by
  obtain ⟨fb, cb, f, hfb, hcb, hf, hcalls⟩ := render_returns_on_slot cfg p w g s h
  obtain ⟨_, hout⟩ := render_eq_of_slot cfg p w g fb cb f hfb hcb hf
  refine ⟨?_, ?_⟩
  · rw [hout] at h
    split at h
    · exact absurd h (by simp)
    · injection h with h; exact h.symm
  · rw [hcalls]
    unfold slotCalls
    rw [getD_of_getElem? _ _ _ hfb, getD_of_getElem? _ _ _ hcb, getD_of_getElem? _ _ _ hf]

theorem render_calls_mem (cfg : Config) (p : FramePlatform) (w : Window) (g : GfxResources)
    (c : Call) (hc : c ∈ (Renderer.render cfg p w g).calls) : c ∈ slotCalls w g p.imageIndex := by
  obtain ⟨m, _, _, hm⟩ := render_calls_take cfg p w g
  rw [hm] at hc
  exact List.mem_of_mem_take hc

/-- C18: the acquire is issued with timeout 0 and the wait on the slot's fence with
timeout 1,000,000,000: `s_defaultTimeout` is below `2 ^ 32`, so the copy into the 32-bit
`timeout` keeps its value, and every wait `render` issues carries that value. The acquire
is the first call of every frame and the wait is the second call of every frame that gets
past the acquire. -/
theorem render_timeouts (cfg : Config) (p : FramePlatform) (w : Window) (g : GfxResources) :
    s_defaultTimeout = 1000000000 ∧ s_defaultTimeout < 2 ^ 32
      ∧ toUInt32 s_defaultTimeout = s_defaultTimeout
      ∧ (∀ c ∈ (Renderer.render cfg p w g).calls,
          (∀ d sc t sem f, c = .vkAcquireNextImageKHR d sc t sem f → t = 0)
          ∧ (∀ d fs wa t, c = .vkWaitForFences d fs wa t → t = 1000000000))
      ∧ (Renderer.render cfg p w g).calls[0]?
          = some (.vkAcquireNextImageKHR g.m_device g.m_swapchain 0
              g.m_bufferedFrameResource.swapchainImageSemaphore 0)
      ∧ (2 ≤ (Renderer.render cfg p w g).calls.length →
          (Renderer.render cfg p w g).calls[1]?
            = some (.vkWaitForFences g.m_device
                [g.m_bufferedFrameResource.commandBufferFences.getD p.imageIndex 0] VK_TRUE
                1000000000)) := by
  obtain ⟨m, _, hm0, hm⟩ := render_calls_take cfg p w g
  refine ⟨rfl, by decide, rfl, ?_, ?_, ?_⟩
  · intro c hc
    have hmem := render_calls_mem cfg p w g c hc
    simp only [slotCalls, frameCalls, List.mem_cons, List.mem_singleton, List.not_mem_nil,
      or_false] at hmem
    rcases hmem with h | h | h | h | h | h | h | h | h | h | h | h <;> subst h <;>
      refine ⟨fun d sc t sem f h => ?_, fun d fs wa t h => ?_⟩ <;>
      first
        | (simp at h
           done)
        | (injection h
           subst_vars
           rfl)
  · rw [hm, List.getElem?_take, if_pos hm0]
    rfl
  · intro hlen
    rw [hm] at hlen ⊢
    have h2 : 1 < m := by
      rw [List.length_take] at hlen
      omega
    rw [List.getElem?_take, if_pos h2]
    rfl

/-- C19: a call of `render` that returns has issued exactly one `vkCmdBeginRenderPass`
(with a single clear value), one `vkCmdEndRenderPass`, one `vkCmdBindPipeline`, one
`vkCmdDraw` (vertex count 3, instance count 1, first vertex 0, first instance 0), one
`vkQueueSubmit` and one `vkQueuePresentKHR`. -/
theorem render_records_one_pass (cfg : Config) (p : FramePlatform) (w : Window)
    (g s : GfxResources) (h : (Renderer.render cfg p w g).outcome = .ok s) :
    (∀ n ∈ ["vkCmdBeginRenderPass", "vkCmdEndRenderPass", "vkCmdBindPipeline", "vkCmdDraw",
          "vkQueueSubmit", "vkQueuePresentKHR"],
        ((Renderer.render cfg p w g).calls.map Call.name).count n = 1)
      ∧ (Renderer.render cfg p w g).calls[4]?
          = some (.vkCmdBeginRenderPass
              (g.m_bufferedFrameResource.commandBuffers.getD p.imageIndex 0) g.m_renderPass
              (g.m_bufferedFrameResource.framebuffers.getD p.imageIndex 0) 0 0 w.m_width
              w.m_height [[0, 0, 0, 0]] VK_SUBPASS_CONTENTS_INLINE)
      ∧ (Renderer.render cfg p w g).calls[5]?
          = some (.vkCmdBindPipeline
              (g.m_bufferedFrameResource.commandBuffers.getD p.imageIndex 0)
              VK_PIPELINE_BIND_POINT_GRAPHICS g.m_graphicsPipeline)
      ∧ (Renderer.render cfg p w g).calls[6]?
          = some (.vkCmdDraw (g.m_bufferedFrameResource.commandBuffers.getD p.imageIndex 0)
              3 1 0 0)
      ∧ (Renderer.render cfg p w g).calls[7]?
          = some (.vkCmdEndRenderPass
              (g.m_bufferedFrameResource.commandBuffers.getD p.imageIndex 0)) := by
  rw [(render_ok cfg p w g s h).2]
  refine ⟨?_, rfl, rfl, rfl, rfl⟩
  have hn : (slotCalls w g p.imageIndex).map Call.name = renderProtocol :=
    map_name_frameCalls w g _ _ _ _
  rw [hn]
  decide

theorem render_records_one_pass_witness :
    (Renderer.render sampleConfig sampleFramePlatform sampleWindow sampleResources).outcome
        = .ok (sampleResources.withBufferIndex 1)
      ∧ ((Renderer.render sampleConfig sampleFramePlatform sampleWindow
            sampleResources).calls.map Call.name).count "vkCmdDraw" = 1
      ∧ (Renderer.render sampleConfig sampleFramePlatform sampleWindow sampleResources).calls[6]?
          = some (.vkCmdDraw 41 3 1 0 0) :=
  ⟨rfl,
    (render_records_one_pass sampleConfig sampleFramePlatform sampleWindow sampleResources
      (sampleResources.withBufferIndex 1) rfl).1 "vkCmdDraw" (by decide),
    (render_records_one_pass sampleConfig sampleFramePlatform sampleWindow sampleResources
      (sampleResources.withBufferIndex 1) rfl).2.2.2.1⟩

theorem renderFrames_append (cfg : Config) (a b : List (FramePlatform × Window))
    (g : GfxResources) :
    renderFrames cfg (a ++ b) g = Exec.bind (renderFrames cfg a g) (renderFrames cfg b) := by
  induction a generalizing g with
  | nil =>
    show renderFrames cfg b g = Exec.bind (Exec.pure g) (renderFrames cfg b)
    rw [Exec.pure_bind]
  | cons fr rest ih =>
    show Exec.bind (Renderer.render cfg fr.1 fr.2 g) (renderFrames cfg (rest ++ b))
      = Exec.bind (Exec.bind (Renderer.render cfg fr.1 fr.2 g) (renderFrames cfg rest)) _
    rw [Exec.bind_assoc]
    congr 1
    funext s
    exact ih s

theorem renderFrames_ok (cfg : Config) (frames : List (FramePlatform × Window)) :
    ∀ (g s : GfxResources), (renderFrames cfg frames g).outcome = .ok s →
      s = g.withBufferIndex
        (frames.foldl (fun _ fr => fr.1.imageIndex) g.m_bufferedFrameResource.bufferIndex) := by
  induction frames with
  | nil =>
    intro g s h
    simp only [renderFrames, outcome_pure, Outcome.ok.injEq] at h
    rw [← h]
    rfl
  | cons fr rest ih =>
    intro g s h
    obtain ⟨s1, h1, h2, -, -⟩ := bind_ok_inv _ _ _ h
    have e1 := (render_ok cfg fr.1 fr.2 g s1 h1).1
    have e2 := ih s1 s h2
    rw [e2, e1]
    rfl

theorem renderFrames_calls_mem (cfg : Config) (frames : List (FramePlatform × Window)) :
    ∀ (g : GfxResources) (c : Call), c ∈ (renderFrames cfg frames g).calls →
      ∃ fr ∈ frames, c ∈ slotCalls fr.2 g fr.1.imageIndex := by
  induction frames with
  | nil =>
    intro g c hc
    exact absurd hc (List.not_mem_nil c)
  | cons fr rest ih =>
    intro g c hc
    have hb : (renderFrames cfg (fr :: rest) g)
        = Exec.bind (Renderer.render cfg fr.1 fr.2 g) (renderFrames cfg rest) := rfl
    rw [hb] at hc
    unfold Exec.bind at hc
    cases ho : (Renderer.render cfg fr.1 fr.2 g).outcome with
    | ok s1 =>
      rw [ho] at hc
      rcases List.mem_append.mp hc with h | h
      · exact ⟨fr, List.mem_cons_self _ _, render_calls_mem cfg _ _ _ c h⟩
      · obtain ⟨fr', hfr', hmem⟩ := ih s1 c h
        rw [(render_ok cfg fr.1 fr.2 g s1 ho).1] at hmem
        exact ⟨fr', List.mem_cons_of_mem _ hfr', hmem⟩
    | assertFailed =>
      rw [ho] at hc
      exact ⟨fr, List.mem_cons_self _ _, render_calls_mem cfg _ _ _ c hc⟩
    | undefinedBehaviour =>
      rw [ho] at hc
      exact ⟨fr, List.mem_cons_self _ _, render_calls_mem cfg _ _ _ c hc⟩

/-- C20: when `k` consecutive calls of `render` return, the state after them is the state
before them with only the current-slot index written: `bufferCount`, the five per-slot
vectors, the two semaphores and every other member are unchanged; and after each frame
the current-slot index is the index the acquire of that frame returned. -/
theorem renders_change_only_slot_index (cfg : Config)
    (frames : List (FramePlatform × Window)) (g s : GfxResources)
    (h : (renderFrames cfg frames g).outcome = .ok s) :
    s = g.withBufferIndex
          (frames.foldl (fun _ fr => fr.1.imageIndex) g.m_bufferedFrameResource.bufferIndex)
      ∧ s.m_bufferedFrameResource.bufferCount = g.m_bufferedFrameResource.bufferCount
      ∧ s.m_bufferedFrameResource.images = g.m_bufferedFrameResource.images
      ∧ s.m_bufferedFrameResource.imageViews = g.m_bufferedFrameResource.imageViews
      ∧ s.m_bufferedFrameResource.framebuffers = g.m_bufferedFrameResource.framebuffers
      ∧ s.m_bufferedFrameResource.commandBuffers = g.m_bufferedFrameResource.commandBuffers
      ∧ s.m_bufferedFrameResource.commandBufferFences
          = g.m_bufferedFrameResource.commandBufferFences
      ∧ s.m_bufferedFrameResource.swapchainImageSemaphore
          = g.m_bufferedFrameResource.swapchainImageSemaphore
      ∧ s.m_bufferedFrameResource.cmdBufferSubmitSemaphore
          = g.m_bufferedFrameResource.cmdBufferSubmitSemaphore
      ∧ (∀ pre fr post, frames = pre ++ fr :: post →
          (renderFrames cfg (pre ++ [fr]) g).outcome
            = .ok (g.withBufferIndex fr.1.imageIndex)) := by
  have hs := renderFrames_ok cfg frames g s h
  refine ⟨hs, ?_, ?_, ?_, ?_, ?_, ?_, ?_, ?_, ?_⟩
  · rw [hs]; rfl
  · rw [hs]; rfl
  · rw [hs]; rfl
  · rw [hs]; rfl
  · rw [hs]; rfl
  · rw [hs]; rfl
  · rw [hs]; rfl
  · rw [hs]; rfl
  · intro pre fr post hsplit
    have hsplit' : frames = (pre ++ [fr]) ++ post := by
      rw [hsplit, List.append_assoc]; rfl
    rw [hsplit', renderFrames_append] at h
    obtain ⟨s1, h1, -, -, -⟩ := bind_ok_inv _ _ _ h
    rw [h1, renderFrames_ok cfg _ g s1 h1, List.foldl_append]
    rfl

theorem renders_change_only_slot_index_witness :
    (renderFrames sampleConfig sampleFrames sampleResources).outcome
        = .ok (sampleResources.withBufferIndex 0)
      ∧ (sampleResources.withBufferIndex 0).m_bufferedFrameResource.commandBufferFences
          = sampleResources.m_bufferedFrameResource.commandBufferFences
      ∧ (renderFrames sampleConfig [(sampleFramePlatform, sampleWindow)] sampleResources).outcome
          = .ok (sampleResources.withBufferIndex 1) :=
  ⟨rfl,
    (renders_change_only_slot_index sampleConfig sampleFrames sampleResources
      (sampleResources.withBufferIndex 0) rfl).2.2.2.2.2.2.1,
    (renders_change_only_slot_index sampleConfig sampleFrames sampleResources
      (sampleResources.withBufferIndex 0) rfl).2.2.2.2.2.2.2.2.2 []
      (sampleFramePlatform, sampleWindow)
      [({ sampleFramePlatform with imageIndex := 0 }, sampleWindow)] rfl⟩

theorem slotCalls_semaphores (w : Window) (g : GfxResources) (i : Nat) (c : Call)
    (hc : c ∈ slotCalls w g i) :
    c.creates = [] ∧ c.destroys = []
      ∧ ∀ x ∈ c.semaphores, x = g.m_bufferedFrameResource.swapchainImageSemaphore
          ∨ x = g.m_bufferedFrameResource.cmdBufferSubmitSemaphore := by
  simp only [slotCalls, frameCalls, List.mem_cons, List.mem_singleton, List.not_mem_nil,
    or_false] at hc
  rcases hc with h | h | h | h | h | h | h | h | h | h | h | h <;> subst h <;>
    simp [Call.creates, Call.destroys, Call.semaphores]

theorem semaphores_created (cfg : Config) (gv : GlobalVariables) (p : InitPlatform)
    (w : Window) (g : GfxResources) :
    objectsOfKind .semaphore (createdObjects (createCalls cfg gv p w g))
      = [⟨.semaphore, p.createSwapchainImageSemaphore.handle⟩,
         ⟨.semaphore, p.createCmdBufferSubmitSemaphore.handle⟩] := by
  rw [createdObjects_createCalls]
  simp only [objectsOfKind_append, objectsOfKind_shaderModuleCalls .semaphore (by decide),
    objectsOfKind_map]
  cases cfg.debugValidation <;> simp [objectsOfKind]

theorem resetThenSubmit_of_no_reset (l : List Call)
    (h : ∀ c ∈ l, ∀ d fs, c ≠ .vkResetFences d fs) : ResetThenSubmit l := by
  intro j d fs hj
  exact absurd rfl (h _ (List.mem_iff_getElem?.mpr ⟨j, hj⟩) d fs)

theorem resetThenSubmit_append (a b : List Call) (ha : ResetThenSubmit a)
    (hb : ResetThenSubmit b) : ResetThenSubmit (a ++ b) := by
  intro j d fs hj
  by_cases hlt : j < a.length
  · rw [List.getElem?_append_left hlt] at hj
    obtain ⟨f, q, ws, st, cbs, ss, hfs, hnext⟩ := ha j d fs hj
    have hlt' : j + 1 < a.length := by
      by_contra hcon
      rw [List.getElem?_eq_none (by omega)] at hnext
      exact absurd hnext (by simp)
    exact ⟨f, q, ws, st, cbs, ss, hfs, by rw [List.getElem?_append_left hlt']; exact hnext⟩
  · have hge : a.length ≤ j := by omega
    rw [List.getElem?_append_right hge] at hj
    obtain ⟨f, q, ws, st, cbs, ss, hfs, hnext⟩ := hb _ d fs hj
    refine ⟨f, q, ws, st, cbs, ss, hfs, ?_⟩
    rw [List.getElem?_append_right (by omega)]
    have e : j + 1 - a.length = j - a.length + 1 := by omega
    rw [e]
    exact hnext

theorem slotCalls_length (w : Window) (g : GfxResources) (i : Nat) :
    (slotCalls w g i).length = 12 := rfl

theorem resetThenSubmit_slot (w : Window) (g : GfxResources) (i m : Nat) (hm : m ≠ 10) :
    ResetThenSubmit ((slotCalls w g i).take m) := by
  intro j d fs hj
  rw [List.getElem?_take] at hj
  split at hj
  next hjm =>
    have hj12 : j < 12 := by
      by_contra hcon
      rw [List.getElem?_eq_none (by rw [slotCalls_length]; omega)] at hj
      exact absurd hj (by simp)
    have hj9 : j = 9 := by
      interval_cases j <;> first | rfl | (simp [slotCalls, frameCalls] at hj)
    subst hj9
    simp only [slotCalls, frameCalls, List.getElem?_cons_succ, List.getElem?_cons_zero,
      Option.some.injEq, Call.vkResetFences.injEq] at hj
    refine ⟨g.m_bufferedFrameResource.commandBufferFences.getD i 0, g.m_queue,
      [g.m_bufferedFrameResource.swapchainImageSemaphore],
      [VK_PIPELINE_STAGE_COLOR_ATTACHMENT_OUTPUT_BIT],
      [g.m_bufferedFrameResource.commandBuffers.getD i 0],
      [g.m_bufferedFrameResource.cmdBufferSubmitSemaphore], hj.2.symm, ?_⟩
    rw [List.getElem?_take, if_pos (by omega)]
    rfl
  next => exact absurd hj (by simp)

theorem render_resetThenSubmit (cfg : Config) (p : FramePlatform) (w : Window)
    (g : GfxResources) : ResetThenSubmit (Renderer.render cfg p w g).calls := by
  obtain ⟨m, hm, _, hcalls⟩ := render_calls_take cfg p w g
  rw [hcalls]
  exact resetThenSubmit_slot w g _ m hm

theorem renderFrames_resetThenSubmit (cfg : Config) (frames : List (FramePlatform × Window)) :
    ∀ g : GfxResources, ResetThenSubmit (renderFrames cfg frames g).calls := by
  induction frames with
  | nil =>
    intro g
    exact resetThenSubmit_of_no_reset _ (fun c hc => absurd hc (List.not_mem_nil c))
  | cons fr rest ih =>
    intro g
    have hb : (renderFrames cfg (fr :: rest) g)
        = Exec.bind (Renderer.render cfg fr.1 fr.2 g) (renderFrames cfg rest) := rfl
    rw [hb]
    unfold Exec.bind
    cases ho : (Renderer.render cfg fr.1 fr.2 g).outcome with
    | ok s1 =>
      exact resetThenSubmit_append _ _ (render_resetThenSubmit cfg _ _ _) (ih s1)
    | assertFailed => exact render_resetThenSubmit cfg _ _ _
    | undefinedBehaviour => exact render_resetThenSubmit cfg _ _ _

theorem mem_shaderModuleCalls (p : InitPlatform) (device : Handle) (f : String) (c : Call)
    (h : c ∈ shaderModuleCalls p device f) : ∃ sz out, c = .vkCreateShaderModule device sz out := by
  unfold shaderModuleCalls at h
  split at h
  · rw [List.mem_singleton] at h
    exact ⟨_, _, h⟩
  · exact absurd h (List.not_mem_nil c)

theorem createCalls_fences (cfg : Config) (gv : GlobalVariables) (p : InitPlatform)
    (w : Window) (g : GfxResources) (c : Call) (hc : c ∈ createCalls cfg gv p w g) :
    (∀ d fl out, c = .vkCreateFence d fl out → fl = VK_FENCE_CREATE_SIGNALED_BIT)
      ∧ (∀ d fs, c ≠ .vkResetFences d fs) := by
  simp only [createCalls, List.mem_append] at hc
  rcases hc with (((((((h | h) | h) | h) | h) | h) | h) | h) | h
  · unfold instanceCalls at h
    rcases Bool.eq_false_or_eq_true cfg.debugValidation with hd | hd
    · simp only [hd, if_true, List.mem_append, List.mem_cons, List.mem_singleton,
        List.not_mem_nil, or_false] at h
      rcases h with h | h | h | h <;> subst h <;>
        exact ⟨fun d fl out e => by simp at e, fun d fs e => by simp at e⟩
    · simp only [hd, if_false, List.mem_append, List.mem_cons, List.mem_singleton,
        List.not_mem_nil, or_false, Bool.false_eq_true] at h
      subst h
      exact ⟨fun d fl out e => by simp at e, fun d fs e => by simp at e⟩
  · simp only [physicalDeviceCalls, List.mem_cons, List.mem_singleton, List.not_mem_nil,
      or_false] at h
    rcases h with h | h | h | h | h <;> subst h <;>
      exact ⟨fun d fl out e => by simp at e, fun d fs e => by simp at e⟩
  · simp only [surfaceCalls, List.mem_cons, List.mem_singleton, List.not_mem_nil,
      or_false] at h
    rcases h with h | h <;> subst h <;>
      exact ⟨fun d fl out e => by simp at e, fun d fs e => by simp at e⟩
  · simp only [swapchainCalls, List.mem_append, List.mem_cons, List.mem_singleton,
      List.not_mem_nil, or_false, List.mem_map] at h
    rcases h with (h | h | h | h | h | h | h | h | h) | ⟨i, _, h⟩
    all_goals subst h
    all_goals first
      | exact ⟨fun d fl out e => by simp at e, fun d fs e => by simp at e⟩
      | exact ⟨fun d fl out e => by simp [imageViewCall] at e,
          fun d fs e => by simp [imageViewCall] at e⟩
  · simp only [renderPassCalls, List.mem_singleton] at h
    subst h
    exact ⟨fun d fl out e => by simp at e, fun d fs e => by simp at e⟩
  · simp only [framebufferCalls, List.mem_map] at h
    obtain ⟨i, _, h⟩ := h
    subst h
    exact ⟨fun d fl out e => by simp [framebufferCall] at e,
      fun d fs e => by simp [framebufferCall] at e⟩
  · simp only [pipelineCalls, List.mem_append, List.mem_cons, List.mem_singleton,
      List.not_mem_nil, or_false] at h
    rcases h with (h | h) | h | h
    · obtain ⟨sz, out, e0⟩ := mem_shaderModuleCalls _ _ _ c h
      subst e0
      exact ⟨fun d fl out e => by simp at e, fun d fs e => by simp at e⟩
    · obtain ⟨sz, out, e0⟩ := mem_shaderModuleCalls _ _ _ c h
      subst e0
      exact ⟨fun d fl out e => by simp at e, fun d fs e => by simp at e⟩
    · subst h
      exact ⟨fun d fl out e => by simp at e, fun d fs e => by simp at e⟩
    · subst h
      exact ⟨fun d fl out e => by simp at e, fun d fs e => by simp at e⟩
  · simp only [queueAndPoolCalls, List.mem_append, List.mem_cons, List.mem_singleton,
      List.not_mem_nil, or_false, List.mem_map] at h
    rcases h with (h | h | h) | ⟨i, _, h⟩
    · subst h
      exact ⟨fun d fl out e => by simp at e, fun d fs e => by simp at e⟩
    · subst h
      exact ⟨fun d fl out e => by simp at e, fun d fs e => by simp at e⟩
    · subst h
      exact ⟨fun d fl out e => by simp at e, fun d fs e => by simp at e⟩
    · subst h
      refine ⟨fun d fl out e => ?_, fun d fs e => by simp [fenceCall] at e⟩
      simp only [fenceCall, Call.vkCreateFence.injEq] at e
      exact e.2.1.symm
  · simp only [semaphoresCalls, List.mem_cons, List.mem_singleton, List.not_mem_nil,
      or_false] at h
    rcases h with h | h <;> subst h <;>
      exact ⟨fun d fl out e => by simp at e, fun d fs e => by simp at e⟩

theorem teardownCalls_no_reset (cfg : Config) (g : GfxResources) (n : Nat) (c : Call)
    (hc : c ∈ teardownCalls cfg g n) (d : Handle) (fs : List Handle) :
    c ≠ .vkResetFences d fs := by
  intro e
  subst e
  unfold teardownCalls at hc
  rcases Bool.eq_false_or_eq_true cfg.debugValidation with hd | hd <;>
    simp [hd, destroySlotCalls] at hc

theorem createState_fence_created (cfg : Config) (gv : GlobalVariables) (p : InitPlatform)
    (w : Window) (g : GfxResources) (f : Handle)
    (hf : f ∈ (createState cfg p g).m_bufferedFrameResource.commandBufferFences) :
    .vkCreateFence (createState cfg p g).m_device VK_FENCE_CREATE_SIGNALED_BIT f
      ∈ createCalls cfg gv p w g := by
  have e : (createState cfg p g).m_bufferedFrameResource.commandBufferFences
      = (List.range p.swapchainImagesWritten).map (fun i => (p.createFence i).handle) := rfl
  rw [e, List.mem_map] at hf
  obtain ⟨i, hi, hfi⟩ := hf
  subst hfi
  simp only [createCalls, List.mem_append]
  refine Or.inl (Or.inr ?_)
  simp only [queueAndPoolCalls, List.mem_append, List.mem_map]
  exact Or.inr ⟨i, hi, rfl⟩

/-- C15: every fence `create` makes is made with the signaled flag, and the fences a
returned `create` stores are fences it made so; neither `create` nor `destroy` resets a
fence. In the calls of `create` followed by any number of frames, every fence reset is
issued by a frame, names exactly the fence of the slot that frame acquired, and is
followed at once by a queue submit handed that fence; so a fence no submit was handed is
never reset, and no reset names the fence of a wait before which no submit was handed
that fence. -/
theorem fences_signaled_until_submitted (cfg : Config) (gv : GlobalVariables)
    (p : InitPlatform) (w : Window) (g s : GfxResources)
    (h : (GfxResources.create cfg gv p w g).outcome = .ok s) :
    (∀ c ∈ (GfxResources.create cfg gv p w g).calls, ∀ d fl out,
        c = .vkCreateFence d fl out → fl = VK_FENCE_CREATE_SIGNALED_BIT)
      ∧ (∀ f ∈ s.m_bufferedFrameResource.commandBufferFences,
          .vkCreateFence s.m_device VK_FENCE_CREATE_SIGNALED_BIT f
            ∈ (GfxResources.create cfg gv p w g).calls)
      ∧ (∀ c ∈ (GfxResources.create cfg gv p w g).calls, ∀ d fs, c ≠ .vkResetFences d fs)
      ∧ (∀ c ∈ (GfxResources.destroy cfg s).calls, ∀ d fs, c ≠ .vkResetFences d fs)
      ∧ ∀ (frames : List (FramePlatform × Window)),
          (∀ c ∈ (renderFrames cfg frames s).calls, ∀ d fs, c = .vkResetFences d fs →
            ∃ fr ∈ frames, d = s.m_device
              ∧ fs = [s.m_bufferedFrameResource.commandBufferFences.getD fr.1.imageIndex 0])
          ∧ (∀ (j : Nat) (d : Handle) (fs : List Handle),
              ((GfxResources.create cfg gv p w g).calls
                  ++ (renderFrames cfg frames s).calls)[j]? = some (.vkResetFences d fs) →
              ∃ f q ws st cbs ss, fs = [f]
                ∧ ((GfxResources.create cfg gv p w g).calls
                    ++ (renderFrames cfg frames s).calls)[j + 1]?
                  = some (.vkQueueSubmit q ws st cbs ss f))
          ∧ (∀ f : Handle,
              (∀ c ∈ (GfxResources.create cfg gv p w g).calls
                  ++ (renderFrames cfg frames s).calls,
                ∀ q ws st cbs ss, c ≠ .vkQueueSubmit q ws st cbs ss f) →
              ∀ c ∈ (GfxResources.create cfg gv p w g).calls
                  ++ (renderFrames cfg frames s).calls,
                ∀ d fs, c = .vkResetFences d fs → f ∉ fs)
          ∧ (∀ (k : Nat) (d f : Handle) (wa t : Nat),
              ((GfxResources.create cfg gv p w g).calls
                  ++ (renderFrames cfg frames s).calls)[k]?
                = some (.vkWaitForFences d [f] wa t) →
              (∀ j, j < k → ∀ q ws st cbs ss,
                ((GfxResources.create cfg gv p w g).calls
                    ++ (renderFrames cfg frames s).calls)[j]?
                  ≠ some (.vkQueueSubmit q ws st cbs ss f)) →
              ∀ j, j < k → ∀ d' fs,
                ((GfxResources.create cfg gv p w g).calls
                    ++ (renderFrames cfg frames s).calls)[j]?
                  = some (.vkResetFences d' fs) → f ∉ fs) := by
  obtain ⟨hst, hcalls, -⟩ := create_ok cfg gv p w g s h
  have hcreate : ∀ c ∈ (GfxResources.create cfg gv p w g).calls,
      (∀ d fl out, c = .vkCreateFence d fl out → fl = VK_FENCE_CREATE_SIGNALED_BIT)
        ∧ (∀ d fs, c ≠ .vkResetFences d fs) := by
    intro c hc
    rw [hcalls] at hc
    exact createCalls_fences cfg gv p w g c hc
  refine ⟨fun c hc => (hcreate c hc).1, ?_, fun c hc => (hcreate c hc).2, ?_, ?_⟩
  · intro f hf
    rw [hcalls]
    rw [hst] at hf ⊢
    exact createState_fence_created cfg gv p w g f hf
  · intro c hc d fs
    have hslots : HasSlots s p.swapchainImagesWritten := by
      rw [hst]; exact createState_hasSlots cfg p g
    rw [(destroy_eq cfg s _ hslots).1] at hc
    exact teardownCalls_no_reset cfg s _ c hc d fs
  · intro frames
    have hrts : ResetThenSubmit ((GfxResources.create cfg gv p w g).calls
        ++ (renderFrames cfg frames s).calls) :=
      resetThenSubmit_append _ _
        (resetThenSubmit_of_no_reset _ (fun c hc => (hcreate c hc).2))
        (renderFrames_resetThenSubmit cfg frames s)
    refine ⟨?_, hrts, ?_, ?_⟩
    · intro c hc d fs e
      obtain ⟨fr, hfr, hmem⟩ := renderFrames_calls_mem cfg frames s c hc
      subst e
      simp only [slotCalls, frameCalls, List.mem_cons, List.mem_singleton, List.not_mem_nil,
        or_false, Call.vkResetFences.injEq, false_or, reduceCtorEq] at hmem
      exact ⟨fr, hfr, hmem.1, hmem.2⟩
    · intro f hno c hc d fs e hmem
      obtain ⟨j, hj⟩ := List.mem_iff_getElem?.mp hc
      rw [e] at hj
      obtain ⟨f', q, ws, st, cbs, ss, hfs, hnext⟩ := hrts j d fs hj
      rw [hfs, List.mem_singleton] at hmem
      subst hmem
      exact hno _ (List.mem_iff_getElem?.mpr ⟨j + 1, hnext⟩) q ws st cbs ss rfl
    · intro k d f wa t hk hno j hjk d' fs hj hmem
      obtain ⟨f', q, ws, st, cbs, ss, hfs, hnext⟩ := hrts j d' fs hj
      rw [hfs, List.mem_singleton] at hmem
      subst hmem
      by_cases hlt : j + 1 < k
      · exact hno (j + 1) hlt q ws st cbs ss hnext
      · have hk' : j + 1 = k := by omega
        rw [hk', hk] at hnext
        exact absurd hnext (by simp)

theorem fences_signaled_until_submitted_witness :
    (GfxResources.create sampleConfig sampleGlobals sampleInit sampleWindow {}).outcome
        = .ok (createState sampleConfig sampleInit {})
      ∧ (∀ f ∈ (createState sampleConfig sampleInit {}).m_bufferedFrameResource.commandBufferFences,
          .vkCreateFence (createState sampleConfig sampleInit {}).m_device
              VK_FENCE_CREATE_SIGNALED_BIT f
            ∈ (GfxResources.create sampleConfig sampleGlobals sampleInit sampleWindow {}).calls) :=
  ⟨sample_create_returns,
    (fences_signaled_until_submitted sampleConfig sampleGlobals sampleInit sampleWindow {}
      (createState sampleConfig sampleInit {}) sample_create_returns).2.1⟩

theorem frameStopped_iff (cfg : Config) (p : FramePlatform) (g : GfxResources)
    (ha : cfg.assertsEnabled = true) (hslot : SlotExists g p.imageIndex) :
    ¬ frameStopped cfg p g ↔
      (p.acquireNextImage = VK_SUCCESS ∧ p.waitForFences = VK_SUCCESS
        ∧ p.resetCommandBuffer = VK_SUCCESS ∧ p.beginCommandBuffer = VK_SUCCESS
        ∧ p.endCommandBuffer = VK_SUCCESS ∧ p.queueSubmit = VK_SUCCESS
        ∧ p.queuePresent = VK_SUCCESS) := by
  have h1 := hslot.1
  unfold frameStopped
  simp only [ha, true_and, not_or, not_not, h1, not_true_eq_false, ne_eq]
  tauto

/-- C27: `render` never looks at the status the fence reset returns: the run of a frame
is the same whatever that status is; a fence reset that is issued is followed at once by
the queue submit that is handed the same fence; and in a build with assertions, on an
acquired index that names a slot, the frame returns exactly when the other seven
status-returning calls (acquire, wait, reset and begin and end of the command buffer,
submit, present) report success, and aborts by assertion otherwise. -/
theorem render_ignores_reset_status (cfg : Config) (p : FramePlatform) (w : Window)
    (g : GfxResources) (r : VkResult) :
    Renderer.render cfg { p with resetFences := r } w g = Renderer.render cfg p w g
      ∧ (∀ (j : Nat) (d : Handle) (fs : List Handle),
          (Renderer.render cfg { p with resetFences := r } w g).calls[j]?
              = some (.vkResetFences d fs) →
          ∃ f q ws st cbs ss, fs = [f]
            ∧ (Renderer.render cfg { p with resetFences := r } w g).calls[j + 1]?
                = some (.vkQueueSubmit q ws st cbs ss f))
      ∧ (cfg.assertsEnabled = true → SlotExists g p.imageIndex →
          ((p.acquireNextImage = VK_SUCCESS ∧ p.waitForFences = VK_SUCCESS
              ∧ p.resetCommandBuffer = VK_SUCCESS ∧ p.beginCommandBuffer = VK_SUCCESS
              ∧ p.endCommandBuffer = VK_SUCCESS ∧ p.queueSubmit = VK_SUCCESS
              ∧ p.queuePresent = VK_SUCCESS) →
            (Renderer.render cfg { p with resetFences := r } w g).outcome
                = .ok (g.withBufferIndex p.imageIndex)
              ∧ (Renderer.render cfg { p with resetFences := r } w g).calls
                  = slotCalls w g p.imageIndex)
          ∧ (¬ (p.acquireNextImage = VK_SUCCESS ∧ p.waitForFences = VK_SUCCESS
              ∧ p.resetCommandBuffer = VK_SUCCESS ∧ p.beginCommandBuffer = VK_SUCCESS
              ∧ p.endCommandBuffer = VK_SUCCESS ∧ p.queueSubmit = VK_SUCCESS
              ∧ p.queuePresent = VK_SUCCESS) →
            (Renderer.render cfg { p with resetFences := r } w g).outcome
                = .assertFailed)) := by
  have heq : Renderer.render cfg { p with resetFences := r } w g
      = Renderer.render cfg p w g := rfl
  rw [heq]
  refine ⟨rfl, render_resetThenSubmit cfg p w g, fun ha hslot => ?_⟩
  have hiff := frameStopped_iff cfg p g ha hslot
  obtain ⟨_, h2, h3, h4⟩ := hslot
  obtain ⟨fb, hfb⟩ := slot_of_getElem? h2
  obtain ⟨cb, hcb⟩ := slot_of_getElem? h3
  obtain ⟨f, hf⟩ := slot_of_getElem? h4
  obtain ⟨-, hout⟩ := render_eq_of_slot cfg p w g fb cb f hfb hcb hf
  refine ⟨fun hall => ?_, fun hnot => ?_⟩
  · have hns : ¬ frameStopped cfg p g := hiff.mpr hall
    rw [hout, if_neg hns]
    exact ⟨rfl, (render_ok cfg p w g _ (by rw [hout, if_neg hns])).2⟩
  · have hs : frameStopped cfg p g := by
      by_contra hns
      exact hnot (hiff.mp hns)
    rw [hout, if_pos hs]

theorem render_ignores_reset_status_witness :
    (Renderer.render sampleConfig sampleResetFails sampleWindow sampleResources).outcome
        = .ok (sampleResources.withBufferIndex 1)
      ∧ (Renderer.render sampleConfig sampleResetFails sampleWindow sampleResources).calls
          = slotCalls sampleWindow sampleResources 1 :=
  ((render_ignores_reset_status sampleConfig sampleFramePlatform sampleWindow sampleResources
    VK_ERROR_DEVICE_LOST).2.2 rfl sample_slotExists).1
    ⟨rfl, rfl, rfl, rfl, rfl, rfl, rfl⟩

theorem renderSteps_tail_no_access (p : FramePlatform) (w : Window) (g : GfxResources)
    (a : Access) : Step.access a ∉ (renderSteps p w g).drop 6 := by
  intro h
  have e : (renderSteps p w g).drop 6
      = ((frameCalls w g p.imageIndex
          (g.m_bufferedFrameResource.framebuffers.getD p.imageIndex 0)
          (g.m_bufferedFrameResource.commandBuffers.getD p.imageIndex 0)
          (g.m_bufferedFrameResource.commandBufferFences.getD p.imageIndex 0)).drop 1).flatMap
        (fun c => Step.call c ::
          (match c with
           | .vkWaitForFences _ _ _ _ => [Step.check p.waitForFences]
           | .vkResetCommandBuffer _ _ => [Step.check p.resetCommandBuffer]
           | .vkBeginCommandBuffer _ _ => [Step.check p.beginCommandBuffer]
           | .vkEndCommandBuffer _ => [Step.check p.endCommandBuffer]
           | .vkQueueSubmit _ _ _ _ _ _ => [Step.check p.queueSubmit]
           | .vkQueuePresentKHR _ _ _ _ => [Step.check p.queuePresent]
           | _ => [])) := rfl
  rw [e, List.mem_flatMap] at h
  obtain ⟨c, _, h⟩ := h
  rw [List.mem_cons] at h
  rcases h with h | h
  · exact absurd h (by simp)
  · split at h <;> simp at h

theorem render_reads_slot (cfg : Config) (p : FramePlatform) (w : Window) (g : GfxResources)
    (hacq : p.acquireNextImage = VK_SUCCESS)
    (h1 : p.imageIndex < toUInt32 g.m_bufferedFrameResource.images.length)
    (h2 : p.imageIndex < g.m_bufferedFrameResource.framebuffers.length)
    (h3 : p.imageIndex < g.m_bufferedFrameResource.commandBuffers.length)
    (h4 : p.imageIndex < g.m_bufferedFrameResource.commandBufferFences.length) :
    (Renderer.render cfg p w g).accesses
      = [⟨.framebuffers, p.imageIndex, g.m_bufferedFrameResource.framebuffers.length⟩,
         ⟨.commandBuffers, p.imageIndex, g.m_bufferedFrameResource.commandBuffers.length⟩,
         ⟨.commandBufferFences, p.imageIndex,
           g.m_bufferedFrameResource.commandBufferFences.length⟩] := by
  obtain ⟨_, hacc, _⟩ := render_run cfg p w g
  have e : renderSteps p w g
      = .call (.vkAcquireNextImageKHR g.m_device g.m_swapchain 0
          g.m_bufferedFrameResource.swapchainImageSemaphore 0)
        :: .check p.acquireNextImage
        :: .require (decide (p.imageIndex < toUInt32 g.m_bufferedFrameResource.images.length))
        :: .access ⟨.framebuffers, p.imageIndex, g.m_bufferedFrameResource.framebuffers.length⟩
        :: .access ⟨.commandBuffers, p.imageIndex,
            g.m_bufferedFrameResource.commandBuffers.length⟩
        :: .access ⟨.commandBufferFences, p.imageIndex,
            g.m_bufferedFrameResource.commandBufferFences.length⟩
        :: (renderSteps p w g).drop 6 := rfl
  have htail : (stepsRun cfg ((renderSteps p w g).drop 6)).flatMap Step.accesses = [] := by
    rw [List.eq_nil_iff_forall_not_mem]
    intro a ha
    exact renderSteps_tail_no_access p w g a (mem_accesses_stepsRun cfg _ a ha)
  rw [hacc, e, stepsRun_call,
    stepsRun_cons cfg _ _ (by simp [Step.stops, hacq]),
    stepsRun_cons cfg _ _ (by simp [Step.stops, h1]),
    stepsRun_cons cfg _ _ (by simp [Step.stops, h2]),
    stepsRun_cons cfg _ _ (by simp [Step.stops, h3]),
    stepsRun_cons cfg _ _ (by simp [Step.stops, h4])]
  simp only [List.flatMap_cons, Step.accesses, List.nil_append, List.cons_append, htail]

/-- C26: when `create` returns and both swapchain-image-count queries reported the same
count `n` (a `uint32_t`), the image, image-view, framebuffer, command-buffer and fence
vectors of the state all have length `n`, as has `bufferCount`; so the bound `render`
checks on the acquired index, index below the number of images, holds exactly when the
index is in range for the framebuffer, command-buffer and fence vectors. In a frame on
that state whose acquire succeeds, an index below `n` reads exactly the three entries at
that index, all in range; an index of `n` or more is stopped by the assertion with no
vector read, and runs into undefined behaviour where assertions are compiled out. -/
theorem create_vectors_match_bound_check (cfg : Config) (gv : GlobalVariables)
    (p : InitPlatform) (w : Window) (g s : GfxResources) (n : Nat)
    (h : (GfxResources.create cfg gv p w g).outcome = .ok s)
    (hc : p.swapchainImageCount = n) (hw : p.swapchainImagesWritten = n)
    (hn : n < 2 ^ 32) :
    s.m_bufferedFrameResource.bufferCount = n
      ∧ s.m_bufferedFrameResource.images.length = n
      ∧ s.m_bufferedFrameResource.imageViews.length = n
      ∧ s.m_bufferedFrameResource.framebuffers.length = n
      ∧ s.m_bufferedFrameResource.commandBuffers.length = n
      ∧ s.m_bufferedFrameResource.commandBufferFences.length = n
      ∧ (∀ idx : Nat, idx < toUInt32 s.m_bufferedFrameResource.images.length ↔
          (idx < s.m_bufferedFrameResource.framebuffers.length
            ∧ idx < s.m_bufferedFrameResource.commandBuffers.length
            ∧ idx < s.m_bufferedFrameResource.commandBufferFences.length))
      ∧ (∀ (fp : FramePlatform) (w' : Window), fp.acquireNextImage = VK_SUCCESS →
          (fp.imageIndex < n →
            (Renderer.render cfg fp w' s).accesses
                = [⟨.framebuffers, fp.imageIndex, n⟩, ⟨.commandBuffers, fp.imageIndex, n⟩,
                   ⟨.commandBufferFences, fp.imageIndex, n⟩]
              ∧ (Renderer.render cfg fp w' s).outcome ≠ .undefinedBehaviour)
          ∧ (n ≤ fp.imageIndex →
              (cfg.assertsEnabled = true →
                (Renderer.render cfg fp w' s).accesses = []
                  ∧ (Renderer.render cfg fp w' s).outcome = .assertFailed)
              ∧ (cfg.assertsEnabled = false →
                  (Renderer.render cfg fp w' s).outcome = .undefinedBehaviour))) := by
  obtain ⟨hst, -⟩ := create_ok cfg gv p w g s h
  have hslots : HasSlots s n := by
    rw [hst, ← hw]; exact createState_hasSlots cfg p g
  have himg : s.m_bufferedFrameResource.images.length = n := by
    rw [hst, createState_images_length, hc]
  obtain ⟨e0, e1, e2, e3, e4⟩ := hslots
  have hu : toUInt32 n = n := Nat.mod_eq_of_lt hn
  refine ⟨e0, himg, e1, e2, e3, e4, ?_, ?_⟩
  · intro idx
    rw [himg, e2, e3, e4, hu]
    exact ⟨fun hx => ⟨hx, hx, hx⟩, fun hx => hx.1⟩
  · intro fp w' hacq
    refine ⟨fun hlt => ?_, fun hge => ⟨fun ha => ?_, fun ha => ?_⟩⟩
    · have hr := render_reads_slot cfg fp w' s hacq (by rw [himg, hu]; exact hlt)
        (by rw [e2]; exact hlt) (by rw [e3]; exact hlt) (by rw [e4]; exact hlt)
      rw [e2, e3, e4] at hr
      refine ⟨hr, ?_⟩
      have hlt2 : fp.imageIndex < s.m_bufferedFrameResource.framebuffers.length := by
        rw [e2]; exact hlt
      have hlt3 : fp.imageIndex < s.m_bufferedFrameResource.commandBuffers.length := by
        rw [e3]; exact hlt
      have hlt4 : fp.imageIndex < s.m_bufferedFrameResource.commandBufferFences.length := by
        rw [e4]; exact hlt
      obtain ⟨fb, hfb⟩ := slot_of_getElem? hlt2
      obtain ⟨cb, hcb⟩ := slot_of_getElem? hlt3
      obtain ⟨f, hf⟩ := slot_of_getElem? hlt4
      rw [(render_eq_of_slot cfg fp w' s fb cb f hfb hcb hf).2]
      split <;> simp
    · have hnone : s.m_bufferedFrameResource.framebuffers[fp.imageIndex]? = none := by
        rw [List.getElem?_eq_none]; rw [e2]; exact hge
      obtain ⟨-, hout⟩ := render_eq_of_no_slot cfg fp w' s (Or.inl hnone)
      refine ⟨(render_stopped_by_bound cfg fp w' s ha (by rw [himg]; exact hge)).1, ?_⟩
      rw [hout, if_pos]
      refine ⟨ha, Or.inr ?_⟩
      rw [himg, hu]; omega
    · have hnone : s.m_bufferedFrameResource.framebuffers[fp.imageIndex]? = none := by
        rw [List.getElem?_eq_none]; rw [e2]; exact hge
      obtain ⟨-, hout⟩ := render_eq_of_no_slot cfg fp w' s (Or.inl hnone)
      rw [hout, if_neg]
      simp [ha]

theorem create_vectors_match_bound_check_witness :
    (GfxResources.create sampleConfig sampleGlobals sampleInit sampleWindow {}).outcome
        = .ok (createState sampleConfig sampleInit {})
      ∧ (createState sampleConfig sampleInit {}).m_bufferedFrameResource.images.length = 2
      ∧ (createState sampleConfig sampleInit {}).m_bufferedFrameResource.framebuffers.length
          = 2 :=
  ⟨sample_create_returns,
    (create_vectors_match_bound_check sampleConfig sampleGlobals sampleInit sampleWindow {}
      (createState sampleConfig sampleInit {}) 2 sample_create_returns rfl rfl
      (by decide)).2.1,
    (create_vectors_match_bound_check sampleConfig sampleGlobals sampleInit sampleWindow {}
      (createState sampleConfig sampleInit {}) 2 sample_create_returns rfl rfl
      (by decide)).2.2.2.1⟩

theorem mem_swapchainSteps_call (p : InitPlatform) (w : Window) (self : GfxResources)
    (d : Handle) (info : SwapchainCreateInfo) (out : Handle)
    (h : Step.call (.vkCreateSwapchainKHR d info out) ∈ swapchainSteps p w self) :
    info.imageFormat = (p.surfaceFormats.getD 0 (0, 0)).1
      ∧ info.imageColorSpace = (p.surfaceFormats.getD 0 (0, 0)).2
      ∧ info.presentMode = p.presentModes.getD 0 0
      ∧ info.imageExtentWidth = w.m_width ∧ info.imageExtentHeight = w.m_height := by
  simp only [swapchainSteps, swapchainSetupSteps, imageViewSteps, imageViewCall,
    List.mem_append, List.mem_cons, List.mem_flatMap, List.mem_singleton, List.not_mem_nil,
    or_false, reduceCtorEq, false_or, Step.call.injEq, Call.vkCreateSwapchainKHR.injEq,
    and_false, exists_false, exists_const] at h
  obtain ⟨-, hinfo, -⟩ := h
  subst hinfo
  exact ⟨rfl, rfl, rfl, rfl, rfl⟩

theorem mem_swapchainSteps_access (p : InitPlatform) (w : Window) (self : GfxResources)
    (a : Access) (h : Step.access a ∈ swapchainSteps p w self)
    (hv : a.vec = .surfaceFormats ∨ a.vec = .presentModes) :
    a = ⟨.surfaceFormats, 0, p.surfaceFormats.length⟩
      ∨ a = ⟨.presentModes, 0, p.presentModes.length⟩ := by
  simp only [swapchainSteps, swapchainSetupSteps, imageViewSteps, imageViewCall,
    List.mem_append, List.mem_cons, List.mem_flatMap, List.mem_singleton, List.not_mem_nil,
    or_false, reduceCtorEq, false_or, Step.access.injEq] at h
  rcases h with (h | h) | ⟨i, -, h | h⟩
  · exact Or.inl h
  · exact Or.inr h
  · subst h; simp at hv
  · subst h; simp at hv

theorem swapchainSteps_split (p : InitPlatform) (w : Window) (self : GfxResources) (k : Nat)
    (s : Step) (hk : (swapchainSetupSteps p w self)[k]? = some s) :
    swapchainSteps p w self
      = (swapchainSetupSteps p w self).take k
        ++ s :: ((swapchainSetupSteps p w self).drop (k + 1)
          ++ (List.range p.swapchainImagesWritten).flatMap
              (imageViewSteps p (swapchainLoopState p self))) := by
  unfold swapchainSteps
  have hlt : k < (swapchainSetupSteps p w self).length := by
    by_contra hcon
    rw [List.getElem?_eq_none (by omega)] at hk
    exact absurd hk (by simp)
  have e : swapchainSetupSteps p w self
      = (swapchainSetupSteps p w self).take k ++ s
          :: (swapchainSetupSteps p w self).drop (k + 1) := by
    have hs : (swapchainSetupSteps p w self)[k] = s := by
      rw [List.getElem?_eq_getElem hlt] at hk
      exact Option.some.inj hk
    rw [← hs, ← List.drop_eq_getElem_cons hlt, List.take_append_drop]
  conv_lhs => rw [e]
  rw [List.append_assoc]
  rfl

theorem createCalls_formats (cfg : Config) (gv : GlobalVariables) (p : InitPlatform)
    (w : Window) (g : GfxResources) (c : Call) (hc : c ∈ createCalls cfg gv p w g) :
    (∀ d info out, c = .vkCreateSwapchainKHR d info out →
        info.imageFormat = (p.surfaceFormats.getD 0 (0, 0)).1
          ∧ info.imageColorSpace = (p.surfaceFormats.getD 0 (0, 0)).2)
      ∧ (∀ d info out, c = .vkCreateImageView d info out →
          info.format = (p.surfaceFormats.getD 0 (0, 0)).1)
      ∧ (∀ d atts subs deps out, c = .vkCreateRenderPass d atts subs deps out →
          atts = [{ flags := 0
                    format := (p.surfaceFormats.getD 0 (0, 0)).1
                    samples := VK_SAMPLE_COUNT_1_BIT
                    loadOp := VK_ATTACHMENT_LOAD_OP_CLEAR
                    storeOp := VK_ATTACHMENT_STORE_OP_STORE
                    stencilLoadOp := VK_ATTACHMENT_LOAD_OP_DONT_CARE
                    stencilStoreOp := VK_ATTACHMENT_STORE_OP_DONT_CARE
                    initialLayout := VK_IMAGE_LAYOUT_UNDEFINED
                    finalLayout := VK_IMAGE_LAYOUT_PRESENT_SRC_KHR }]
            ∧ subs = [{ flags := 0
                        pipelineBindPoint := VK_PIPELINE_BIND_POINT_GRAPHICS
                        inputAttachments := []
                        colorAttachments :=
                          [{ attachment := 0
                             layout := VK_IMAGE_LAYOUT_COLOR_ATTACHMENT_OPTIMAL }]
                        resolveAttachments := []
                        depthStencilAttachment := none
                        preserveAttachments := [] }]
            ∧ deps = 0) := by
  simp only [createCalls, List.mem_append] at hc
  rcases hc with (((((((h | h) | h) | h) | h) | h) | h) | h) | h
  · unfold instanceCalls at h
    rcases Bool.eq_false_or_eq_true cfg.debugValidation with hd | hd
    · simp only [hd, if_true, List.mem_append, List.mem_cons, List.mem_singleton,
        List.not_mem_nil, or_false] at h
      rcases h with h | h | h | h <;> subst h <;>
        exact ⟨fun _ _ _ e => by simp at e, fun _ _ _ e => by simp at e,
          fun _ _ _ _ _ e => by simp at e⟩
    · simp only [hd, if_false, List.mem_append, List.mem_cons, List.mem_singleton,
        List.not_mem_nil, or_false, Bool.false_eq_true] at h
      subst h
      exact ⟨fun _ _ _ e => by simp at e, fun _ _ _ e => by simp at e,
        fun _ _ _ _ _ e => by simp at e⟩
  · simp only [physicalDeviceCalls, List.mem_cons, List.mem_singleton, List.not_mem_nil,
      or_false] at h
    rcases h with h | h | h | h | h <;> subst h <;>
      exact ⟨fun _ _ _ e => by simp at e, fun _ _ _ e => by simp at e,
        fun _ _ _ _ _ e => by simp at e⟩
  · simp only [surfaceCalls, List.mem_cons, List.mem_singleton, List.not_mem_nil,
      or_false] at h
    rcases h with h | h <;> subst h <;>
      exact ⟨fun _ _ _ e => by simp at e, fun _ _ _ e => by simp at e,
        fun _ _ _ _ _ e => by simp at e⟩
  · simp only [swapchainCalls, List.mem_append, List.mem_cons, List.mem_singleton,
      List.not_mem_nil, or_false, List.mem_map] at h
    rcases h with (h | h | h | h | h | h | h | h | h) | ⟨i, _, h⟩
    all_goals subst h
    all_goals refine ⟨fun _ _ _ e => ?_, fun _ _ _ e => ?_, fun _ _ _ _ _ e => ?_⟩
    all_goals first
      | (simp [imageViewCall] at e; done)
      | (simp only [Call.vkCreateSwapchainKHR.injEq] at e
         obtain ⟨-, e, -⟩ := e
         subst e
         exact ⟨rfl, rfl⟩)
      | (simp only [imageViewCall, Call.vkCreateImageView.injEq] at e
         obtain ⟨-, e, -⟩ := e
         subst e
         rfl)
  · simp only [renderPassCalls, List.mem_singleton] at h
    subst h
    refine ⟨fun _ _ _ e => by simp at e, fun _ _ _ e => by simp at e,
      fun _ _ _ _ _ e => ?_⟩
    simp only [Call.vkCreateRenderPass.injEq] at e
    obtain ⟨-, e1, e2, e3, -⟩ := e
    subst e1 e2 e3
    exact ⟨rfl, rfl, rfl⟩
  · simp only [framebufferCalls, List.mem_map] at h
    obtain ⟨i, _, h⟩ := h
    subst h
    exact ⟨fun _ _ _ e => by simp [framebufferCall] at e,
      fun _ _ _ e => by simp [framebufferCall] at e,
      fun _ _ _ _ _ e => by simp [framebufferCall] at e⟩
  · simp only [pipelineCalls, List.mem_append, List.mem_cons, List.mem_singleton,
      List.not_mem_nil, or_false] at h
    rcases h with (h | h) | h | h
    · obtain ⟨sz, out, e0⟩ := mem_shaderModuleCalls _ _ _ c h
      subst e0
      exact ⟨fun _ _ _ e => by simp at e, fun _ _ _ e => by simp at e,
        fun _ _ _ _ _ e => by simp at e⟩
    · obtain ⟨sz, out, e0⟩ := mem_shaderModuleCalls _ _ _ c h
      subst e0
      exact ⟨fun _ _ _ e => by simp at e, fun _ _ _ e => by simp at e,
        fun _ _ _ _ _ e => by simp at e⟩
    · subst h
      exact ⟨fun _ _ _ e => by simp at e, fun _ _ _ e => by simp at e,
        fun _ _ _ _ _ e => by simp at e⟩
    · subst h
      exact ⟨fun _ _ _ e => by simp at e, fun _ _ _ e => by simp at e,
        fun _ _ _ _ _ e => by simp at e⟩
  · simp only [queueAndPoolCalls, List.mem_append, List.mem_cons, List.mem_singleton,
      List.not_mem_nil, or_false, List.mem_map] at h
    rcases h with (h | h | h) | ⟨i, _, h⟩ <;> subst h <;>
      exact ⟨fun _ _ _ e => by simp [fenceCall] at e, fun _ _ _ e => by simp [fenceCall] at e,
        fun _ _ _ _ _ e => by simp [fenceCall] at e⟩
  · simp only [semaphoresCalls, List.mem_cons, List.mem_singleton, List.not_mem_nil,
      or_false] at h
    rcases h with h | h <;> subst h <;>
      exact ⟨fun _ _ _ e => by simp at e, fun _ _ _ e => by simp at e,
        fun _ _ _ _ _ e => by simp at e⟩

theorem renderPass_created_once (cfg : Config) (gv : GlobalVariables) (p : InitPlatform)
    (w : Window) (g : GfxResources) :
    objectsOfKind .renderPass (createdObjects (createCalls cfg gv p w g))
        = [⟨.renderPass, p.createRenderPass.handle⟩]
      ∧ objectsOfKind .swapchain (createdObjects (createCalls cfg gv p w g))
        = [⟨.swapchain, p.createSwapchain.handle⟩] := by
  rw [createdObjects_createCalls]
  refine ⟨?_, ?_⟩
  · simp only [objectsOfKind_append, objectsOfKind_shaderModuleCalls .renderPass (by decide),
      objectsOfKind_map]
    cases cfg.debugValidation <;> simp [objectsOfKind]
  · simp only [objectsOfKind_append, objectsOfKind_shaderModuleCalls .swapchain (by decide),
      objectsOfKind_map]
    cases cfg.debugValidation <;> simp [objectsOfKind]

theorem slotCalls_names (w : Window) (g : GfxResources) (i : Nat) :
    (slotCalls w g i).map Call.name = renderProtocol := rfl

theorem Engine.run_closed (cfg : Config) (env : List (Option Nat × FramePlatform))
    (e : Engine) (h : e.m_window.m_closeWindow = true) :
    Engine.run cfg env e = ⟨[.shouldClose true], some (.ok e)⟩ := by
  cases env with
  | nil => simp [Engine.run, Window.shouldClose, h]
  | cons x rest =>
    obtain ⟨msg, fp⟩ := x
    simp [Engine.run, Window.shouldClose, h]

theorem Engine.run_nil (cfg : Config) (e : Engine) (h : e.m_window.m_closeWindow = false) :
    Engine.run cfg [] e = ⟨[], none⟩ := by
  simp [Engine.run, Window.shouldClose, h]

theorem Engine.run_cons_ok (cfg : Config) (msg : Option Nat) (fp : FramePlatform)
    (rest : List (Option Nat × FramePlatform)) (e : Engine) (g : GfxResources)
    (h : e.m_window.m_closeWindow = false)
    (hr : (Renderer.render cfg fp (e.m_window.update msg) e.m_gfxResources).outcome = .ok g) :
    Engine.run cfg ((msg, fp) :: rest) e
      = ⟨.shouldClose false :: .update msg
          :: .render (Renderer.render cfg fp (e.m_window.update msg) e.m_gfxResources).calls
          :: (Engine.run cfg rest ⟨g, e.m_window.update msg⟩).events,
         (Engine.run cfg rest ⟨g, e.m_window.update msg⟩).outcome⟩ := by
  simp [Engine.run, Window.shouldClose, h, hr]

theorem Engine.run_cons_stopped (cfg : Config) (msg : Option Nat) (fp : FramePlatform)
    (rest : List (Option Nat × FramePlatform)) (e : Engine)
    (h : e.m_window.m_closeWindow = false)
    (hr : ∀ g, (Renderer.render cfg fp (e.m_window.update msg) e.m_gfxResources).outcome
      ≠ .ok g) :
    (Engine.run cfg ((msg, fp) :: rest) e).events
        = [.shouldClose false, .update msg,
           .render (Renderer.render cfg fp (e.m_window.update msg) e.m_gfxResources).calls]
      ∧ ((Engine.run cfg ((msg, fp) :: rest) e).outcome = some .assertFailed
          ∨ (Engine.run cfg ((msg, fp) :: rest) e).outcome = some .undefinedBehaviour) := by
  cases ho : (Renderer.render cfg fp (e.m_window.update msg) e.m_gfxResources).outcome with
  | ok g => exact absurd ho (hr g)
  | assertFailed => simp [Engine.run, Window.shouldClose, h, ho]
  | undefinedBehaviour => simp [Engine.run, Window.shouldClose, h, ho]

theorem Engine.run_shape (cfg : Config) (env : List (Option Nat × FramePlatform)) :
    ∀ e : Engine, LoopShape (Engine.run cfg env e).events := by
  induction env with
  | nil =>
    intro e
    cases hc : e.m_window.m_closeWindow with
    | true => rw [Engine.run_closed cfg _ e hc]; exact LoopShape.stop
    | false => rw [Engine.run_nil cfg e hc]; exact LoopShape.cut
  | cons x rest ih =>
    intro e
    obtain ⟨msg, fp⟩ := x
    cases hc : e.m_window.m_closeWindow with
    | true => rw [Engine.run_closed cfg _ e hc]; exact LoopShape.stop
    | false =>
      by_cases hr : ∃ g, (Renderer.render cfg fp (e.m_window.update msg)
          e.m_gfxResources).outcome = .ok g
      · obtain ⟨g, hg⟩ := hr
        rw [Engine.run_cons_ok cfg msg fp rest e g hc hg]
        refine LoopShape.round _ _ _ ?_ (ih _)
        rw [(render_ok cfg fp _ _ g hg).2]
        rfl
      · have hr' : ∀ g, (Renderer.render cfg fp (e.m_window.update msg)
            e.m_gfxResources).outcome ≠ .ok g := fun g hg => hr ⟨g, hg⟩
        rw [(Engine.run_cons_stopped cfg msg fp rest e hc hr').1]
        exact LoopShape.aborted _ _

theorem LoopShape.after_clear {l : List LoopEvent} (h : LoopShape l) :
    ∀ i, l[i]? = some (.shouldClose false) →
      ∃ m cs, l[i + 1]? = some (.update m) ∧ l[i + 2]? = some (.render cs) := by
  induction h with
  | cut => intro i hi; simp at hi
  | stop =>
    intro i hi
    rcases i with _ | i <;> simp at hi
  | aborted msg calls =>
    intro i hi
    rcases i with _ | _ | _ | i <;> simp at hi
    exact ⟨msg, calls, rfl, rfl⟩
  | round msg calls rest _ _ ih =>
    intro i hi
    rcases i with _ | _ | _ | i
    · exact ⟨msg, calls, by simp, by simp⟩
    · simp at hi
    · simp at hi
    · simp only [List.getElem?_cons_succ] at hi ⊢
      exact ih i hi

theorem LoopShape.before_update {l : List LoopEvent} (h : LoopShape l) :
    ∀ i m, l[i]? = some (.update m) → ∃ j, i = j + 1 ∧ l[j]? = some (.shouldClose false) := by
  induction h with
  | cut => intro i m hi; simp at hi
  | stop =>
    intro i m hi
    rcases i with _ | i <;> simp at hi
  | aborted msg calls =>
    intro i m hi
    rcases i with _ | _ | _ | i <;> simp at hi
    exact ⟨0, rfl, rfl⟩
  | round msg calls rest _ _ ih =>
    intro i m hi
    rcases i with _ | _ | _ | i
    · simp at hi
    · exact ⟨0, rfl, rfl⟩
    · simp at hi
    · simp only [List.getElem?_cons_succ] at hi
      obtain ⟨j, hj, hjl⟩ := ih i m hi
      exact ⟨j + 3, by omega, by simpa using hjl⟩

theorem LoopShape.before_render {l : List LoopEvent} (h : LoopShape l) :
    ∀ i cs, l[i]? = some (.render cs) → ∃ j m, i = j + 1 ∧ l[j]? = some (.update m) := by
  induction h with
  | cut => intro i cs hi; simp at hi
  | stop =>
    intro i cs hi
    rcases i with _ | i <;> simp at hi
  | aborted msg calls =>
    intro i cs hi
    rcases i with _ | _ | _ | i <;> simp at hi
    exact ⟨1, msg, rfl, rfl⟩
  | round msg calls rest _ _ ih =>
    intro i cs hi
    rcases i with _ | _ | _ | i
    · simp at hi
    · simp at hi
    · exact ⟨1, msg, rfl, rfl⟩
    · simp only [List.getElem?_cons_succ] at hi
      obtain ⟨j, m, hj, hjl⟩ := ih i cs hi
      exact ⟨j + 3, m, by omega, by simpa using hjl⟩

theorem LoopShape.before_read {l : List LoopEvent} (h : LoopShape l) :
    ∀ i b, l[i + 1]? = some (.shouldClose b) →
      ∃ cs, l[i]? = some (.render cs) ∧ cs.map Call.name = renderProtocol := by
  induction h with
  | cut => intro i b hi; simp at hi
  | stop => intro i b hi; simp at hi
  | aborted msg calls =>
    intro i b hi
    rcases i with _ | _ | i <;> simp at hi
  | round msg calls rest hcs _ ih =>
    intro i b hi
    rcases i with _ | _ | _ | i
    · simp at hi
    · simp at hi
    · exact ⟨calls, by simp, hcs⟩
    · simp only [List.getElem?_cons_succ] at hi ⊢
      exact ih i b hi

theorem LoopShape.renders_eq_updates {l : List LoopEvent} (h : LoopShape l) :
    l.countP LoopEvent.isRender = l.countP LoopEvent.isUpdate
      ∧ l.countP LoopEvent.isRender
          = l.countP (fun ev => match ev with | .shouldClose false => true | _ => false) := by
  induction h with
  | cut => exact ⟨rfl, rfl⟩
  | stop => exact ⟨rfl, rfl⟩
  | aborted msg calls => exact ⟨rfl, rfl⟩
  | round msg calls rest _ _ ih =>
    simp only [List.countP_cons, LoopEvent.isRender, LoopEvent.isUpdate]
    simp only [Bool.false_eq_true, if_false, if_true, Nat.add_zero]
    omega

theorem LoopShape.set_is_last {l : List LoopEvent} (h : LoopShape l) :
    ∀ i, l[i]? = some (.shouldClose true) → l.length = i + 1 := by
  induction h with
  | cut => intro i hi; simp at hi
  | stop =>
    intro i hi
    rcases i with _ | i
    · rfl
    · simp at hi
  | aborted msg calls =>
    intro i hi
    rcases i with _ | _ | _ | i <;> simp at hi
  | round msg calls rest _ _ ih =>
    intro i hi
    rcases i with _ | _ | _ | i
    · simp at hi
    · simp at hi
    · simp at hi
    · simp only [List.getElem?_cons_succ] at hi
      have := ih i hi
      simp only [List.length_cons]
      omega

theorem Engine.run_returns (cfg : Config) (env : List (Option Nat × FramePlatform)) :
    ∀ e e' : Engine, (Engine.run cfg env e).outcome = some (.ok e') →
      (Engine.run cfg env e).events.getLast? = some (.shouldClose true)
        ∧ e'.m_window.m_closeWindow = true := by
  induction env with
  | nil =>
    intro e e' h
    cases hc : e.m_window.m_closeWindow with
    | true =>
      rw [Engine.run_closed cfg _ e hc] at h ⊢
      simp only [Option.some.injEq, Outcome.ok.injEq] at h
      subst h
      exact ⟨rfl, hc⟩
    | false =>
      rw [Engine.run_nil cfg e hc] at h
      exact absurd h (by simp)
  | cons x rest ih =>
    intro e e' h
    obtain ⟨msg, fp⟩ := x
    cases hc : e.m_window.m_closeWindow with
    | true =>
      rw [Engine.run_closed cfg _ e hc] at h ⊢
      simp only [Option.some.injEq, Outcome.ok.injEq] at h
      subst h
      exact ⟨rfl, hc⟩
    | false =>
      by_cases hr : ∃ g, (Renderer.render cfg fp (e.m_window.update msg)
          e.m_gfxResources).outcome = .ok g
      · obtain ⟨g, hg⟩ := hr
        rw [Engine.run_cons_ok cfg msg fp rest e g hc hg] at h ⊢
        obtain ⟨h1, h2⟩ := ih _ e' h
        refine ⟨?_, h2⟩
        show (_ :: _ :: _ :: (Engine.run cfg rest _).events).getLast? = _
        cases hev : (Engine.run cfg rest ⟨g, e.m_window.update msg⟩).events with
        | nil => rw [hev] at h1; simp at h1
        | cons a t =>
          rw [hev] at h1
          simp only [List.getLast?_cons_cons]
          exact h1
      · have hr' : ∀ g, (Renderer.render cfg fp (e.m_window.update msg)
            e.m_gfxResources).outcome ≠ .ok g := fun g hg => hr ⟨g, hg⟩
        rcases (Engine.run_cons_stopped cfg msg fp rest e hc hr').2 with h' | h' <;>
          rw [h'] at h <;> simp at h

theorem Engine.run_set_returns (cfg : Config) (env : List (Option Nat × FramePlatform)) :
    ∀ (e : Engine) (i : Nat), (Engine.run cfg env e).events[i]? = some (.shouldClose true) →
      ∃ e', (Engine.run cfg env e).outcome = some (.ok e') := by
  induction env with
  | nil =>
    intro e i hi
    cases hc : e.m_window.m_closeWindow with
    | true => rw [Engine.run_closed cfg _ e hc]; exact ⟨e, rfl⟩
    | false => rw [Engine.run_nil cfg e hc] at hi; simp at hi
  | cons x rest ih =>
    intro e i hi
    obtain ⟨msg, fp⟩ := x
    cases hc : e.m_window.m_closeWindow with
    | true => rw [Engine.run_closed cfg _ e hc]; exact ⟨e, rfl⟩
    | false =>
      by_cases hr : ∃ g, (Renderer.render cfg fp (e.m_window.update msg)
          e.m_gfxResources).outcome = .ok g
      · obtain ⟨g, hg⟩ := hr
        rw [Engine.run_cons_ok cfg msg fp rest e g hc hg] at hi ⊢
        rcases i with _ | _ | _ | i
        · simp at hi
        · simp at hi
        · simp at hi
        · simp only [List.getElem?_cons_succ] at hi
          exact ih _ i hi
      · have hr' : ∀ g, (Renderer.render cfg fp (e.m_window.update msg)
            e.m_gfxResources).outcome ≠ .ok g := fun g hg => hr ⟨g, hg⟩
        rw [(Engine.run_cons_stopped cfg msg fp rest e hc hr').1] at hi
        rcases i with _ | _ | _ | i <;> simp at hi

theorem Window.update_closes (msg : Option Nat) (w : Window)
    (h : msg = some WM_QUIT ∨ msg = some WM_CLOSE) : (w.update msg).m_closeWindow = true := by
  rcases h with h | h <;> subst h <;> simp [Window.update]

theorem Window.update_fields (msg : Option Nat) (w : Window) :
    (w.update msg).m_width = w.m_width ∧ (w.update msg).m_height = w.m_height
      ∧ (w.update msg).m_hwnd = w.m_hwnd ∧ (w.update msg).m_hinstance = w.m_hinstance
      ∧ (w.update msg).m_name = w.m_name
      ∧ (w.m_closeWindow = true → (w.update msg).m_closeWindow = true) := by
  unfold Window.update
  split
  · split <;> simp
  · simp

theorem Engine.run_terminates (cfg : Config) (env : List (Option Nat × FramePlatform)) :
    ∀ e : Engine,
      (e.m_window.m_closeWindow = true
        ∨ ∃ x ∈ env, x.1 = some WM_QUIT ∨ x.1 = some WM_CLOSE) →
      (Engine.run cfg env e).outcome ≠ none := by
  induction env with
  | nil =>
    intro e h
    rcases h with h | ⟨x, hx, _⟩
    · rw [Engine.run_closed cfg _ e h]; simp
    · exact absurd hx (List.not_mem_nil x)
  | cons x rest ih =>
    intro e h
    obtain ⟨msg, fp⟩ := x
    cases hc : e.m_window.m_closeWindow with
    | true => rw [Engine.run_closed cfg _ e hc]; simp
    | false =>
      by_cases hr : ∃ g, (Renderer.render cfg fp (e.m_window.update msg)
          e.m_gfxResources).outcome = .ok g
      · obtain ⟨g, hg⟩ := hr
        rw [Engine.run_cons_ok cfg msg fp rest e g hc hg]
        apply ih
        rcases h with h | ⟨x, hx, hmsg⟩
        · rw [hc] at h; exact absurd h (by simp)
        · rcases List.mem_cons.mp hx with hx | hx
          · subst hx
            exact Or.inl (Window.update_closes msg _ hmsg)
          · exact Or.inr ⟨x, hx, hmsg⟩
      · have hr' : ∀ g, (Renderer.render cfg fp (e.m_window.update msg)
            e.m_gfxResources).outcome ≠ .ok g := fun g hg => hr ⟨g, hg⟩
        rcases (Engine.run_cons_stopped cfg msg fp rest e hc hr').2 with h' | h' <;>
          rw [h'] <;> simp

theorem Engine.run_updates (cfg : Config) (env : List (Option Nat × FramePlatform)) :
    ∀ e : Engine,
      (Engine.run cfg env e).events.flatMap LoopEvent.updates <+: env.map Prod.fst := by
  induction env with
  | nil =>
    intro e
    cases hc : e.m_window.m_closeWindow with
    | true => rw [Engine.run_closed cfg _ e hc]; exact List.prefix_refl _
    | false => rw [Engine.run_nil cfg e hc]; exact List.prefix_refl _
  | cons x rest ih =>
    intro e
    obtain ⟨msg, fp⟩ := x
    cases hc : e.m_window.m_closeWindow with
    | true => rw [Engine.run_closed cfg _ e hc]; exact List.nil_prefix
    | false =>
      by_cases hr : ∃ g, (Renderer.render cfg fp (e.m_window.update msg)
          e.m_gfxResources).outcome = .ok g
      · obtain ⟨g, hg⟩ := hr
        rw [Engine.run_cons_ok cfg msg fp rest e g hc hg]
        simp only [List.flatMap_cons, LoopEvent.updates, List.nil_append, List.singleton_append,
          List.map_cons]
        exact (List.prefix_cons_inj msg).mpr (ih _)
      · have hr' : ∀ g, (Renderer.render cfg fp (e.m_window.update msg)
            e.m_gfxResources).outcome ≠ .ok g := fun g hg => hr ⟨g, hg⟩
        rw [(Engine.run_cons_stopped cfg msg fp rest e hc hr').1]
        simp only [List.flatMap_cons, LoopEvent.updates, List.nil_append, List.singleton_append,
          List.map_cons, List.flatMap_nil]
        exact (List.prefix_cons_inj msg).mpr List.nil_prefix

/-- C25: in `Engine::run` the close flag is read at the head of the loop only: a read that
finds it clear is followed by exactly one window update and then one call of `render`;
an update is always preceded by such a read and a `render` by an update; a read of the
flag that is not the first event comes right after a `render` that issued all twelve calls
of a frame, through the present; so there are as many calls of `render` as updates and as
reads that found the flag clear. The updates take the window messages in the order in
which they arrive. A read that finds the flag set ends the loop, the loop returns, and a
loop that returns ended with such a read, on a window whose flag is set; and the loop does
not go on for ever once a closing message arrives: it returns or a frame stops it. -/
theorem run_renders_once_per_update (cfg : Config)
    (env : List (Option Nat × FramePlatform)) (e : Engine) :
    (∀ i, (Engine.run cfg env e).events[i]? = some (.shouldClose false) →
        ∃ m cs, (Engine.run cfg env e).events[i + 1]? = some (.update m)
          ∧ (Engine.run cfg env e).events[i + 2]? = some (.render cs))
      ∧ (∀ i m, (Engine.run cfg env e).events[i]? = some (.update m) →
          ∃ j, i = j + 1 ∧ (Engine.run cfg env e).events[j]? = some (.shouldClose false))
      ∧ (∀ i cs, (Engine.run cfg env e).events[i]? = some (.render cs) →
          ∃ j m, i = j + 1 ∧ (Engine.run cfg env e).events[j]? = some (.update m))
      ∧ (∀ i b, (Engine.run cfg env e).events[i + 1]? = some (.shouldClose b) →
          ∃ cs, (Engine.run cfg env e).events[i]? = some (.render cs)
            ∧ cs.map Call.name = renderProtocol)
      ∧ (Engine.run cfg env e).events.countP LoopEvent.isRender
          = (Engine.run cfg env e).events.countP LoopEvent.isUpdate
      ∧ (Engine.run cfg env e).events.countP LoopEvent.isRender
          = (Engine.run cfg env e).events.countP
              (fun ev => match ev with | .shouldClose false => true | _ => false)
      ∧ (Engine.run cfg env e).events.flatMap LoopEvent.updates <+: env.map Prod.fst
      ∧ (∀ i, (Engine.run cfg env e).events[i]? = some (.shouldClose true) →
          (Engine.run cfg env e).events.length = i + 1
            ∧ ∃ e', (Engine.run cfg env e).outcome = some (.ok e'))
      ∧ (∀ e', (Engine.run cfg env e).outcome = some (.ok e') →
          (Engine.run cfg env e).events.getLast? = some (.shouldClose true)
            ∧ e'.m_window.m_closeWindow = true)
      ∧ ((e.m_window.m_closeWindow = true
            ∨ ∃ x ∈ env, x.1 = some WM_QUIT ∨ x.1 = some WM_CLOSE) →
          (Engine.run cfg env e).outcome ≠ none) := by
  have hshape := Engine.run_shape cfg env e
  exact ⟨hshape.after_clear, hshape.before_update, hshape.before_render, hshape.before_read,
    hshape.renders_eq_updates.1, hshape.renders_eq_updates.2, Engine.run_updates cfg env e,
    fun i hi => ⟨hshape.set_is_last i hi, Engine.run_set_returns cfg env e i hi⟩,
    Engine.run_returns cfg env e, Engine.run_terminates cfg env e⟩

theorem run_renders_once_per_update_witness :
    (Engine.run sampleConfig sampleLoopInputs sampleEngine).events.length = 7
      ∧ (Engine.run sampleConfig sampleLoopInputs sampleEngine).events.countP
          LoopEvent.isRender = 2
      ∧ (Engine.run sampleConfig sampleLoopInputs sampleEngine).events.countP
          LoopEvent.isUpdate = 2
      ∧ (Engine.run sampleConfig sampleLoopInputs sampleEngine).outcome ≠ none :=
  ⟨rfl, rfl,
    (run_renders_once_per_update sampleConfig sampleLoopInputs sampleEngine).2.2.2.2.1 ▸ rfl,
    (run_renders_once_per_update sampleConfig sampleLoopInputs sampleEngine).2.2.2.2.2.2.2.2.2
      (Or.inr ⟨(some WM_QUIT, { sampleFramePlatform with imageIndex := 0 }),
        by simp [sampleLoopInputs], Or.inl rfl⟩)⟩

theorem flatMap_map_nil {α β : Type} (f : Nat → α) (g : α → List β) (l : List Nat)
    (h : ∀ i, g (f i) = []) : (l.map f).flatMap g = [] := by
  induction l with
  | nil => rfl
  | cons a t ih => simp [h, ih]

theorem flatMap_map_single {α β : Type} (f : Nat → α) (g : α → List β) (o : Nat → β)
    (l : List Nat) (h : ∀ i, g (f i) = [o i]) : (l.map f).flatMap g = l.map o := by
  induction l with
  | nil => rfl
  | cons a t ih => simp [h, ih]

theorem createCalls_framebuffers (cfg : Config) (gv : GlobalVariables) (p : InitPlatform)
    (w : Window) (g : GfxResources) :
    (createCalls cfg gv p w g).flatMap Call.framebufferCreated
      = (List.range p.swapchainImagesWritten).map (fun i =>
          (({ renderPass := p.createRenderPass.handle
              attachments :=
                [(createState cfg p g).m_bufferedFrameResource.imageViews.getD i 0]
              width := w.m_width
              height := w.m_height
              layers := 1 } : FramebufferCreateInfo), (p.createFramebuffer i).handle)) := by
  have h1 : (instanceCalls cfg gv p).flatMap Call.framebufferCreated = [] := by
    unfold instanceCalls
    cases cfg.debugValidation <;> rfl
  have h4 : (swapchainCalls p w (afterSurface cfg p g)).flatMap Call.framebufferCreated
      = [] := by
    unfold swapchainCalls
    rw [List.flatMap_append, flatMap_map_nil _ _ _ (fun _ => rfl)]
    rfl
  have h6 : (framebufferCalls p w (afterRenderPass cfg p g)).flatMap Call.framebufferCreated
      = (List.range p.swapchainImagesWritten).map (fun i =>
          (({ renderPass := p.createRenderPass.handle
              attachments :=
                [(createState cfg p g).m_bufferedFrameResource.imageViews.getD i 0]
              width := w.m_width
              height := w.m_height
              layers := 1 } : FramebufferCreateInfo), (p.createFramebuffer i).handle)) :=
    flatMap_map_single _ _ _ _ (fun _ => rfl)
  have hsm : ∀ d f, (shaderModuleCalls p d f).flatMap Call.framebufferCreated = [] := by
    intro d f
    unfold shaderModuleCalls
    split <;> rfl
  have h7 : (pipelineCalls p w (afterFramebuffer cfg p g)).flatMap Call.framebufferCreated
      = [] := by
    unfold pipelineCalls
    rw [List.flatMap_append, List.flatMap_append, hsm, hsm]
    rfl
  have h8 : (queueAndPoolCalls p (afterPipeline cfg p g)).flatMap Call.framebufferCreated
      = [] := by
    unfold queueAndPoolCalls
    rw [List.flatMap_append, flatMap_map_nil _ _ _ (fun _ => rfl)]
    rfl
  have h2 : (physicalDeviceCalls p (afterInstance cfg p g)).flatMap Call.framebufferCreated = [] := rfl
  have h3 : (surfaceCalls p w (afterPhysicalDevice cfg p g)).flatMap Call.framebufferCreated = [] := rfl
  have h5 : (renderPassCalls p (afterSwapchain cfg p g)).flatMap Call.framebufferCreated = [] := rfl
  have h9 : (semaphoresCalls p (afterQueueAndPool cfg p g)).flatMap Call.framebufferCreated = [] := rfl
  simp only [createCalls, List.flatMap_append, h1, h2, h3, h4, h5, h6, h7, h8, h9,
    List.nil_append, List.append_nil]

theorem createCalls_imageViews (cfg : Config) (gv : GlobalVariables) (p : InitPlatform)
    (w : Window) (g : GfxResources) :
    (createCalls cfg gv p w g).flatMap Call.imageViewCreated
      = (List.range p.swapchainImagesWritten).map (fun i =>
          ((createState cfg p g).m_bufferedFrameResource.images.getD i 0,
            (p.createImageView i).handle)) := by
  have h1 : (instanceCalls cfg gv p).flatMap Call.imageViewCreated = [] := by
    unfold instanceCalls
    cases cfg.debugValidation <;> rfl
  have h4 : (swapchainCalls p w (afterSurface cfg p g)).flatMap Call.imageViewCreated
      = (List.range p.swapchainImagesWritten).map (fun i =>
          ((createState cfg p g).m_bufferedFrameResource.images.getD i 0,
            (p.createImageView i).handle)) := by
    have hm : ((List.range p.swapchainImagesWritten).map
        (imageViewCall p (swapchainLoopState p (afterSurface cfg p g)))).flatMap
          Call.imageViewCreated
        = (List.range p.swapchainImagesWritten).map (fun i =>
            ((createState cfg p g).m_bufferedFrameResource.images.getD i 0,
              (p.createImageView i).handle)) :=
      flatMap_map_single _ _ _ _ (fun _ => rfl)
    unfold swapchainCalls
    rw [List.flatMap_append, hm]
    rfl
  have h6 : (framebufferCalls p w (afterRenderPass cfg p g)).flatMap Call.imageViewCreated
      = [] := flatMap_map_nil _ _ _ (fun _ => rfl)
  have hsm : ∀ d f, (shaderModuleCalls p d f).flatMap Call.imageViewCreated = [] := by
    intro d f
    unfold shaderModuleCalls
    split <;> rfl
  have h7 : (pipelineCalls p w (afterFramebuffer cfg p g)).flatMap Call.imageViewCreated
      = [] := by
    unfold pipelineCalls
    rw [List.flatMap_append, List.flatMap_append, hsm, hsm]
    rfl
  have h8 : (queueAndPoolCalls p (afterPipeline cfg p g)).flatMap Call.imageViewCreated
      = [] := by
    unfold queueAndPoolCalls
    rw [List.flatMap_append, flatMap_map_nil _ _ _ (fun _ => rfl)]
    rfl
  have h2 : (physicalDeviceCalls p (afterInstance cfg p g)).flatMap Call.imageViewCreated = [] := rfl
  have h3 : (surfaceCalls p w (afterPhysicalDevice cfg p g)).flatMap Call.imageViewCreated = [] := rfl
  have h5 : (renderPassCalls p (afterSwapchain cfg p g)).flatMap Call.imageViewCreated = [] := rfl
  have h9 : (semaphoresCalls p (afterQueueAndPool cfg p g)).flatMap Call.imageViewCreated = [] := rfl
  simp only [createCalls, List.flatMap_append, h1, h2, h3, h4, h5, h6, h7, h8, h9,
    List.nil_append, List.append_nil]

theorem createCalls_sizes (cfg : Config) (gv : GlobalVariables) (p : InitPlatform)
    (w : Window) (g : GfxResources) (c : Call) (hc : c ∈ createCalls cfg gv p w g) :
    (∀ d info out, c = .vkCreateSwapchainKHR d info out →
        info.imageExtentWidth = w.m_width ∧ info.imageExtentHeight = w.m_height)
      ∧ (∀ d pc n info out, c = .vkCreateGraphicsPipelines d pc n info out →
          info.viewportWidth = floatOfUInt32 w.m_width
            ∧ info.viewportHeight = floatOfUInt32 w.m_height
            ∧ info.scissorWidth = w.m_width ∧ info.scissorHeight = w.m_height)
      ∧ (∀ d info out, c = .vkCreateFramebuffer d info out →
          info.width = w.m_width ∧ info.height = w.m_height) := by
  simp only [createCalls, List.mem_append] at hc
  rcases hc with (((((((h | h) | h) | h) | h) | h) | h) | h) | h
  · unfold instanceCalls at h
    rcases Bool.eq_false_or_eq_true cfg.debugValidation with hd | hd
    · simp only [hd, if_true, List.mem_append, List.mem_cons, List.mem_singleton,
        List.not_mem_nil, or_false] at h
      rcases h with h | h | h | h
      all_goals subst h
      all_goals refine ⟨fun _ _ _ e => ?_, fun _ _ _ _ _ e => ?_, fun _ _ _ e => ?_⟩
      all_goals first
        | (simp [imageViewCall, framebufferCall, fenceCall] at e; done)
        | (simp only [Call.vkCreateSwapchainKHR.injEq] at e
           obtain ⟨-, e, -⟩ := e
           subst e
           exact ⟨rfl, rfl⟩)
        | (simp only [Call.vkCreateGraphicsPipelines.injEq] at e
           obtain ⟨-, -, -, e, -⟩ := e
           subst e
           exact ⟨rfl, rfl, rfl, rfl⟩)
        | (simp only [framebufferCall, Call.vkCreateFramebuffer.injEq] at e
           obtain ⟨-, e, -⟩ := e
           subst e
           exact ⟨rfl, rfl⟩)
    · simp only [hd, if_false, List.mem_append, List.mem_cons, List.mem_singleton,
        List.not_mem_nil, or_false, Bool.false_eq_true] at h
      subst h
      refine ⟨fun _ _ _ e => ?_, fun _ _ _ _ _ e => ?_, fun _ _ _ e => ?_⟩
      all_goals first
        | (simp [imageViewCall, framebufferCall, fenceCall] at e; done)
        | (simp only [Call.vkCreateSwapchainKHR.injEq] at e
           obtain ⟨-, e, -⟩ := e
           subst e
           exact ⟨rfl, rfl⟩)
        | (simp only [Call.vkCreateGraphicsPipelines.injEq] at e
           obtain ⟨-, -, -, e, -⟩ := e
           subst e
           exact ⟨rfl, rfl, rfl, rfl⟩)
        | (simp only [framebufferCall, Call.vkCreateFramebuffer.injEq] at e
           obtain ⟨-, e, -⟩ := e
           subst e
           exact ⟨rfl, rfl⟩)
  · simp only [physicalDeviceCalls, List.mem_cons, List.mem_singleton, List.not_mem_nil,
      or_false] at h
    rcases h with h | h | h | h | h
    all_goals subst h
    all_goals refine ⟨fun _ _ _ e => ?_, fun _ _ _ _ _ e => ?_, fun _ _ _ e => ?_⟩
    all_goals first
      | (simp [imageViewCall, framebufferCall, fenceCall] at e; done)
      | (simp only [Call.vkCreateSwapchainKHR.injEq] at e
         obtain ⟨-, e, -⟩ := e
         subst e
         exact ⟨rfl, rfl⟩)
      | (simp only [Call.vkCreateGraphicsPipelines.injEq] at e
         obtain ⟨-, -, -, e, -⟩ := e
         subst e
         exact ⟨rfl, rfl, rfl, rfl⟩)
      | (simp only [framebufferCall, Call.vkCreateFramebuffer.injEq] at e
         obtain ⟨-, e, -⟩ := e
         subst e
         exact ⟨rfl, rfl⟩)
  · simp only [surfaceCalls, List.mem_cons, List.mem_singleton, List.not_mem_nil,
      or_false] at h
    rcases h with h | h
    all_goals subst h
    all_goals refine ⟨fun _ _ _ e => ?_, fun _ _ _ _ _ e => ?_, fun _ _ _ e => ?_⟩
    all_goals first
      | (simp [imageViewCall, framebufferCall, fenceCall] at e; done)
      | (simp only [Call.vkCreateSwapchainKHR.injEq] at e
         obtain ⟨-, e, -⟩ := e
         subst e
         exact ⟨rfl, rfl⟩)
      | (simp only [Call.vkCreateGraphicsPipelines.injEq] at e
         obtain ⟨-, -, -, e, -⟩ := e
         subst e
         exact ⟨rfl, rfl, rfl, rfl⟩)
      | (simp only [framebufferCall, Call.vkCreateFramebuffer.injEq] at e
         obtain ⟨-, e, -⟩ := e
         subst e
         exact ⟨rfl, rfl⟩)
  · simp only [swapchainCalls, List.mem_append, List.mem_cons, List.mem_singleton,
      List.not_mem_nil, or_false, List.mem_map] at h
    rcases h with (h | h | h | h | h | h | h | h | h) | ⟨i, _, h⟩
    all_goals subst h
    all_goals refine ⟨fun _ _ _ e => ?_, fun _ _ _ _ _ e => ?_, fun _ _ _ e => ?_⟩
    all_goals first
      | (simp [imageViewCall, framebufferCall, fenceCall] at e; done)
      | (simp only [Call.vkCreateSwapchainKHR.injEq] at e
         obtain ⟨-, e, -⟩ := e
         subst e
         exact ⟨rfl, rfl⟩)
      | (simp only [Call.vkCreateGraphicsPipelines.injEq] at e
         obtain ⟨-, -, -, e, -⟩ := e
         subst e
         exact ⟨rfl, rfl, rfl, rfl⟩)
      | (simp only [framebufferCall, Call.vkCreateFramebuffer.injEq] at e
         obtain ⟨-, e, -⟩ := e
         subst e
         exact ⟨rfl, rfl⟩)
  · simp only [renderPassCalls, List.mem_singleton] at h
    subst h
    refine ⟨fun _ _ _ e => ?_, fun _ _ _ _ _ e => ?_, fun _ _ _ e => ?_⟩
    all_goals first
      | (simp [imageViewCall, framebufferCall, fenceCall] at e; done)
      | (simp only [Call.vkCreateSwapchainKHR.injEq] at e
         obtain ⟨-, e, -⟩ := e
         subst e
         exact ⟨rfl, rfl⟩)
      | (simp only [Call.vkCreateGraphicsPipelines.injEq] at e
         obtain ⟨-, -, -, e, -⟩ := e
         subst e
         exact ⟨rfl, rfl, rfl, rfl⟩)
      | (simp only [framebufferCall, Call.vkCreateFramebuffer.injEq] at e
         obtain ⟨-, e, -⟩ := e
         subst e
         exact ⟨rfl, rfl⟩)
  · simp only [framebufferCalls, List.mem_map] at h
    obtain ⟨i, _, h⟩ := h
    subst h
    refine ⟨fun _ _ _ e => ?_, fun _ _ _ _ _ e => ?_, fun _ _ _ e => ?_⟩
    all_goals first
      | (simp [imageViewCall, framebufferCall, fenceCall] at e; done)
      | (simp only [Call.vkCreateSwapchainKHR.injEq] at e
         obtain ⟨-, e, -⟩ := e
         subst e
         exact ⟨rfl, rfl⟩)
      | (simp only [Call.vkCreateGraphicsPipelines.injEq] at e
         obtain ⟨-, -, -, e, -⟩ := e
         subst e
         exact ⟨rfl, rfl, rfl, rfl⟩)
      | (simp only [framebufferCall, Call.vkCreateFramebuffer.injEq] at e
         obtain ⟨-, e, -⟩ := e
         subst e
         exact ⟨rfl, rfl⟩)
  · simp only [pipelineCalls, List.mem_append, List.mem_cons, List.mem_singleton,
      List.not_mem_nil, or_false] at h
    rcases h with (h | h) | h | h
    · obtain ⟨sz, out, e0⟩ := mem_shaderModuleCalls _ _ _ c h
      subst e0
      refine ⟨fun _ _ _ e => ?_, fun _ _ _ _ _ e => ?_, fun _ _ _ e => ?_⟩
      all_goals first
        | (simp [imageViewCall, framebufferCall, fenceCall] at e; done)
        | (simp only [Call.vkCreateSwapchainKHR.injEq] at e
           obtain ⟨-, e, -⟩ := e
           subst e
           exact ⟨rfl, rfl⟩)
        | (simp only [Call.vkCreateGraphicsPipelines.injEq] at e
           obtain ⟨-, -, -, e, -⟩ := e
           subst e
           exact ⟨rfl, rfl, rfl, rfl⟩)
        | (simp only [framebufferCall, Call.vkCreateFramebuffer.injEq] at e
           obtain ⟨-, e, -⟩ := e
           subst e
           exact ⟨rfl, rfl⟩)
    · obtain ⟨sz, out, e0⟩ := mem_shaderModuleCalls _ _ _ c h
      subst e0
      refine ⟨fun _ _ _ e => ?_, fun _ _ _ _ _ e => ?_, fun _ _ _ e => ?_⟩
      all_goals first
        | (simp [imageViewCall, framebufferCall, fenceCall] at e; done)
        | (simp only [Call.vkCreateSwapchainKHR.injEq] at e
           obtain ⟨-, e, -⟩ := e
           subst e
           exact ⟨rfl, rfl⟩)
        | (simp only [Call.vkCreateGraphicsPipelines.injEq] at e
           obtain ⟨-, -, -, e, -⟩ := e
           subst e
           exact ⟨rfl, rfl, rfl, rfl⟩)
        | (simp only [framebufferCall, Call.vkCreateFramebuffer.injEq] at e
           obtain ⟨-, e, -⟩ := e
           subst e
           exact ⟨rfl, rfl⟩)
    · subst h
      refine ⟨fun _ _ _ e => ?_, fun _ _ _ _ _ e => ?_, fun _ _ _ e => ?_⟩
      all_goals first
        | (simp [imageViewCall, framebufferCall, fenceCall] at e; done)
        | (simp only [Call.vkCreateSwapchainKHR.injEq] at e
           obtain ⟨-, e, -⟩ := e
           subst e
           exact ⟨rfl, rfl⟩)
        | (simp only [Call.vkCreateGraphicsPipelines.injEq] at e
           obtain ⟨-, -, -, e, -⟩ := e
           subst e
           exact ⟨rfl, rfl, rfl, rfl⟩)
        | (simp only [framebufferCall, Call.vkCreateFramebuffer.injEq] at e
           obtain ⟨-, e, -⟩ := e
           subst e
           exact ⟨rfl, rfl⟩)
    · subst h
      refine ⟨fun _ _ _ e => ?_, fun _ _ _ _ _ e => ?_, fun _ _ _ e => ?_⟩
      all_goals first
        | (simp [imageViewCall, framebufferCall, fenceCall] at e; done)
        | (simp only [Call.vkCreateSwapchainKHR.injEq] at e
           obtain ⟨-, e, -⟩ := e
           subst e
           exact ⟨rfl, rfl⟩)
        | (simp only [Call.vkCreateGraphicsPipelines.injEq] at e
           obtain ⟨-, -, -, e, -⟩ := e
           subst e
           exact ⟨rfl, rfl, rfl, rfl⟩)
        | (simp only [framebufferCall, Call.vkCreateFramebuffer.injEq] at e
           obtain ⟨-, e, -⟩ := e
           subst e
           exact ⟨rfl, rfl⟩)
  · simp only [queueAndPoolCalls, List.mem_append, List.mem_cons, List.mem_singleton,
      List.not_mem_nil, or_false, List.mem_map] at h
    rcases h with (h | h | h) | ⟨i, _, h⟩
    all_goals subst h
    all_goals refine ⟨fun _ _ _ e => ?_, fun _ _ _ _ _ e => ?_, fun _ _ _ e => ?_⟩
    all_goals first
      | (simp [imageViewCall, framebufferCall, fenceCall] at e; done)
      | (simp only [Call.vkCreateSwapchainKHR.injEq] at e
         obtain ⟨-, e, -⟩ := e
         subst e
         exact ⟨rfl, rfl⟩)
      | (simp only [Call.vkCreateGraphicsPipelines.injEq] at e
         obtain ⟨-, -, -, e, -⟩ := e
         subst e
         exact ⟨rfl, rfl, rfl, rfl⟩)
      | (simp only [framebufferCall, Call.vkCreateFramebuffer.injEq] at e
         obtain ⟨-, e, -⟩ := e
         subst e
         exact ⟨rfl, rfl⟩)
  · simp only [semaphoresCalls, List.mem_cons, List.mem_singleton, List.not_mem_nil,
      or_false] at h
    rcases h with h | h
    all_goals subst h
    all_goals refine ⟨fun _ _ _ e => ?_, fun _ _ _ _ _ e => ?_, fun _ _ _ e => ?_⟩
    all_goals first
      | (simp [imageViewCall, framebufferCall, fenceCall] at e; done)
      | (simp only [Call.vkCreateSwapchainKHR.injEq] at e
         obtain ⟨-, e, -⟩ := e
         subst e
         exact ⟨rfl, rfl⟩)
      | (simp only [Call.vkCreateGraphicsPipelines.injEq] at e
         obtain ⟨-, -, -, e, -⟩ := e
         subst e
         exact ⟨rfl, rfl, rfl, rfl⟩)
      | (simp only [framebufferCall, Call.vkCreateFramebuffer.injEq] at e
         obtain ⟨-, e, -⟩ := e
         subst e
         exact ⟨rfl, rfl⟩)

theorem slotCalls_render_area (w : Window) (g : GfxResources) (i : Nat) (c : Call)
    (hc : c ∈ slotCalls w g i) (cb rp fb : Handle) (ox oy : Int) (wd ht : Nat)
    (cl : List (List Int)) (ct : Nat)
    (e : c = .vkCmdBeginRenderPass cb rp fb ox oy wd ht cl ct) :
    ox = 0 ∧ oy = 0 ∧ wd = w.m_width ∧ ht = w.m_height := by
  subst e
  simp only [slotCalls, frameCalls, List.mem_cons, List.mem_singleton, List.not_mem_nil,
    or_false, reduceCtorEq, false_or, Call.vkCmdBeginRenderPass.injEq, Window.getWidth,
    Window.getHeight] at hc
  obtain ⟨-, -, -, h1, h2, h3, h4, -⟩ := hc
  exact ⟨h1, h2, h3, h4⟩

theorem Engine.run_render_area (cfg : Config) (env : List (Option Nat × FramePlatform)) :
    ∀ (e : Engine) (cs : List Call), LoopEvent.render cs ∈ (Engine.run cfg env e).events →
      ∀ c ∈ cs, ∀ (cb rp fb : Handle) (ox oy : Int) (wd ht : Nat) (cl : List (List Int))
        (ct : Nat), c = .vkCmdBeginRenderPass cb rp fb ox oy wd ht cl ct →
        ox = 0 ∧ oy = 0 ∧ wd = e.m_window.m_width ∧ ht = e.m_window.m_height := by
  induction env with
  | nil =>
    intro e cs hcs
    cases hc : e.m_window.m_closeWindow with
    | true => rw [Engine.run_closed cfg _ e hc] at hcs; simp at hcs
    | false => rw [Engine.run_nil cfg e hc] at hcs; simp at hcs
  | cons x rest ih =>
    intro e cs hcs
    obtain ⟨msg, fp⟩ := x
    have hw := Window.update_fields msg e.m_window
    have hhead : ∀ c ∈ (Renderer.render cfg fp (e.m_window.update msg) e.m_gfxResources).calls,
        ∀ (cb rp fb : Handle) (ox oy : Int) (wd ht : Nat) (cl : List (List Int)) (ct : Nat),
          c = .vkCmdBeginRenderPass cb rp fb ox oy wd ht cl ct →
          ox = 0 ∧ oy = 0 ∧ wd = e.m_window.m_width ∧ ht = e.m_window.m_height := by
      intro c hc cb rp fb ox oy wd ht cl ct he
      have := slotCalls_render_area _ _ _ c (render_calls_mem cfg fp _ _ c hc)
        cb rp fb ox oy wd ht cl ct he
      rw [hw.1, hw.2.1] at this
      exact this
    cases hc : e.m_window.m_closeWindow with
    | true => rw [Engine.run_closed cfg _ e hc] at hcs; simp at hcs
    | false =>
      by_cases hr : ∃ g, (Renderer.render cfg fp (e.m_window.update msg)
          e.m_gfxResources).outcome = .ok g
      · obtain ⟨g, hg⟩ := hr
        rw [Engine.run_cons_ok cfg msg fp rest e g hc hg] at hcs
        simp only [List.mem_cons, reduceCtorEq, false_or, LoopEvent.render.injEq] at hcs
        rcases hcs with hcs | hcs
        · subst hcs; exact hhead
        · have := ih ⟨g, e.m_window.update msg⟩ cs hcs
          simp only [hw.1, hw.2.1] at this
          exact this
      · have hr' : ∀ g, (Renderer.render cfg fp (e.m_window.update msg)
            e.m_gfxResources).outcome ≠ .ok g := fun g hg => hr ⟨g, hg⟩
        rw [(Engine.run_cons_stopped cfg msg fp rest e hc hr').1] at hcs
        simp only [List.mem_cons, reduceCtorEq, false_or, LoopEvent.render.injEq,
          List.mem_singleton, List.not_mem_nil, or_false] at hcs
        subst hcs
        exact hhead

theorem Window.new_ok (cfg : Config) (wp : WindowPlatform) (width height : Nat)
    (name : String) (w : Window) (h : (Window.new cfg wp width height name).outcome = .ok w) :
    w = { m_hwnd := wp.createWindow, m_hinstance := wp.moduleHandle, m_width := width,
          m_height := height, m_name := name }
      ∧ (Window.new cfg wp width height name).calls = [] := by
  simp only [Window.new, bind_eq, pure_eq] at h ⊢
  rw [outcome_assert_bind_ok] at h
  obtain ⟨h1, h⟩ := h
  rw [outcome_assert_bind_ok] at h
  obtain ⟨h2, h⟩ := h
  rw [outcome_assert_bind_ok] at h
  obtain ⟨h3, h⟩ := h
  rw [calls_assert_bind _ _ _ h1, calls_assert_bind _ _ _ h2, calls_assert_bind _ _ _ h3]
  simp only [Exec.pure, Outcome.ok.injEq] at h
  exact ⟨h.symm, rfl⟩

theorem Engine.init_ok (cfg : Config) (gv : GlobalVariables) (wp : WindowPlatform)
    (p : InitPlatform) (e : Engine) (h : (Engine.init cfg gv wp p).outcome = .ok e) :
    e.m_window = { m_hwnd := wp.createWindow, m_hinstance := wp.moduleHandle,
                   m_width := gv.windowWidth, m_height := gv.windowHeight,
                   m_name := "Vulkan Triangle" }
      ∧ (GfxResources.create cfg
            { gv with applicationName := "Vulkan Triangle", engineName := "Dummy Engine" }
            p e.m_window {}).outcome = .ok e.m_gfxResources
      ∧ (Engine.init cfg gv wp p).calls
          = (GfxResources.create cfg
              { gv with applicationName := "Vulkan Triangle", engineName := "Dummy Engine" }
              p e.m_window {}).calls := by
  simp only [Engine.init, bind_eq, pure_eq] at h ⊢
  obtain ⟨w, hw, h2, hc, -⟩ := bind_ok_inv _ _ _ h
  obtain ⟨hweq, hwc⟩ := Window.new_ok cfg wp _ _ _ w hw
  obtain ⟨g, hg, h3, hc2, -⟩ := bind_ok_inv _ _ _ h2
  simp only [Exec.pure, Outcome.ok.injEq] at h3
  subst h3
  rw [hc, hwc, hc2]
  refine ⟨hweq, hg, ?_⟩
  simp [Exec.pure, GfxResources.new]

theorem Engine.run_state (cfg : Config) (env : List (Option Nat × FramePlatform)) :
    ∀ e e' : Engine, (Engine.run cfg env e).outcome = some (.ok e') →
      e'.m_window.m_hwnd = e.m_window.m_hwnd
        ∧ e'.m_window.m_hinstance = e.m_window.m_hinstance
        ∧ e'.m_window.m_name = e.m_window.m_name
        ∧ e'.m_window.m_width = e.m_window.m_width
        ∧ e'.m_window.m_height = e.m_window.m_height
        ∧ ∃ k, e'.m_gfxResources = e.m_gfxResources.withBufferIndex k := by
  induction env with
  | nil =>
    intro e e' h
    cases hc : e.m_window.m_closeWindow with
    | true =>
      rw [Engine.run_closed cfg _ e hc] at h
      simp only [Option.some.injEq, Outcome.ok.injEq] at h
      subst h
      exact ⟨rfl, rfl, rfl, rfl, rfl, e.m_gfxResources.m_bufferedFrameResource.bufferIndex, rfl⟩
    | false =>
      rw [Engine.run_nil cfg e hc] at h
      exact absurd h (by simp)
  | cons x rest ih =>
    intro e e' h
    obtain ⟨msg, fp⟩ := x
    cases hc : e.m_window.m_closeWindow with
    | true =>
      rw [Engine.run_closed cfg _ e hc] at h
      simp only [Option.some.injEq, Outcome.ok.injEq] at h
      subst h
      exact ⟨rfl, rfl, rfl, rfl, rfl, e.m_gfxResources.m_bufferedFrameResource.bufferIndex, rfl⟩
    | false =>
      by_cases hr : ∃ g, (Renderer.render cfg fp (e.m_window.update msg)
          e.m_gfxResources).outcome = .ok g
      · obtain ⟨g, hg⟩ := hr
        rw [Engine.run_cons_ok cfg msg fp rest e g hc hg] at h
        obtain ⟨h1, h2, h3, h4, h5, k, hk⟩ := ih _ e' h
        obtain ⟨u1, u2, u3, u4, u5, -⟩ := Window.update_fields msg e.m_window
        refine ⟨h1.trans u3, h2.trans u4, h3.trans u5, h4.trans u1, h5.trans u2, k, ?_⟩
        rw [hk, (render_ok cfg fp _ _ g hg).1]
        rfl
      · have hr' : ∀ g, (Renderer.render cfg fp (e.m_window.update msg)
            e.m_gfxResources).outcome ≠ .ok g := fun g hg => hr ⟨g, hg⟩
        rcases (Engine.run_cons_stopped cfg msg fp rest e hc hr').2 with h' | h' <;>
          rw [h'] at h <;> simp at h

theorem destroy_withBufferIndex (cfg : Config) (g : GfxResources) (k : Nat) :
    GfxResources.destroy cfg (g.withBufferIndex k) = GfxResources.destroy cfg g := rfl

theorem Engine.destruct_eq (cfg : Config) (e : Engine) :
    Engine.destruct cfg e
      = [.win32 (.DestroyWindow e.m_window.m_hwnd),
         .win32 (.UnregisterClass e.m_window.m_name e.m_window.m_hinstance)]
        ++ (GfxResources.destroy cfg e.m_gfxResources).calls.map SysCall.vulkan := by
  simp [Engine.destruct, Engine.members, Engine.destroyMember, Window.destruct,
    GfxResources.destruct]

/-- C28: the members of `Engine` are declared in the order `m_gfxResources`, `m_renderer`,
`m_window`, so the destructor of an initialised `Engine` destroys the `Window` first
(`DestroyWindow` on its handle, then `UnregisterClass`), then the `Renderer` (which does
nothing), then the `GfxResources`, whose destructor runs `destroy`: every platform call
of the teardown comes after both calls of the destructor of the window, among them the
`vkDestroySurfaceKHR` of the surface that `init` created from the handles of that window.
The same holds for the engine in the state in which `run` returns. -/
theorem engine_destroys_window_before_resources (cfg : Config) (gv : GlobalVariables)
    (wp : WindowPlatform) (p : InitPlatform) (e : Engine)
    (h : (Engine.init cfg gv wp p).outcome = .ok e) :
    Engine.members.reverse = [.m_window, .m_renderer, .m_gfxResources]
      ∧ Engine.destruct cfg e
          = e.destroyMember cfg .m_window ++ e.destroyMember cfg .m_renderer
              ++ e.destroyMember cfg .m_gfxResources
      ∧ Engine.destruct cfg e
          = [.win32 (.DestroyWindow wp.createWindow),
             .win32 (.UnregisterClass "Vulkan Triangle" wp.moduleHandle)]
            ++ (teardownCalls cfg e.m_gfxResources p.swapchainImagesWritten).map SysCall.vulkan
      ∧ (GfxResources.destruct cfg e.m_gfxResources).outcome = .ok ()
      ∧ (∀ (i : Nat) (c : Call), (Engine.destruct cfg e)[i]? = some (.vulkan c) → 2 ≤ i)
      ∧ Call.vkCreateWin32SurfaceKHR e.m_gfxResources.m_instance wp.moduleHandle
            wp.createWindow e.m_gfxResources.m_surface ∈ (Engine.init cfg gv wp p).calls
      ∧ (∃ i, 2 ≤ i ∧ (Engine.destruct cfg e)[i]?
            = some (.vulkan (.vkDestroySurfaceKHR e.m_gfxResources.m_instance
                e.m_gfxResources.m_surface)))
      ∧ (∀ (env : List (Option Nat × FramePlatform)) (e' : Engine),
          (Engine.run cfg env e).outcome = some (.ok e') →
          Engine.destruct cfg e' = Engine.destruct cfg e) := by
  obtain ⟨hw, hg, hcalls⟩ := Engine.init_ok cfg gv wp p e h
  obtain ⟨hst, hcc, -⟩ := create_ok cfg _ p e.m_window {} e.m_gfxResources hg
  have hslots : HasSlots e.m_gfxResources p.swapchainImagesWritten := by
    rw [hst]; exact createState_hasSlots cfg p {}
  obtain ⟨hdc, -, hdo⟩ := destroy_eq cfg e.m_gfxResources _ hslots
  have hd := Engine.destruct_eq cfg e
  have hd' : Engine.destruct cfg e
      = [.win32 (.DestroyWindow wp.createWindow),
         .win32 (.UnregisterClass "Vulkan Triangle" wp.moduleHandle)]
        ++ (teardownCalls cfg e.m_gfxResources p.swapchainImagesWritten).map
            SysCall.vulkan := by
    rw [hd, hdc, hw]
  refine ⟨rfl, ?_, hd', hdo, ?_, ?_, ?_, ?_⟩
  · simp [Engine.destruct, Engine.members]
  · intro i c hi
    rw [hd'] at hi
    rcases i with _ | _ | i
    · simp at hi
    · simp at hi
    · omega
  · rw [hcalls, hcc]
    have hf := createState_fields cfg p ({} : GfxResources)
    rw [hst, hf.2.2.2.2.2.2.2.1, hf.2.2.2.2.2.2.2.2.2.1]
    simp only [createCalls, List.mem_append]
    refine Or.inl (Or.inl (Or.inl (Or.inl (Or.inl (Or.inl (Or.inr ?_))))))
    rw [hw]
    simp [surfaceCalls]
    rfl
  · rw [hd']
    obtain ⟨j, hj⟩ := List.mem_iff_getElem?.mp
      (show Call.vkDestroySurfaceKHR e.m_gfxResources.m_instance e.m_gfxResources.m_surface
        ∈ teardownCalls cfg e.m_gfxResources p.swapchainImagesWritten by
          simp [teardownCalls])
    refine ⟨j + 2, by omega, ?_⟩
    simp only [List.cons_append, List.nil_append, List.getElem?_cons_succ, List.getElem?_map,
      hj, Option.map_some']
  · intro env e' hrun
    obtain ⟨h1, h2, h3, -, -, k, hk⟩ := Engine.run_state cfg env e e' hrun
    rw [Engine.destruct_eq, Engine.destruct_eq, h1, h2, h3, hk, destroy_withBufferIndex]

theorem engine_destroys_window_before_resources_witness :
    (Engine.init sampleConfig sampleGlobals sampleWindowPlatform sampleInit).outcome
        = .ok ⟨createState sampleConfig sampleInit {}, { sampleWindow with
            m_name := "Vulkan Triangle" }⟩
      ∧ (Engine.destruct sampleConfig ⟨createState sampleConfig sampleInit {}, { sampleWindow with
            m_name := "Vulkan Triangle" }⟩)[0]? = some (.win32 (.DestroyWindow 7))
      ∧ (∃ i, 2 ≤ i ∧ (Engine.destruct sampleConfig
            ⟨createState sampleConfig sampleInit {}, { sampleWindow with
              m_name := "Vulkan Triangle" }⟩)[i]?
          = some (.vulkan (.vkDestroySurfaceKHR 100 104))) :=
  ⟨rfl, rfl,
    (engine_destroys_window_before_resources sampleConfig sampleGlobals sampleWindowPlatform
      sampleInit ⟨createState sampleConfig sampleInit {}, { sampleWindow with
        m_name := "Vulkan Triangle" }⟩ rfl).2.2.2.2.2.2.1⟩

theorem RefersCreated.mono {k k' : List Obj} (hk : ∀ o ∈ k, o ∈ k') :
    ∀ {l : List Call}, RefersCreated k l → RefersCreated k' l := by
  intro l
  induction l generalizing k k' with
  | nil => intro _; trivial
  | cons c rest ih =>
    intro h
    refine ⟨fun o ho => hk o (h.1 o ho), ih (fun o ho => ?_) h.2⟩
    rcases List.mem_append.mp ho with h1 | h1
    · exact List.mem_append_left _ (hk o h1)
    · exact List.mem_append_right _ h1

theorem RefersCreated.append_iff (k : List Obj) (a b : List Call) :
    RefersCreated k (a ++ b)
      ↔ RefersCreated k a ∧ RefersCreated (k ++ createdObjects a) b := by
  induction a generalizing k with
  | nil => simp [RefersCreated, createdObjects]
  | cons c rest ih =>
    show ((∀ o ∈ c.refers, o ∈ k) ∧ RefersCreated (k ++ c.creates) (rest ++ b)) ↔ _
    rw [ih, createdObjects_cons]
    simp only [RefersCreated, List.append_assoc, and_assoc]

theorem RefersCreated.of_forall (k : List Obj) (l : List Call)
    (h : ∀ c ∈ l, ∀ o ∈ c.refers, o ∈ k) : RefersCreated k l := by
  induction l generalizing k with
  | nil => trivial
  | cons c rest ih =>
    refine ⟨h c (List.mem_cons_self _ _), ih _ (fun c' hc' o ho => ?_)⟩
    exact List.mem_append_left _ (h c' (List.mem_cons_of_mem _ hc') o ho)

theorem RefersCreated.initial {k : List Obj} {l l' : List Call} (hp : l' <+: l)
    (h : RefersCreated k l) : RefersCreated k l' := by
  obtain ⟨t, rfl⟩ := hp
  exact ((RefersCreated.append_iff k l' t).mp h).1

theorem RefersCreated.at_split {k : List Obj} {l : List Call} (h : RefersCreated k l)
    (pre post : List Call) (c : Call) (hl : l = pre ++ c :: post) :
    ∀ o ∈ c.refers, o ∈ k ++ createdObjects pre := by
  subst hl
  exact ((RefersCreated.append_iff k pre (c :: post)).mp h).2.1

theorem initial_of_not_mem {α : Type} (l a b : List α) (x : α) (hp : l <+: a ++ x :: b)
    (hx : x ∉ l) : l <+: a := by
  obtain ⟨t, ht⟩ := hp
  rcases List.append_eq_append_iff.mp ht with ⟨a', ha, -⟩ | ⟨c', hc, hc2⟩
  · exact ⟨a', ha.symm⟩
  · cases c' with
    | nil => rw [List.append_nil] at hc; rw [hc]
    | cons y c'' =>
      simp only [List.cons_append, List.cons.injEq] at hc2
      exact absurd (by rw [hc, hc2.1]; simp) hx

theorem initial_flatMap {α β : Type} (f : α → List β) {l l' : List α} (hp : l' <+: l) :
    l'.flatMap f <+: l.flatMap f := by
  obtain ⟨t, rfl⟩ := hp
  rw [List.flatMap_append]
  exact List.prefix_append _ _

theorem RefersCreated.map (k : List Obj) (f : Nat → Call) (l : List Nat)
    (h : ∀ i ∈ l, ∀ o ∈ (f i).refers, o ∈ k) : RefersCreated k (l.map f) := by
  refine RefersCreated.of_forall k _ (fun c hc o ho => ?_)
  obtain ⟨i, hi, rfl⟩ := List.mem_map.mp hc
  exact h i hi o ho

theorem instanceCalls_refers (cfg : Config) (gv : GlobalVariables) (p : InitPlatform) :
    RefersCreated [] (instanceCalls cfg gv p) := by
  unfold instanceCalls
  cases cfg.debugValidation <;> simp [RefersCreated, Call.refers, Call.creates]

theorem physicalDeviceCalls_refers (p : InitPlatform) (self : GfxResources) (k : List Obj)
    (hinst : ⟨.inst, self.m_instance⟩ ∈ k) :
    RefersCreated k (physicalDeviceCalls p self) := by
  simp [physicalDeviceCalls, RefersCreated, Call.refers, Call.creates, hinst]

theorem surfaceCalls_refers (p : InitPlatform) (w : Window) (self : GfxResources)
    (k : List Obj) (hinst : ⟨.inst, self.m_instance⟩ ∈ k) :
    RefersCreated k (surfaceCalls p w self) := by
  simp [surfaceCalls, RefersCreated, Call.refers, Call.creates, hinst]

theorem swapchainCalls_refers (p : InitPlatform) (w : Window) (self : GfxResources)
    (k : List Obj) (hdev : ⟨.device, self.m_device⟩ ∈ k)
    (hsurf : ⟨.surface, self.m_surface⟩ ∈ k) :
    RefersCreated k (swapchainCalls p w self) := by
  unfold swapchainCalls
  rw [RefersCreated.append_iff]
  refine ⟨by simp [RefersCreated, Call.refers, Call.creates, hdev, hsurf], ?_⟩
  refine RefersCreated.map _ _ _ (fun i _ o ho => ?_)
  simp only [imageViewCall, Call.refers, List.mem_singleton] at ho
  subst ho
  exact List.mem_append_left _ hdev

theorem renderPassCalls_refers (p : InitPlatform) (self : GfxResources) (k : List Obj)
    (hdev : ⟨.device, self.m_device⟩ ∈ k) : RefersCreated k (renderPassCalls p self) := by
  simp [renderPassCalls, RefersCreated, Call.refers, Call.creates, hdev]

theorem framebufferCalls_refers (p : InitPlatform) (w : Window) (self : GfxResources)
    (k : List Obj) (hdev : ⟨.device, self.m_device⟩ ∈ k)
    (hrp : ⟨.renderPass, self.m_renderPass⟩ ∈ k)
    (hviews : ∀ i, i < self.m_bufferedFrameResource.bufferCount →
      ⟨.imageView, self.m_bufferedFrameResource.imageViews.getD i 0⟩ ∈ k) :
    RefersCreated k (framebufferCalls p w self) := by
  unfold framebufferCalls
  refine RefersCreated.map _ _ _ (fun i hi o ho => ?_)
  simp only [framebufferCall, Call.refers, List.map_cons, List.map_nil, List.mem_cons,
    List.mem_singleton, List.not_mem_nil, or_false] at ho
  rcases ho with ho | ho | ho <;> subst ho
  · exact hdev
  · exact hrp
  · exact hviews i (List.mem_range.mp hi)

theorem shaderModuleCalls_refers (p : InitPlatform) (device : Handle) (shaderFile : String)
    (k : List Obj) (hdev : ⟨.device, device⟩ ∈ k) :
    RefersCreated k (shaderModuleCalls p device shaderFile) := by
  unfold shaderModuleCalls
  split <;> simp [RefersCreated, Call.refers, hdev]

theorem pipelineCalls_refers (p : InitPlatform) (w : Window) (self : GfxResources)
    (k : List Obj) (hdev : ⟨.device, self.m_device⟩ ∈ k)
    (hrp : ⟨.renderPass, self.m_renderPass⟩ ∈ k)
    (hv : (p.files self.c_vertexShader).isSome = true)
    (hf : (p.files self.c_fragmentShader).isSome = true) :
    RefersCreated k (pipelineCalls p w self) := by
  obtain ⟨a, ha⟩ := Option.isSome_iff_exists.mp hv
  obtain ⟨b, hb⟩ := Option.isSome_iff_exists.mp hf
  simp [pipelineCalls, shaderModuleCalls, shaderModuleOf, ha, hb, RefersCreated, Call.refers,
    Call.creates, hdev, hrp]

theorem queueAndPoolCalls_refers (p : InitPlatform) (self : GfxResources) (k : List Obj)
    (hdev : ⟨.device, self.m_device⟩ ∈ k) : RefersCreated k (queueAndPoolCalls p self) := by
  unfold queueAndPoolCalls
  rw [RefersCreated.append_iff]
  refine ⟨by simp [RefersCreated, Call.refers, Call.creates, hdev], ?_⟩
  refine RefersCreated.map _ _ _ (fun i _ o ho => ?_)
  simp only [fenceCall, Call.refers, List.mem_singleton] at ho
  subst ho
  exact List.mem_append_left _ hdev

theorem semaphoresCalls_refers (p : InitPlatform) (self : GfxResources) (k : List Obj)
    (hdev : ⟨.device, self.m_device⟩ ∈ k) : RefersCreated k (semaphoresCalls p self) := by
  simp [semaphoresCalls, RefersCreated, Call.refers, Call.creates, hdev]

theorem createCalls_split (cfg : Config) (gv : GlobalVariables) (p : InitPlatform)
    (w : Window) (g : GfxResources) :
    ∃ rest, createCalls cfg gv p w g
      = callsBeforePipelineLayout cfg gv p w g
        ++ Call.vkCreatePipelineLayout (afterFramebuffer cfg p g).m_device 0 0
            p.createPipelineLayout.handle :: rest := by
  have hpc : ∃ pc, pipelineCalls p w (afterFramebuffer cfg p g)
      = shaderModuleCalls p (afterFramebuffer cfg p g).m_device
          (afterFramebuffer cfg p g).c_vertexShader
        ++ shaderModuleCalls p (afterFramebuffer cfg p g).m_device
          (afterFramebuffer cfg p g).c_fragmentShader
        ++ [Call.vkCreatePipelineLayout (afterFramebuffer cfg p g).m_device 0 0
              p.createPipelineLayout.handle, pc] := ⟨_, rfl⟩
  obtain ⟨pc, hpc⟩ := hpc
  refine ⟨pc :: (queueAndPoolCalls p (afterPipeline cfg p g)
    ++ semaphoresCalls p (afterQueueAndPool cfg p g)), ?_⟩
  unfold createCalls callsBeforePipelineLayout
  rw [hpc]
  simp only [List.append_assoc, List.cons_append, List.nil_append]

theorem known_after_framebuffers (cfg : Config) (gv : GlobalVariables) (p : InitPlatform)
    (w : Window) (g : GfxResources) :
    createdObjects (instanceCalls cfg gv p
        ++ physicalDeviceCalls p (afterInstance cfg p g)
        ++ surfaceCalls p w (afterPhysicalDevice cfg p g)
        ++ swapchainCalls p w (afterSurface cfg p g)
        ++ renderPassCalls p (afterSwapchain cfg p g)
        ++ framebufferCalls p w (afterRenderPass cfg p g))
      = [⟨.inst, p.createInstance.handle⟩]
        ++ (if cfg.debugValidation then [⟨.debugCallback, p.createDebugReportCallback.handle⟩]
            else [])
        ++ [⟨.device, p.createDevice.handle⟩, ⟨.surface, p.createSurface.handle⟩,
            ⟨.swapchain, p.createSwapchain.handle⟩]
        ++ (List.range p.swapchainImagesWritten).map
            (fun i => ⟨.imageView, (p.createImageView i).handle⟩)
        ++ [⟨.renderPass, p.createRenderPass.handle⟩]
        ++ (List.range p.swapchainImagesWritten).map
            (fun i => ⟨.framebuffer, (p.createFramebuffer i).handle⟩) := by
  simp only [createdObjects_append, createdObjects_instanceCalls,
    createdObjects_physicalDeviceCalls, createdObjects_surfaceCalls,
    createdObjects_swapchainCalls, createdObjects_renderPassCalls,
    createdObjects_framebufferCalls, afterRenderPass_bufferCount]
  simp [List.append_assoc]

theorem callsBeforePipelineLayout_refers (cfg : Config) (gv : GlobalVariables)
    (p : InitPlatform) (w : Window) (g : GfxResources) :
    RefersCreated [] (callsBeforePipelineLayout cfg gv p w g) := by
  unfold callsBeforePipelineLayout
  rw [RefersCreated.append_iff, List.nil_append, known_after_framebuffers]
  refine ⟨?_, ?_⟩
  · simp only [RefersCreated.append_iff, List.nil_append, createdObjects_append,
      createdObjects_instanceCalls, createdObjects_physicalDeviceCalls,
      createdObjects_surfaceCalls, createdObjects_swapchainCalls,
      createdObjects_renderPassCalls]
    refine ⟨⟨⟨⟨⟨instanceCalls_refers cfg gv p, ?_⟩, ?_⟩, ?_⟩, ?_⟩, ?_⟩
    · refine physicalDeviceCalls_refers p _ _ ?_
      show (⟨.inst, p.createInstance.handle⟩ : Obj) ∈ _
      simp
    · refine surfaceCalls_refers p w _ _ ?_
      show (⟨.inst, p.createInstance.handle⟩ : Obj) ∈ _
      simp
    · refine swapchainCalls_refers p w _ _ ?_ ?_
      · show (⟨.device, p.createDevice.handle⟩ : Obj) ∈ _
        simp
      · show (⟨.surface, p.createSurface.handle⟩ : Obj) ∈ _
        simp
    · refine renderPassCalls_refers p _ _ ?_
      show (⟨.device, p.createDevice.handle⟩ : Obj) ∈ _
      simp
    · refine framebufferCalls_refers p w _ _ ?_ ?_ ?_
      · show (⟨.device, p.createDevice.handle⟩ : Obj) ∈ _
        simp
      · show (⟨.renderPass, p.createRenderPass.handle⟩ : Obj) ∈ _
        simp
      · intro i hi
        have hi' : i < p.swapchainImagesWritten := hi
        have e := createState_imageViews_getD cfg p g i hi'
        have e' : (afterRenderPass cfg p g).m_bufferedFrameResource.imageViews.getD i 0
            = (p.createImageView i).handle := e
        rw [e']
        have hm : (⟨.imageView, (p.createImageView i).handle⟩ : Obj)
            ∈ (List.range p.swapchainImagesWritten).map
                (fun i => (⟨.imageView, (p.createImageView i).handle⟩ : Obj)) :=
          List.mem_map.mpr ⟨i, List.mem_range.mpr hi', rfl⟩
        simp only [List.mem_append, List.mem_cons, hm, or_true, true_or]
  · rw [RefersCreated.append_iff]
    refine ⟨shaderModuleCalls_refers p _ _ _ ?_, shaderModuleCalls_refers p _ _ _ ?_⟩
    · show (⟨.device, p.createDevice.handle⟩ : Obj) ∈ _
      simp
    · show (⟨.device, p.createDevice.handle⟩ : Obj) ∈ _
      simp

theorem createCalls_refers (cfg : Config) (gv : GlobalVariables) (p : InitPlatform)
    (w : Window) (g : GfxResources)
    (hv : (p.files g.c_vertexShader).isSome = true)
    (hf : (p.files g.c_fragmentShader).isSome = true) :
    RefersCreated [] (createCalls cfg gv p w g) := by
  have hbefore := callsBeforePipelineLayout_refers cfg gv p w g
  unfold callsBeforePipelineLayout at hbefore
  rw [RefersCreated.append_iff, List.nil_append, known_after_framebuffers] at hbefore
  unfold createCalls
  rw [RefersCreated.append_iff, RefersCreated.append_iff, RefersCreated.append_iff,
    List.nil_append, known_after_framebuffers]
  refine ⟨⟨⟨hbefore.1, ?_⟩, ?_⟩, ?_⟩
  · refine pipelineCalls_refers p w _ _ ?_ ?_ hv hf
    · show (⟨.device, p.createDevice.handle⟩ : Obj) ∈ _
      simp
    · show (⟨.renderPass, p.createRenderPass.handle⟩ : Obj) ∈ _
      simp
  · refine queueAndPoolCalls_refers p _ _ ?_
    show (⟨.device, p.createDevice.handle⟩ : Obj) ∈ _
    rw [createdObjects_append, known_after_framebuffers]
    simp
  · refine semaphoresCalls_refers p _ _ ?_
    show (⟨.device, p.createDevice.handle⟩ : Obj) ∈ _
    rw [createdObjects_append, createdObjects_append, known_after_framebuffers]
    simp

theorem shaderModule_created_sublist (p : InitPlatform) (device : Handle)
    (shaderFile : String) :
    List.Sublist (createdObjects (shaderModuleCalls p device shaderFile))
      [⟨.shaderModule, (p.createShaderModule shaderFile).handle⟩] := by
  unfold shaderModuleCalls
  split
  · exact List.Sublist.refl _
  · exact List.nil_sublist _

theorem createdObjects_createCalls_sublist (cfg : Config) (gv : GlobalVariables)
    (p : InitPlatform) (w : Window) (g : GfxResources) :
    List.Sublist (createdObjects (createCalls cfg gv p w g))
      (ownedInCreationOrder cfg p g p.swapchainImagesWritten) := by
  rw [createdObjects_createCalls]
  unfold ownedInCreationOrder
  refine List.Sublist.append (List.Sublist.append (List.Sublist.append ?_
    (List.Sublist.refl _)) (List.Sublist.refl _)) (List.Sublist.refl _)
  have key : ∀ (x sv sf : List Obj) (a b : Obj) (l : List Obj),
      List.Sublist sv [a] → List.Sublist sf [b] →
      List.Sublist (x ++ sv ++ sf ++ l) (x ++ (a :: b :: l)) := by
    intro x sv sf a b l h1 h2
    have e : x ++ (a :: b :: l) = x ++ [a] ++ [b] ++ l := by simp
    rw [e]
    exact List.Sublist.append (List.Sublist.append (List.Sublist.append
      (List.Sublist.refl _) h1) h2) (List.Sublist.refl _)
  exact key _ _ _ _ _ _ (shaderModule_created_sublist p _ _)
    (shaderModule_created_sublist p _ _)

theorem render_returns_of_success (cfg : Config) (p : FramePlatform) (w : Window)
    (g : GfxResources) (hs : p.allSuccess) (hslot : SlotExists g p.imageIndex) :
    (Renderer.render cfg p w g).outcome = .ok (g.withBufferIndex p.imageIndex)
      ∧ (Renderer.render cfg p w g).calls = slotCalls w g p.imageIndex := by
  obtain ⟨h1, h2, h3, h4, h5, h6, h7, h8⟩ := hs
  obtain ⟨fb, hfb⟩ := slot_of_getElem? hslot.2.1
  obtain ⟨cb, hcb⟩ := slot_of_getElem? hslot.2.2.1
  obtain ⟨f, hf⟩ := slot_of_getElem? hslot.2.2.2
  have h := render_eq_of_slot cfg p w g fb cb f hfb hcb hf
  have hns : ¬ frameStopped cfg p g := by
    unfold frameStopped
    have := hslot.1
    simp_all
  have hout : (Renderer.render cfg p w g).outcome = .ok (g.withBufferIndex p.imageIndex) := by
    rw [h.2, if_neg hns]
  exact ⟨hout, (render_ok cfg p w g _ hout).2⟩

theorem renderFrames_calls_ok (cfg : Config) (frames : List (FramePlatform × Window)) :
    ∀ (g s : GfxResources), (renderFrames cfg frames g).outcome = .ok s →
      (renderFrames cfg frames g).calls
        = frames.flatMap (fun fr => slotCalls fr.2 g fr.1.imageIndex) := by
  induction frames with
  | nil =>
    intro g s _
    rfl
  | cons fr rest ih =>
    intro g s h
    obtain ⟨s1, h1, h2, hc, -⟩ := bind_ok_inv _ _ _ h
    have e1 := render_ok cfg fr.1 fr.2 g s1 h1
    have e2 := ih s1 s h2
    have hb : (renderFrames cfg (fr :: rest) g).calls
        = (Renderer.render cfg fr.1 fr.2 g).calls ++ (renderFrames cfg rest s1).calls := hc
    rw [hb, e2, e1.2, e1.1, List.flatMap_cons]
    rfl

theorem renderFrames_returns_of_success (cfg : Config)
    (frames : List (FramePlatform × Window)) :
    ∀ (g : GfxResources),
      (∀ fr ∈ frames, fr.1.allSuccess ∧ SlotExists g fr.1.imageIndex) →
      ∃ s, (renderFrames cfg frames g).outcome = .ok s := by
  induction frames with
  | nil =>
    intro g _
    exact ⟨g, rfl⟩
  | cons fr rest ih =>
    intro g hall
    obtain ⟨hs, hslot⟩ := hall fr (List.mem_cons_self _ _)
    have h1 := (render_returns_of_success cfg fr.1 fr.2 g hs hslot).1
    obtain ⟨s, hs'⟩ := ih (g.withBufferIndex fr.1.imageIndex)
      (fun fr' hfr' => hall fr' (List.mem_cons_of_mem _ hfr'))
    refine ⟨s, ?_⟩
    have hb : (renderFrames cfg (fr :: rest) g)
        = Exec.bind (Renderer.render cfg fr.1 fr.2 g) (renderFrames cfg rest) := rfl
    rw [hb, (calls_bind_of_ok _ _ _ h1).2.2]
    exact hs'

theorem slotCalls_flatMap_semaphores (w : Window) (g : GfxResources) (i : Nat) :
    (slotCalls w g i).flatMap Call.semaphores
      = [g.m_bufferedFrameResource.swapchainImageSemaphore,
         g.m_bufferedFrameResource.swapchainImageSemaphore,
         g.m_bufferedFrameResource.cmdBufferSubmitSemaphore,
         g.m_bufferedFrameResource.cmdBufferSubmitSemaphore] := by
  rfl

theorem render_first_call (cfg : Config) (p : FramePlatform) (w : Window)
    (g : GfxResources) :
    (Renderer.render cfg p w g).calls[0]?
      = some (.vkAcquireNextImageKHR g.m_device g.m_swapchain 0
          g.m_bufferedFrameResource.swapchainImageSemaphore 0) := by
  obtain ⟨m, _, hm0, hm⟩ := render_calls_take cfg p w g
  rw [hm, List.getElem?_take, if_pos hm0]
  rfl

/-- Against C2: in a build without assertions the status of the wait is not looked at.
With the wait on the fence of slot 1 timing out, the frame goes on: its third call resets
the command buffer of slot 1, the recording follows, and the frame returns after all
twelve calls. So a command buffer is reset and recorded although the wait on the fence of
its slot has not returned success. -/
theorem release_frame_records_after_failed_wait :
    sampleRelease.assertsEnabled = false
      ∧ sampleWaitTimesOut.waitForFences ≠ VK_SUCCESS
      ∧ (Renderer.render sampleRelease sampleWaitTimesOut sampleWindow sampleResources).calls[1]?
          = some (.vkWaitForFences 3 [51] VK_TRUE 1000000000)
      ∧ (Renderer.render sampleRelease sampleWaitTimesOut sampleWindow sampleResources).calls[2]?
          = some (.vkResetCommandBuffer 41 0)
      ∧ (Call.vkResetCommandBuffer 41 0).recordsInto = some 41
      ∧ (Renderer.render sampleRelease sampleWaitTimesOut sampleWindow
            sampleResources).calls.length = 12
      ∧ (Renderer.render sampleRelease sampleWaitTimesOut sampleWindow sampleResources).outcome
          = .ok (sampleResources.withBufferIndex 1)
      ∧ ¬ (∀ (cfg : Config) (p : FramePlatform) (w : Window) (g : GfxResources) (k : Nat)
            (c : Call) (cb : Handle),
            (Renderer.render cfg p w g).calls[k]? = some c → c.recordsInto = some cb →
            p.waitForFences = VK_SUCCESS) := by
  refine ⟨rfl, by decide, rfl, rfl, rfl, rfl, rfl, fun h => ?_⟩
  have h1 := h sampleRelease sampleWaitTimesOut sampleWindow sampleResources 2
    (.vkResetCommandBuffer 41 0) 41 rfl rfl
  exact absurd h1 (by decide)

/-- C17: in every frame the first call is the acquire, which signals the image-acquired
semaphore of the state and no fence; a submit is on the state's queue, waits on exactly
that semaphore at the colour-attachment-output stage, submits exactly the command buffer
of the acquired slot and signals exactly the submission-complete semaphore and the
acquired slot's fence; a present is on the same queue, waits on exactly the
submission-complete semaphore and presents the acquired index on the one swapchain. A
frame that returns has issued the three of them, as its calls 0, 10 and 11 of twelve, and
a frame in which every call succeeds on an index that names a slot returns. -/
theorem render_sync_chain (cfg : Config) (p : FramePlatform) (w : Window)
    (g : GfxResources) :
    (Renderer.render cfg p w g).calls[0]?
        = some (.vkAcquireNextImageKHR g.m_device g.m_swapchain 0
            g.m_bufferedFrameResource.swapchainImageSemaphore 0)
      ∧ (∀ c ∈ (Renderer.render cfg p w g).calls,
        (∀ d sc t sem f, c = .vkAcquireNextImageKHR d sc t sem f →
          d = g.m_device ∧ sc = g.m_swapchain
            ∧ sem = g.m_bufferedFrameResource.swapchainImageSemaphore ∧ f = 0)
        ∧ (∀ q ws st cbs ss f, c = .vkQueueSubmit q ws st cbs ss f →
          q = g.m_queue ∧ ws = [g.m_bufferedFrameResource.swapchainImageSemaphore]
            ∧ st = [VK_PIPELINE_STAGE_COLOR_ATTACHMENT_OUTPUT_BIT]
            ∧ cbs = [g.m_bufferedFrameResource.commandBuffers.getD p.imageIndex 0]
            ∧ ss = [g.m_bufferedFrameResource.cmdBufferSubmitSemaphore]
            ∧ f = g.m_bufferedFrameResource.commandBufferFences.getD p.imageIndex 0)
        ∧ (∀ q ws scs idxs, c = .vkQueuePresentKHR q ws scs idxs →
          q = g.m_queue ∧ ws = [g.m_bufferedFrameResource.cmdBufferSubmitSemaphore]
            ∧ scs = [g.m_swapchain] ∧ idxs = [p.imageIndex]))
      ∧ (∀ s, (Renderer.render cfg p w g).outcome = .ok s →
          (Renderer.render cfg p w g).calls[10]?
              = some (.vkQueueSubmit g.m_queue
                  [g.m_bufferedFrameResource.swapchainImageSemaphore]
                  [VK_PIPELINE_STAGE_COLOR_ATTACHMENT_OUTPUT_BIT]
                  [g.m_bufferedFrameResource.commandBuffers.getD p.imageIndex 0]
                  [g.m_bufferedFrameResource.cmdBufferSubmitSemaphore]
                  (g.m_bufferedFrameResource.commandBufferFences.getD p.imageIndex 0))
          ∧ (Renderer.render cfg p w g).calls[11]?
              = some (.vkQueuePresentKHR g.m_queue
                  [g.m_bufferedFrameResource.cmdBufferSubmitSemaphore] [g.m_swapchain]
                  [p.imageIndex])
          ∧ (Renderer.render cfg p w g).calls.length = 12)
      ∧ (p.allSuccess → SlotExists g p.imageIndex →
          (Renderer.render cfg p w g).outcome = .ok (g.withBufferIndex p.imageIndex)) := by
  refine ⟨render_first_call cfg p w g, ?_, ?_,
    fun hs hslot => (render_returns_of_success cfg p w g hs hslot).1⟩
  · intro c hc
    have hmem := render_calls_mem cfg p w g c hc
    simp only [slotCalls, frameCalls, List.mem_cons, List.mem_singleton, List.not_mem_nil,
      or_false] at hmem
    rcases hmem with h | h | h | h | h | h | h | h | h | h | h | h <;> subst h <;>
      refine ⟨fun d sc t sem f h => ?_, fun q ws st cbs ss f h => ?_,
        fun q ws scs idxs h => ?_⟩ <;>
      first
        | (simp at h
           done)
        | (injection h
           subst_vars
           simp)
  · intro s hs
    rw [(render_ok cfg p w g s hs).2]
    exact ⟨rfl, rfl, rfl⟩

theorem render_sync_chain_witness :
    (Renderer.render sampleConfig sampleFramePlatform sampleWindow sampleResources).calls[0]?
        = some (.vkAcquireNextImageKHR 3 5 0 60 0)
      ∧ (Renderer.render sampleConfig sampleFramePlatform sampleWindow sampleResources).outcome
          = .ok (sampleResources.withBufferIndex 1)
      ∧ (Renderer.render sampleConfig sampleFramePlatform sampleWindow sampleResources).calls[10]?
          = some (.vkQueueSubmit 12 [60] [VK_PIPELINE_STAGE_COLOR_ATTACHMENT_OUTPUT_BIT] [41]
              [61] 51)
      ∧ (Renderer.render sampleConfig sampleFramePlatform sampleWindow sampleResources).calls[11]?
          = some (.vkQueuePresentKHR 12 [61] [5] [1]) :=
  ⟨(render_sync_chain sampleConfig sampleFramePlatform sampleWindow sampleResources).1,
    (render_sync_chain sampleConfig sampleFramePlatform sampleWindow sampleResources).2.2.2
      sampleFramePlatform_allSuccess sample_slotExists,
    ((render_sync_chain sampleConfig sampleFramePlatform sampleWindow sampleResources).2.2.1
      (sampleResources.withBufferIndex 1) rfl).1,
    ((render_sync_chain sampleConfig sampleFramePlatform sampleWindow sampleResources).2.2.1
      (sampleResources.withBufferIndex 1) rfl).2.1⟩

/-- C16: whatever image count `n` the platform grants, a `create` that returns has made
exactly two semaphores, the image-acquired and the submission-complete one, and stored
them. Every frame rendered on that state starts with the acquire that signals the first
of them; in any number of frames every semaphore a call names is one of that pair,
whatever index is acquired, and no call of a frame creates or destroys an object; frames
that return name, each of them, the first semaphore in the acquire and as the one the
submit waits on, and the second as the one the submit signals and the present waits on,
and leave the same two semaphores in the state; and frames in which every call succeeds
on indices that name a slot do return. -/
theorem two_semaphores_shared (cfg : Config) (gv : GlobalVariables) (p : InitPlatform)
    (w : Window) (g s : GfxResources)
    (h : (GfxResources.create cfg gv p w g).outcome = .ok s) :
    objectsOfKind .semaphore (createdObjects (GfxResources.create cfg gv p w g).calls)
        = [⟨.semaphore, p.createSwapchainImageSemaphore.handle⟩,
           ⟨.semaphore, p.createCmdBufferSubmitSemaphore.handle⟩]
      ∧ s.m_bufferedFrameResource.swapchainImageSemaphore
          = p.createSwapchainImageSemaphore.handle
      ∧ s.m_bufferedFrameResource.cmdBufferSubmitSemaphore
          = p.createCmdBufferSubmitSemaphore.handle
      ∧ (∀ (frames : List (FramePlatform × Window)),
          (∀ c ∈ (renderFrames cfg frames s).calls,
            c.creates = [] ∧ c.destroys = []
              ∧ ∀ x ∈ c.semaphores, x = p.createSwapchainImageSemaphore.handle
                  ∨ x = p.createCmdBufferSubmitSemaphore.handle)
          ∧ (∀ s', (renderFrames cfg frames s).outcome = .ok s' →
              s'.m_bufferedFrameResource.swapchainImageSemaphore
                  = p.createSwapchainImageSemaphore.handle
              ∧ s'.m_bufferedFrameResource.cmdBufferSubmitSemaphore
                  = p.createCmdBufferSubmitSemaphore.handle
              ∧ (renderFrames cfg frames s).calls.flatMap Call.semaphores
                  = frames.flatMap (fun _ =>
                      [p.createSwapchainImageSemaphore.handle,
                       p.createSwapchainImageSemaphore.handle,
                       p.createCmdBufferSubmitSemaphore.handle,
                       p.createCmdBufferSubmitSemaphore.handle]))
          ∧ ((∀ fr ∈ frames, fr.1.allSuccess ∧ SlotExists s fr.1.imageIndex) →
              ∃ s', (renderFrames cfg frames s).outcome = .ok s'))
      ∧ (∀ (fp : FramePlatform) (w' : Window),
          (Renderer.render cfg fp w' s).calls[0]?
            = some (.vkAcquireNextImageKHR p.createDevice.handle p.createSwapchain.handle 0
                p.createSwapchainImageSemaphore.handle 0)) := by
  obtain ⟨hst, hcalls, -⟩ := create_ok cfg gv p w g s h
  have hf := createState_fields cfg p g
  have h1 : s.m_bufferedFrameResource.swapchainImageSemaphore
      = p.createSwapchainImageSemaphore.handle := by rw [hst]; exact hf.2.2.2.1
  have h2 : s.m_bufferedFrameResource.cmdBufferSubmitSemaphore
      = p.createCmdBufferSubmitSemaphore.handle := by rw [hst]; exact hf.2.2.2.2.1
  refine ⟨by rw [hcalls]; exact semaphores_created cfg gv p w g, h1, h2,
    fun frames => ⟨?_, ?_, renderFrames_returns_of_success cfg frames s⟩, fun fp w' => ?_⟩
  · intro c hc
    obtain ⟨fr, _, hmem⟩ := renderFrames_calls_mem cfg frames s c hc
    have := slotCalls_semaphores fr.2 s fr.1.imageIndex c hmem
    rw [h1, h2] at this
    exact this
  · intro s' hs'
    refine ⟨?_, ?_, ?_⟩
    · rw [renderFrames_ok cfg frames s s' hs']; exact h1
    · rw [renderFrames_ok cfg frames s s' hs']; exact h2
    · rw [renderFrames_calls_ok cfg frames s s' hs', List.flatMap_assoc]
      simp only [slotCalls_flatMap_semaphores, h1, h2]
  · rw [render_first_call cfg fp w' s, h1, hst]
    rfl

theorem two_semaphores_shared_witness :
    (GfxResources.create sampleConfig sampleGlobals sampleInit sampleWindow {}).outcome
        = .ok (createState sampleConfig sampleInit {})
      ∧ objectsOfKind .semaphore
          (createdObjects
            (GfxResources.create sampleConfig sampleGlobals sampleInit sampleWindow {}).calls)
        = [⟨.semaphore, 111⟩, ⟨.semaphore, 112⟩]
      ∧ (renderFrames sampleConfig sampleFrames (createState sampleConfig sampleInit {})).outcome
        = .ok ((createState sampleConfig sampleInit {}).withBufferIndex 0)
      ∧ (renderFrames sampleConfig sampleFrames
            (createState sampleConfig sampleInit {})).calls.flatMap Call.semaphores
        = [111, 111, 112, 112, 111, 111, 112, 112]
      ∧ (Renderer.render sampleConfig sampleFramePlatform sampleWindow
            (createState sampleConfig sampleInit {})).calls[0]?
        = some (.vkAcquireNextImageKHR 103 105 0 111 0) :=
  ⟨sample_create_returns,
    (two_semaphores_shared sampleConfig sampleGlobals sampleInit sampleWindow {}
      (createState sampleConfig sampleInit {}) sample_create_returns).1,
    rfl,
    ((((two_semaphores_shared sampleConfig sampleGlobals sampleInit sampleWindow {}
      (createState sampleConfig sampleInit {}) sample_create_returns).2.2.2.1
        sampleFrames).2.1) _ rfl).2.2,
    (two_semaphores_shared sampleConfig sampleGlobals sampleInit sampleWindow {}
      (createState sampleConfig sampleInit {}) sample_create_returns).2.2.2.2
        sampleFramePlatform sampleWindow⟩

/-- C14: in a build with assertions, when no capable device is found, `create` ends by
assertion before it creates a logical device: `vkCreateDevice` is never called. No capable
device means that the platform enumerates no physical device, or that no queue family
reported for the device in use advertises graphics capability; a platform that enumerates
no device has no queue family to report for the null handle the queries are then made
with (`hlaw`). When the calls before the selection succeed, the run ends at
`assert(m_queueFamilyIndex != ~0u)`, right after the two queue-family queries. -/
theorem create_stops_without_capable_device (cfg : Config) (gv : GlobalVariables)
    (p : InitPlatform) (w : Window) (g : GfxResources) (ha : cfg.assertsEnabled = true)
    (hsent : g.m_queueFamilyIndex = 2 ^ 32 - 1)
    (hlaw : p.physicalDevices = [] → p.queueFamilyProperties = [])
    (hcap : p.physicalDevices = []
      ∨ ∀ i, i < p.queueFamilyProperties.length →
          p.queueFamilyProperties.getD i 0 &&& VK_QUEUE_GRAPHICS_BIT = 0) :
    (GfxResources.create cfg gv p w g).outcome = .assertFailed
      ∧ (∀ c ∈ (GfxResources.create cfg gv p w g).calls, c.name ≠ "vkCreateDevice")
      ∧ (p.physicalDevices = [] →
          ∀ c ∈ (GfxResources.create cfg gv p w g).calls,
            ∀ d, c = .vkGetPhysicalDeviceProperties d → d = g.m_physicalDevice)
      ∧ (p.createInstance.result = VK_SUCCESS →
          (cfg.debugValidation = true →
            p.hasCreateDebugReportCallback = true ∧ p.hasDestroyDebugReportCallback = true
              ∧ p.createDebugReportCallback.result = VK_SUCCESS) →
          p.enumeratePhysicalDevices = VK_SUCCESS →
          (GfxResources.create cfg gv p w g).calls
            = instanceCalls cfg gv p
              ++ [ .vkEnumeratePhysicalDevices p.createInstance.handle 1,
                   .vkGetPhysicalDeviceProperties
                     ((p.physicalDevices.take 1).headD g.m_physicalDevice),
                   .vkGetPhysicalDeviceQueueFamilyProperties
                     ((p.physicalDevices.take 1).headD g.m_physicalDevice) 0 false,
                   .vkGetPhysicalDeviceQueueFamilyProperties
                     ((p.physicalDevices.take 1).headD g.m_physicalDevice)
                     p.queueFamilyProperties.length true ]) := by
  have hnone : ∀ i, i < p.queueFamilyProperties.length →
      p.queueFamilyProperties.getD i 0 &&& VK_QUEUE_GRAPHICS_BIT = 0 := by
    rcases hcap with h | h
    · intro i hi
      rw [hlaw h] at hi
      exact absurd hi (Nat.not_lt_zero i)
    · exact h
  obtain ⟨hcalls, _, hout⟩ := create_calls_steps cfg gv p w g
  have hsel : (physicalDeviceState p (afterInstance cfg p g)).m_queueFamilyIndex
      = 2 ^ 32 - 1 := by
    show firstGraphicsFrom _ _ 0 g.m_queueFamilyIndex = _
    rw [hsent]
    exact firstGraphicsFrom_none _ _ _ 0 (fun j _ hj => hnone j (by omega))
  have hstop : (Step.require (decide
      ((physicalDeviceState p (afterInstance cfg p g)).m_queueFamilyIndex ≠ 2 ^ 32 - 1))).stops
      cfg = true := by
    simp [Step.stops, ha, hsel]
  have hsplit : createSteps cfg gv p w g
      = (instanceSteps cfg gv p
          ++ ([ .call (.vkEnumeratePhysicalDevices (afterInstance cfg p g).m_instance 1),
                .check p.enumeratePhysicalDevices,
                .call (.vkGetPhysicalDeviceProperties
                  (physicalDeviceState p (afterInstance cfg p g)).m_physicalDevice),
                .call (.vkGetPhysicalDeviceQueueFamilyProperties
                  (physicalDeviceState p (afterInstance cfg p g)).m_physicalDevice 0 false),
                .call (.vkGetPhysicalDeviceQueueFamilyProperties
                  (physicalDeviceState p (afterInstance cfg p g)).m_physicalDevice
                  p.queueFamilyProperties.length true) ]
              ++ (searchAccesses p.queueFamilyProperties
                    p.queueFamilyProperties.length 0).map Step.access))
        ++ Step.require (decide
            ((physicalDeviceState p (afterInstance cfg p g)).m_queueFamilyIndex ≠ 2 ^ 32 - 1))
          :: ([ .call (.vkCreateDevice
                  (physicalDeviceState p (afterInstance cfg p g)).m_physicalDevice
                  (physicalDeviceState p (afterInstance cfg p g)).m_queueFamilyIndex 1
                  ["VK_KHR_swapchain"] p.createDevice.handle),
                .check p.createDevice.result ]
              ++ (surfaceSteps p w (afterPhysicalDevice cfg p g)
              ++ (swapchainSteps p w (afterSurface cfg p g)
              ++ (renderPassSteps p (afterSwapchain cfg p g)
              ++ (framebuffersSteps p w (afterRenderPass cfg p g)
              ++ (pipelineSteps p w (afterFramebuffer cfg p g)
              ++ (queueAndPoolSteps p (afterPipeline cfg p g)
              ++ semaphoresSteps p (afterQueueAndPool cfg p g)))))))) := by
    simp [createSteps, physicalDeviceSteps, List.append_assoc]
  have hacc : ∀ x ∈ instanceSteps cfg gv p
      ++ ([ .call (.vkEnumeratePhysicalDevices (afterInstance cfg p g).m_instance 1),
            .check p.enumeratePhysicalDevices,
            .call (.vkGetPhysicalDeviceProperties
              (physicalDeviceState p (afterInstance cfg p g)).m_physicalDevice),
            .call (.vkGetPhysicalDeviceQueueFamilyProperties
              (physicalDeviceState p (afterInstance cfg p g)).m_physicalDevice 0 false),
            .call (.vkGetPhysicalDeviceQueueFamilyProperties
              (physicalDeviceState p (afterInstance cfg p g)).m_physicalDevice
              p.queueFamilyProperties.length true) ]
          ++ (searchAccesses p.queueFamilyProperties
                p.queueFamilyProperties.length 0).map Step.access),
      ∀ a, x = .access a → a.index < a.size := by
    intro x hx a hxa
    subst hxa
    simp only [List.mem_append, List.mem_cons, List.mem_singleton, List.mem_map,
      List.not_mem_nil, or_false] at hx
    rcases hx with h | (h | h | h | h | h) | ⟨b, hb, h⟩
    · unfold instanceSteps at h
      cases cfg.debugValidation <;> simp at h
    · exact absurd h (by simp)
    · exact absurd h (by simp)
    · exact absurd h (by simp)
    · exact absurd h (by simp)
    · exact absurd h (by simp)
    · injection h with h
      subst h
      exact (searchAccesses_within _ 0 _ 0 (by omega) b hb).1
  have hnames : ∀ c, Step.call c ∈ (instanceSteps cfg gv p
      ++ ([ .call (.vkEnumeratePhysicalDevices (afterInstance cfg p g).m_instance 1),
            .check p.enumeratePhysicalDevices,
            .call (.vkGetPhysicalDeviceProperties
              (physicalDeviceState p (afterInstance cfg p g)).m_physicalDevice),
            .call (.vkGetPhysicalDeviceQueueFamilyProperties
              (physicalDeviceState p (afterInstance cfg p g)).m_physicalDevice 0 false),
            .call (.vkGetPhysicalDeviceQueueFamilyProperties
              (physicalDeviceState p (afterInstance cfg p g)).m_physicalDevice
              p.queueFamilyProperties.length true) ]
          ++ (searchAccesses p.queueFamilyProperties
                p.queueFamilyProperties.length 0).map Step.access))
      ++ [Step.require (decide
            ((physicalDeviceState p (afterInstance cfg p g)).m_queueFamilyIndex
              ≠ 2 ^ 32 - 1))] →
      c.name ≠ "vkCreateDevice"
        ∧ ∀ d, c = .vkGetPhysicalDeviceProperties d →
            d = (physicalDeviceState p (afterInstance cfg p g)).m_physicalDevice := by
    intro c hc
    simp only [List.mem_append, List.mem_cons, List.mem_singleton, List.mem_map,
      List.not_mem_nil, or_false, Step.call.injEq] at hc
    rcases hc with (h | (h | h | h | h | h) | ⟨b, _, h⟩) | h
    · unfold instanceSteps at h
      rcases Bool.eq_false_or_eq_true cfg.debugValidation with hd | hd
      · simp [hd] at h
        rcases h with h | h | h | h <;> subst h <;> simp [Call.name]
      · simp [hd] at h
        subst h; simp [Call.name]
    · subst h; simp [Call.name]
    · exact absurd h (by simp)
    · subst h; simp [Call.name]
    · subst h; simp [Call.name]
    · subst h; simp [Call.name]
    · exact absurd h (by simp)
    · exact absurd h (by simp)
  have hcallsIn : ∀ c ∈ (GfxResources.create cfg gv p w g).calls,
      c.name ≠ "vkCreateDevice"
        ∧ ∀ d, c = .vkGetPhysicalDeviceProperties d →
            d = (physicalDeviceState p (afterInstance cfg p g)).m_physicalDevice := by
    intro c hc
    rw [hcalls, hsplit] at hc
    exact hnames c (calls_of_initial _ _ (stepsRun_of_stop cfg _ _ _ hstop) c hc)
  refine ⟨?_, fun c hc => (hcallsIn c hc).1, ?_, ?_⟩
  · have h := stepsOutcome_assertFailed cfg _
      ([ .call (.vkCreateDevice
            (physicalDeviceState p (afterInstance cfg p g)).m_physicalDevice
            (physicalDeviceState p (afterInstance cfg p g)).m_queueFamilyIndex 1
            ["VK_KHR_swapchain"] p.createDevice.handle),
          .check p.createDevice.result ]
        ++ (surfaceSteps p w (afterPhysicalDevice cfg p g)
        ++ (swapchainSteps p w (afterSurface cfg p g)
        ++ (renderPassSteps p (afterSwapchain cfg p g)
        ++ (framebuffersSteps p w (afterRenderPass cfg p g)
        ++ (pipelineSteps p w (afterFramebuffer cfg p g)
        ++ (queueAndPoolSteps p (afterPipeline cfg p g)
        ++ semaphoresSteps p (afterQueueAndPool cfg p g))))))))
      _ hacc hstop (fun a h => Step.noConfusion h)
    rw [← hsplit, ← hout] at h
    exact (Outcome.void_eq_assertFailed _).mp h
  · intro hdev c hc d hcd
    rw [(hcallsIn c hc).2 d hcd]
    show (p.physicalDevices.take 1).headD g.m_physicalDevice = _
    rw [hdev]
    rfl
  · intro hi hdbg he
    have hpre : ∀ x ∈ instanceSteps cfg gv p
        ++ ([ .call (.vkEnumeratePhysicalDevices (afterInstance cfg p g).m_instance 1),
              .check p.enumeratePhysicalDevices,
              .call (.vkGetPhysicalDeviceProperties
                (physicalDeviceState p (afterInstance cfg p g)).m_physicalDevice),
              .call (.vkGetPhysicalDeviceQueueFamilyProperties
                (physicalDeviceState p (afterInstance cfg p g)).m_physicalDevice 0 false),
              .call (.vkGetPhysicalDeviceQueueFamilyProperties
                (physicalDeviceState p (afterInstance cfg p g)).m_physicalDevice
                p.queueFamilyProperties.length true) ]
            ++ (searchAccesses p.queueFamilyProperties
                  p.queueFamilyProperties.length 0).map Step.access),
        x.stops cfg = false := by
      intro x hx
      cases x with
      | call c => rfl
      | access a =>
        have := hacc _ hx a rfl
        simp only [Step.stops, decide_eq_false_iff_not, not_le]
        exact this
      | check r =>
        simp only [List.mem_append, List.mem_cons, List.mem_singleton, List.mem_map,
          List.not_mem_nil, or_false, reduceCtorEq, false_or, or_false, and_false,
          exists_false, Step.check.injEq] at hx
        rcases hx with h | h
        · unfold instanceSteps at h
          rcases Bool.eq_false_or_eq_true cfg.debugValidation with hd | hd
          · simp [hd] at h
            rcases h with h | h <;> subst h
            · simp [Step.stops, hi]
            · simp [Step.stops, (hdbg hd).2.2]
          · simp [hd] at h
            subst h
            simp [Step.stops, hi]
        · subst h
          simp [Step.stops, he]
      | require b =>
        simp only [List.mem_append, List.mem_cons, List.mem_singleton, List.mem_map,
          List.not_mem_nil, or_false, reduceCtorEq, false_or, or_false, and_false,
          exists_false] at hx
        unfold instanceSteps at hx
        rcases Bool.eq_false_or_eq_true cfg.debugValidation with hd | hd
        · simp [hd] at hx
          rcases hx with h | h <;> subst h
          · simp [Step.stops, (hdbg hd).1]
          · simp [Step.stops, (hdbg hd).2.1]
        · simp [hd] at hx
    have hrun := ((create_stopped_at cfg gv p w g _ _ _ hsplit hstop).2.2 hpre).2
    rw [hrun]
    simp only [List.flatMap_append, instanceSteps_calls, flatMap_calls_map_access,
      List.flatMap_cons, List.flatMap_nil, Step.calls, List.append_nil, List.nil_append,
      List.singleton_append, List.cons_append]
    rfl

theorem create_stops_without_capable_device_witness :
    sampleConfig.assertsEnabled = true ∧ GfxResources.m_queueFamilyIndex {} = 2 ^ 32 - 1
      ∧ sampleNoDevice.physicalDevices = [] ∧ sampleNoDevice.queueFamilyProperties = []
      ∧ (GfxResources.create sampleConfig sampleGlobals sampleNoDevice sampleWindow {}).outcome
          = .assertFailed
      ∧ (GfxResources.create sampleConfig sampleGlobals sampleNoDevice sampleWindow {}).calls
          = [ .vkCreateInstance "Vulkan Triangle" "Dummy Engine"
                ["VK_LAYER_LUNARG_standard_validation"]
                ["VK_KHR_surface", "VK_KHR_win32_surface", "VK_EXT_debug_report"] 100,
              .vkGetInstanceProcAddr 100 "vkCreateDebugReportCallbackEXT",
              .vkGetInstanceProcAddr 100 "vkDestroyDebugReportCallbackEXT",
              .fvkCreateDebugReportCallbackEXT 100 VK_DEBUG_REPORT_FLAGS 101,
              .vkEnumeratePhysicalDevices 100 1,
              .vkGetPhysicalDeviceProperties 0,
              .vkGetPhysicalDeviceQueueFamilyProperties 0 0 false,
              .vkGetPhysicalDeviceQueueFamilyProperties 0 0 true ]
      ∧ (GfxResources.create sampleConfig sampleGlobals
            { sampleInit with queueFamilyProperties := [2, 4] } sampleWindow {}).outcome
          = .assertFailed
      ∧ (GfxResources.create sampleConfig sampleGlobals
            { sampleInit with queueFamilyProperties := [2, 4] } sampleWindow {}).calls.length
          = 8 :=
  ⟨rfl, rfl, rfl, rfl,
    (create_stops_without_capable_device sampleConfig sampleGlobals sampleNoDevice sampleWindow
      {} rfl rfl (fun _ => rfl) (Or.inl rfl)).1,
    (create_stops_without_capable_device sampleConfig sampleGlobals sampleNoDevice sampleWindow
      {} rfl rfl (fun _ => rfl) (Or.inl rfl)).2.2.2 rfl (fun _ => ⟨rfl, rfl, rfl⟩) rfl,
    (create_stops_without_capable_device sampleConfig sampleGlobals
      { sampleInit with queueFamilyProperties := [2, 4] } sampleWindow {} rfl rfl
      (fun h => absurd h (by decide))
      (Or.inr (fun i hi => by
        have h2 : i < 2 := hi
        match i, h2 with
        | 0, _ => rfl
        | 1, _ => rfl))).1,
    rfl⟩

theorem stepsRun_append_of_no_stop (cfg : Config) (pre rest : List Step)
    (hpre : ∀ x ∈ pre, x.stops cfg = false) :
    stepsRun cfg (pre ++ rest) = pre ++ stepsRun cfg rest := by
  induction pre with
  | nil => rfl
  | cons x t ih =>
    show stepsRun cfg (x :: (t ++ rest)) = x :: (t ++ stepsRun cfg rest)
    rw [stepsRun_cons cfg x _ (hpre x (List.mem_cons_self _ _)),
      ih (fun y hy => hpre y (List.mem_cons_of_mem _ hy))]

theorem createSteps_check_success (cfg : Config) (gv : GlobalVariables) (p : InitPlatform)
    (w : Window) (g : GfxResources) (hs : p.allSuccess g) (r : VkResult)
    (h : Step.check r ∈ createSteps cfg gv p w g) : r = VK_SUCCESS := by
  obtain ⟨a1, a2, a3, a4, a5, a6, a7, a8, a9, a10, a11, a12, a13, a14, a15, a16, a17, a18,
    a19, a20, a21, a22, a23, a24, a25, a26, a27, a28⟩ := hs
  rw [mem_createSteps] at h
  rcases h with h | h | h | h | h | h | h | h | h
  · unfold instanceSteps at h
    rcases Bool.eq_false_or_eq_true cfg.debugValidation with hd | hd
    · simp [hd] at h
      rcases h with h | h <;> subst h <;> assumption
    · simp [hd] at h
      subst h; assumption
  · simp [physicalDeviceSteps] at h
    rcases h with h | h <;> subst h <;> assumption
  · simp [surfaceSteps] at h
    subst h; assumption
  · simp only [swapchainSteps, swapchainSetupSteps, imageViewSteps, List.mem_append,
      List.mem_cons, List.mem_flatMap, List.mem_singleton, List.not_mem_nil, or_false,
      reduceCtorEq, false_or, Step.check.injEq, List.mem_range] at h
    rcases h with (h | h | h | h | h | h | h | h | h) | ⟨i, -, h⟩
    all_goals subst h
    all_goals first | assumption | exact a15 _
  · simp [renderPassSteps, renderPassCalls] at h
    subst h; assumption
  · simp only [framebuffersSteps, framebufferSteps, List.mem_flatMap, List.mem_cons,
      List.mem_singleton, List.not_mem_nil, or_false, reduceCtorEq, false_or,
      Step.check.injEq, List.mem_range] at h
    obtain ⟨i, -, h⟩ := h
    subst h
    exact a17 _
  · have e1 : (afterFramebuffer cfg p g).c_vertexShader = g.c_vertexShader := rfl
    have e2 : (afterFramebuffer cfg p g).c_fragmentShader = g.c_fragmentShader := rfl
    simp only [pipelineSteps, shaderModuleSteps, e1, e2, List.mem_append, List.mem_cons,
      List.mem_singleton, List.not_mem_nil, or_false, reduceCtorEq, false_or,
      Step.check.injEq] at h
    rcases h with (h | h) | h
    · split at h
      · simp at h; subst h; assumption
      · simp at h
    · split at h
      · simp at h; subst h; assumption
      · simp at h
    · rcases h with h | h <;> subst h <;> assumption
  · simp only [queueAndPoolSteps, fenceSteps, List.mem_append, List.mem_cons,
      List.mem_flatMap, List.mem_singleton, List.not_mem_nil, or_false, reduceCtorEq,
      false_or, Step.check.injEq, List.mem_range] at h
    rcases h with (h | h) | ⟨i, -, h⟩
    all_goals subst h
    all_goals first | assumption | exact a26 _
  · simp [semaphoresSteps] at h
    rcases h with h | h <;> subst h <;> assumption

theorem createSteps_require_true (cfg : Config) (gv : GlobalVariables) (p : InitPlatform)
    (w : Window) (g : GfxResources) (hs : p.allSuccess g) (hr : p.requirementsMet cfg g)
    (b : Bool) (h : Step.require b ∈ createSteps cfg gv p w g) : b = true := by
  obtain ⟨r1, r2, r3, r4, r5, r6, r7, r8, r9, -⟩ := hr
  have hf1 := hs.2.2.2.2.2.2.2.2.2.2.2.2.2.2.2.2.2.1
  have hf2 := hs.2.2.2.2.2.2.2.2.2.2.2.2.2.2.2.2.2.2.1
  rw [mem_createSteps] at h
  rcases h with h | h | h | h | h | h | h | h | h
  · unfold instanceSteps at h
    rcases Bool.eq_false_or_eq_true cfg.debugValidation with hd | hd
    · simp [hd] at h
      rcases h with h | h <;> subst h
      · exact (r1 hd).1
      · exact (r1 hd).2
    · simp [hd] at h
  · simp [physicalDeviceSteps] at h
    subst h
    have r2' : (physicalDeviceState p (afterInstance cfg p g)).m_queueFamilyIndex
        ≠ 2 ^ 32 - 1 := r2
    simpa using r2'
  · simp [surfaceSteps] at h
    subst h
    simpa using r3
  · simp only [swapchainSteps, swapchainSetupSteps, imageViewSteps, List.mem_append,
      List.mem_cons, List.mem_flatMap, List.mem_singleton, List.not_mem_nil, or_false,
      reduceCtorEq, false_or, Step.require.injEq, List.mem_range, and_false,
      exists_false] at h
    rcases h with h | h | h
    · subst h; simpa using List.length_pos.mpr r4
    · subst h; simpa using List.length_pos.mpr r5
    · subst h; simpa using r6
  · simp [renderPassSteps, renderPassCalls] at h
  · simp only [framebuffersSteps, framebufferSteps, List.mem_flatMap, List.mem_cons,
      List.mem_singleton, List.not_mem_nil, or_false, reduceCtorEq, false_or,
      List.mem_range, and_false, exists_false] at h
  · have e1 : (afterFramebuffer cfg p g).c_vertexShader = g.c_vertexShader := rfl
    have e2 : (afterFramebuffer cfg p g).c_fragmentShader = g.c_fragmentShader := rfl
    have e3 : (afterFramebuffer cfg p g).m_device = p.createDevice.handle := rfl
    simp only [pipelineSteps, shaderModuleSteps, e1, e2, e3, List.mem_append, List.mem_cons,
      List.mem_singleton, List.not_mem_nil, or_false, reduceCtorEq, false_or,
      Step.require.injEq] at h
    rcases h with ((h | h) | h) | ((h | h) | h)
    · subst h; simpa using r7
    · subst h; exact hf1
    · split at h <;> simp at h
    · subst h; simpa using r7
    · subst h; exact hf2
    · split at h <;> simp at h
  · simp only [queueAndPoolSteps, fenceSteps, List.mem_append, List.mem_cons,
      List.mem_flatMap, List.mem_singleton, List.not_mem_nil, or_false, reduceCtorEq,
      false_or, Step.require.injEq, List.mem_range, and_false, exists_false] at h
    rcases h with h | h
    · subst h; simpa using r8
    · subst h; simpa using r9
  · simp [semaphoresSteps] at h

theorem create_returns_of_success (cfg : Config) (gv : GlobalVariables) (p : InitPlatform)
    (w : Window) (g : GfxResources) (hs : p.allSuccess g) (hr : p.requirementsMet cfg g) :
    (GfxResources.create cfg gv p w g).outcome = .ok (createState cfg p g) := by
  obtain ⟨_, _, hout⟩ := create_calls_steps cfg gv p w g
  have hok : stepsOutcome cfg (createSteps cfg gv p w g) = .ok () := by
    rw [stepsOutcome_ok_iff]
    intro s hmem
    cases s with
    | call c => rfl
    | check r =>
      rw [createSteps_check_success cfg gv p w g hs r hmem]
      simp [Step.stops]
    | require b =>
      rw [createSteps_require_true cfg gv p w g hs hr b hmem]
      simp [Step.stops]
    | access a =>
      have := (createSteps_access_within cfg gv p w g p.swapchainImagesWritten
        hr.2.2.2.2.2.2.2.2.2 rfl hr.2.2.2.1 hr.2.2.2.2.1 a hmem).1
      simp only [Step.stops, decide_eq_false_iff_not, not_le]
      exact this
  rw [hok] at hout
  obtain ⟨s, hs'⟩ := (Outcome.void_eq_ok _).mp hout
  rw [hs', (create_ok cfg gv p w g s hs').1]

theorem sampleInit_requirementsMet : sampleInit.requirementsMet sampleConfig {} := by
  refine ⟨fun _ => ⟨rfl, rfl⟩, by decide, by decide, by decide, by decide, rfl, by decide,
    by decide, by decide, rfl⟩

theorem swapchainCalls_seventh (p : InitPlatform) (w : Window) (self : GfxResources) :
    ∃ info, (swapchainCalls p w self)[6]?
          = some (.vkCreateSwapchainKHR self.m_device info p.createSwapchain.handle)
      ∧ info.imageFormat = (p.surfaceFormats.getD 0 (0, 0)).1
      ∧ info.imageColorSpace = (p.surfaceFormats.getD 0 (0, 0)).2
      ∧ info.presentMode = p.presentModes.getD 0 0 :=
  ⟨_, rfl, rfl, rfl, rfl⟩

/-- C21: `createSwapchain` takes the first reported surface format and the first reported
present mode: when both lists are non-empty, every swapchain it creates gets the format
and the colour space of the first format entry and the first present mode, the two lists
are read at index 0 only, a stage that returns has created the swapchain and stored that
format, and when the six queries before it pass their checks (or in a build without
assertions) the seventh call of the stage is that `vkCreateSwapchainKHR`. In a build with
assertions, an empty list of formats stops the stage by assertion with no vector read and
no swapchain created, and an empty list of present modes stops it by assertion with the
present modes not read and no swapchain created. -/
theorem createSwapchain_takes_first_entries (cfg : Config) (p : InitPlatform) (w : Window)
    (self : GfxResources) :
    (∀ (fmt : Nat × Nat) (fs : List (Nat × Nat)) (pm : Nat) (ps : List Nat),
        p.surfaceFormats = fmt :: fs → p.presentModes = pm :: ps →
        (∀ c ∈ (GfxResources.createSwapchain cfg p w self).calls, ∀ d info out,
            c = .vkCreateSwapchainKHR d info out →
            info.imageFormat = fmt.1 ∧ info.imageColorSpace = fmt.2 ∧ info.presentMode = pm)
          ∧ (∀ a ∈ (GfxResources.createSwapchain cfg p w self).accesses,
              a.vec = .surfaceFormats ∨ a.vec = .presentModes →
              a.index = 0 ∧ a.index < a.size)
          ∧ (∀ s', (GfxResources.createSwapchain cfg p w self).outcome = .ok s' →
              s'.m_swapChainImageformat = fmt.1
                ∧ ∃ d info out, Call.vkCreateSwapchainKHR d info out
                    ∈ (GfxResources.createSwapchain cfg p w self).calls)
          ∧ ((cfg.assertsEnabled = true →
                p.getSurfaceCapabilities = VK_SUCCESS ∧ p.getSurfaceFormatsCount = VK_SUCCESS
                  ∧ p.getSurfaceFormats = VK_SUCCESS ∧ p.getPresentModesCount = VK_SUCCESS
                  ∧ p.getPresentModes = VK_SUCCESS ∧ p.getSurfaceSupport = VK_SUCCESS
                  ∧ p.surfaceSupported = VK_TRUE) →
              ∃ info, (GfxResources.createSwapchain cfg p w self).calls[6]?
                    = some (.vkCreateSwapchainKHR self.m_device info p.createSwapchain.handle)
                ∧ info.imageFormat = fmt.1 ∧ info.imageColorSpace = fmt.2
                ∧ info.presentMode = pm))
      ∧ (cfg.assertsEnabled = true → p.surfaceFormats = [] →
          (GfxResources.createSwapchain cfg p w self).outcome = .assertFailed
            ∧ (GfxResources.createSwapchain cfg p w self).accesses = []
            ∧ (∀ c ∈ (GfxResources.createSwapchain cfg p w self).calls, ∀ d info out,
                c ≠ .vkCreateSwapchainKHR d info out))
      ∧ (cfg.assertsEnabled = true → p.presentModes = [] →
          (GfxResources.createSwapchain cfg p w self).outcome = .assertFailed
            ∧ (∀ a ∈ (GfxResources.createSwapchain cfg p w self).accesses,
                a.vec ≠ .presentModes)
            ∧ (∀ c ∈ (GfxResources.createSwapchain cfg p w self).calls, ∀ d info out,
                c ≠ .vkCreateSwapchainKHR d info out)) := by
  obtain ⟨hcalls, hacc, hout⟩ := run_of_steps cfg _ _ (createSwapchain_steps cfg p w self)
  -- the two assertions on the sizes of the lists
  have hsplitF := swapchainSteps_split p w self 6
    (.require (decide (p.surfaceFormats.length > 0))) rfl
  have hsplitM := swapchainSteps_split p w self 12
    (.require (decide (p.presentModes.length > 0))) rfl
  have hformats : cfg.assertsEnabled = true → p.surfaceFormats = [] →
      (GfxResources.createSwapchain cfg p w self).outcome = .assertFailed
        ∧ (GfxResources.createSwapchain cfg p w self).accesses = []
        ∧ (∀ c ∈ (GfxResources.createSwapchain cfg p w self).calls, ∀ d info out,
            c ≠ .vkCreateSwapchainKHR d info out) := by
    intro ha hf
    have hstop : (Step.require (decide (p.surfaceFormats.length > 0))).stops cfg = true := by
      simp [Step.stops, ha, hf]
    have hinit : stepsRun cfg (swapchainSteps p w self)
        <+: (swapchainSetupSteps p w self).take 6
          ++ [.require (decide (p.surfaceFormats.length > 0))] := by
      rw [hsplitF]
      exact stepsRun_of_stop cfg _ _ _ hstop
    refine ⟨?_, ?_, ?_⟩
    · rw [← Outcome.void_eq_assertFailed, hout, hsplitF]
      refine stepsOutcome_assertFailed cfg _ _ _ ?_ hstop (fun a h => Step.noConfusion h)
      intro x hx a hxa
      subst hxa
      simp [swapchainSetupSteps] at hx
    · rw [List.eq_nil_iff_forall_not_mem]
      intro a ha'
      rw [hacc] at ha'
      have := accesses_of_initial _ _ hinit a ha'
      simp [swapchainSetupSteps] at this
    · intro c hc d info out e
      subst e
      rw [hcalls] at hc
      have := calls_of_initial _ _ hinit _ hc
      simp [swapchainSetupSteps] at this
  refine ⟨?_, hformats, ?_⟩
  · intro fmt fs pm ps hf hm
    refine ⟨?_, ?_, ?_, ?_⟩
    · intro c hc d info out e
      subst e
      rw [hcalls] at hc
      obtain ⟨h1, h2, h3, -⟩ :=
        mem_swapchainSteps_call p w self d info out (mem_calls_stepsRun cfg _ _ hc)
      rw [hf] at h1 h2
      rw [hm] at h3
      exact ⟨h1, h2, h3⟩
    · intro a ha hv
      rw [hacc] at ha
      rcases mem_swapchainSteps_access p w self a (mem_accesses_stepsRun cfg _ _ ha) hv
        with h | h <;> subst h
      · simp [hf]
      · simp [hm]
    · intro s' hs'
      obtain ⟨hst, hc, -⟩ := createSwapchain_ok cfg p w self s' hs'
      refine ⟨?_, ?_⟩
      · rw [hst]
        show (p.surfaceFormats.getD 0 (0, 0)).1 = fmt.1
        rw [hf]; rfl
      · rw [hc]
        have hex : ∃ c, (swapchainCalls p w self)[6]? = some c
            ∧ ∃ d info out, c = Call.vkCreateSwapchainKHR d info out :=
          ⟨_, rfl, _, _, _, rfl⟩
        obtain ⟨c, hc6, d, info, out, e⟩ := hex
        exact ⟨d, info, out, e ▸ List.mem_iff_getElem?.mpr ⟨6, hc6⟩⟩
    · intro hpass
      have hsplitC := swapchainSteps_split p w self 17 _ rfl
      have hpre : ∀ x ∈ (swapchainSetupSteps p w self).take 17, x.stops cfg = false := by
        intro x hx
        simp only [swapchainSetupSteps, List.take_succ_cons, List.take_zero, List.mem_cons,
          List.not_mem_nil, or_false] at hx
        rcases Bool.eq_false_or_eq_true cfg.assertsEnabled with ha | ha
        · obtain ⟨q1, q2, q3, q4, q5, q6, q7⟩ := hpass ha
          rcases hx with h | h | h | h | h | h | h | h | h | h | h | h | h | h | h | h | h
          all_goals subst h
          all_goals simp [Step.stops, ha, q1, q2, q3, q4, q5, q6, q7, hf, hm]
        · rcases hx with h | h | h | h | h | h | h | h | h | h | h | h | h | h | h | h | h
          all_goals subst h
          all_goals simp [Step.stops, ha, hf, hm]
      obtain ⟨info, hinfo, i1, i2, i3⟩ := swapchainCalls_seventh p w self
      refine ⟨info, ?_, by rw [i1, hf]; rfl, by rw [i2, hf]; rfl, by rw [i3, hm]; rfl⟩
      have hlen : 17 < (swapchainSetupSteps p w self).length := by
        simp [swapchainSetupSteps]
      have hst : ((swapchainSetupSteps p w self)[17]).stops cfg = false := rfl
      rw [← hinfo, hcalls, hsplitC, stepsRun_append_of_no_stop cfg _ _ hpre,
        stepsRun_cons cfg _ _ hst]
      simp [swapchainSetupSteps, swapchainCalls, Step.calls]
  · intro ha hm
    rcases hfl : p.surfaceFormats with _ | ⟨fmt, fs⟩
    · obtain ⟨h1, h2, h3⟩ := hformats ha hfl
      exact ⟨h1, fun a ha' => by rw [h2] at ha'; exact absurd ha' (List.not_mem_nil a), h3⟩
    · have hstop : (Step.require (decide (p.presentModes.length > 0))).stops cfg = true := by
        simp [Step.stops, ha, hm]
      have hinit : stepsRun cfg (swapchainSteps p w self)
          <+: (swapchainSetupSteps p w self).take 12
            ++ [.require (decide (p.presentModes.length > 0))] := by
        rw [hsplitM]
        exact stepsRun_of_stop cfg _ _ _ hstop
      refine ⟨?_, ?_, ?_⟩
      · rw [← Outcome.void_eq_assertFailed, hout, hsplitM]
        refine stepsOutcome_assertFailed cfg _ _ _ ?_ hstop (fun a h => Step.noConfusion h)
        intro x hx a hxa
        subst hxa
        simp [swapchainSetupSteps] at hx
        subst hx
        simp [hfl]
      · intro a ha' hv
        rw [hacc] at ha'
        have := accesses_of_initial _ _ hinit a ha'
        simp [swapchainSetupSteps] at this
        subst this
        simp at hv
      · intro c hc d info out e
        subst e
        rw [hcalls] at hc
        have := calls_of_initial _ _ hinit _ hc
        simp [swapchainSetupSteps] at this

theorem createSwapchain_takes_first_entries_witness :
    (∃ info, (GfxResources.createSwapchain sampleConfig sampleInit sampleWindow {}).calls[6]?
          = some (.vkCreateSwapchainKHR 0 info 105)
        ∧ info.imageFormat = 44 ∧ info.imageColorSpace = 0 ∧ info.presentMode = 2)
      ∧ (GfxResources.createSwapchain sampleConfig sampleInit sampleWindow {}).outcome
          = .ok (swapchainState sampleInit {})
      ∧ (swapchainState sampleInit {}).m_swapChainImageformat = 44
      ∧ (GfxResources.createSwapchain sampleConfig sampleNoFormat sampleWindow {}).outcome
          = .assertFailed
      ∧ (GfxResources.createSwapchain sampleConfig sampleNoFormat sampleWindow {}).accesses
          = [] :=
  ⟨((createSwapchain_takes_first_entries sampleConfig sampleInit sampleWindow {}).1
      (44, 0) [] 2 [] rfl rfl).2.2.2 (fun _ => ⟨rfl, rfl, rfl, rfl, rfl, rfl, rfl⟩),
    rfl,
    (((createSwapchain_takes_first_entries sampleConfig sampleInit sampleWindow {}).1
      (44, 0) [] 2 [] rfl rfl).2.2.1 _ rfl).1,
    ((createSwapchain_takes_first_entries sampleConfig sampleNoFormat sampleWindow {}).2.1
      rfl rfl).1,
    ((createSwapchain_takes_first_entries sampleConfig sampleNoFormat sampleWindow {}).2.1
      rfl rfl).2.1⟩

theorem imageViews_created (cfg : Config) (gv : GlobalVariables) (p : InitPlatform)
    (w : Window) (g : GfxResources) :
    objectsOfKind .imageView (createdObjects (createCalls cfg gv p w g))
      = (List.range p.swapchainImagesWritten).map
          (fun i => ⟨.imageView, (p.createImageView i).handle⟩) := by
  rw [createdObjects_createCalls]
  simp only [objectsOfKind_append, objectsOfKind_shaderModuleCalls .imageView (by decide),
    objectsOfKind_map]
  cases cfg.debugValidation <;> simp [objectsOfKind]

/-- C23: when the platform reports at least one surface format, every swapchain `create`
makes carries the format and the colour space of the first one, every image view and
the colour attachment of every render pass it makes carry that same format; a render pass
is made with exactly one attachment (load-op clear, store-op store, initial layout
undefined, final layout present-source) and exactly one subpass, whose only colour
attachment is that attachment and which has no input, resolve or depth-stencil
attachment; a `create` that returns has stored that format and has made exactly one
swapchain, one image view for each image and exactly one render pass; and `create` does
return when every call succeeds and what its assertions require is met. -/
theorem one_format_from_swapchain_to_render_pass (cfg : Config) (gv : GlobalVariables)
    (p : InitPlatform) (w : Window) (g : GfxResources) (fmt : Nat × Nat)
    (fs : List (Nat × Nat)) (hf : p.surfaceFormats = fmt :: fs) :
    (∀ c ∈ (GfxResources.create cfg gv p w g).calls,
        (∀ d info out, c = .vkCreateSwapchainKHR d info out →
          info.imageFormat = fmt.1 ∧ info.imageColorSpace = fmt.2)
        ∧ (∀ d info out, c = .vkCreateImageView d info out → info.format = fmt.1)
        ∧ (∀ d atts subs deps out, c = .vkCreateRenderPass d atts subs deps out →
            atts = [{ flags := 0
                      format := fmt.1
                      samples := VK_SAMPLE_COUNT_1_BIT
                      loadOp := VK_ATTACHMENT_LOAD_OP_CLEAR
                      storeOp := VK_ATTACHMENT_STORE_OP_STORE
                      stencilLoadOp := VK_ATTACHMENT_LOAD_OP_DONT_CARE
                      stencilStoreOp := VK_ATTACHMENT_STORE_OP_DONT_CARE
                      initialLayout := VK_IMAGE_LAYOUT_UNDEFINED
                      finalLayout := VK_IMAGE_LAYOUT_PRESENT_SRC_KHR }]
              ∧ subs = [{ flags := 0
                          pipelineBindPoint := VK_PIPELINE_BIND_POINT_GRAPHICS
                          inputAttachments := []
                          colorAttachments :=
                            [{ attachment := 0
                               layout := VK_IMAGE_LAYOUT_COLOR_ATTACHMENT_OPTIMAL }]
                          resolveAttachments := []
                          depthStencilAttachment := none
                          preserveAttachments := [] }]
              ∧ deps = 0))
      ∧ (∀ s, (GfxResources.create cfg gv p w g).outcome = .ok s →
          s.m_swapChainImageformat = fmt.1
            ∧ objectsOfKind .swapchain
                (createdObjects (GfxResources.create cfg gv p w g).calls)
              = [⟨.swapchain, p.createSwapchain.handle⟩]
            ∧ objectsOfKind .renderPass
                (createdObjects (GfxResources.create cfg gv p w g).calls)
              = [⟨.renderPass, p.createRenderPass.handle⟩]
            ∧ objectsOfKind .imageView
                (createdObjects (GfxResources.create cfg gv p w g).calls)
              = (List.range p.swapchainImagesWritten).map
                  (fun i => ⟨.imageView, (p.createImageView i).handle⟩)
            ∧ s.m_swapchain = p.createSwapchain.handle
            ∧ s.m_renderPass = p.createRenderPass.handle)
      ∧ (p.allSuccess g → p.requirementsMet cfg g →
          (GfxResources.create cfg gv p w g).outcome = .ok (createState cfg p g)) := by
  have h0 : p.surfaceFormats.getD 0 (0, 0) = fmt := by rw [hf]; rfl
  refine ⟨?_, ?_, create_returns_of_success cfg gv p w g⟩
  · intro c hc
    have hmem : c ∈ createCalls cfg gv p w g := (create_calls_initial cfg gv p w g).subset hc
    have := createCalls_formats cfg gv p w g c hmem
    rw [h0] at this
    exact this
  · intro s hs
    obtain ⟨hst, hcalls, -⟩ := create_ok cfg gv p w g s hs
    have hone := renderPass_created_once cfg gv p w g
    have hfields := createState_fields cfg p g
    refine ⟨?_, ?_, ?_, ?_, ?_, ?_⟩
    · rw [hst]
      show (p.surfaceFormats.getD 0 (0, 0)).1 = fmt.1
      rw [h0]
    · rw [hcalls]; exact hone.2
    · rw [hcalls]; exact hone.1
    · rw [hcalls]; exact imageViews_created cfg gv p w g
    · rw [hst]; exact hfields.2.2.2.2.2.2.1
    · rw [hst]; exact hfields.2.2.2.2.2.1

theorem one_format_from_swapchain_to_render_pass_witness :
    sampleInit.surfaceFormats = [(44, 0)]
      ∧ (GfxResources.create sampleConfig sampleGlobals sampleInit sampleWindow {}).outcome
          = .ok (createState sampleConfig sampleInit {})
      ∧ (createState sampleConfig sampleInit {}).m_swapChainImageformat = 44
      ∧ objectsOfKind .swapchain (createdObjects
            (GfxResources.create sampleConfig sampleGlobals sampleInit sampleWindow {}).calls)
          = [⟨.swapchain, 105⟩]
      ∧ objectsOfKind .renderPass (createdObjects
            (GfxResources.create sampleConfig sampleGlobals sampleInit sampleWindow {}).calls)
          = [⟨.renderPass, 106⟩]
      ∧ objectsOfKind .imageView (createdObjects
            (GfxResources.create sampleConfig sampleGlobals sampleInit sampleWindow {}).calls)
          = [⟨.imageView, 300⟩, ⟨.imageView, 301⟩] :=
  ⟨rfl,
    (one_format_from_swapchain_to_render_pass sampleConfig sampleGlobals sampleInit
      sampleWindow {} (44, 0) [] rfl).2.2 sampleInit_allSuccess sampleInit_requirementsMet,
    ((one_format_from_swapchain_to_render_pass sampleConfig sampleGlobals sampleInit
      sampleWindow {} (44, 0) [] rfl).2.1 _ sample_create_returns).1,
    ((one_format_from_swapchain_to_render_pass sampleConfig sampleGlobals sampleInit
      sampleWindow {} (44, 0) [] rfl).2.1 _ sample_create_returns).2.1,
    ((one_format_from_swapchain_to_render_pass sampleConfig sampleGlobals sampleInit
      sampleWindow {} (44, 0) [] rfl).2.1 _ sample_create_returns).2.2.1,
    ((one_format_from_swapchain_to_render_pass sampleConfig sampleGlobals sampleInit
      sampleWindow {} (44, 0) [] rfl).2.1 _ sample_create_returns).2.2.2.1⟩

theorem floatOfUInt32_exact (n : Nat) (h : n ≤ 2 ^ 24) : floatOfUInt32 n = n := by
  rcases Nat.lt_or_eq_of_le h with h1 | h1
  · have e : floatShift 8 n = 0 := by
      unfold floatShift
      rw [if_pos h1]
    simp [floatOfUInt32, e, Nat.mod_one]
  · subst h1
    decide

/-- C22, amended: for a window of any width and height and any number `n` of slots, a
`create` that returns has made one framebuffer for each image view, in order: the
framebuffer of slot `i` has the image view of slot `i` as its only attachment and the
size of the window, and the image view of slot `i` is a view of image `i`. The image
extent of the swapchain, the size of every framebuffer and the scissor extent of the
pipeline are the width and height of the window; the viewport of the pipeline is that
width and height converted to `float`, which is the same size whenever the width and the
height are at most `2 ^ 24`; and in the loop of `Engine::run` on the returned state,
whatever messages the window updates retrieve, every `render` records its render pass with
offset zero and the width and height of the window as the render area. `create` does
return when every call succeeds and what its assertions require is met. -/
theorem framebuffers_match_views_and_window (cfg : Config) (gv : GlobalVariables)
    (p : InitPlatform) (w : Window) (g s : GfxResources)
    (h : (GfxResources.create cfg gv p w g).outcome = .ok s) :
    s.m_bufferedFrameResource.imageViews.length = s.m_bufferedFrameResource.bufferCount
      ∧ s.m_bufferedFrameResource.framebuffers.length
          = s.m_bufferedFrameResource.bufferCount
      ∧ (GfxResources.create cfg gv p w g).calls.flatMap Call.framebufferCreated
          = (List.range s.m_bufferedFrameResource.bufferCount).map (fun i =>
              (({ renderPass := s.m_renderPass
                  attachments := [s.m_bufferedFrameResource.imageViews.getD i 0]
                  width := w.m_width
                  height := w.m_height
                  layers := 1 } : FramebufferCreateInfo),
                s.m_bufferedFrameResource.framebuffers.getD i 0))
      ∧ (GfxResources.create cfg gv p w g).calls.flatMap Call.imageViewCreated
          = (List.range s.m_bufferedFrameResource.bufferCount).map (fun i =>
              (s.m_bufferedFrameResource.images.getD i 0,
                s.m_bufferedFrameResource.imageViews.getD i 0))
      ∧ (∀ c ∈ (GfxResources.create cfg gv p w g).calls,
          (∀ d info out, c = .vkCreateSwapchainKHR d info out →
            info.imageExtentWidth = w.m_width ∧ info.imageExtentHeight = w.m_height)
          ∧ (∀ d pc n info out, c = .vkCreateGraphicsPipelines d pc n info out →
              info.viewportWidth = floatOfUInt32 w.m_width
                ∧ info.viewportHeight = floatOfUInt32 w.m_height
                ∧ (w.m_width ≤ 2 ^ 24 → info.viewportWidth = w.m_width)
                ∧ (w.m_height ≤ 2 ^ 24 → info.viewportHeight = w.m_height)
                ∧ info.scissorWidth = w.m_width ∧ info.scissorHeight = w.m_height)
          ∧ (∀ d info out, c = .vkCreateFramebuffer d info out →
              info.width = w.m_width ∧ info.height = w.m_height))
      ∧ (∀ (env : List (Option Nat × FramePlatform)) (cs : List Call),
          LoopEvent.render cs ∈ (Engine.run cfg env ⟨s, w⟩).events →
          ∀ c ∈ cs, ∀ (cb rp fb : Handle) (ox oy : Int) (wd ht : Nat)
            (cl : List (List Int)) (ct : Nat),
            c = .vkCmdBeginRenderPass cb rp fb ox oy wd ht cl ct →
            ox = 0 ∧ oy = 0 ∧ wd = w.m_width ∧ ht = w.m_height)
      ∧ (p.allSuccess g → p.requirementsMet cfg g →
          (GfxResources.create cfg gv p w g).outcome = .ok (createState cfg p g)) := by
  obtain ⟨hst, hcalls, -⟩ := create_ok cfg gv p w g s h
  have hslots := createState_hasSlots cfg p g
  obtain ⟨e0, e1, e2, -, -⟩ := hslots
  subst hst
  refine ⟨by rw [e1, e0], by rw [e2, e0], ?_, ?_, ?_, ?_,
    create_returns_of_success cfg gv p w g⟩
  · rw [hcalls, createCalls_framebuffers, e0]
    refine List.map_congr_left (fun i hi => ?_)
    rw [createState_framebuffers_getD cfg p g i (List.mem_range.mp hi)]
    rfl
  · rw [hcalls, createCalls_imageViews, e0]
    refine List.map_congr_left (fun i hi => ?_)
    rw [createState_imageViews_getD cfg p g i (List.mem_range.mp hi)]
  · intro c hc
    rw [hcalls] at hc
    obtain ⟨z1, z2, z3⟩ := createCalls_sizes cfg gv p w g c hc
    refine ⟨z1, fun d pc n info out e => ?_, z3⟩
    obtain ⟨v1, v2, v3, v4⟩ := z2 d pc n info out e
    exact ⟨v1, v2, fun hle => by rw [v1, floatOfUInt32_exact _ hle],
      fun hle => by rw [v2, floatOfUInt32_exact _ hle], v3, v4⟩
  · intro env cs hcs
    exact Engine.run_render_area cfg env ⟨createState cfg p g, w⟩ cs hcs

theorem framebuffers_match_views_and_window_witness :
    (GfxResources.create sampleConfig sampleGlobals sampleInit sampleWindow {}).outcome
        = .ok (createState sampleConfig sampleInit {})
      ∧ (GfxResources.create sampleConfig sampleGlobals sampleInit sampleWindow {}).calls.flatMap
          Call.imageViewCreated
        = [(200, 300), (201, 301)]
      ∧ (GfxResources.create sampleConfig sampleGlobals sampleInit sampleWindow {}).calls.flatMap
          Call.framebufferCreated
        = [({ renderPass := 106, attachments := [300], width := 800, height := 600,
              layers := 1 }, 400),
           ({ renderPass := 106, attachments := [301], width := 800, height := 600,
              layers := 1 }, 401)]
      ∧ (∃ info, (GfxResources.create sampleConfig sampleGlobals sampleInit sampleWindow
              {}).calls[28]? = some (.vkCreateGraphicsPipelines 103 0 1 info 108)
          ∧ info.viewportWidth = 800 ∧ info.viewportHeight = 600
          ∧ info.scissorWidth = 800 ∧ info.scissorHeight = 600) :=
  ⟨(framebuffers_match_views_and_window sampleConfig sampleGlobals sampleInit sampleWindow {}
      (createState sampleConfig sampleInit {}) sample_create_returns).2.2.2.2.2.2
      sampleInit_allSuccess sampleInit_requirementsMet,
    (framebuffers_match_views_and_window sampleConfig sampleGlobals sampleInit sampleWindow {}
      (createState sampleConfig sampleInit {}) sample_create_returns).2.2.2.1,
    (framebuffers_match_views_and_window sampleConfig sampleGlobals sampleInit sampleWindow {}
      (createState sampleConfig sampleInit {}) sample_create_returns).2.2.1,
    ⟨_, rfl,
      ((((framebuffers_match_views_and_window sampleConfig sampleGlobals sampleInit
        sampleWindow {} (createState sampleConfig sampleInit {})
        sample_create_returns).2.2.2.2.1 _
          (List.mem_iff_getElem?.mpr ⟨28, rfl⟩)).2.1 _ _ _ _ _ rfl).2.2.1 (by decide)),
      ((((framebuffers_match_views_and_window sampleConfig sampleGlobals sampleInit
        sampleWindow {} (createState sampleConfig sampleInit {})
        sample_create_returns).2.2.2.2.1 _
          (List.mem_iff_getElem?.mpr ⟨28, rfl⟩)).2.1 _ _ _ _ _ rfl).2.2.2.1 (by decide)),
      rfl, rfl⟩⟩

/-- Against C22: for a window `2 ^ 24 + 1` pixels wide `create` returns, its swapchain,
framebuffers and scissor get the width 16777217, and the viewport of the pipeline gets
`(float)16777217`, which is 16777216: a 32-bit float has 24 bits of significand and
cannot hold the width. -/
theorem wide_window_viewport_rounded :
    (GfxResources.create sampleConfig sampleGlobals sampleInit sampleWideWindow {}).outcome
        = .ok (createState sampleConfig sampleInit {})
      ∧ sampleWideWindow.m_width = 16777217
      ∧ ∃ info, (GfxResources.create sampleConfig sampleGlobals sampleInit sampleWideWindow
              {}).calls[28]? = some (.vkCreateGraphicsPipelines 103 0 1 info 108)
          ∧ info.viewportWidth = 16777216
          ∧ info.viewportWidth ≠ sampleWideWindow.m_width
          ∧ info.scissorWidth = 16777217 :=
  ⟨rfl, rfl, _, rfl, rfl, by decide, rfl⟩

theorem stepsRun_init_not_stopped (cfg : Config) (l : List Step) :
    ∀ (pre : List Step) (s : Step) (post : List Step), stepsRun cfg l = pre ++ s :: post →
      ∀ x ∈ pre, x.stops cfg = false := by
  induction l with
  | nil =>
    intro pre s post h
    simp [stepsRun] at h
  | cons a t ih =>
    intro pre s post h x hx
    unfold stepsRun at h
    cases ha : a.stops cfg
    · rw [ha] at h
      simp only [Bool.false_eq_true, if_false] at h
      cases pre with
      | nil => exact absurd hx (List.not_mem_nil x)
      | cons y pre' =>
        simp only [List.cons_append, List.cons.injEq] at h
        rcases List.mem_cons.mp hx with e | e
        · rw [e, ← h.1]; exact ha
        · exact ih pre' s post h.2 x e
    · rw [ha] at h
      simp only [if_true] at h
      cases pre with
      | nil => exact absurd hx (List.not_mem_nil x)
      | cons y pre' =>
        simp only [List.cons_append, List.cons.injEq] at h
        exact absurd h.2 (by simp)

theorem checksFollow_before_call (l : List Step) (h : ChecksFollow l) :
    ∀ (pre : List Step) (c : Call) (rest : List Step), l = pre ++ Step.call c :: rest →
      ChecksFollow pre := by
  induction h with
  | nil =>
    intro pre c rest e
    simp at e
  | checked c0 r rest0 _ ih =>
    intro pre c rest e
    cases pre with
    | nil => exact ChecksFollow.nil
    | cons x pre1 =>
      simp only [List.cons_append, List.cons.injEq] at e
      obtain ⟨ex, e1⟩ := e
      cases pre1 with
      | nil => simp at e1
      | cons y pre2 =>
        simp only [List.cons_append, List.cons.injEq] at e1
        obtain ⟨ey, e2⟩ := e1
        rw [← ex, ← ey]
        exact ChecksFollow.checked c0 r pre2 (ih pre2 c rest e2)
  | plain c0 rest0 hc _ ih =>
    intro pre c rest e
    cases pre with
    | nil => exact ChecksFollow.nil
    | cons x pre1 =>
      simp only [List.cons_append, List.cons.injEq] at e
      obtain ⟨ex, e1⟩ := e
      rw [← ex]
      exact ChecksFollow.plain c0 pre1 hc (ih pre1 c rest e1)
  | other s rest0 hs _ ih =>
    intro pre c rest e
    cases pre with
    | nil => exact ChecksFollow.nil
    | cons x pre1 =>
      simp only [List.cons_append, List.cons.injEq] at e
      obtain ⟨ex, e1⟩ := e
      rw [← ex]
      exact ChecksFollow.other s pre1 hs (ih pre1 c rest e1)

theorem succeededObjects_eq (l : List Step) (hcf : ChecksFollow l)
    (hs : ∀ r, Step.check r ∈ l → r = VK_SUCCESS) :
    succeededObjects l = createdObjects (l.flatMap Step.calls) := by
  induction hcf with
  | nil => rfl
  | checked c r rest _ ih =>
    have hr : r = VK_SUCCESS := hs r (by simp)
    have ih' := ih (fun r' h' => hs r' (by simp [h']))
    simp only [succeededObjects, List.head?_cons, hr, if_true, ih', List.flatMap_cons,
      Step.calls, List.nil_append, List.singleton_append, createdObjects_cons]
  | plain c rest hc _ ih =>
    have ih' := ih (fun r' h' => hs r' (by simp [h']))
    cases rest with
    | nil =>
      simp [succeededObjects, hc, createdObjects, Step.calls]
    | cons s t =>
      cases s with
      | check r =>
        have hr : r = VK_SUCCESS := hs r (by simp)
        simp only [succeededObjects, List.head?_cons, hr, if_true, List.flatMap_cons,
          Step.calls, List.nil_append, List.singleton_append, createdObjects_cons] at ih' ⊢
        rw [ih']
      | call c2 =>
        simp only [succeededObjects, List.head?_cons, hc, Bool.false_eq_true, if_false,
          List.flatMap_cons, Step.calls, List.singleton_append, createdObjects_cons] at ih' ⊢
        rw [ih']
      | require b =>
        simp only [succeededObjects, List.head?_cons, hc, Bool.false_eq_true, if_false,
          List.flatMap_cons, Step.calls, List.nil_append, List.singleton_append,
          createdObjects_cons] at ih' ⊢
        rw [ih']
      | access a =>
        simp only [succeededObjects, List.head?_cons, hc, Bool.false_eq_true, if_false,
          List.flatMap_cons, Step.calls, List.nil_append, List.singleton_append,
          createdObjects_cons] at ih' ⊢
        rw [ih']
  | other s rest hs' _ ih =>
    have ih' := ih (fun r' h' => hs r' (by simp [h']))
    cases s with
    | call c => exact absurd rfl (hs' c)
    | check r =>
      simp only [succeededObjects, List.flatMap_cons, Step.calls, List.nil_append]
      exact ih'
    | require b =>
      simp only [succeededObjects, List.flatMap_cons, Step.calls, List.nil_append]
      exact ih'
    | access a =>
      simp only [succeededObjects, List.flatMap_cons, Step.calls, List.nil_append]
      exact ih'

/-- C24, amended: `create` issues its calls stage by stage (instance, physical and logical
device, surface, swapchain with its image views, render pass, framebuffers, shader modules
and pipeline, queue with command pool, command buffers and fences, semaphores), so the
objects it makes appear in that order. In a build with assertions, or when every call
reports success and both shader files can be opened, every object a call is handed was
created by an earlier call of the run, and by one whose status was `VK_SUCCESS`
(`succeededObjects`), whatever the outcome of the run: in particular a framebuffer is
created after its render pass and after the image view it attaches, and the pipeline
after its render pass, its layout and its shader modules. A `create` that returns has
then made the objects of `ownedInCreationOrder`, in that order; and `create` does return
when every call succeeds and what its assertions require is met. -/
theorem create_builds_in_dependency_order (cfg : Config) (gv : GlobalVariables)
    (p : InitPlatform) (w : Window) (g : GfxResources)
    (hok : cfg.assertsEnabled = true ∨ p.allSuccess g) :
    (GfxResources.create cfg gv p w g).calls <+: createCalls cfg gv p w g
      ∧ List.Sublist (createdObjects (GfxResources.create cfg gv p w g).calls)
          (ownedInCreationOrder cfg p g p.swapchainImagesWritten)
      ∧ (createdObjects (GfxResources.create cfg gv p w g).calls).Pairwise CreatedNoLater
      ∧ (∀ (pre post : List Call) (c : Call),
          (GfxResources.create cfg gv p w g).calls = pre ++ c :: post →
          ∀ o ∈ c.refers, o ∈ createdObjects pre)
      ∧ (∀ (pre post : List Call) (d : Handle) (info : FramebufferCreateInfo) (out : Handle),
          (GfxResources.create cfg gv p w g).calls
            = pre ++ Call.vkCreateFramebuffer d info out :: post →
          (⟨.renderPass, info.renderPass⟩ : Obj) ∈ createdObjects pre
            ∧ ∀ v ∈ info.attachments, (⟨.imageView, v⟩ : Obj) ∈ createdObjects pre)
      ∧ (∀ (pre post : List Call) (d pc : Handle) (n : Nat)
          (info : GraphicsPipelineCreateInfo) (out : Handle),
          (GfxResources.create cfg gv p w g).calls
            = pre ++ Call.vkCreateGraphicsPipelines d pc n info out :: post →
          (⟨.renderPass, info.renderPass⟩ : Obj) ∈ createdObjects pre
            ∧ (⟨.pipelineLayout, info.layout⟩ : Obj) ∈ createdObjects pre
            ∧ ∀ st ∈ info.stages, (⟨.shaderModule, st.2.1⟩ : Obj) ∈ createdObjects pre)
      ∧ (∀ s, (GfxResources.create cfg gv p w g).outcome = .ok s →
          createdObjects (GfxResources.create cfg gv p w g).calls
            = ownedInCreationOrder cfg p g p.swapchainImagesWritten)
      ∧ (GfxResources.create cfg gv p w g).calls
          = (stepsRun cfg (createSteps cfg gv p w g)).flatMap Step.calls
      ∧ (∀ (pre post : List Step) (c : Call),
          stepsRun cfg (createSteps cfg gv p w g) = pre ++ Step.call c :: post →
          ∀ o ∈ c.refers, o ∈ succeededObjects pre)
      ∧ (p.allSuccess g → p.requirementsMet cfg g →
          (GfxResources.create cfg gv p w g).outcome = .ok (createState cfg p g)) := by
  have hfiles : cfg.assertsEnabled = true
      ∨ ((p.files g.c_vertexShader).isSome = true
        ∧ (p.files g.c_fragmentShader).isSome = true) := by
    rcases hok with h | h
    · exact Or.inl h
    · exact Or.inr ⟨h.2.2.2.2.2.2.2.2.2.2.2.2.2.2.2.2.2.1,
        h.2.2.2.2.2.2.2.2.2.2.2.2.2.2.2.2.2.2.1⟩
  have hinit := create_calls_initial cfg gv p w g
  have hsub : List.Sublist (createdObjects (GfxResources.create cfg gv p w g).calls)
      (ownedInCreationOrder cfg p g p.swapchainImagesWritten) :=
    (initial_flatMap Call.creates hinit).sublist.trans
      (createdObjects_createCalls_sublist cfg gv p w g)
  have hrc : RefersCreated [] (GfxResources.create cfg gv p w g).calls := by
    by_cases hopen : (p.files g.c_vertexShader).isSome = true
        ∧ (p.files g.c_fragmentShader).isSome = true
    · exact (createCalls_refers cfg gv p w g hopen.1 hopen.2).initial hinit
    · have ha : cfg.assertsEnabled = true := by
        rcases hfiles with h | h
        · exact h
        · exact absurd h hopen
      have hmiss : p.files g.c_vertexShader = none ∨ p.files g.c_fragmentShader = none := by
        by_contra hcon
        simp only [not_or, ← ne_eq, Option.ne_none_iff_isSome] at hcon
        exact hopen hcon
      have hno := create_noPipelineObject_of_missing cfg gv p w g ha hmiss
      obtain ⟨rest, hsplit⟩ := createCalls_split cfg gv p w g
      rw [hsplit] at hinit
      refine (callsBeforePipelineLayout_refers cfg gv p w g).initial
        (initial_of_not_mem _ _ _ _ hinit (fun hmem => ?_))
      exact (hno _ hmem ⟨.pipelineLayout, p.createPipelineLayout.handle⟩
        (by simp [Call.creates])).1 rfl
  have hat : ∀ (pre post : List Call) (c : Call),
      (GfxResources.create cfg gv p w g).calls = pre ++ c :: post →
      ∀ o ∈ c.refers, o ∈ createdObjects pre := by
    intro pre post c hsplit o ho
    have := hrc.at_split pre post c hsplit o ho
    simpa using this
  obtain ⟨hcalls, -, -⟩ := create_calls_steps cfg gv p w g
  refine ⟨hinit, hsub, (creation_pairwise cfg p g _).sublist hsub, hat, ?_, ?_, ?_, hcalls, ?_,
    create_returns_of_success cfg gv p w g⟩
  · intro pre post d info out hsplit
    have h := hat pre post _ hsplit
    refine ⟨h _ (by simp [Call.refers]), fun v hv => h _ ?_⟩
    simp only [Call.refers, List.mem_cons, List.mem_map]
    exact Or.inr (Or.inr ⟨v, hv, rfl⟩)
  · intro pre post d pc n info out hsplit
    have h := hat pre post _ hsplit
    refine ⟨h _ (by simp [Call.refers]), h _ (by simp [Call.refers]), fun st hst => h _ ?_⟩
    simp only [Call.refers, List.mem_cons, List.mem_map]
    exact Or.inr (Or.inr (Or.inr ⟨st, hst, rfl⟩))
  · intro s hs
    obtain ⟨-, hcalls, -, -, hfo⟩ := create_ok cfg gv p w g s hs
    have hopen : (p.files g.c_vertexShader).isSome = true
        ∧ (p.files g.c_fragmentShader).isSome = true := by
      rcases hfiles with h | h
      · exact hfo h
      · exact h
    rw [hcalls]
    exact createdObjects_create cfg gv p w g hopen.1 hopen.2
  · intro pre post c hsplit o ho
    have hcs : (GfxResources.create cfg gv p w g).calls
        = pre.flatMap Step.calls ++ c :: post.flatMap Step.calls := by
      rw [hcalls, hsplit]
      simp [Step.calls]
    have h1 := hat _ _ c hcs o ho
    obtain ⟨tail, htail⟩ := stepsRun_initial cfg (createSteps cfg gv p w g)
    have hall : createSteps cfg gv p w g = pre ++ Step.call c :: (post ++ tail) := by
      rw [← htail, hsplit]
      simp
    have hcf : ChecksFollow pre :=
      checksFollow_before_call _ (createSteps_checksFollow cfg gv p w g) pre c _ hall
    have hsucc : ∀ r, Step.check r ∈ pre → r = VK_SUCCESS := by
      intro r hr
      rcases hok with ha | hs
      · have := stepsRun_init_not_stopped cfg _ pre _ post hsplit _ hr
        simpa [Step.stops, ha] using this
      · refine createSteps_check_success cfg gv p w g hs r ?_
        rw [hall]
        exact List.mem_append_left _ hr
    rw [succeededObjects_eq pre hcf hsucc]
    exact h1

theorem create_builds_in_dependency_order_witness :
    sampleConfig.assertsEnabled = true
      ∧ (GfxResources.create sampleConfig sampleGlobals sampleInit sampleWindow {}).outcome
          = .ok (createState sampleConfig sampleInit {})
      ∧ createdObjects
          (GfxResources.create sampleConfig sampleGlobals sampleInit sampleWindow {}).calls
        = ownedInCreationOrder sampleConfig sampleInit {} 2
      ∧ (⟨.renderPass, 106⟩ : Obj)
          ∈ createdObjects
              ((GfxResources.create sampleConfig sampleGlobals sampleInit sampleWindow
                {}).calls.take 23)
      ∧ (⟨.imageView, 300⟩ : Obj)
          ∈ createdObjects
              ((GfxResources.create sampleConfig sampleGlobals sampleInit sampleWindow
                {}).calls.take 23) :=
  ⟨rfl,
    (create_builds_in_dependency_order sampleConfig sampleGlobals sampleInit sampleWindow {}
      (Or.inl rfl)).2.2.2.2.2.2.2.2.2 sampleInit_allSuccess sampleInit_requirementsMet,
    (create_builds_in_dependency_order sampleConfig sampleGlobals sampleInit sampleWindow {}
      (Or.inl rfl)).2.2.2.2.2.2.1 _ sample_create_returns,
    ((create_builds_in_dependency_order sampleConfig sampleGlobals sampleInit sampleWindow {}
      (Or.inl rfl)).2.2.2.2.1
        ((GfxResources.create sampleConfig sampleGlobals sampleInit sampleWindow {}).calls.take 23)
        ((GfxResources.create sampleConfig sampleGlobals sampleInit sampleWindow {}).calls.drop 24)
        103 { renderPass := 106, attachments := [300], width := 800, height := 600,
              layers := 1 } 400 rfl).1,
    ((create_builds_in_dependency_order sampleConfig sampleGlobals sampleInit sampleWindow {}
      (Or.inl rfl)).2.2.2.2.1
        ((GfxResources.create sampleConfig sampleGlobals sampleInit sampleWindow {}).calls.take 23)
        ((GfxResources.create sampleConfig sampleGlobals sampleInit sampleWindow {}).calls.drop 24)
        103 { renderPass := 106, attachments := [300], width := 800, height := 600,
              layers := 1 } 400 rfl).2 300 (by simp)⟩

/-- Against C24: in a build without assertions, with the fragment shader file missing and
every platform call succeeding, `create` returns, and its twenty-fifth call creates the
pipeline with the null handle as the module of the fragment stage: `createShaderModule`
skipped `vkCreateShaderModule`, so no earlier call created the module the pipeline is
handed. -/
theorem release_pipeline_names_uncreated_module :
    (GfxResources.create sampleRelease sampleGlobals sampleMissingShader sampleWindow {}).outcome
        = .ok (createState sampleRelease sampleMissingShader {})
      ∧ ∃ (d pc : Handle) (n : Nat) (info : GraphicsPipelineCreateInfo) (out : Handle),
          (GfxResources.create sampleRelease sampleGlobals sampleMissingShader sampleWindow
              {}).calls
            = (GfxResources.create sampleRelease sampleGlobals sampleMissingShader sampleWindow
                {}).calls.take 24
              ++ Call.vkCreateGraphicsPipelines d pc n info out
                :: (GfxResources.create sampleRelease sampleGlobals sampleMissingShader
                    sampleWindow {}).calls.drop 25
          ∧ (⟨.shaderModule, 0⟩ : Obj)
              ∈ (Call.vkCreateGraphicsPipelines d pc n info out).refers
          ∧ (⟨.shaderModule, 0⟩ : Obj)
              ∉ createdObjects
                  ((GfxResources.create sampleRelease sampleGlobals sampleMissingShader
                    sampleWindow {}).calls.take 24) :=
  ⟨rfl, _, _, _, _, _, rfl, by decide, by decide⟩

end core
